import Mathlib

/-!
# Volume reconstruction and disc capture of tracked ultrasound frames (PlusLib)

Shallow embedding of `vtkVolumeReconstructor`
(`PlusLib/src/VolumeReconstruction/vtkVolumeReconstructor.cxx`, branch Plus-2.2-imageSupport)
and of `vtkVirtualDiscCapture`
(`PlusLib/src/DataCollection/VirtualDevices/vtkVirtualDiscCapture.cxx`, branch
telemed-support) with the members of its writer `vtkMetaImageSequenceIO`
(`PlusLib/src/PlusCommon/vtkMetaImageSequenceIO.h`, branch 3dsupport).

Conventions of the embedding

* `double` and `float` values are exact rationals (`ℚ`): comparisons and copies are exact in
  both, rounding of the arithmetic is not represented. The exception is the computation of
  the extent indices (lines 628-630 of vtkVolumeReconstructor.cxx), where truncation makes
  rounding visible: the differences, the quotients and the conversions to `int` there are
  those of IEEE 754 binary64 (`Double`: round to nearest, ties to even, with subnormal
  numbers, infinities and not-a-number), applied to the binary64 numbers nearest to the
  rationals kept.
* `int` values are integers (`Int`). The sums of the clip rectangle (lines 487 and 489) wrap
  around at 32 bits (`wrapInt32`), and the conversion of a `double` that is no `int` gives
  `INT_MIN` (`Double.toInt`), as on x86-64; both are undefined in C++. Elsewhere overflow is
  not represented.
* A method of a class takes the object state first and returns the new state together with
  its C++ return value; a nullable pointer argument is an `Option`.
* Classes whose implementation is not among the sources (`vtkPasteSliceIntoVolume`,
  `vtkFillHolesInVolume`, `vtkTransformRepository`, `PlusTransformName`, the VTK XML reader)
  enter through the record `Collaborators`, whose fields are arbitrary functions; for the
  capture device (the writer, `vtkPlusDevice`, `vtkPlusChannel`, the clock, the file name
  functions) through the record `CaptureEnvironment`.
* The capture device keeps, next to its members, the list `Trace` of the requests it made to
  the writer, the file system and its base class, in their order.
* The header of the ultrasound message `igtl::PlusUsMessage`
  (`PlusLib/src/PlusOpenIGTLink/igtlPlusUsMessage.cxx`, trunk) is embedded on bytes: a field
  of 32 bits is a number below `2 ^ 32`, kept in memory as four bytes in the byte order of
  the host.
* `Write` and `Read` of `vtkMetaImageSequenceIO`, of which only the declarations are among the
  sources, are modelled from the description of the sequence file: the header is a text of
  lines `FieldName = value`, the pixel data are bytes, and a file system is a list of files
  by name. The block compressor, the byte size of a scalar and the bytes of a scalar are
  parameters.
-/

namespace Plus

/-! ## Basic types -/

/-- Status code returned by the operations of the toolkit (`PlusStatus`). -/
inductive PlusStatus where
  | PLUS_FAIL
  | PLUS_SUCCESS
  deriving DecidableEq, Repr

open PlusStatus

/-- C array `double[2]`. -/
structure Double2 where
  d0 : ℚ
  d1 : ℚ
  deriving DecidableEq, Repr

/-- C array `double[3]`. -/
structure Double3 where
  d0 : ℚ
  d1 : ℚ
  d2 : ℚ
  deriving DecidableEq, Repr

/-- C array `double[4]` (homogeneous point). -/
structure Double4 where
  d0 : ℚ
  d1 : ℚ
  d2 : ℚ
  d3 : ℚ
  deriving DecidableEq, Repr

/-- C array `double[6]`. -/
structure Double6 where
  d0 : ℚ
  d1 : ℚ
  d2 : ℚ
  d3 : ℚ
  d4 : ℚ
  d5 : ℚ
  deriving DecidableEq, Repr

/-- C array `int[2]`. -/
structure Int2 where
  i0 : Int
  i1 : Int
  deriving DecidableEq, Repr

/-- C array `int[6]`. -/
structure Int6 where
  i0 : Int
  i1 : Int
  i2 : Int
  i3 : Int
  i4 : Int
  i5 : Int
  deriving DecidableEq, Repr

/-- Read access `a[i]` for `double[4]`. -/
def Double4.get (a : Double4) (i : Nat) : ℚ :=
  match i with
  | 0 => a.d0
  | 1 => a.d1
  | 2 => a.d2
  | _ => a.d3

/-- Read access `a[i]` for `double[6]`. -/
def Double6.get (a : Double6) (i : Nat) : ℚ :=
  match i with
  | 0 => a.d0
  | 1 => a.d1
  | 2 => a.d2
  | 3 => a.d3
  | 4 => a.d4
  | _ => a.d5

/-- Assignment `a[i] = v` for `double[6]`. -/
def Double6.set (a : Double6) (i : Nat) (v : ℚ) : Double6 :=
  match i with
  | 0 => { a with d0 := v }
  | 1 => { a with d1 := v }
  | 2 => { a with d2 := v }
  | 3 => { a with d3 := v }
  | 4 => { a with d4 := v }
  | _ => { a with d5 := v }

/-! ## Arithmetic of `double` and `int` -/

/-- Value of an arithmetic expression of type `double` (IEEE 754 binary64): a finite number,
an infinity with its sign, or not a number. The sign of a zero is not kept. -/
inductive Double where
  | finite (value : ℚ)
  | infinite (negative : Bool)
  | nan
  deriving DecidableEq, Repr

/-- The integer part of the binary logarithm of a positive number, by repeated halving;
`fuel` bounds the number of halvings. -/
def log2Halving : Nat → Nat → Nat
  | 0, _ => 0
  | fuel + 1, n => if 2 ≤ n then log2Halving fuel (n / 2) + 1 else 0

/-- The integer part of the binary logarithm of `n / d`, for positive `n` and `d`. -/
def floorLog2 (n d : Nat) : Int :=
  let k : Int := (log2Halving n n : Int) - (log2Halving d d : Int)
  if d * 2 ^ k.toNat ≤ n * 2 ^ (-k).toNat then k else k - 1

/-- The integer nearest to `n / d`, the even one of the two when `n / d` lies half-way. -/
def roundHalfEven (n d : Nat) : Nat :=
  let q := n / d
  let r := n % d
  if 2 * r < d then q
  else if d < 2 * r then q + 1
  else if q % 2 = 0 then q else q + 1

/-- Rounding of an exact result to binary64 in the default rounding mode (to nearest, ties to
even): 53 significant bits, exponents from -1022 (below which the spacing `2 ^ -1074` of the
subnormal numbers is kept) to 1023, infinity from `2 ^ 1024 - 2 ^ 970` on. -/
def Double.round (x : ℚ) : Double :=
  if x = 0 then Double.finite 0
  else
    let n := x.num.natAbs
    let d := x.den
    let p : Int := max (floorLog2 n d) (-1022) - 52
    let m := roundHalfEven (n * 2 ^ (-p).toNat) (d * 2 ^ p.toNat)
    if 2 ^ 1024 ≤ m * 2 ^ p.toNat then Double.infinite (decide (x < 0))
    else
      Double.finite
        ((if x < 0 then -1 else 1) * ((m * 2 ^ p.toNat : Nat) : ℚ) / ((2 ^ (-p).toNat : Nat) : ℚ))

/-- The value of a `double` variable for which the embedding keeps the rational `x`: `x`
itself when it is a binary64 number, the binary64 number nearest to it otherwise, an infinity
when `x` lies beyond the finite numbers. -/
def Double.ofRat (x : ℚ) : Double := Double.round x

/-- Unary minus of `double`. -/
def Double.neg : Double → Double
  | Double.finite value => Double.finite (-value)
  | Double.infinite negative => Double.infinite (!negative)
  | Double.nan => Double.nan

/-- Addition of `double`: the exact sum rounded; infinities of opposite signs give
not-a-number. -/
def Double.add : Double → Double → Double
  | Double.finite a, Double.finite b => Double.round (a + b)
  | Double.finite _, Double.infinite negative => Double.infinite negative
  | Double.infinite negative, Double.finite _ => Double.infinite negative
  | Double.infinite negative, Double.infinite negative1 =>
    if negative = negative1 then Double.infinite negative else Double.nan
  | _, _ => Double.nan

/-- Subtraction of `double`. -/
def Double.sub (a b : Double) : Double := a.add b.neg

/-- Division of `double`: the exact quotient rounded; a number that is not zero divided by
zero gives an infinity (the zero counts as positive), zero by zero and infinity by infinity
give not-a-number. -/
def Double.div : Double → Double → Double
  | Double.finite a, Double.finite b =>
    if b = 0 then (if a = 0 then Double.nan else Double.infinite (decide (a < 0)))
    else Double.round (a / b)
  | Double.finite _, Double.infinite _ => Double.finite 0
  | Double.infinite negative, Double.finite b =>
    Double.infinite (xor negative (decide (b < 0)))
  | _, _ => Double.nan

/-- Constant `INT_MIN` of a 32-bit `int`. -/
def INT_MIN : Int := -2147483648

/-- Constant `INT_MAX` of a 32-bit `int`. -/
def INT_MAX : Int := 2147483647

/-- Conversion `int(x)` of a `double`: truncation toward zero. -/
def truncToInt (x : ℚ) : Int :=
  if 0 ≤ x then Int.floor x else Int.ceil x

/-- Conversion `int(x)` of a value of type `double`: the number truncated toward zero when
that is an `int`. For every other value (a number out of range, an infinity, not-a-number)
C++ leaves the result undefined; the conversion instruction of the x86-64 processor gives
`INT_MIN`, which is taken here. -/
def Double.toInt : Double → Int
  | Double.finite value =>
    if INT_MIN ≤ truncToInt value ∧ truncToInt value ≤ INT_MAX then truncToInt value
    else INT_MIN
  | _ => INT_MIN

/-- The value of an `int` expression whose exact value is `x`: `x` when it is in the range of
`int`. Beyond the range C++ leaves the result undefined; the compiled addition wraps around
modulo `2 ^ 32`, which is taken here. -/
def wrapInt32 (x : Int) : Int := (x + 2 ^ 31) % 2 ^ 32 - 2 ^ 31

/-- The 4x4 matrix of VTK, stored by rows (`Element[i][j]` is component `j` of row `i`). -/
structure vtkMatrix4x4 where
  row0 : Double4
  row1 : Double4
  row2 : Double4
  row3 : Double4
  deriving DecidableEq, Repr

/-- Row `i` times the point `p`: `sum_j Element[i][j] * p[j]`. -/
def rowTimesPoint (r p : Double4) : ℚ :=
  r.d0 * p.d0 + r.d1 * p.d1 + r.d2 * p.d2 + r.d3 * p.d3

/-- Function `vtkMatrix4x4::MultiplyPoint(in, out)` of VTK: the product of the matrix with a
homogeneous point. -/
def vtkMatrix4x4.MultiplyPoint (m : vtkMatrix4x4) (p : Double4) : Double4 :=
  { d0 := rowTimesPoint m.row0 p
    d1 := rowTimesPoint m.row1 p
    d2 := rowTimesPoint m.row2 p
    d3 := rowTimesPoint m.row3 p }

/-- The image container of VTK, with the members the reconstructor reads: extent, geometry,
scalar type, number of components and the scalar array. -/
structure vtkImageData where
  Extent : Int6
  Origin : Double3
  Spacing : Double3
  ScalarType : Int
  NumberOfScalarComponents : Nat
  Scalars : List ℚ
  deriving DecidableEq, Repr

/-- Method `vtkImageData::DeepCopy(src)`: the destination becomes an exact copy of `src`. -/
def vtkImageData.DeepCopy (_dst src : vtkImageData) : vtkImageData := src

/-- Modelled from the spec: `TrackedFrame` (TrackedFrame.h is not among the sources): an image
buffer, a pose transform with its validity flag, a timestamp and an open-ended map from field
name to string value. -/
structure TrackedFrame where
  ImageData : vtkImageData
  Pose : vtkMatrix4x4
  PoseValid : Bool
  Timestamp : ℚ
  CustomFrameFields : List (String × String)
  deriving DecidableEq, Repr

/-- Modelled from the spec: `PlusTransformName` (PlusCommon is not among the sources): the name
of a transform, built from the names of its source and target coordinate frames. What the
constructor does to the two strings is seen only by `IsValid` and `GetTransform`, which are
collaborators. -/
structure PlusTransformName where
  From : String
  To : String
  deriving DecidableEq, Repr

/-- Constant `VTK_DOUBLE_MAX` of VTK (vtkType.h): `1.0e+299`. -/
def VTK_DOUBLE_MAX : ℚ := 10 ^ 299

/-- Constant `VTK_DOUBLE_MIN` of VTK (vtkType.h): `-1.0e+299`. -/
def VTK_DOUBLE_MIN : ℚ := -(10 ^ 299)

/-! ## The collaborating objects -/

/-- Interpolation modes of `vtkPasteSliceIntoVolume`. -/
inductive InterpolationType where
  | NEAREST_NEIGHBOR_INTERPOLATION
  | LINEAR_INTERPOLATION
  deriving DecidableEq, Repr

/-- Compounding (calculation) modes of `vtkPasteSliceIntoVolume`. -/
inductive CalculationType where
  | WEIGHTED_AVERAGE
  | MAXIMUM
  deriving DecidableEq, Repr

/-- Optimization levels of `vtkPasteSliceIntoVolume`. -/
inductive OptimizationType where
  | NO_OPTIMIZATION
  | PARTIAL_OPTIMIZATION
  | FULL_OPTIMIZATION
  deriving DecidableEq, Repr

/-- Ghost trace entry: a call of the reconstructor made on its slice paster. -/
inductive PasteCall where
  | ResetOutput
  | InsertSlice (image : vtkImageData) (transformImageToReference : vtkMatrix4x4)
  deriving DecidableEq, Repr

/-- Modelled from the spec: `vtkPasteSliceIntoVolume` (neither its header nor its
implementation is among the sources): the reconstruction configuration (output geometry, clip
rectangle, fan, modes), the raw output volume and the accumulation buffer. `Calls` is a ghost
member: the trace of `ResetOutput` and `InsertSlice` calls received, oldest first. -/
structure vtkPasteSliceIntoVolume where
  OutputOrigin : Double3
  OutputSpacing : Double3
  OutputExtent : Int6
  OutputScalarMode : Int
  ClipRectangleOrigin : Int2
  ClipRectangleSize : Int2
  FanAngles : Double2
  FanOrigin : Double2
  FanDepth : ℚ
  InterpolationMode : InterpolationType
  CalculationMode : CalculationType
  Optimization : OptimizationType
  Compounding : Int
  NumberOfThreads : Int
  ReconstructedVolume : vtkImageData
  AccumulationBuffer : vtkImageData
  Calls : List PasteCall
  deriving DecidableEq, Repr

/-- Kernel types of the hole filler (`FillHolesInVolumeElement::HFTYPE`). -/
inductive HFTYPE where
  | HFTYPE_GAUSSIAN
  | HFTYPE_GAUSSIAN_ACCUMULATION
  | HFTYPE_DISTANCE_WEIGHT_INVERSE
  | HFTYPE_NEAREST_NEIGHBOR
  | HFTYPE_STICK
  deriving DecidableEq, Repr

/-- Modelled from the spec: `FillHolesInVolumeElement` (vtkFillHolesInVolume.h is not among the
sources): one hole-filling kernel with its type-specific parameters. `type` is `none` while no
enumerator has been assigned to it. -/
structure FillHolesInVolumeElement where
  type : Option HFTYPE
  size : Int
  stdev : ℚ
  minRatio : ℚ
  stickLengthLimit : Int
  numSticksToUse : Int
  deriving DecidableEq, Repr

/-- Modelled from the spec: `vtkFillHolesInVolume` (not among the sources): the ordered kernel
list, the two input images, the output image. `Updates` is a ghost member counting the runs of
the filter started by the reconstructor. -/
structure vtkFillHolesInVolume where
  NumHFElements : Int
  HFElements : List FillHolesInVolumeElement
  NumberOfThreads : Int
  ReconstructedVolume : vtkImageData
  AccumulationBuffer : vtkImageData
  Output : vtkImageData
  Updates : Nat
  deriving DecidableEq, Repr

/-- Members of `vtkVolumeReconstructor`. `MTime` is the modification time inherited from
`vtkObject`. `FillHoles` is assigned only 0 or 1 in the source and is kept as a Boolean. -/
structure vtkVolumeReconstructor where
  ImageCoordinateFrame : Option String
  ReferenceCoordinateFrame : Option String
  ReconstructedVolume : vtkImageData
  Reconstructor : vtkPasteSliceIntoVolume
  HoleFiller : vtkFillHolesInVolume
  FillHoles : Bool
  SkipInterval : Int
  ReconstructedVolumeUpdatedTime : Nat
  MTime : Nat
  deriving DecidableEq, Repr

/-- What a call of `vtkPasteSliceIntoVolume::ResetOutput` can do: return a status or throw
`std::bad_alloc`. -/
inductive ResetOutputResult where
  | returned (status : PlusStatus)
  | bad_alloc
  deriving DecidableEq, Repr

/-- The behaviour of the classes that are not among the sources, as arbitrary functions.

* `SetTransforms repo frame`: `vtkTransformRepository::SetTransforms`, status and new repository.
* `GetTransform repo name`: `vtkTransformRepository::GetTransform`, status, matrix and the
  validity flag written through the out-parameters.
* `IsValid name`: `PlusTransformName::IsValid`.
* `ResetOutput paster`, `InsertSlice paster image matrix`: the two operations of
  `vtkPasteSliceIntoVolume` that rewrite the raw volume and the accumulation buffer; they
  return their outcome and the new contents of the two buffers.
* `FillHolesExecute filler`: the output image that `vtkFillHolesInVolume::Update` computes
  from the filter inputs and kernels.
* `ParseDoubles text`, `ParseInts text`: the values that stream extraction reads from an XML
  attribute text, in order, up to the first extraction that fails.
* `StoredByFailedExtraction text`: what the extraction that finds no number at the start of
  the text leaves in the `int` variable it was to fill: `some v` when it stores `v` there (the
  stream extraction of the C++11 library stores 0 for a text that is not a number and the
  nearest bound of `int` for a number out of range), `none` when the variable keeps its value
  (the text ends before a character is read).
* `NewHFElement`: a default-constructed `FillHolesInVolumeElement`. -/
structure Collaborators (Repo : Type) where
  SetTransforms : Repo → TrackedFrame → PlusStatus × Repo
  GetTransform : Repo → PlusTransformName → PlusStatus × vtkMatrix4x4 × Bool
  IsValid : PlusTransformName → Bool
  ResetOutput : vtkPasteSliceIntoVolume → ResetOutputResult × vtkImageData × vtkImageData
  InsertSlice : vtkPasteSliceIntoVolume → vtkImageData → vtkMatrix4x4 →
    PlusStatus × vtkImageData × vtkImageData
  FillHolesExecute : vtkFillHolesInVolume → vtkImageData
  ParseDoubles : String → List ℚ
  ParseInts : String → List Int
  StoredByFailedExtraction : String → Option Int
  NewHFElement : FillHolesInVolumeElement

/-- Method `vtkObject::Modified()`: the modification time moves to a later time stamp. VTK
draws the stamp from a global increasing counter; the embedding keeps the order only. -/
def vtkVolumeReconstructor.Modified (self : vtkVolumeReconstructor) : vtkVolumeReconstructor :=
  { self with MTime := self.MTime + 1 }

/-- Method `vtkObject::GetMTime()`. -/
def vtkVolumeReconstructor.GetMTime (self : vtkVolumeReconstructor) : Nat := self.MTime

/-- Method `vtkPasteSliceIntoVolume::ResetOutput` as seen by the reconstructor: the call is
traced and the two buffers take the contents the collaborator returns. -/
def vtkPasteSliceIntoVolume.ResetOutput {Repo : Type} (C : Collaborators Repo)
    (self : vtkPasteSliceIntoVolume) : ResetOutputResult × vtkPasteSliceIntoVolume :=
  let r := C.ResetOutput self
  (r.1, { self with
            ReconstructedVolume := r.2.1
            AccumulationBuffer := r.2.2
            Calls := self.Calls ++ [PasteCall.ResetOutput] })

/-- Method `vtkPasteSliceIntoVolume::InsertSlice` as seen by the reconstructor: the call is
traced with its arguments and the two buffers take the contents the collaborator returns. -/
def vtkPasteSliceIntoVolume.InsertSlice {Repo : Type} (C : Collaborators Repo)
    (self : vtkPasteSliceIntoVolume) (image : vtkImageData)
    (transformImageToReference : vtkMatrix4x4) : PlusStatus × vtkPasteSliceIntoVolume :=
  let r := C.InsertSlice self image transformImageToReference
  (r.1, { self with
            ReconstructedVolume := r.2.1
            AccumulationBuffer := r.2.2
            Calls := self.Calls ++ [PasteCall.InsertSlice image transformImageToReference] })

/-! ## Extent computation -/

/-- The four corners `c0..c3` of the input image in pixel coordinates, as
`AddImageToExtent` prepares them (lines 477-498): the frame extent, restricted to the clip
rectangle when both components of its size are positive. The sums of lines 487 and 489 are
sums of two `int`; the conversions of `int` to `double` are exact. -/
def corners_ImagePix (self : vtkVolumeReconstructor) (image : vtkImageData) : List Double4 :=
  let frameExtent := image.Extent
  let minX : ℚ := frameExtent.i0
  let maxX : ℚ := frameExtent.i1
  let minY : ℚ := frameExtent.i2
  let maxY : ℚ := frameExtent.i3
  let clip : Bool :=
    decide (self.Reconstructor.ClipRectangleSize.i0 > 0 ∧
      self.Reconstructor.ClipRectangleSize.i1 > 0)
  let minX1 : ℚ := if clip then max minX (self.Reconstructor.ClipRectangleOrigin.i0 : ℚ) else minX
  let maxX1 : ℚ :=
    if clip then
      min maxX ((wrapInt32 (self.Reconstructor.ClipRectangleOrigin.i0 +
        self.Reconstructor.ClipRectangleSize.i0) : Int) : ℚ)
    else maxX
  let minY1 : ℚ := if clip then max minY (self.Reconstructor.ClipRectangleOrigin.i1 : ℚ) else minY
  let maxY1 : ℚ :=
    if clip then
      min maxY ((wrapInt32 (self.Reconstructor.ClipRectangleOrigin.i1 +
        self.Reconstructor.ClipRectangleSize.i1) : Int) : ℚ)
    else maxY
  [ { d0 := minX1, d1 := minY1, d2 := 0, d3 := 1 },
    { d0 := minX1, d1 := maxY1, d2 := 0, d3 := 1 },
    { d0 := maxX1, d1 := minY1, d2 := 0, d3 := 1 },
    { d0 := maxX1, d1 := maxY1, d2 := 0, d3 := 1 } ]

/-- Body of the inner loop of `AddImageToExtent` (lines 508-517) for one axis: the minimum
`extent_Ref[axis*2]` is lowered and the maximum `extent_Ref[axis*2+1]` is raised to the corner
coordinate when the corner lies outside. -/
def expandAxis (corner_Ref : Double4) (extent_Ref : Double6) (axis : Nat) : Double6 :=
  let e1 :=
    if corner_Ref.get axis < extent_Ref.get (axis * 2) then
      extent_Ref.set (axis * 2) (corner_Ref.get axis)
    else extent_Ref
  if corner_Ref.get axis > e1.get (axis * 2 + 1) then
    e1.set (axis * 2 + 1) (corner_Ref.get axis)
  else e1

/-- Inner loop of `AddImageToExtent` (line 506): `for axis = 0, 1, 2`. -/
def expandCorner (extent_Ref : Double6) (corner_Ref : Double4) : Double6 :=
  [0, 1, 2].foldl (expandAxis corner_Ref) extent_Ref

/-- Method `vtkVolumeReconstructor::AddImageToExtent` (lines 472-520): every corner is
transformed to the Reference frame with `MultiplyPoint` and the running extent is expanded to
contain it. -/
def AddImageToExtent (self : vtkVolumeReconstructor) (image : vtkImageData)
    (imageToReference : vtkMatrix4x4) (extent_Ref : Double6) : Double6 :=
  (corners_ImagePix self image).foldl
    (fun ext corner => expandCorner ext (imageToReference.MultiplyPoint corner)) extent_Ref

/-- A default-constructed `PlusTransformName`: both frame names empty. -/
def PlusTransformName.empty : PlusTransformName := { From := "", To := "" }

/-- Method `vtkVolumeReconstructor::GetImageToReferenceTransformName` (lines 523-545): the
status and the value of the in/out argument `imageToReferenceTransformName` after the call. -/
def GetImageToReferenceTransformName {Repo : Type} (C : Collaborators Repo)
    (self : vtkVolumeReconstructor) (imageToReferenceTransformName : PlusTransformName) :
    PlusStatus × PlusTransformName :=
  match self.ReferenceCoordinateFrame, self.ImageCoordinateFrame with
  | some referenceCoordinateFrame, some imageCoordinateFrame =>
    let name1 : PlusTransformName :=
      { From := imageCoordinateFrame, To := referenceCoordinateFrame }
    if ! C.IsValid name1 then (PLUS_FAIL, name1)
    else (PLUS_SUCCESS, name1)
  | _, _ => (PLUS_FAIL, imageToReferenceTransformName)

/-- Outcome of the frame loop of `SetOutputExtentFromFrameList`: either a frame made the
function return (with the repository as it then is), or the loop ran to its end. -/
inductive FrameLoopResult (Repo : Type) where
  | failed (repository : Repo)
  | done (repository : Repo) (numberOfValidFrames : Nat) (extent_Ref : Double6)

/-- The frame loop of `SetOutputExtentFromFrameList` (lines 583-614), over the frames still
to visit. -/
def frameLoop {Repo : Type} (C : Collaborators Repo) (self : vtkVolumeReconstructor)
    (imageToReferenceTransformName : PlusTransformName) :
    List TrackedFrame → Repo → Nat → Double6 → FrameLoopResult Repo
  | [], transformRepository, numberOfValidFrames, extent_Ref =>
    FrameLoopResult.done transformRepository numberOfValidFrames extent_Ref
  | frame :: rest, transformRepository, numberOfValidFrames, extent_Ref =>
    let st := C.SetTransforms transformRepository frame
    if st.1 ≠ PLUS_SUCCESS then FrameLoopResult.failed st.2
    else
      let gt := C.GetTransform st.2 imageToReferenceTransformName
      if gt.1 ≠ PLUS_SUCCESS then FrameLoopResult.failed st.2
      else if gt.2.2 then
        frameLoop C self imageToReferenceTransformName rest st.2 (numberOfValidFrames + 1)
          (AddImageToExtent self frame.ImageData gt.2.1 extent_Ref)
      else
        frameLoop C self imageToReferenceTransformName rest st.2 numberOfValidFrames extent_Ref

/-- Expression `int( ( max - min ) / spacing )` of lines 628-630: the difference and the
quotient are those of `double`, the result is converted to `int`. -/
def extentUpperIndex (max min spacing : ℚ) : Int :=
  (((Double.ofRat max).sub (Double.ofRat min)).div (Double.ofRat spacing)).toInt

/-- Initial value of `extent_Ref` (lines 574-579). -/
def initialExtent_Ref : Double6 :=
  { d0 := VTK_DOUBLE_MAX, d1 := VTK_DOUBLE_MIN
    d2 := VTK_DOUBLE_MAX, d3 := VTK_DOUBLE_MIN
    d4 := VTK_DOUBLE_MAX, d5 := VTK_DOUBLE_MIN }

/-- Method `vtkVolumeReconstructor::SetOutputExtentFromFrameList` (lines 548-653). Returns the
status, the new state of the reconstructor and the transform repository after the call. -/
def SetOutputExtentFromFrameList {Repo : Type} (C : Collaborators Repo)
    (self : vtkVolumeReconstructor) (trackedFrameList : Option (List TrackedFrame))
    (transformRepository : Option Repo) : PlusStatus × vtkVolumeReconstructor × Option Repo :=
  let named := GetImageToReferenceTransformName C self PlusTransformName.empty
  let imageToReferenceTransformName := named.2
  if named.1 ≠ PLUS_SUCCESS then (PLUS_FAIL, self, transformRepository)
  else
    match trackedFrameList with
    | none => (PLUS_FAIL, self, transformRepository)
    | some [] => (PLUS_FAIL, self, transformRepository)
    | some (frame0 :: frames) =>
      match transformRepository with
      | none => (PLUS_FAIL, self, none)
      | some repository =>
        match frameLoop C self imageToReferenceTransformName (frame0 :: frames) repository 0
            initialExtent_Ref with
        | FrameLoopResult.failed repository1 => (PLUS_FAIL, self, some repository1)
        | FrameLoopResult.done repository1 numberOfValidFrames extent_Ref =>
          if numberOfValidFrames = 0 then (PLUS_FAIL, self, some repository1)
          else
            let outputSpacing := self.Reconstructor.OutputSpacing
            let outputExtent : Int6 :=
              { i0 := 0
                i1 := extentUpperIndex (extent_Ref.get 1) (extent_Ref.get 0) outputSpacing.d0
                i2 := 0
                i3 := extentUpperIndex (extent_Ref.get 3) (extent_Ref.get 2) outputSpacing.d1
                i4 := 0
                i5 := extentUpperIndex (extent_Ref.get 5) (extent_Ref.get 4) outputSpacing.d2 }
            let paster1 : vtkPasteSliceIntoVolume :=
              { self.Reconstructor with
                  OutputScalarMode := frame0.ImageData.ScalarType
                  OutputExtent := outputExtent
                  OutputOrigin :=
                    { d0 := extent_Ref.get 0, d1 := extent_Ref.get 2, d2 := extent_Ref.get 4 } }
            let reset := paster1.ResetOutput C
            let self1 : vtkVolumeReconstructor := { self with Reconstructor := reset.2 }
            match reset.1 with
            | ResetOutputResult.returned PLUS_SUCCESS =>
              (PLUS_SUCCESS, self1.Modified, some repository1)
            | ResetOutputResult.returned PLUS_FAIL => (PLUS_FAIL, self1, some repository1)
            | ResetOutputResult.bad_alloc => (PLUS_FAIL, self1, some repository1)

/-! ## Frame insertion and the visible output -/

/-- Method `vtkVolumeReconstructor::AddTrackedFrame` (lines 656-706). The argument
`insertedIntoVolume` is `none` for a NULL pointer and `some b` for a pointer to a Boolean
holding `b`; the third component of the result is the pointee after the call. -/
def AddTrackedFrame {Repo : Type} (C : Collaborators Repo) (self : vtkVolumeReconstructor)
    (frame : Option TrackedFrame) (transformRepository : Option Repo)
    (insertedIntoVolume : Option Bool) : PlusStatus × vtkVolumeReconstructor × Option Bool :=
  let named := GetImageToReferenceTransformName C self PlusTransformName.empty
  let imageToReferenceTransformName := named.2
  if named.1 ≠ PLUS_SUCCESS then (PLUS_FAIL, self, insertedIntoVolume)
  else
    match frame with
    | none => (PLUS_FAIL, self, insertedIntoVolume)
    | some frame1 =>
      match transformRepository with
      | none => (PLUS_FAIL, self, insertedIntoVolume)
      | some repository =>
        let gt := C.GetTransform repository imageToReferenceTransformName
        if gt.1 ≠ PLUS_SUCCESS then (PLUS_FAIL, self, insertedIntoVolume)
        else
          let isMatrixValid := gt.2.2
          let imageToReferenceTransformMatrix := gt.2.1
          let insertedIntoVolume1 := insertedIntoVolume.map (fun _ => isMatrixValid)
          if ! isMatrixValid then (PLUS_SUCCESS, self, insertedIntoVolume1)
          else
            let frameImage := frame1.ImageData
            let self1 := self.Modified
            let ins := self1.Reconstructor.InsertSlice C frameImage imageToReferenceTransformMatrix
            (ins.1, { self1 with Reconstructor := ins.2 }, insertedIntoVolume1)

/-- Method `vtkFillHolesInVolume::Update` as seen by the reconstructor: the run is counted and
the output takes the image the collaborator computes from the filter state. -/
def vtkFillHolesInVolume.Update {Repo : Type} (C : Collaborators Repo)
    (self : vtkFillHolesInVolume) : vtkFillHolesInVolume :=
  { self with Output := C.FillHolesExecute self, Updates := self.Updates + 1 }

/-- Method `vtkVolumeReconstructor::GenerateHoleFilledVolume` (lines 753-764). -/
def GenerateHoleFilledVolume {Repo : Type} (C : Collaborators Repo)
    (self : vtkVolumeReconstructor) : PlusStatus × vtkVolumeReconstructor :=
  let filler1 : vtkFillHolesInVolume :=
    { self.HoleFiller with ReconstructedVolume := self.Reconstructor.ReconstructedVolume }
  let filler2 : vtkFillHolesInVolume :=
    { filler1 with AccumulationBuffer := self.Reconstructor.AccumulationBuffer }
  let filler3 := filler2.Update C
  (PLUS_SUCCESS,
    { self with
        HoleFiller := filler3
        ReconstructedVolume := self.ReconstructedVolume.DeepCopy filler3.Output })

/-- Method `vtkVolumeReconstructor::UpdateReconstructedVolume` (lines 709-736). -/
def UpdateReconstructedVolume {Repo : Type} (C : Collaborators Repo)
    (self : vtkVolumeReconstructor) : PlusStatus × vtkVolumeReconstructor :=
  if self.ReconstructedVolumeUpdatedTime ≥ self.GetMTime then (PLUS_SUCCESS, self)
  else if self.FillHoles then
    let g := GenerateHoleFilledVolume C self
    if g.1 ≠ PLUS_SUCCESS then (PLUS_FAIL, g.2)
    else (PLUS_SUCCESS, { g.2 with ReconstructedVolumeUpdatedTime := g.2.GetMTime })
  else
    let self1 : vtkVolumeReconstructor :=
      { self with
          ReconstructedVolume :=
            self.ReconstructedVolume.DeepCopy self.Reconstructor.ReconstructedVolume }
    (PLUS_SUCCESS, { self1 with ReconstructedVolumeUpdatedTime := self1.GetMTime })

/-- Method `vtkVolumeReconstructor::GetReconstructedVolume` (lines 739-750): the status and
the contents of `volume` after the call. -/
def GetReconstructedVolume {Repo : Type} (C : Collaborators Repo)
    (self : vtkVolumeReconstructor) (volume : vtkImageData) :
    PlusStatus × vtkVolumeReconstructor × vtkImageData :=
  let u := UpdateReconstructedVolume C self
  if u.1 ≠ PLUS_SUCCESS then (PLUS_FAIL, u.2, volume)
  else (PLUS_SUCCESS, u.2, volume.DeepCopy u.2.ReconstructedVolume)

/-- Method `vtkVolumeReconstructor::Reset` (lines 913-916). -/
def Reset {Repo : Type} (C : Collaborators Repo) (self : vtkVolumeReconstructor) :
    vtkVolumeReconstructor :=
  { self with Reconstructor := (self.Reconstructor.ResetOutput C).2 }

/-- Method `vtkVolumeReconstructor::SetOutputOrigin` (lines 919-922). -/
def SetOutputOrigin (self : vtkVolumeReconstructor) (origin : Double3) :
    vtkVolumeReconstructor :=
  { self with Reconstructor := { self.Reconstructor with OutputOrigin := origin } }

/-- Method `vtkVolumeReconstructor::SetOutputSpacing` (lines 925-928). -/
def SetOutputSpacing (self : vtkVolumeReconstructor) (spacing : Double3) :
    vtkVolumeReconstructor :=
  { self with Reconstructor := { self.Reconstructor with OutputSpacing := spacing } }

/-- Method `vtkVolumeReconstructor::SetOutputExtent` (lines 931-934). -/
def SetOutputExtent (self : vtkVolumeReconstructor) (extent : Int6) :
    vtkVolumeReconstructor :=
  { self with Reconstructor := { self.Reconstructor with OutputExtent := extent } }

/-! ## Configuration -/

/-- An element of the XML configuration tree (`vtkXMLDataElement` of VTK): its name, its
attributes and its nested elements, both in document order. -/
inductive vtkXMLDataElement where
  | mk (Name : String) (Attributes : List (String × String))
      (NestedElements : List vtkXMLDataElement)

/-- Method `vtkXMLDataElement::GetName`. -/
def vtkXMLDataElement.GetName : vtkXMLDataElement → String
  | mk name _ _ => name

/-- The attribute list of an element. -/
def vtkXMLDataElement.Attributes : vtkXMLDataElement → List (String × String)
  | mk _ attributes _ => attributes

/-- The nested elements of an element (`GetNestedElement(i)` for
`i < GetNumberOfNestedElements()`). -/
def vtkXMLDataElement.NestedElements : vtkXMLDataElement → List vtkXMLDataElement
  | mk _ _ nested => nested

/-- Method `vtkXMLDataElement::GetAttribute(name)`: the value of the first attribute of that
name, `none` (NULL) when there is none. -/
def vtkXMLDataElement.GetAttribute (e : vtkXMLDataElement) (name : String) : Option String :=
  match e.Attributes.find? (fun a => decide (a.1 = name)) with
  | some a => some a.2
  | none => none

/-- Method `vtkXMLDataElement::FindNestedElementWithName(name)`: the first directly nested
element of that name, `none` (NULL) when there is none. -/
def vtkXMLDataElement.FindNestedElementWithName (e : vtkXMLDataElement) (name : String) :
    Option vtkXMLDataElement :=
  e.NestedElements.find? (fun c => decide (c.GetName = name))

/-- Method `vtkXMLDataElement::GetVectorAttribute(name, length, double*)`: the values stored
into the array, in order. VTK extracts up to `length` values from the attribute text, stops at
the first extraction that fails and returns the number of values read (0 when the attribute is
absent); that number is the length of the list returned here. -/
def vtkXMLDataElement.GetVectorAttributeDouble {Repo : Type} (C : Collaborators Repo)
    (e : vtkXMLDataElement) (name : String) (length : Nat) : List ℚ :=
  match e.GetAttribute name with
  | none => []
  | some text => (C.ParseDoubles text).take length

/-- Method `vtkXMLDataElement::GetVectorAttribute(name, length, int*)`, as for `double`. -/
def vtkXMLDataElement.GetVectorAttributeInt {Repo : Type} (C : Collaborators Repo)
    (e : vtkXMLDataElement) (name : String) (length : Nat) : List Int :=
  match e.GetAttribute name with
  | none => []
  | some text => (C.ParseInts text).take length

/-- Method `vtkXMLDataElement::GetScalarAttribute(name, double&)`, which is
`GetVectorAttribute(name, 1, &value)`: `some v` when a value was read (return value 1), `none`
when not (return value 0, the variable keeps its value). -/
def vtkXMLDataElement.GetScalarAttributeDouble {Repo : Type} (C : Collaborators Repo)
    (e : vtkXMLDataElement) (name : String) : Option ℚ :=
  (e.GetVectorAttributeDouble C name 1).head?

/-- Method `vtkXMLDataElement::GetScalarAttribute(name, int&)`, as for `double`. -/
def vtkXMLDataElement.GetScalarAttributeInt {Repo : Type} (C : Collaborators Repo)
    (e : vtkXMLDataElement) (name : String) : Option Int :=
  (e.GetVectorAttributeInt C name 1).head?

/-- The array `a` after `GetVectorAttribute` stored `vals` into its first entries. -/
def Double2.store (a : Double2) (vals : List ℚ) : Double2 :=
  { d0 := vals.getD 0 a.d0, d1 := vals.getD 1 a.d1 }

/-- The array `a` after `GetVectorAttribute` stored `vals` into its first entries. -/
def Double3.store (a : Double3) (vals : List ℚ) : Double3 :=
  { d0 := vals.getD 0 a.d0, d1 := vals.getD 1 a.d1, d2 := vals.getD 2 a.d2 }

/-- The array `a` after `GetVectorAttribute` stored `vals` into its first entries. -/
def Int2.store (a : Int2) (vals : List Int) : Int2 :=
  { i0 := vals.getD 0 a.i0, i1 := vals.getD 1 a.i1 }

/-- The array `a` after `GetVectorAttribute` stored `vals` into its first entries. -/
def Int6.store (a : Int6) (vals : List Int) : Int6 :=
  { i0 := vals.getD 0 a.i0, i1 := vals.getD 1 a.i1, i2 := vals.getD 2 a.i2
    i3 := vals.getD 3 a.i3, i4 := vals.getD 4 a.i4, i5 := vals.getD 5 a.i5 }

/-- Character-wise comparison behind `STRCASECMP`, on the characters still to compare. -/
def strcasecmpChars : List Char → List Char → Int
  | [], [] => 0
  | [], b :: _ => -((b.toLower.toNat : Int))
  | a :: _, [] => (a.toLower.toNat : Int)
  | a :: as, b :: bs =>
    if a.toLower = b.toLower then strcasecmpChars as bs
    else (a.toLower.toNat : Int) - (b.toLower.toNat : Int)

/-- Macro `STRCASECMP(a, b)`: comparison ignoring the case of ASCII letters; 0 when the two
strings are equal up to letter case. -/
def STRCASECMP (a b : String) : Int := strcasecmpChars a.toList b.toList

/-- Modelled from the spec: `vtkPasteSliceIntoVolume::GetInterpolationModeAsString` (not among
the sources); the names are those of the spec and of the error message at line 175. -/
def GetInterpolationModeAsString : InterpolationType → String
  | InterpolationType.LINEAR_INTERPOLATION => "LINEAR"
  | InterpolationType.NEAREST_NEIGHBOR_INTERPOLATION => "NEAREST_NEIGHBOR"

/-- Modelled from the spec: `vtkPasteSliceIntoVolume::GetCalculationModeAsString` (not among
the sources); the names are those of the spec and of the error message at line 192. -/
def GetCalculationModeAsString : CalculationType → String
  | CalculationType.WEIGHTED_AVERAGE => "WEIGHTED_AVERAGE"
  | CalculationType.MAXIMUM => "MAXIMUM"

/-- Modelled from the spec: `vtkPasteSliceIntoVolume::GetOptimizationModeAsString` (not among
the sources); the names are those of the spec and of the error message at line 214. -/
def GetOptimizationModeAsString : OptimizationType → String
  | OptimizationType.FULL_OPTIMIZATION => "FULL"
  | OptimizationType.PARTIAL_OPTIMIZATION => "PARTIAL"
  | OptimizationType.NO_OPTIMIZATION => "NONE"

/-- Setter `SetReferenceCoordinateFrame`, generated by `vtkSetStringMacro`: nothing happens
when the new value equals the current one; otherwise the string is replaced and the object is
marked modified. -/
def SetReferenceCoordinateFrame (self : vtkVolumeReconstructor) (arg : Option String) :
    vtkVolumeReconstructor :=
  if self.ReferenceCoordinateFrame = arg then self
  else ({ self with ReferenceCoordinateFrame := arg } : vtkVolumeReconstructor).Modified

/-- Setter `SetImageCoordinateFrame`, generated by `vtkSetStringMacro`: nothing happens when
the new value equals the current one; otherwise the string is replaced and the object is
marked modified. -/
def SetImageCoordinateFrame (self : vtkVolumeReconstructor) (arg : Option String) :
    vtkVolumeReconstructor :=
  if self.ImageCoordinateFrame = arg then self
  else ({ self with ImageCoordinateFrame := arg } : vtkVolumeReconstructor).Modified

/-- Lines 111-149 of `ReadConfiguration`: output origin and extent, clip rectangle and fan
parameters; each is set when at least one value of the attribute could be read, the entries
not read being 0. -/
def readOutputClipFan {Repo : Type} (C : Collaborators Repo) (reconConfig : vtkXMLDataElement)
    (paster : vtkPasteSliceIntoVolume) : vtkPasteSliceIntoVolume :=
  let outputOrigin := reconConfig.GetVectorAttributeDouble C "OutputOrigin" 3
  let p1 : vtkPasteSliceIntoVolume :=
    if outputOrigin.length ≠ 0 then
      { paster with OutputOrigin := Double3.store { d0 := 0, d1 := 0, d2 := 0 } outputOrigin }
    else paster
  let outputExtent := reconConfig.GetVectorAttributeInt C "OutputExtent" 6
  let p2 : vtkPasteSliceIntoVolume :=
    if outputExtent.length ≠ 0 then
      { p1 with
          OutputExtent :=
            Int6.store { i0 := 0, i1 := 0, i2 := 0, i3 := 0, i4 := 0, i5 := 0 } outputExtent }
    else p1
  let clipRectangleOrigin := reconConfig.GetVectorAttributeInt C "ClipRectangleOrigin" 2
  let p3 : vtkPasteSliceIntoVolume :=
    if clipRectangleOrigin.length ≠ 0 then
      { p2 with ClipRectangleOrigin := Int2.store { i0 := 0, i1 := 0 } clipRectangleOrigin }
    else p2
  let clipRectangleSize := reconConfig.GetVectorAttributeInt C "ClipRectangleSize" 2
  let p4 : vtkPasteSliceIntoVolume :=
    if clipRectangleSize.length ≠ 0 then
      { p3 with ClipRectangleSize := Int2.store { i0 := 0, i1 := 0 } clipRectangleSize }
    else p3
  let fanAngles := reconConfig.GetVectorAttributeDouble C "FanAngles" 2
  let p5 : vtkPasteSliceIntoVolume :=
    if fanAngles.length ≠ 0 then
      { p4 with FanAngles := Double2.store { d0 := 0, d1 := 0 } fanAngles }
    else p4
  let fanOrigin := reconConfig.GetVectorAttributeDouble C "FanOrigin" 2
  let p6 : vtkPasteSliceIntoVolume :=
    if fanOrigin.length ≠ 0 then
      { p5 with FanOrigin := Double2.store { d0 := 0, d1 := 0 } fanOrigin }
    else p5
  match reconConfig.GetScalarAttributeDouble C "FanDepth" with
  | some fanDepth => { p6 with FanDepth := fanDepth }
  | none => p6

/-- Lines 151-158 of `ReadConfiguration`: `GetScalarAttribute` extracts the skip interval
straight into the member. When a number is read the member holds it and is raised to 1 when it
is below 1. When the attribute is there and no number is read, the member holds what the
failed extraction stored and lines 153-157 are not reached; without the attribute the member
keeps its value. -/
def readSkipInterval {Repo : Type} (C : Collaborators Repo) (reconConfig : vtkXMLDataElement)
    (SkipInterval : Int) : Int :=
  match reconConfig.GetScalarAttributeInt C "SkipInterval" with
  | some value => if value < 1 then 1 else value
  | none =>
    match reconConfig.GetAttribute "SkipInterval" with
    | some text =>
      match C.StoredByFailedExtraction text with
      | some stored => stored
      | none => SkipInterval
    | none => SkipInterval

/-- Lines 160-221 of `ReadConfiguration`: interpolation, calculation and optimization modes
and the compounding switch. -/
def readModes (reconConfig : vtkXMLDataElement) (paster : vtkPasteSliceIntoVolume) :
    vtkPasteSliceIntoVolume :=
  let p1 : vtkPasteSliceIntoVolume :=
    match reconConfig.GetAttribute "Interpolation" with
    | some v =>
      if STRCASECMP v (GetInterpolationModeAsString InterpolationType.LINEAR_INTERPOLATION) = 0
      then { paster with InterpolationMode := InterpolationType.LINEAR_INTERPOLATION }
      else if STRCASECMP v
          (GetInterpolationModeAsString InterpolationType.NEAREST_NEIGHBOR_INTERPOLATION) = 0
      then { paster with InterpolationMode := InterpolationType.NEAREST_NEIGHBOR_INTERPOLATION }
      else paster
    | none => paster
  let p2 : vtkPasteSliceIntoVolume :=
    match reconConfig.GetAttribute "Calculation" with
    | some v =>
      if STRCASECMP v (GetCalculationModeAsString CalculationType.WEIGHTED_AVERAGE) = 0
      then { p1 with CalculationMode := CalculationType.WEIGHTED_AVERAGE }
      else if STRCASECMP v (GetCalculationModeAsString CalculationType.MAXIMUM) = 0
      then { p1 with CalculationMode := CalculationType.MAXIMUM }
      else p1
    | none => p1
  let p3 : vtkPasteSliceIntoVolume :=
    match reconConfig.GetAttribute "Optimization" with
    | some v =>
      if STRCASECMP v (GetOptimizationModeAsString OptimizationType.FULL_OPTIMIZATION) = 0
      then { p2 with Optimization := OptimizationType.FULL_OPTIMIZATION }
      else if STRCASECMP v
          (GetOptimizationModeAsString OptimizationType.PARTIAL_OPTIMIZATION) = 0
      then { p2 with Optimization := OptimizationType.PARTIAL_OPTIMIZATION }
      else if STRCASECMP v (GetOptimizationModeAsString OptimizationType.NO_OPTIMIZATION) = 0
      then { p2 with Optimization := OptimizationType.NO_OPTIMIZATION }
      else p2
    | none => p2
  match reconConfig.GetAttribute "Compounding" with
  | some v =>
    if STRCASECMP v "On" = 0 then { p3 with Compounding := 1 }
    else { p3 with Compounding := 0 }
  | none => p3

/-- What reading one `HoleFillingElement` leads to: `fatal` is the immediate
`return PLUS_FAIL` of line 314, `skipped` the `numberOfErrors++; continue;` of a missing
parameter, `stored` the kernel handed to `SetHFElement`. -/
inductive HFElementRead where
  | fatal
  | skipped
  | stored (tempElement : FillHolesInVolumeElement)
  deriving DecidableEq, Repr

/-- Lines 341-363 of `ReadConfiguration`: the `Size` and `MinimumKnownVoxelsRatio`
attributes, read for the Gaussian, distance-weight-inverse and nearest-neighbour kernels. -/
def readSizeAndMinRatio {Repo : Type} (C : Collaborators Repo)
    (nestedElement : vtkXMLDataElement) (tempElement : FillHolesInVolumeElement) :
    HFElementRead :=
  match nestedElement.GetScalarAttributeInt C "Size" with
  | none => HFElementRead.skipped
  | some size =>
    match nestedElement.GetScalarAttributeDouble C "MinimumKnownVoxelsRatio" with
    | none => HFElementRead.skipped
    | some minRatio =>
      HFElementRead.stored { tempElement with size := size, minRatio := minRatio }

/-- Lines 282-387 of `ReadConfiguration`: one `HoleFillingElement` is read into a fresh
`tempElement`. -/
def readHFElement {Repo : Type} (C : Collaborators Repo) (nestedElement : vtkXMLDataElement) :
    HFElementRead :=
  let tempElement : FillHolesInVolumeElement := C.NewHFElement
  match nestedElement.GetAttribute "Type" with
  | none => HFElementRead.fatal
  | some t =>
    let tempElement1 : FillHolesInVolumeElement :=
      if STRCASECMP t "GAUSSIAN" = 0 then
        { tempElement with type := some HFTYPE.HFTYPE_GAUSSIAN }
      else if STRCASECMP t "GAUSSIAN_ACCUMULATION" = 0 then
        { tempElement with type := some HFTYPE.HFTYPE_GAUSSIAN_ACCUMULATION }
      else if STRCASECMP t "STICK" = 0 then
        { tempElement with type := some HFTYPE.HFTYPE_STICK }
      else if STRCASECMP t "NEAREST_NEIGHBOR" = 0 then
        { tempElement with type := some HFTYPE.HFTYPE_NEAREST_NEIGHBOR }
      else if STRCASECMP t "DISTANCE_WEIGHT_INVERSE" = 0 then
        { tempElement with type := some HFTYPE.HFTYPE_DISTANCE_WEIGHT_INVERSE }
      else tempElement
    match tempElement1.type with
    | some HFTYPE.HFTYPE_GAUSSIAN | some HFTYPE.HFTYPE_GAUSSIAN_ACCUMULATION =>
      match nestedElement.GetScalarAttributeDouble C "Stdev" with
      | none => HFElementRead.skipped
      | some stdev => readSizeAndMinRatio C nestedElement { tempElement1 with stdev := stdev }
    | some HFTYPE.HFTYPE_DISTANCE_WEIGHT_INVERSE | some HFTYPE.HFTYPE_NEAREST_NEIGHBOR =>
      readSizeAndMinRatio C nestedElement tempElement1
    | some HFTYPE.HFTYPE_STICK =>
      match nestedElement.GetScalarAttributeInt C "StickLengthLimit" with
      | none => HFElementRead.skipped
      | some stickLengthLimit =>
        match nestedElement.GetScalarAttributeInt C "NumberOfSticksToUse" with
        | none => HFElementRead.skipped
        | some numberOfSticksToUse =>
          HFElementRead.stored
            { tempElement1 with
                stickLengthLimit := stickLengthLimit
                numSticksToUse := numberOfSticksToUse }
    | none => HFElementRead.stored tempElement1

/-- Modelled from the spec: `vtkFillHolesInVolume::SetHFElement(index, element)` (not among
the sources): the kernel at that position of the ordered kernel list is replaced. -/
def vtkFillHolesInVolume.SetHFElement (self : vtkFillHolesInVolume) (index : Nat)
    (element : FillHolesInVolumeElement) : vtkFillHolesInVolume :=
  { self with HFElements := self.HFElements.set index element }

/-- Modelled from the spec: `SetNumHFElements(n)` followed by `AllocateHFElements()` of
`vtkFillHolesInVolume` (not among the sources): a kernel list of `n` default-constructed
kernels. -/
def vtkFillHolesInVolume.AllocateHFElements {Repo : Type} (C : Collaborators Repo)
    (self : vtkFillHolesInVolume) (numHFElements : Nat) : vtkFillHolesInVolume :=
  { self with
      NumHFElements := (numHFElements : Int)
      HFElements := List.replicate numHFElements C.NewHFElement }

/-- Lines 273-391 of `ReadConfiguration`: the loop that reads the kernels, over the nested
elements still to visit. The result is `none` when the loop was left by the `return` of line
314, otherwise the hole filler and `numberOfErrors` at the end of the loop. -/
def readHFElements {Repo : Type} (C : Collaborators Repo) :
    List vtkXMLDataElement → vtkFillHolesInVolume → Nat → Nat →
      vtkFillHolesInVolume × Option Nat
  | [], filler, numberOfErrors, _ => (filler, some numberOfErrors)
  | nestedElement :: rest, filler, numberOfErrors, currentElementIndex =>
    if STRCASECMP nestedElement.GetName "HoleFillingElement" ≠ 0 then
      readHFElements C rest filler numberOfErrors currentElementIndex
    else
      match readHFElement C nestedElement with
      | HFElementRead.fatal => (filler, none)
      | HFElementRead.skipped =>
        readHFElements C rest filler (numberOfErrors + 1) currentElementIndex
      | HFElementRead.stored tempElement =>
        readHFElements C rest (filler.SetHFElement currentElementIndex tempElement)
          numberOfErrors (currentElementIndex + 1)

/-- Lines 254-265 of `ReadConfiguration`: the number of nested elements named
`HoleFillingElement`. -/
def countHFElements (nested : List vtkXMLDataElement) : Nat :=
  (nested.filter (fun e => decide (STRCASECMP e.GetName "HoleFillingElement" = 0))).length

/-- Method `vtkVolumeReconstructor::ReadConfiguration` (lines 72-402). -/
def ReadConfiguration {Repo : Type} (C : Collaborators Repo) (self : vtkVolumeReconstructor)
    (config : Option vtkXMLDataElement) : PlusStatus × vtkVolumeReconstructor :=
  match config with
  | none => (PLUS_FAIL, self)
  | some config1 =>
    match config1.FindNestedElementWithName "VolumeReconstruction" with
    | none => (PLUS_FAIL, self)
    | some reconConfig =>
      let self1 :=
        match reconConfig.GetAttribute "ReferenceCoordinateFrame" with
        | some referenceCoordinateFrame =>
          SetReferenceCoordinateFrame self (some referenceCoordinateFrame)
        | none => self
      let self2 :=
        match reconConfig.GetAttribute "ImageCoordinateFrame" with
        | some imageCoordinateFrame => SetImageCoordinateFrame self1 (some imageCoordinateFrame)
        | none => self1
      let outputSpacing := reconConfig.GetVectorAttributeDouble C "OutputSpacing" 3
      if outputSpacing.length = 0 then (PLUS_FAIL, self2)
      else
        let p1 : vtkPasteSliceIntoVolume :=
          { self2.Reconstructor with
              OutputSpacing := Double3.store { d0 := 0, d1 := 0, d2 := 0 } outputSpacing }
        let p2 := readModes reconConfig (readOutputClipFan C reconConfig p1)
        let self3 : vtkVolumeReconstructor :=
          { self2 with
              Reconstructor := p2
              SkipInterval := readSkipInterval C reconConfig self2.SkipInterval }
        let self4 : vtkVolumeReconstructor :=
          match reconConfig.GetScalarAttributeInt C "NumberOfThreads" with
          | some numberOfThreads =>
            { self3 with
                Reconstructor := { self3.Reconstructor with NumberOfThreads := numberOfThreads }
                HoleFiller := { self3.HoleFiller with NumberOfThreads := numberOfThreads } }
          | none => self3
        let self5 : vtkVolumeReconstructor :=
          match reconConfig.GetAttribute "FillHoles" with
          | some v => { self4 with FillHoles := decide (STRCASECMP v "On" = 0) }
          | none => self4
        if self5.FillHoles then
          match reconConfig.FindNestedElementWithName "HoleFilling" with
          | none => (PLUS_FAIL, self5)
          | some holeFilling =>
            let filler1 :=
              self5.HoleFiller.AllocateHFElements C (countHFElements holeFilling.NestedElements)
            let read := readHFElements C holeFilling.NestedElements filler1 0 0
            let self6 : vtkVolumeReconstructor := { self5 with HoleFiller := read.1 }
            match read.2 with
            | none => (PLUS_FAIL, self6)
            | some numberOfErrors =>
              if numberOfErrors ≠ 0 then (PLUS_FAIL, self6)
              else (PLUS_SUCCESS, self6.Modified)
        else (PLUS_SUCCESS, self5.Modified)

/-- An empty image as `vtkImageData::New()` creates it: empty extent, unit spacing, one
component of type `VTK_DOUBLE` (11), no scalars. -/
def vtkImageData.New : vtkImageData :=
  { Extent := { i0 := 0, i1 := -1, i2 := 0, i3 := -1, i4 := 0, i5 := -1 }
    Origin := { d0 := 0, d1 := 0, d2 := 0 }
    Spacing := { d0 := 1, d1 := 1, d2 := 1 }
    ScalarType := 11
    NumberOfScalarComponents := 1
    Scalars := [] }

/-- Constructor `vtkVolumeReconstructor::vtkVolumeReconstructor` (lines 35-45), given the
freshly created slice paster and hole filler. The constructor of `vtkObject` stamps the
object once, so the modification time is past 0. -/
def vtkVolumeReconstructor.New (Reconstructor : vtkPasteSliceIntoVolume)
    (HoleFiller : vtkFillHolesInVolume) : vtkVolumeReconstructor :=
  { ImageCoordinateFrame := none
    ReferenceCoordinateFrame := none
    ReconstructedVolume := vtkImageData.New
    Reconstructor := Reconstructor
    HoleFiller := HoleFiller
    FillHoles := false
    SkipInterval := 1
    ReconstructedVolumeUpdatedTime := 0
    MTime := 1 }

/-! ## Notions used to state the properties -/

/-- The repository after `SetTransforms` has been applied for each frame of the list in turn,
as the frame loop does while no frame makes it return. -/
def repositoryAfter {Repo : Type} (C : Collaborators Repo) : List TrackedFrame → Repo → Repo
  | [], repository => repository
  | frame :: rest, repository => repositoryAfter C rest (C.SetTransforms repository frame).2

/-- The frame cannot be processed from this repository state: the repository cannot be
updated from the frame, or the named transform cannot be resolved afterwards. -/
def frameFails {Repo : Type} (C : Collaborators Repo) (name : PlusTransformName)
    (repository : Repo) (frame : TrackedFrame) : Prop :=
  (C.SetTransforms repository frame).1 ≠ PLUS_SUCCESS ∨
    (C.GetTransform (C.SetTransforms repository frame).2 name).1 ≠ PLUS_SUCCESS

/-- Every frame of the list can be processed when the frames are visited in order: each
repository update and each lookup of the named transform succeeds. -/
def lookupsSucceed {Repo : Type} (C : Collaborators Repo) (name : PlusTransformName) :
    List TrackedFrame → Repo → Prop
  | [], _ => True
  | frame :: rest, repository =>
    (C.SetTransforms repository frame).1 = PLUS_SUCCESS ∧
    (C.GetTransform (C.SetTransforms repository frame).2 name).1 = PLUS_SUCCESS ∧
    lookupsSucceed C name rest (C.SetTransforms repository frame).2

/-- The frames of the list whose pose is flagged valid when the frames are visited in order,
each with its resolved image-to-reference matrix. -/
def validFrames {Repo : Type} (C : Collaborators Repo) (name : PlusTransformName) :
    List TrackedFrame → Repo → List (TrackedFrame × vtkMatrix4x4)
  | [], _ => []
  | frame :: rest, repository =>
    let repository1 := (C.SetTransforms repository frame).2
    let gt := C.GetTransform repository1 name
    if gt.2.2 then (frame, gt.2.1) :: validFrames C name rest repository1
    else validFrames C name rest repository1

/-- The four slice corners of an image projected to the Reference frame by a pose. -/
def projectedCorners (self : vtkVolumeReconstructor) (image : vtkImageData)
    (imageToReference : vtkMatrix4x4) : List Double4 :=
  (corners_ImagePix self image).map imageToReference.MultiplyPoint

/-- A small transform repository: the image-to-reference transform of the frame set last,
with its validity flag; `none` before any frame was set. -/
structure SampleRepository where
  ImageToReference : Option (vtkMatrix4x4 × Bool)
  deriving DecidableEq, Repr

/-- The identity matrix with the translation `(x, y, z)`. -/
def translation (x y z : ℚ) : vtkMatrix4x4 :=
  { row0 := { d0 := 1, d1 := 0, d2 := 0, d3 := x }
    row1 := { d0 := 0, d1 := 1, d2 := 0, d3 := y }
    row2 := { d0 := 0, d1 := 0, d2 := 1, d3 := z }
    row3 := { d0 := 0, d1 := 0, d2 := 0, d3 := 1 } }

/-- Sample collaborators. `SetTransforms` takes the pose from the frame and fails on a frame
without custom fields; `GetTransform` returns the pose set last and fails before any was set;
a transform name is valid when both frame names are non-empty; `ResetOutput` succeeds and
leaves the buffers; `InsertSlice` fails when the scalar type of the slice differs from the
output scalar mode; the hole filler returns its input volume; the attribute parsers know the
texts used below, and an extraction that fails stores 0 unless the text is blank. -/
def sampleCollaborators : Collaborators SampleRepository :=
  { SetTransforms := fun repository frame =>
      if frame.CustomFrameFields = [] then (PLUS_FAIL, repository)
      else (PLUS_SUCCESS, { ImageToReference := some (frame.Pose, frame.PoseValid) })
    GetTransform := fun repository _ =>
      match repository.ImageToReference with
      | some (m, valid) => (PLUS_SUCCESS, m, valid)
      | none => (PLUS_FAIL, translation 0 0 0, false)
    IsValid := fun name => decide (name.From ≠ "" ∧ name.To ≠ "")
    ResetOutput := fun paster =>
      (ResetOutputResult.returned PLUS_SUCCESS, paster.ReconstructedVolume,
        paster.AccumulationBuffer)
    InsertSlice := fun paster image _ =>
      if image.ScalarType = paster.OutputScalarMode then
        (PLUS_SUCCESS, paster.ReconstructedVolume, paster.AccumulationBuffer)
      else (PLUS_FAIL, paster.ReconstructedVolume, paster.AccumulationBuffer)
    FillHolesExecute := fun filler => filler.ReconstructedVolume
    ParseDoubles := fun text =>
      if text = "0.5" then [1 / 2]
      else if text = "1 1 1" then [1, 1, 1]
      else []
    ParseInts := fun text => if text = "2" then [2] else []
    StoredByFailedExtraction := fun text =>
      if text.toList.all Char.isWhitespace then none else some 0
    NewHFElement :=
      { type := none, size := 0, stdev := 0, minRatio := 0, stickLengthLimit := 0
        numSticksToUse := 0 } }

/-- A slice paster with unit output spacing and no clip rectangle. -/
def samplePaster : vtkPasteSliceIntoVolume :=
  { OutputOrigin := { d0 := 0, d1 := 0, d2 := 0 }
    OutputSpacing := { d0 := 1, d1 := 1, d2 := 1 }
    OutputExtent := { i0 := 0, i1 := 0, i2 := 0, i3 := 0, i4 := 0, i5 := 0 }
    OutputScalarMode := 3
    ClipRectangleOrigin := { i0 := 0, i1 := 0 }
    ClipRectangleSize := { i0 := 0, i1 := 0 }
    FanAngles := { d0 := 0, d1 := 0 }
    FanOrigin := { d0 := 0, d1 := 0 }
    FanDepth := 0
    InterpolationMode := InterpolationType.NEAREST_NEIGHBOR_INTERPOLATION
    CalculationMode := CalculationType.WEIGHTED_AVERAGE
    Optimization := OptimizationType.FULL_OPTIMIZATION
    Compounding := 0
    NumberOfThreads := 0
    ReconstructedVolume := vtkImageData.New
    AccumulationBuffer := vtkImageData.New
    Calls := [] }

/-- A hole filler without kernels. -/
def sampleFiller : vtkFillHolesInVolume :=
  { NumHFElements := 0
    HFElements := []
    NumberOfThreads := 0
    ReconstructedVolume := vtkImageData.New
    AccumulationBuffer := vtkImageData.New
    Output := vtkImageData.New
    Updates := 0 }

/-- A reconstructor as constructed, with the two coordinate frame names set. -/
def sampleReconstructor : vtkVolumeReconstructor :=
  { vtkVolumeReconstructor.New samplePaster sampleFiller with
      ImageCoordinateFrame := some "Image"
      ReferenceCoordinateFrame := some "Reference" }

/-- A one-component image with extent `[0, maxX] x [0, maxY]` and the given scalar type. -/
def sampleImage (maxX maxY scalarType : Int) : vtkImageData :=
  { vtkImageData.New with
      Extent := { i0 := 0, i1 := maxX, i2 := 0, i3 := maxY, i4 := 0, i5 := 0 }
      ScalarType := scalarType }

/-- A tracked frame with a 10 x 20 image of unsigned char (3), the given pose and flag. -/
def sampleFrame (pose : vtkMatrix4x4) (valid : Bool) : TrackedFrame :=
  { ImageData := sampleImage 10 20 3
    Pose := pose
    PoseValid := valid
    Timestamp := 0
    CustomFrameFields := [("ImageToReferenceTransformStatus", if valid then "OK" else "INVALID")] }

/-- The sample reconstructor with the clip rectangle of origin `(2, 3)` and size `(5, 4)`. -/
def sampleClip : vtkVolumeReconstructor :=
  { sampleReconstructor with
      Reconstructor :=
        { samplePaster with
            ClipRectangleOrigin := { i0 := 2, i1 := 3 }
            ClipRectangleSize := { i0 := 5, i1 := 4 } } }

/-- The sample reconstructor with the clip rectangle of origin `(2147483647, 0)` and size
`(1, 5)`. -/
def sampleOverflowingClip : vtkVolumeReconstructor :=
  { sampleReconstructor with
      Reconstructor :=
        { samplePaster with
            ClipRectangleOrigin := { i0 := 2147483647, i1 := 0 }
            ClipRectangleSize := { i0 := 1, i1 := 5 } } }

/-- A tracked frame from which the repository cannot be updated. -/
def brokenFrame : TrackedFrame :=
  { sampleFrame (translation 0 0 0) true with CustomFrameFields := [] }

/-- The empty repository. -/
def sampleRepository : SampleRepository := { ImageToReference := none }

/-! ## Channel extraction and saving -/

/-- C array `int[3]`. -/
structure Int3 where
  i0 : Int
  i1 : Int
  i2 : Int
  deriving DecidableEq, Repr

/-- Scalar type code `VTK_UNSIGNED_CHAR` of VTK (vtkType.h). -/
def VTK_UNSIGNED_CHAR : Int := 3

/-- Scalar type code `VTK_FLOAT` of VTK (vtkType.h). -/
def VTK_FLOAT : Int := 10

/-- Method `vtkImageData::GetDimensions()`: the number of voxels along each axis of the
extent. -/
def vtkImageData.GetDimensions (image : vtkImageData) : Int3 :=
  { i0 := image.Extent.i1 - image.Extent.i0 + 1
    i1 := image.Extent.i3 - image.Extent.i2 + 1
    i2 := image.Extent.i5 - image.Extent.i4 + 1 }

/-- Filter `vtkImageExtractComponents` of VTK, set up with `SetComponents(component)`: the
output has the geometry and scalar type of the input and one component per voxel, the selected
component of the input voxel. The scalar array holds the components of a voxel next to each
other, voxel after voxel. For a component the input does not have VTK reports an error and
does not fill the output; the embedding leaves zeros there. -/
def vtkImageExtractComponents (component : Nat) (input : vtkImageData) : vtkImageData :=
  { input with
      NumberOfScalarComponents := 1
      Scalars :=
        (List.range (input.Scalars.length / input.NumberOfScalarComponents)).map
          (fun voxel =>
            if component < input.NumberOfScalarComponents then
              input.Scalars.getD (voxel * input.NumberOfScalarComponents + component) 0
            else 0) }

/-- Method `vtkVolumeReconstructor::ExtractGrayLevels` (lines 767-785): the status, the new
state and the contents of the argument image after the call. -/
def ExtractGrayLevels {Repo : Type} (C : Collaborators Repo) (self : vtkVolumeReconstructor)
    (reconstructedVolume : vtkImageData) :
    PlusStatus × vtkVolumeReconstructor × vtkImageData :=
  let u := UpdateReconstructedVolume C self
  if u.1 ≠ PLUS_SUCCESS then (PLUS_FAIL, u.2, reconstructedVolume)
  else
    (PLUS_SUCCESS, u.2,
      reconstructedVolume.DeepCopy (vtkImageExtractComponents 0 u.2.ReconstructedVolume))

/-- Method `vtkVolumeReconstructor::ExtractAlpha` (lines 788-806): the status, the new state
and the contents of the argument image after the call. -/
def ExtractAlpha {Repo : Type} (C : Collaborators Repo) (self : vtkVolumeReconstructor)
    (reconstructedVolume : vtkImageData) :
    PlusStatus × vtkVolumeReconstructor × vtkImageData :=
  let u := UpdateReconstructedVolume C self
  if u.1 ≠ PLUS_SUCCESS then (PLUS_FAIL, u.2, reconstructedVolume)
  else
    (PLUS_SUCCESS, u.2,
      reconstructedVolume.DeepCopy (vtkImageExtractComponents 1 u.2.ReconstructedVolume))

/-- Element types of MetaIO used by the reconstructor (`MET_ValueEnumType`). -/
inductive MET_ValueEnumType where
  | MET_NONE
  | MET_UCHAR
  | MET_FLOAT
  deriving DecidableEq, Repr

/-- The image object of the MetaIO library (`MetaImage`) with the members the reconstructor
sets before writing. -/
structure MetaImage where
  DimSize : Int3
  ElementSpacing : Double3
  ElementType : MET_ValueEnumType
  ElementNumberOfChannels : Int
  ElementData : List ℚ
  Origin : Double3
  AnatomicalOrientation : String
  BinaryData : Bool
  CompressedData : Bool
  ElementDataFileName : String
  deriving DecidableEq, Repr

/-- Constructor `MetaImage(x, y, z, sx, sy, sz, type, channels, data)` as called at lines
850-852; the members not given to the constructor start empty or off. -/
def MetaImage.New (dimensions : Int3) (spacing : Double3) (elementType : MET_ValueEnumType)
    (channels : Int) (data : List ℚ) : MetaImage :=
  { DimSize := dimensions
    ElementSpacing := spacing
    ElementType := elementType
    ElementNumberOfChannels := channels
    ElementData := data
    Origin := { d0 := 0, d1 := 0, d2 := 0 }
    AnatomicalOrientation := ""
    BinaryData := false
    CompressedData := false
    ElementDataFileName := "" }

/-- Method `vtkVolumeReconstructor::SaveReconstructedVolumeToMetafile(vtkImageData*, const
char*, bool)` (lines 832-867). `MetaImageWrite image filename` is the outcome of
`MetaImage::Write` (MetaIO library). The result is the status and the list of the writes
requested from the library, each with file name and image. -/
def SaveReconstructedVolumeToMetafile_volume (MetaImageWrite : MetaImage → String → Bool)
    (volumeToSave : Option vtkImageData) (filename : String) (useCompression : Bool) :
    PlusStatus × List (String × MetaImage) :=
  match volumeToSave with
  | none => (PLUS_FAIL, [])
  | some volume =>
    let scalarType : Option MET_ValueEnumType :=
      if volume.ScalarType = VTK_UNSIGNED_CHAR then some MET_ValueEnumType.MET_UCHAR
      else if volume.ScalarType = VTK_FLOAT then some MET_ValueEnumType.MET_FLOAT
      else none
    match scalarType with
    | none => (PLUS_FAIL, [])
    | some elementType =>
      let metaImage0 :=
        MetaImage.New volume.GetDimensions volume.Spacing elementType 1 volume.Scalars
      let metaImage1 : MetaImage := { metaImage0 with Origin := volume.Origin }
      let metaImage2 : MetaImage := { metaImage1 with AnatomicalOrientation := "RAI" }
      let metaImage3 : MetaImage := { metaImage2 with BinaryData := true }
      let metaImage4 : MetaImage := { metaImage3 with CompressedData := useCompression }
      let metaImage5 : MetaImage := { metaImage4 with ElementDataFileName := "LOCAL" }
      if MetaImageWrite metaImage5 filename = false then (PLUS_FAIL, [(filename, metaImage5)])
      else (PLUS_SUCCESS, [(filename, metaImage5)])

/-- Method `vtkVolumeReconstructor::SaveReconstructedVolumeToMetafile(const char*, bool,
bool)` (lines 809-829): the status, the new state and the writes requested from MetaIO. -/
def SaveReconstructedVolumeToMetafile {Repo : Type} (C : Collaborators Repo)
    (MetaImageWrite : MetaImage → String → Bool) (self : vtkVolumeReconstructor)
    (filename : String) (alpha : Bool) (useCompression : Bool) :
    PlusStatus × vtkVolumeReconstructor × List (String × MetaImage) :=
  let volumeToSave := vtkImageData.New
  if alpha then
    let e := ExtractAlpha C self volumeToSave
    if e.1 ≠ PLUS_SUCCESS then (PLUS_FAIL, e.2.1, [])
    else
      let w := SaveReconstructedVolumeToMetafile_volume MetaImageWrite (some e.2.2) filename
        useCompression
      (w.1, e.2.1, w.2)
  else
    let e := ExtractGrayLevels C self volumeToSave
    if e.1 ≠ PLUS_SUCCESS then (PLUS_FAIL, e.2.1, [])
    else
      let w := SaveReconstructedVolumeToMetafile_volume MetaImageWrite (some e.2.2) filename
        useCompression
      (w.1, e.2.1, w.2)

/-! ## Notions used to state the configuration properties -/

/-- The reconstructor after lines 86-97 of `ReadConfiguration`: the two coordinate frame
names have been taken from the element. -/
def configuredFrames (self : vtkVolumeReconstructor) (reconConfig : vtkXMLDataElement) :
    vtkVolumeReconstructor :=
  let self1 :=
    match reconConfig.GetAttribute "ReferenceCoordinateFrame" with
    | some referenceCoordinateFrame =>
      SetReferenceCoordinateFrame self (some referenceCoordinateFrame)
    | none => self
  match reconConfig.GetAttribute "ImageCoordinateFrame" with
  | some imageCoordinateFrame => SetImageCoordinateFrame self1 (some imageCoordinateFrame)
  | none => self1

/-- The reconstructor after lines 86-241 of `ReadConfiguration`, when the output spacing
could be read: everything but the kernels has been configured. -/
def configuredBeforeKernels {Repo : Type} (C : Collaborators Repo)
    (self : vtkVolumeReconstructor) (reconConfig : vtkXMLDataElement) :
    vtkVolumeReconstructor :=
  let self2 := configuredFrames self reconConfig
  let outputSpacing := reconConfig.GetVectorAttributeDouble C "OutputSpacing" 3
  let p1 : vtkPasteSliceIntoVolume :=
    { self2.Reconstructor with
        OutputSpacing := Double3.store { d0 := 0, d1 := 0, d2 := 0 } outputSpacing }
  let p2 := readModes reconConfig (readOutputClipFan C reconConfig p1)
  let self3 : vtkVolumeReconstructor :=
    { self2 with
        Reconstructor := p2
        SkipInterval := readSkipInterval C reconConfig self2.SkipInterval }
  let self4 : vtkVolumeReconstructor :=
    match reconConfig.GetScalarAttributeInt C "NumberOfThreads" with
    | some numberOfThreads =>
      { self3 with
          Reconstructor := { self3.Reconstructor with NumberOfThreads := numberOfThreads }
          HoleFiller := { self3.HoleFiller with NumberOfThreads := numberOfThreads } }
    | none => self3
  match reconConfig.GetAttribute "FillHoles" with
  | some v => { self4 with FillHoles := decide (STRCASECMP v "On" = 0) }
  | none => self4

/-- The nested element is a kernel element: its name is `HoleFillingElement` up to letter
case (the test of lines 259 and 276). -/
def isHoleFillingElement (e : vtkXMLDataElement) : Bool :=
  decide (STRCASECMP e.GetName "HoleFillingElement" = 0)

/-- The kernel type that a `Type` attribute value names, as the spec lists them: GAUSSIAN,
GAUSSIAN_ACCUMULATION, STICK, NEAREST_NEIGHBOR, DISTANCE_WEIGHT_INVERSE, in any letter case;
`none` for any other value. -/
def HFTypeOfName (t : String) : Option HFTYPE :=
  if STRCASECMP t "GAUSSIAN" = 0 then some HFTYPE.HFTYPE_GAUSSIAN
  else if STRCASECMP t "GAUSSIAN_ACCUMULATION" = 0 then some HFTYPE.HFTYPE_GAUSSIAN_ACCUMULATION
  else if STRCASECMP t "STICK" = 0 then some HFTYPE.HFTYPE_STICK
  else if STRCASECMP t "NEAREST_NEIGHBOR" = 0 then some HFTYPE.HFTYPE_NEAREST_NEIGHBOR
  else if STRCASECMP t "DISTANCE_WEIGHT_INVERSE" = 0 then
    some HFTYPE.HFTYPE_DISTANCE_WEIGHT_INVERSE
  else none

/-- The kernel carries the parameters that its type requires, as read from the element:
standard deviation, size and minimum known voxel ratio for the two Gaussian types, size and
ratio for the nearest-neighbour and distance-weight-inverse types, stick length limit and
number of sticks for the stick type. -/
def carriesParameters {Repo : Type} (C : Collaborators Repo) (child : vtkXMLDataElement)
    (kernel : FillHolesInVolumeElement) : HFTYPE → Prop
  | HFTYPE.HFTYPE_GAUSSIAN | HFTYPE.HFTYPE_GAUSSIAN_ACCUMULATION =>
    child.GetScalarAttributeDouble C "Stdev" = some kernel.stdev ∧
    child.GetScalarAttributeInt C "Size" = some kernel.size ∧
    child.GetScalarAttributeDouble C "MinimumKnownVoxelsRatio" = some kernel.minRatio
  | HFTYPE.HFTYPE_DISTANCE_WEIGHT_INVERSE | HFTYPE.HFTYPE_NEAREST_NEIGHBOR =>
    child.GetScalarAttributeInt C "Size" = some kernel.size ∧
    child.GetScalarAttributeDouble C "MinimumKnownVoxelsRatio" = some kernel.minRatio
  | HFTYPE.HFTYPE_STICK =>
    child.GetScalarAttributeInt C "StickLengthLimit" = some kernel.stickLengthLimit ∧
    child.GetScalarAttributeInt C "NumberOfSticksToUse" = some kernel.numSticksToUse

/-- The element lacks an attribute that the kernel type requires: `Stdev`, `Size` or
`MinimumKnownVoxelsRatio` for the two Gaussian types, `Size` or `MinimumKnownVoxelsRatio` for
the nearest-neighbour and distance-weight-inverse types, `StickLengthLimit` or
`NumberOfSticksToUse` for the stick type. -/
def lacksRequiredAttribute (child : vtkXMLDataElement) : HFTYPE → Prop
  | HFTYPE.HFTYPE_GAUSSIAN | HFTYPE.HFTYPE_GAUSSIAN_ACCUMULATION =>
    child.GetAttribute "Stdev" = none ∨ child.GetAttribute "Size" = none ∨
      child.GetAttribute "MinimumKnownVoxelsRatio" = none
  | HFTYPE.HFTYPE_DISTANCE_WEIGHT_INVERSE | HFTYPE.HFTYPE_NEAREST_NEIGHBOR =>
    child.GetAttribute "Size" = none ∨ child.GetAttribute "MinimumKnownVoxelsRatio" = none
  | HFTYPE.HFTYPE_STICK =>
    child.GetAttribute "StickLengthLimit" = none ∨
      child.GetAttribute "NumberOfSticksToUse" = none

/-- The kernel carries the type and the parameters read from the element: the element has a
`Type` attribute and, when its value names a kernel type, the kernel is of that type and
carries the parameters the type requires. -/
def KernelReadFrom {Repo : Type} (C : Collaborators Repo) (child : vtkXMLDataElement)
    (kernel : FillHolesInVolumeElement) : Prop :=
  ∃ t, child.GetAttribute "Type" = some t ∧
    ∀ ty, HFTypeOfName t = some ty →
      kernel.type = some ty ∧ carriesParameters C child kernel ty

/-- Two strings are equal up to the case of their ASCII letters. -/
def sameUpToCase (a b : String) : Prop :=
  a.toList.map Char.toLower = b.toList.map Char.toLower

/-- Equality up to letter case is decidable. -/
instance sameUpToCase.decidable (a b : String) : Decidable (sameUpToCase a b) :=
  inferInstanceAs (Decidable (a.toList.map Char.toLower = b.toList.map Char.toLower))

/-- Two attribute lists agree: the same attribute names in the same order with the same
values, except that the values of the attributes of the given names may differ in letter
case. -/
def attributesAgree (names : List String) (a b : List (String × String)) : Prop :=
  List.Forall₂
    (fun x y => x.1 = y.1 ∧ (if x.1 ∈ names then sameUpToCase x.2 y.2 else x.2 = y.2)) a b

/-- Two elements nested in a `HoleFilling` element agree up to the letter case of the value
of their `Type` attribute. -/
def kernelElementsAgree (c d : vtkXMLDataElement) : Prop :=
  c.GetName = d.GetName ∧ attributesAgree ["Type"] c.Attributes d.Attributes

/-- Two `HoleFilling` elements agree up to the letter case of the kernel types. -/
def holeFillingAgree (c d : vtkXMLDataElement) : Prop :=
  c.GetName = d.GetName ∧ List.Forall₂ kernelElementsAgree c.NestedElements d.NestedElements

/-- The attributes of the `VolumeReconstruction` element whose values are mode strings. -/
def modeAttributes : List String :=
  ["Interpolation", "Calculation", "Optimization", "Compounding", "FillHoles"]

/-- Two `VolumeReconstruction` elements agree up to the letter case of the mode strings
(`Interpolation`, `Calculation`, `Optimization`, `Compounding`, `FillHoles`) and of the kernel
types below their `HoleFilling` elements. -/
def volumeReconstructionAgree (c d : vtkXMLDataElement) : Prop :=
  c.GetName = d.GetName ∧ attributesAgree modeAttributes c.Attributes d.Attributes ∧
  List.Forall₂ (fun x y => if x.GetName = "HoleFilling" then holeFillingAgree x y else x = y)
    c.NestedElements d.NestedElements

/-- Two configuration roots agree up to the letter case of the mode strings and kernel types
of their `VolumeReconstruction` elements. -/
def configurationsAgree (c d : vtkXMLDataElement) : Prop :=
  List.Forall₂
    (fun x y =>
      if x.GetName = "VolumeReconstruction" then volumeReconstructionAgree x y else x = y)
    c.NestedElements d.NestedElements

/-- A configuration with the mode strings and the kernel type given, hole filling included. -/
def sampleModeConfiguration
    (interpolation calculation optimization compounding fillHoles kernelType : String) :
    vtkXMLDataElement :=
  vtkXMLDataElement.mk "PlusConfiguration" []
    [vtkXMLDataElement.mk "VolumeReconstruction"
      [("OutputSpacing", "1 1 1"), ("Interpolation", interpolation),
        ("Calculation", calculation), ("Optimization", optimization),
        ("Compounding", compounding), ("FillHoles", fillHoles)]
      [vtkXMLDataElement.mk "HoleFilling" []
        [vtkXMLDataElement.mk "HoleFillingElement"
          [("Type", kernelType), ("StickLengthLimit", "2"), ("NumberOfSticksToUse", "2")]
          []]]]

/-- A configuration with hole filling on and one kernel element of the given type name that
has every kernel parameter attribute. -/
def sampleKernelConfiguration (typeName : String) : vtkXMLDataElement :=
  vtkXMLDataElement.mk "PlusConfiguration" []
    [vtkXMLDataElement.mk "VolumeReconstruction"
      [("OutputSpacing", "1 1 1"), ("FillHoles", "On")]
      [vtkXMLDataElement.mk "HoleFilling" []
        [vtkXMLDataElement.mk "HoleFillingElement"
          [("Type", typeName), ("Stdev", "0.5"), ("Size", "2"),
            ("MinimumKnownVoxelsRatio", "0.5"), ("StickLengthLimit", "2"),
            ("NumberOfSticksToUse", "2")] []]]]

/-- A configuration with hole filling on whose `HoleFilling` element holds a Gaussian kernel
element, an element of another name and a stick kernel element, in this order. -/
def sampleTwoKernelConfiguration : vtkXMLDataElement :=
  vtkXMLDataElement.mk "PlusConfiguration" []
    [vtkXMLDataElement.mk "VolumeReconstruction"
      [("OutputSpacing", "1 1 1"), ("FillHoles", "On")]
      [vtkXMLDataElement.mk "HoleFilling" []
        [vtkXMLDataElement.mk "HoleFillingElement"
          [("Type", "GAUSSIAN"), ("Stdev", "0.5"), ("Size", "2"),
            ("MinimumKnownVoxelsRatio", "0.5")] [],
         vtkXMLDataElement.mk "Remark" [] [],
         vtkXMLDataElement.mk "HoleFillingElement"
          [("Type", "Stick"), ("StickLengthLimit", "2"), ("NumberOfSticksToUse", "2")] []]]]

/-- Sample collaborators whose integer parser also knows the text `0`. -/
def sampleSkipCollaborators : Collaborators SampleRepository :=
  { sampleCollaborators with
      ParseInts := fun text => if text = "0" then [0] else sampleCollaborators.ParseInts text }

/-- A configuration whose `SkipInterval` attribute has the given text. -/
def sampleSkipConfiguration (skipInterval : String) : vtkXMLDataElement :=
  vtkXMLDataElement.mk "PlusConfiguration" []
    [vtkXMLDataElement.mk "VolumeReconstruction"
      [("OutputSpacing", "1 1 1"), ("SkipInterval", skipInterval)] []]

/-- A volume of two voxels with two components each: gray levels 10 and 20, alpha values
255 and 0, of type unsigned char. -/
def sampleTwoComponentVolume : vtkImageData :=
  { Extent := { i0 := 0, i1 := 1, i2 := 0, i3 := 0, i4 := 0, i5 := 0 }
    Origin := { d0 := 0, d1 := 0, d2 := 0 }
    Spacing := { d0 := 1, d1 := 1, d2 := 1 }
    ScalarType := VTK_UNSIGNED_CHAR
    NumberOfScalarComponents := 2
    Scalars := [10, 255, 20, 0] }

/-- A reconstructor as constructed whose slice paster holds the two-component volume. -/
def sampleTwoComponentReconstructor : vtkVolumeReconstructor :=
  { sampleReconstructor with
      Reconstructor := { samplePaster with ReconstructedVolume := sampleTwoComponentVolume } }

/-! ## The capture device -/

/-- C array `int[4]`. -/
structure Int4 where
  i0 : Int
  i1 : Int
  i2 : Int
  i3 : Int
  deriving DecidableEq, Repr

/-- Modelled from the spec: `vtkTrackedFrameList` (not among the sources): the frames in the
order in which they were added and the map of custom strings of the list. -/
structure vtkTrackedFrameList where
  TrackedFrameList : List TrackedFrame
  CustomFields : List (String × String)
  deriving DecidableEq, Repr

/-- Modelled from the spec: `vtkTrackedFrameList::GetNumberOfTrackedFrames` (not among the
sources): the number of frames of the list. -/
def vtkTrackedFrameList.GetNumberOfTrackedFrames (self : vtkTrackedFrameList) : Int :=
  (self.TrackedFrameList.length : Int)

/-- Modelled from the spec: `vtkTrackedFrameList::GetTrackedFrame(frameNumber)` (not among the
sources): the frame at that position, `none` (NULL) when there is none. -/
def vtkTrackedFrameList.GetTrackedFrame (self : vtkTrackedFrameList) (frameNumber : Int) :
    Option TrackedFrame :=
  if frameNumber < 0 then none else self.TrackedFrameList[frameNumber.toNat]?

/-- Modelled from the spec: `vtkTrackedFrameList::Clear` (not among the sources): every frame
is removed from the list. -/
def vtkTrackedFrameList.Clear (self : vtkTrackedFrameList) : vtkTrackedFrameList :=
  { self with TrackedFrameList := [] }

/-- Modelled from the spec: `vtkTrackedFrameList::SetCustomString(fieldName, fieldValue)` (not
among the sources): the custom string of that name is set to the value. -/
def vtkTrackedFrameList.SetCustomString (self : vtkTrackedFrameList)
    (fieldName fieldValue : String) : vtkTrackedFrameList :=
  { self with
      CustomFields :=
        self.CustomFields.filter (fun f => decide (f.1 ≠ fieldName))
          ++ [(fieldName, fieldValue)] }

/-- Modelled from the spec: `vtkTrackedFrameList::GetCustomString(fieldName)` (not among the
sources): the custom string of that name, `none` (NULL) when it was never set. -/
def vtkTrackedFrameList.GetCustomString (self : vtkTrackedFrameList) (fieldName : String) :
    Option String :=
  (self.CustomFields.find? (fun f => decide (f.1 = fieldName))).map (fun f => f.2)

/-- The members of `vtkMetaImageSequenceIO` (vtkMetaImageSequenceIO.h, lines 180-204) that
the capture device sets or reads. `TrackedFrameList` is the list the pointer of line 181
designates when that is a list of the writer's own; it is `none` when the pointer designates
the list `m_RecordedFrames` of the capture device, which hands it over at line 172 of
vtkVirtualDiscCapture.cxx. -/
structure vtkMetaImageSequenceIO where
  TrackedFrameList : Option vtkTrackedFrameList
  FileName : String
  UseCompression : Bool
  Dimensions : Int4
  Output2DDataWithZDimensionIncluded : Bool
  deriving DecidableEq, Repr

/-- Modelled from the spec: `vtkPlusChannel` (not among the sources): a channel is known by
its identifier and by the acquisition rate of the device that owns it
(`GetOwnerDevice()->GetAcquisitionRate()`); the frames it delivers come from the
environment. -/
structure vtkPlusChannel where
  ChannelId : String
  OwnerDeviceAcquisitionRate : ℚ
  deriving DecidableEq, Repr

/-- Log levels of `vtkPlusLogger`. -/
inductive LogLevelType where
  | LOG_LEVEL_ERROR
  | LOG_LEVEL_WARNING
  | LOG_LEVEL_INFO
  | LOG_LEVEL_DEBUG
  | LOG_LEVEL_TRACE
  deriving DecidableEq, Repr

/-- Status of a field of a tracked frame (`TrackedFrameFieldStatus`). -/
inductive TrackedFrameFieldStatus where
  | FIELD_OK
  | FIELD_INVALID
  deriving DecidableEq, Repr

/-- What the capture device asks of the writer, of the file system and of its base class, in
the order of the requests. A writer call is recorded with its outcome; the two append calls
also with the value of `m_HeaderPrepared` at the call, `AppendImages` with the value of the
writer's `UseCompression` and the number of frames of the list at the call;
`UpdateFieldInImageHeader` with the value that the custom string of that name has at the
call. -/
inductive CaptureEvent where
  | SetFileName (aFilename : String)
  | PrepareHeader (status : PlusStatus)
  | AppendImagesToHeader (headerPrepared : Bool) (status : PlusStatus)
  | AppendImages (headerPrepared : Bool) (useCompression : Bool) (frames : Nat)
      (status : PlusStatus)
  | UpdateFieldInImageHeader (fieldName : String) (fieldValue : Option String)
  | FinalizeHeader
  | Close
  | PrintXML (configFileName : String)
  | ReaderRead (fullPath : String) (status : PlusStatus)
  | ReaderWrite (fullPath : String) (useCompression : Bool) (status : PlusStatus)
  | RemoveFile (aFilename : String)
  | Disconnect
  deriving DecidableEq, Repr

/-- The members of the base class `vtkPlusDevice` (not among the sources) that
vtkVirtualDiscCapture.cxx reads or sets. -/
structure vtkPlusDevice where
  InputChannels : List vtkPlusChannel
  OutputChannels : List vtkPlusChannel
  AcquisitionRate : ℚ
  MissingInputGracePeriodSec : ℚ
  StartThreadForInternalUpdates : Bool
  RecordingStartTime : ℚ
  deriving DecidableEq, Repr

/-- The state of a `vtkVirtualDiscCapture`: the members that vtkVirtualDiscCapture.cxx
initialises at lines 24-50 (the header is not among the sources; the counters are taken as
signed numbers without wrap-around). `Trace` is not a member of the class: it records the
requests of the device in their order. -/
structure vtkVirtualDiscCapture extends vtkPlusDevice where
  m_RecordedFrames : vtkTrackedFrameList
  m_LastAlreadyRecordedFrameTimestamp : ℚ
  m_NextFrameToBeRecordedTimestamp : ℚ
  m_SamplingFrameRate : Int
  RequestedFrameRate : ℚ
  ActualFrameRate : ℚ
  m_FirstFrameIndexInThisSegment : Int
  m_TimeWaited : ℚ
  m_LastUpdateTime : ℚ
  BaseFilename : String
  m_CurrentFilename : String
  m_Writer : vtkMetaImageSequenceIO
  EnableFileCompression : Bool
  m_HeaderPrepared : Bool
  TotalFramesRecorded : Int
  EnableCapturing : Bool
  FrameBufferSize : Int
  GracePeriodLogLevel : LogLevelType
  Trace : List CaptureEvent
  deriving DecidableEq, Repr

/-- The code that vtkVirtualDiscCapture.cxx calls and that is not among the sources, with
the outcome of each call: the writer (`PrepareHeader`, `AppendImagesToHeader` and
`AppendImages` of `vtkMetaImageSequenceIO`, each given the writer and the list it works on
and returning its status and the `Dimensions` member after the call; `ReaderRead` and
`ReaderWrite` are `Read` and `Write` of the second writer object that `CompressFile` creates
for the given path), the base class (`Disconnect`, `HasGracePeriodExpired` of
`vtkPlusDevice`), the input channel (`GetTrackedFrame`, `GetTrackedFrameListSampled` of
`vtkPlusChannel`, the latter returning its status, the two timestamps and the list after the
call), the frame list (`AddTrackedFrame` with `SKIP_INVALID_FRAME`), the tracked frame
(`GetCustomFrameTransformNameList`, `GetCustomFrameTransformStatus`, the latter giving the
value of `status` after the call), the clock (`GetSystemTime` of `vtkAccurateTimer`, by the
source line of the call) and the file name functions of `vtksys::SystemTools`,
`vtkPlusConfig` and `PlusCommon`. -/
structure CaptureEnvironment where
  PrepareHeader : vtkMetaImageSequenceIO → vtkTrackedFrameList → PlusStatus × Int4
  AppendImagesToHeader : vtkMetaImageSequenceIO → vtkTrackedFrameList → PlusStatus × Int4
  AppendImages : vtkMetaImageSequenceIO → vtkTrackedFrameList → PlusStatus × Int4
  ReaderRead : String → PlusStatus
  ReaderWrite : String → PlusStatus
  Disconnect : vtkVirtualDiscCapture → vtkVirtualDiscCapture
  HasGracePeriodExpired : vtkVirtualDiscCapture → Bool
  GetTrackedFrame : vtkPlusChannel → PlusStatus × TrackedFrame
  GetTrackedFrameListSampled :
    vtkPlusChannel → ℚ → ℚ → vtkTrackedFrameList → ℚ → ℚ →
      PlusStatus × ℚ × ℚ × vtkTrackedFrameList
  AddTrackedFrame : vtkTrackedFrameList → TrackedFrame → PlusStatus × vtkTrackedFrameList
  GetCustomFrameTransformNameList : TrackedFrame → List PlusTransformName
  GetCustomFrameTransformStatus : TrackedFrame → PlusTransformName → TrackedFrameFieldStatus
  GetSystemTime : Nat → ℚ
  GetCurrentDateTime : String → String
  GetFilenameWithoutExtension : String → String
  GetFilenameExtension : String → String
  GetFilenamePath : String → String
  GetOutputPath : String → String
  CreateTemporaryFilename : PlusStatus × String

/-- Constant `UNDEFINED_TIMESTAMP` of PlusCommon (not among the sources): the largest
`double`. -/
def UNDEFINED_TIMESTAMP : ℚ := VTK_DOUBLE_MAX

/-- Constant `MAX_ALLOWED_RECORDING_LAG_SEC` (line 20). -/
def MAX_ALLOWED_RECORDING_LAG_SEC : Int := 3

/-- Constant `DISABLE_FRAME_BUFFER` (line 21). -/
def DISABLE_FRAME_BUFFER : Int := -1

/-- Constructor `vtkVirtualDiscCapture::vtkVirtualDiscCapture` (lines 24-50), given the
members as the constructor of the base class leaves them and the freshly created writer; the
file name of the current segment starts empty and nothing has been requested yet. -/
def vtkVirtualDiscCapture.New (device : vtkPlusDevice) (writer : vtkMetaImageSequenceIO) :
    vtkVirtualDiscCapture :=
  { InputChannels := device.InputChannels
    OutputChannels := device.OutputChannels
    AcquisitionRate := device.AcquisitionRate
    MissingInputGracePeriodSec := 2
    StartThreadForInternalUpdates := true
    RecordingStartTime := device.RecordingStartTime
    m_RecordedFrames := { TrackedFrameList := [], CustomFields := [] }
    m_LastAlreadyRecordedFrameTimestamp := UNDEFINED_TIMESTAMP
    m_NextFrameToBeRecordedTimestamp := 0
    m_SamplingFrameRate := 8
    RequestedFrameRate := 0
    ActualFrameRate := 0
    m_FirstFrameIndexInThisSegment := 0
    m_TimeWaited := 0
    m_LastUpdateTime := 0
    BaseFilename := "TrackedImageSequence.mha"
    m_CurrentFilename := ""
    m_Writer := writer
    EnableFileCompression := false
    m_HeaderPrepared := false
    TotalFramesRecorded := 0
    EnableCapturing := false
    FrameBufferSize := DISABLE_FRAME_BUFFER
    GracePeriodLogLevel := LogLevelType.LOG_LEVEL_DEBUG
    Trace := [] }

/-- The list that `m_Writer->GetTrackedFrameList()` designates. -/
def vtkVirtualDiscCapture.GetWriterTrackedFrameList (self : vtkVirtualDiscCapture) :
    vtkTrackedFrameList :=
  match self.m_Writer.TrackedFrameList with
  | none => self.m_RecordedFrames
  | some list => list

/-- The device after the list that `m_Writer->GetTrackedFrameList()` designates was changed
to `list`. -/
def vtkVirtualDiscCapture.SetWriterTrackedFrameList (self : vtkVirtualDiscCapture)
    (list : vtkTrackedFrameList) : vtkVirtualDiscCapture :=
  match self.m_Writer.TrackedFrameList with
  | none => { self with m_RecordedFrames := list }
  | some _ => { self with m_Writer := { self.m_Writer with TrackedFrameList := some list } }

/-- The device after a request was recorded. -/
def vtkVirtualDiscCapture.Record (self : vtkVirtualDiscCapture) (event : CaptureEvent) :
    vtkVirtualDiscCapture :=
  { self with Trace := self.Trace ++ [event] }

/-- Call `m_Writer->SetFileName(aFilename)`: the writer takes the file name (its status is
not looked at). -/
def vtkVirtualDiscCapture.WriterSetFileName (self : vtkVirtualDiscCapture)
    (aFilename : String) : vtkVirtualDiscCapture :=
  ({ self with m_Writer := { self.m_Writer with FileName := aFilename } }
    : vtkVirtualDiscCapture).Record (CaptureEvent.SetFileName aFilename)

/-- Call `this->Disconnect()` of the base class: the request is recorded and the base class
does to the device what the environment says. -/
def vtkVirtualDiscCapture.Disconnect (E : CaptureEnvironment) (self : vtkVirtualDiscCapture) :
    vtkVirtualDiscCapture :=
  E.Disconnect (self.Record CaptureEvent.Disconnect)

/-- Method `vtkVirtualDiscCapture::ClearRecordedFrames` (lines 413-418); it always returns
`PLUS_SUCCESS`. -/
def ClearRecordedFrames (self : vtkVirtualDiscCapture) : vtkVirtualDiscCapture :=
  { self with m_RecordedFrames := self.m_RecordedFrames.Clear }

/-- Method `vtkVirtualDiscCapture::IsFrameBuffered` (lines 540-543). -/
def IsFrameBuffered (self : vtkVirtualDiscCapture) : Bool :=
  decide (self.FrameBufferSize ≠ DISABLE_FRAME_BUFFER)

/-- Method `vtkVirtualDiscCapture::HasUnsavedData` (lines 407-410). -/
def HasUnsavedData (self : vtkVirtualDiscCapture) : Bool := self.m_HeaderPrepared

/-- Method `vtkVirtualDiscCapture::GetSamplingPeriodSec` (lines 435-447). -/
def GetSamplingPeriodSec (self : vtkVirtualDiscCapture) : ℚ :=
  if self.m_SamplingFrameRate > 0 then 1 / (self.m_SamplingFrameRate : ℚ) else 1 / 10

/-- Method `vtkVirtualDiscCapture::SetEnableCapturing` (lines 450-463). -/
def SetEnableCapturing (E : CaptureEnvironment) (self : vtkVirtualDiscCapture)
    (aValue : Bool) : vtkVirtualDiscCapture :=
  let self1 : vtkVirtualDiscCapture := { self with EnableCapturing := aValue }
  if aValue then
    { self1 with
        m_LastUpdateTime := 0
        m_TimeWaited := 0
        m_LastAlreadyRecordedFrameTimestamp := UNDEFINED_TIMESTAMP
        m_NextFrameToBeRecordedTimestamp := 0
        m_FirstFrameIndexInThisSegment := 0
        RecordingStartTime := E.GetSystemTime 461 }
  else self1

/-- Method `vtkVirtualDiscCapture::OpenFile` (lines 166-194). -/
def OpenFile (E : CaptureEnvironment) (self : vtkVirtualDiscCapture)
    (aFilename : Option String) : PlusStatus × vtkVirtualDiscCapture :=
  let self1 : vtkVirtualDiscCapture :=
    { self with m_Writer := { self.m_Writer with UseCompression := false } }
  let self2 : vtkVirtualDiscCapture :=
    { self1 with m_Writer := { self1.m_Writer with TrackedFrameList := none } }
  let generated : String :=
    let filenameRoot := E.GetFilenameWithoutExtension self2.BaseFilename
    let ext := E.GetFilenameExtension self2.BaseFilename
    let ext1 := if ext.isEmpty then ".mha" else ext
    filenameRoot ++ "_" ++ E.GetCurrentDateTime "%Y%m%d_%H%M%S" ++ ext1
  let self3 : vtkVirtualDiscCapture :=
    match aFilename with
    | none => { self2 with m_CurrentFilename := generated }
    | some name =>
      if name.length = 0 then { self2 with m_CurrentFilename := generated }
      else { self2 with m_CurrentFilename := name }
  (PLUS_SUCCESS, self3.WriterSetFileName self3.m_CurrentFilename)

/-- Method `vtkVirtualDiscCapture::CompressFile` (lines 355-380): a second writer object
reads the file at the output path of `BaseFilename` and writes it there with compression. -/
def CompressFile (E : CaptureEnvironment) (self : vtkVirtualDiscCapture) :
    PlusStatus × vtkVirtualDiscCapture :=
  let fullPath := E.GetOutputPath self.BaseFilename
  let self1 := self.Record (CaptureEvent.ReaderRead fullPath (E.ReaderRead fullPath))
  if E.ReaderRead fullPath ≠ PLUS_SUCCESS then (PLUS_FAIL, self1)
  else
    let self2 := self1.Record (CaptureEvent.ReaderWrite fullPath true (E.ReaderWrite fullPath))
    if E.ReaderWrite fullPath ≠ PLUS_SUCCESS then (PLUS_FAIL, self2)
    else (PLUS_SUCCESS, self2)

/-- Lines 612-621 of `WriteFrames`: the header is prepared when it was not and there are
frames; the status is `PLUS_FAIL` when `PrepareHeader` failed, before `Disconnect` is
called. -/
def WriteFrames_header (E : CaptureEnvironment) (self : vtkVirtualDiscCapture) :
    PlusStatus × vtkVirtualDiscCapture :=
  if !self.m_HeaderPrepared && self.m_RecordedFrames.GetNumberOfTrackedFrames ≠ 0 then
    let p := E.PrepareHeader self.m_Writer self.GetWriterTrackedFrameList
    let self1 : vtkVirtualDiscCapture :=
      ({ self with m_Writer := { self.m_Writer with Dimensions := p.2 } }
        : vtkVirtualDiscCapture).Record (CaptureEvent.PrepareHeader p.1)
    if p.1 ≠ PLUS_SUCCESS then (PLUS_FAIL, self1)
    else (PLUS_SUCCESS, { self1 with m_HeaderPrepared := true })
  else (PLUS_SUCCESS, self)

/-- Lines 623-647 of `WriteFrames`: the actual frame rate is computed from the timestamps of
the latest frame and of an earlier frame of the list. -/
def WriteFrames_frameRate (self : vtkVirtualDiscCapture) : vtkVirtualDiscCapture :=
  let frame1Index : Int := self.m_RecordedFrames.GetNumberOfTrackedFrames - 1
  let frame2Index : Int := truncToInt ((frame1Index : ℚ) - self.RequestedFrameRate * 5 - 1)
  let frame2Index1 : Int :=
    if frame2Index < self.m_FirstFrameIndexInThisSegment then
      self.m_FirstFrameIndexInThisSegment
    else frame2Index
  if frame1Index > frame2Index1 then
    match self.m_RecordedFrames.GetTrackedFrame frame1Index,
      self.m_RecordedFrames.GetTrackedFrame frame2Index1 with
    | some frame1, some frame2 =>
      let frameTimeDiff := frame1.Timestamp - frame2.Timestamp
      if frameTimeDiff > 0 then
        { self with
            ActualFrameRate := ((frame1Index - frame2Index1 : Int) : ℚ) / frameTimeDiff }
      else { self with ActualFrameRate := 0 }
    | _, _ => self
  else self

/-- The test of lines 654-655 of `WriteFrames`: the frames are written now. -/
def WriteFrames_flushes (self : vtkVirtualDiscCapture) (force : Bool) : Bool :=
  force || !IsFrameBuffered self ||
    (IsFrameBuffered self &&
      decide (self.m_RecordedFrames.GetNumberOfTrackedFrames > self.FrameBufferSize))

/-- Lines 657-670 of `WriteFrames`, which are also lines 146-159 of `InternalDisconnect`:
the recorded frames are appended to the header and to the image data, and the list is
cleared; the status is `PLUS_FAIL` when one of the two calls failed, before `Disconnect` is
called. -/
def AppendRecordedFrames (E : CaptureEnvironment) (self : vtkVirtualDiscCapture) :
    PlusStatus × vtkVirtualDiscCapture :=
  let a := E.AppendImagesToHeader self.m_Writer self.GetWriterTrackedFrameList
  let self1 : vtkVirtualDiscCapture :=
    ({ self with m_Writer := { self.m_Writer with Dimensions := a.2 } }
      : vtkVirtualDiscCapture).Record
      (CaptureEvent.AppendImagesToHeader self.m_HeaderPrepared a.1)
  if a.1 ≠ PLUS_SUCCESS then (PLUS_FAIL, self1)
  else
    let b := E.AppendImages self1.m_Writer self1.GetWriterTrackedFrameList
    let self2 : vtkVirtualDiscCapture :=
      ({ self1 with m_Writer := { self1.m_Writer with Dimensions := b.2 } }
        : vtkVirtualDiscCapture).Record
        (CaptureEvent.AppendImages self1.m_HeaderPrepared self1.m_Writer.UseCompression
          self1.GetWriterTrackedFrameList.TrackedFrameList.length b.1)
    if b.1 ≠ PLUS_SUCCESS then (PLUS_FAIL, self2)
    else (PLUS_SUCCESS, ClearRecordedFrames self2)

/-- Method `vtkVirtualDiscCapture::WriteFrames` (lines 610-674). -/
def WriteFrames (E : CaptureEnvironment) (self : vtkVirtualDiscCapture) (force : Bool) :
    PlusStatus × vtkVirtualDiscCapture :=
  let h := WriteFrames_header E self
  if h.1 ≠ PLUS_SUCCESS then (PLUS_FAIL, h.2.Disconnect E)
  else
    let self2 := WriteFrames_frameRate h.2
    if self2.m_RecordedFrames.GetNumberOfTrackedFrames = 0 then (PLUS_SUCCESS, self2)
    else if WriteFrames_flushes self2 force then
      let w := AppendRecordedFrames E self2
      if w.1 ≠ PLUS_SUCCESS then (PLUS_FAIL, w.2.Disconnect E) else (PLUS_SUCCESS, w.2)
    else (PLUS_SUCCESS, self2)

/-- Lines 208-219 of `CloseFile`: the file name given is handed to the writer and the frames
not written yet are written. The first component is the status of that `WriteFrames` call
(`PLUS_SUCCESS` when there was nothing to write); `CloseFile` does not look at it. -/
def CloseFile_flush (E : CaptureEnvironment) (self : vtkVirtualDiscCapture)
    (aFilename : Option String) : PlusStatus × vtkVirtualDiscCapture :=
  let self1 : vtkVirtualDiscCapture :=
    match aFilename with
    | none => self
    | some name =>
      if name.length ≠ 0 then { self.WriterSetFileName name with m_CurrentFilename := name }
      else self
  if self1.m_RecordedFrames.GetNumberOfTrackedFrames ≠ 0 then WriteFrames E self1 true
  else (PLUS_SUCCESS, self1)

/-- Lines 221-226 of `CloseFile`: the text of `dimSizeStr`, the first two dimensions of the
writer and the number of frames recorded, separated by blanks. -/
def CloseFile_dimSizeStr (self : vtkVirtualDiscCapture) : String :=
  toString self.m_Writer.Dimensions.i0 ++ " " ++ toString self.m_Writer.Dimensions.i1 ++ " "
    ++ toString self.TotalFramesRecorded

/-- Lines 221-237 of `CloseFile`: the `DimSize` string of the list is set and written to
the header, the header is finalised, the writer is closed and the configuration is printed
next to the file. -/
def CloseFile_finalize (E : CaptureEnvironment) (self : vtkVirtualDiscCapture) :
    vtkVirtualDiscCapture :=
  let self1 :=
    self.SetWriterTrackedFrameList
      (self.GetWriterTrackedFrameList.SetCustomString "DimSize" (CloseFile_dimSizeStr self))
  let self2 :=
    ((self1.Record
      (CaptureEvent.UpdateFieldInImageHeader "DimSize"
        (self1.GetWriterTrackedFrameList.GetCustomString "DimSize"))).Record
      CaptureEvent.FinalizeHeader).Record CaptureEvent.Close
  let fullPath := E.GetOutputPath self2.m_CurrentFilename
  let path := E.GetFilenamePath fullPath
  let filename := E.GetFilenameWithoutExtension fullPath
  let configFileName := path ++ "/" ++ filename ++ "_config.xml"
  self2.Record (CaptureEvent.PrintXML configFileName)

/-- Lines 239-246 of `CloseFile`: the file is compressed when file compression is enabled;
the status is that of `CompressFile`, `PLUS_SUCCESS` when it was not called. -/
def CloseFile_compress (E : CaptureEnvironment) (self : vtkVirtualDiscCapture) :
    PlusStatus × vtkVirtualDiscCapture :=
  if self.EnableFileCompression then CompressFile E self else (PLUS_SUCCESS, self)

/-- Lines 248-250 of `CloseFile`: no header is prepared, no frame is counted and the list of
recorded frames is empty. -/
def CloseFile_reset (self : vtkVirtualDiscCapture) : vtkVirtualDiscCapture :=
  { self with
      m_HeaderPrepared := false
      TotalFramesRecorded := 0
      m_RecordedFrames := self.m_RecordedFrames.Clear }

/-- Method `vtkVirtualDiscCapture::CloseFile` (lines 197-258). -/
def CloseFile (E : CaptureEnvironment) (self : vtkVirtualDiscCapture)
    (aFilename : Option String) : PlusStatus × vtkVirtualDiscCapture :=
  if !self.m_HeaderPrepared then (PLUS_SUCCESS, self)
  else
    let self5 := CloseFile_finalize E (CloseFile_flush E self aFilename).2
    let c := CloseFile_compress E self5
    if c.1 ≠ PLUS_SUCCESS then (PLUS_FAIL, c.2)
    else
      let o := OpenFile E (CloseFile_reset c.2) none
      if o.1 ≠ PLUS_SUCCESS then (PLUS_FAIL, o.2) else (PLUS_SUCCESS, o.2)

/-- Method `vtkVirtualDiscCapture::InternalConnect` (lines 106-136). -/
def InternalConnect (E : CaptureEnvironment) (self : vtkVirtualDiscCapture) :
    PlusStatus × vtkVirtualDiscCapture :=
  let lowest : Bool × ℚ :=
    self.InputChannels.foldl
      (fun (known : Bool × ℚ) (anInputStream : vtkPlusChannel) =>
        if anInputStream.OwnerDeviceAcquisitionRate < known.2 || !known.1 then
          (true, anInputStream.OwnerDeviceAcquisitionRate)
        else known)
      (false, 30)
  let self1 : vtkVirtualDiscCapture :=
    if lowest.1 then { self with AcquisitionRate := lowest.2 } else self
  let o := OpenFile E self1 none
  if o.1 ≠ PLUS_SUCCESS then (PLUS_FAIL, o.2)
  else (PLUS_SUCCESS, { o.2 with m_LastUpdateTime := E.GetSystemTime 133 })

/-- Method `vtkVirtualDiscCapture::InternalDisconnect` (lines 139-163). -/
def InternalDisconnect (E : CaptureEnvironment) (self : vtkVirtualDiscCapture) :
    PlusStatus × vtkVirtualDiscCapture :=
  let self1 : vtkVirtualDiscCapture := { self with EnableCapturing := false }
  if self1.m_RecordedFrames.GetNumberOfTrackedFrames ≠ 0 && self1.m_HeaderPrepared then
    let w := AppendRecordedFrames E self1
    if w.1 ≠ PLUS_SUCCESS then (PLUS_FAIL, w.2.Disconnect E)
    else CloseFile E w.2 none
  else CloseFile E self1 none

/-- Method `vtkVirtualDiscCapture::GetInputTrackedFrame` (lines 685-694). -/
def GetInputTrackedFrame (E : CaptureEnvironment) (self : vtkVirtualDiscCapture)
    (aFrame : TrackedFrame) : PlusStatus × TrackedFrame :=
  match self.OutputChannels with
  | [] => (PLUS_FAIL, aFrame)
  | channel :: _ => E.GetTrackedFrame channel

/-- Method `vtkVirtualDiscCapture::GetInputTrackedFrameListSampled` (lines 697-706), called
at line 314 with the two timestamp members and `m_RecordedFrames`: the status and the device
with the timestamps and the list as the channel leaves them. -/
def GetInputTrackedFrameListSampled (E : CaptureEnvironment) (self : vtkVirtualDiscCapture)
    (requestedFramePeriodSec maxProcessingTimeSec : ℚ) : PlusStatus × vtkVirtualDiscCapture :=
  match self.OutputChannels with
  | [] => (PLUS_FAIL, self)
  | channel :: _ =>
    let g :=
      E.GetTrackedFrameListSampled channel self.m_LastAlreadyRecordedFrameTimestamp
        self.m_NextFrameToBeRecordedTimestamp self.m_RecordedFrames requestedFramePeriodSec
        maxProcessingTimeSec
    (g.1,
      { self with
          m_LastAlreadyRecordedFrameTimestamp := g.2.1
          m_NextFrameToBeRecordedTimestamp := g.2.2.1
          m_RecordedFrames := g.2.2.2 })

/-- What lines 264-318 of `InternalUpdate` lead to: the method has returned, or the frames
have been sampled and are about to be written. -/
inductive InternalUpdateSampling where
  | returned (status : PlusStatus) (self : vtkVirtualDiscCapture)
  | sampled (self : vtkVirtualDiscCapture) (startTimeSec : ℚ)
      (nbFramesBefore nbFramesAfter : Int)

/-- Lines 264-318 of `InternalUpdate`: the time waited is accumulated and, when the sampling
period has passed, the frames of the input channel are added to the recorded frames. -/
def InternalUpdate_sample (E : CaptureEnvironment) (self : vtkVirtualDiscCapture) :
    InternalUpdateSampling :=
  if !self.EnableCapturing then InternalUpdateSampling.returned PLUS_SUCCESS self
  else
    let self1 : vtkVirtualDiscCapture :=
      if self.m_LastUpdateTime = 0 then { self with m_LastUpdateTime := E.GetSystemTime 272 }
      else self
    let self2 : vtkVirtualDiscCapture :=
      if self1.m_NextFrameToBeRecordedTimestamp = 0 then
        { self1 with m_NextFrameToBeRecordedTimestamp := E.GetSystemTime 276 }
      else self1
    let startTimeSec := E.GetSystemTime 278
    let self3 : vtkVirtualDiscCapture :=
      { self2 with m_TimeWaited := self2.m_TimeWaited + (startTimeSec - self2.m_LastUpdateTime) }
    if self3.m_TimeWaited < GetSamplingPeriodSec self3 then
      InternalUpdateSampling.returned PLUS_SUCCESS self3
    else
      let self4 : vtkVirtualDiscCapture := { self3 with m_TimeWaited := 0 }
      let maxProcessingTimeSec := GetSamplingPeriodSec self4 * 2
      let requestedFramePeriodSec : ℚ :=
        if self4.RequestedFrameRate > 0 then 1 / self4.RequestedFrameRate else 1 / 10
      let self5 : vtkVirtualDiscCapture :=
        if E.HasGracePeriodExpired self4 then
          { self4 with GracePeriodLogLevel := LogLevelType.LOG_LEVEL_WARNING }
        else self4
      if !self5.EnableCapturing then InternalUpdateSampling.returned PLUS_SUCCESS self5
      else
        let nbFramesBefore := self5.m_RecordedFrames.GetNumberOfTrackedFrames
        let g :=
          GetInputTrackedFrameListSampled E self5 requestedFramePeriodSec maxProcessingTimeSec
        let nbFramesAfter := g.2.m_RecordedFrames.GetNumberOfTrackedFrames
        InternalUpdateSampling.sampled g.2 startTimeSec nbFramesBefore nbFramesAfter

/-- Method `vtkVirtualDiscCapture::InternalUpdate` (lines 262-351). -/
def InternalUpdate (E : CaptureEnvironment) (self : vtkVirtualDiscCapture) :
    PlusStatus × vtkVirtualDiscCapture :=
  match InternalUpdate_sample E self with
  | InternalUpdateSampling.returned status self1 => (status, self1)
  | InternalUpdateSampling.sampled self6 _ nbFramesBefore nbFramesAfter =>
    let w := WriteFrames E self6 false
    if w.1 ≠ PLUS_SUCCESS then (PLUS_FAIL, w.2)
    else
      let self7 : vtkVirtualDiscCapture :=
        { w.2 with
            TotalFramesRecorded := w.2.TotalFramesRecorded + (nbFramesAfter - nbFramesBefore) }
      let recordingLagSec := E.GetSystemTime 341 - self7.m_NextFrameToBeRecordedTimestamp
      let self8 : vtkVirtualDiscCapture :=
        if recordingLagSec > (MAX_ALLOWED_RECORDING_LAG_SEC : ℚ) then
          { self7 with m_NextFrameToBeRecordedTimestamp := E.GetSystemTime 345 }
        else self7
      (PLUS_SUCCESS, { self8 with m_LastUpdateTime := E.GetSystemTime 348 })

/-- Lines 548-596 of `TakeSnapshot`: the frame of the input channel is checked and added to
the recorded frames; `none` when the method returned `PLUS_FAIL` before the frame was handed
to the list, otherwise the status of `AddTrackedFrame` and the device with the list as that
call leaves it. -/
def TakeSnapshot_add (E : CaptureEnvironment) (self : vtkVirtualDiscCapture)
    (trackedFrame : TrackedFrame) : Option (PlusStatus × vtkVirtualDiscCapture) :=
  if self.EnableCapturing then none
  else
    let g := GetInputTrackedFrame E self trackedFrame
    if g.1 ≠ PLUS_SUCCESS then none
    else
      let transformNames := E.GetCustomFrameTransformNameList g.2
      let validFrame : Bool :=
        if transformNames.length = 0 then true
        else
          transformNames.any
            (fun name =>
              decide (E.GetCustomFrameTransformStatus g.2 name
                = TrackedFrameFieldStatus.FIELD_OK))
      if !validFrame then none
      else
        let a := E.AddTrackedFrame self.m_RecordedFrames g.2
        some (a.1, { self with m_RecordedFrames := a.2 })

/-- Method `vtkVirtualDiscCapture::TakeSnapshot` (lines 546-607); `trackedFrame` is the
default-constructed frame of line 554. -/
def TakeSnapshot (E : CaptureEnvironment) (self : vtkVirtualDiscCapture)
    (trackedFrame : TrackedFrame) : PlusStatus × vtkVirtualDiscCapture :=
  match TakeSnapshot_add E self trackedFrame with
  | none => (PLUS_FAIL, self)
  | some (status, self1) =>
    if status ≠ PLUS_SUCCESS then (PLUS_FAIL, self1)
    else
      let w := WriteFrames E self1 false
      if w.1 ≠ PLUS_SUCCESS then (PLUS_FAIL, w.2)
      else (PLUS_SUCCESS, { w.2 with TotalFramesRecorded := w.2.TotalFramesRecorded + 1 })

/-- Method `vtkVirtualDiscCapture::Reset` (lines 492-537), named after its class because the
reconstructor has a `Reset` too. -/
def vtkVirtualDiscCapture.Reset (E : CaptureEnvironment) (self : vtkVirtualDiscCapture) :
    PlusStatus × vtkVirtualDiscCapture :=
  let self1 := SetEnableCapturing E self false
  let self2 : vtkVirtualDiscCapture :=
    if self1.m_HeaderPrepared then
      let t := E.CreateTemporaryFilename
      if t.1 ≠ PLUS_SUCCESS then self1
      else
        let mhaFilename := t.2.dropRight 3 ++ "mha"
        (((self1.WriterSetFileName mhaFilename).Record CaptureEvent.Close).Record
          (CaptureEvent.RemoveFile t.2)).Record (CaptureEvent.RemoveFile mhaFilename)
    else self1
  let self3 := ClearRecordedFrames self2
  let self4 := self3.SetWriterTrackedFrameList self3.GetWriterTrackedFrameList.Clear
  let self5 : vtkVirtualDiscCapture :=
    { self4 with m_HeaderPrepared := false, TotalFramesRecorded := 0 }
  let o := OpenFile E self5 none
  if o.1 ≠ PLUS_SUCCESS then (PLUS_FAIL, o.2)
  else (PLUS_SUCCESS, { o.2 with m_LastUpdateTime := E.GetSystemTime 534 })

/-! ## Notions used to state the properties of the capture device -/

/-- A step of a recording: a capture update or a snapshot, each in the environment it meets. -/
inductive CaptureStep where
  | update (E : CaptureEnvironment)
  | snapshot (E : CaptureEnvironment) (trackedFrame : TrackedFrame)

/-- The outcome of a step. -/
def CaptureStep.run : CaptureStep → vtkVirtualDiscCapture → PlusStatus × vtkVirtualDiscCapture
  | CaptureStep.update E, self => InternalUpdate E self
  | CaptureStep.snapshot E trackedFrame, self => TakeSnapshot E self trackedFrame

/-- The number of frames that a step adds to the recorded frames: the length of the list when
the step hands it to `WriteFrames` minus its length at the start of the step; 0 when the step
returns before. -/
def CaptureStep.framesAdded : CaptureStep → vtkVirtualDiscCapture → Int
  | CaptureStep.update E, self =>
    match InternalUpdate_sample E self with
    | InternalUpdateSampling.returned _ _ => 0
    | InternalUpdateSampling.sampled _ _ nbFramesBefore nbFramesAfter =>
      nbFramesAfter - nbFramesBefore
  | CaptureStep.snapshot E trackedFrame, self =>
    match TakeSnapshot_add E self trackedFrame with
    | none => 0
    | some (_, self1) =>
      self1.m_RecordedFrames.GetNumberOfTrackedFrames
        - self.m_RecordedFrames.GetNumberOfTrackedFrames

/-- The device after the steps, one after the other. -/
def runSteps : List CaptureStep → vtkVirtualDiscCapture → vtkVirtualDiscCapture
  | [], self => self
  | step :: rest, self => runSteps rest (step.run self).2

/-- Every step returns `PLUS_SUCCESS`. -/
def stepsSucceed : List CaptureStep → vtkVirtualDiscCapture → Bool
  | [], _ => true
  | step :: rest, self =>
    decide ((step.run self).1 = PLUS_SUCCESS) && stepsSucceed rest (step.run self).2

/-- Every snapshot among the steps adds one frame to the recorded frames. -/
def snapshotsAddOne : List CaptureStep → vtkVirtualDiscCapture → Bool
  | [], _ => true
  | step :: rest, self =>
    (match step with
      | CaptureStep.update _ => true
      | CaptureStep.snapshot _ _ => decide (step.framesAdded self = 1))
      && snapshotsAddOne rest (step.run self).2

/-- The sum `k_1 + ... + k_n` of the numbers of frames that the steps add. -/
def totalFramesAdded : List CaptureStep → vtkVirtualDiscCapture → Int
  | [], _ => 0
  | step :: rest, self => step.framesAdded self + totalFramesAdded rest (step.run self).2

/-- The request is a call of the write path (`PrepareHeader`, `AppendImagesToHeader` or
`AppendImages` of the writer) that did not succeed. -/
def CaptureEvent.failed : CaptureEvent → Bool
  | CaptureEvent.PrepareHeader status => decide (status ≠ PLUS_SUCCESS)
  | CaptureEvent.AppendImagesToHeader _ status => decide (status ≠ PLUS_SUCCESS)
  | CaptureEvent.AppendImages _ _ _ status => decide (status ≠ PLUS_SUCCESS)
  | _ => false

/-! ## Sample capture device -/

/-- Tracked frames with the timestamps `first`, `first + 1`, ... -/
def sampleFrames (first count : Nat) : List TrackedFrame :=
  (List.range count).map
    (fun i => { sampleFrame (translation 0 0 0) true with Timestamp := ((first + i : Nat) : ℚ) })

/-- A sample environment: the writer succeeds and reports frames of 640 x 480 pixels, the
input channel delivers the frames of `batch` at every sampling and its first frame for a
snapshot, the frame list accepts every frame, the base class leaves the device as it is on
`Disconnect`, a second passes between the clock readings of lines 272 and 278, and the file
name functions know the base file name. -/
def sampleCaptureEnvironment (batch : List TrackedFrame) : CaptureEnvironment :=
  { PrepareHeader := fun _ _ => (PLUS_SUCCESS, { i0 := 640, i1 := 480, i2 := 1, i3 := 0 })
    AppendImagesToHeader := fun writer _ => (PLUS_SUCCESS, writer.Dimensions)
    AppendImages := fun writer _ => (PLUS_SUCCESS, writer.Dimensions)
    ReaderRead := fun _ => PLUS_SUCCESS
    ReaderWrite := fun _ => PLUS_SUCCESS
    Disconnect := fun self => self
    HasGracePeriodExpired := fun _ => false
    GetTrackedFrame := fun _ => (PLUS_SUCCESS, batch.headD (sampleFrame (translation 0 0 0) true))
    GetTrackedFrameListSampled := fun _ lastAlreadyRecorded nextToBeRecorded recordedFrames _ _ =>
      (PLUS_SUCCESS, lastAlreadyRecorded, nextToBeRecorded,
        { recordedFrames with TrackedFrameList := recordedFrames.TrackedFrameList ++ batch })
    AddTrackedFrame := fun list frame =>
      (PLUS_SUCCESS, { list with TrackedFrameList := list.TrackedFrameList ++ [frame] })
    GetCustomFrameTransformNameList := fun _ => []
    GetCustomFrameTransformStatus := fun _ _ => TrackedFrameFieldStatus.FIELD_OK
    GetSystemTime := fun line => if line = 278 then 1001 else 1000
    GetCurrentDateTime := fun _ => "20140101_120000"
    GetFilenameWithoutExtension := fun _ => "TrackedImageSequence"
    GetFilenameExtension := fun _ => ".mha"
    GetFilenamePath := fun _ => "."
    GetOutputPath := fun name => "./" ++ name
    CreateTemporaryFilename := (PLUS_SUCCESS, "./capture.tmp") }

/-- The sample environment with a writer whose `AppendImages` fails. -/
def failingCaptureEnvironment (batch : List TrackedFrame) : CaptureEnvironment :=
  { sampleCaptureEnvironment batch with
      AppendImages := fun writer _ => (PLUS_FAIL, writer.Dimensions) }

/-- The sample environment with a writer whose `PrepareHeader` fails and a base class that
answers `Disconnect` by calling `InternalDisconnect`. -/
def failingPrepareEnvironment (batch : List TrackedFrame) : CaptureEnvironment :=
  { sampleCaptureEnvironment batch with
      PrepareHeader := fun writer _ => (PLUS_FAIL, writer.Dimensions)
      Disconnect := fun self => (InternalDisconnect (sampleCaptureEnvironment batch) self).2 }

/-- A writer as created, with a list of its own, and the 2D flag as given. -/
def sampleWriter (output2DDataWithZDimensionIncluded : Bool) : vtkMetaImageSequenceIO :=
  { TrackedFrameList := some { TrackedFrameList := [], CustomFields := [] }
    FileName := ""
    UseCompression := true
    Dimensions := { i0 := 0, i1 := 0, i2 := 0, i3 := 0 }
    Output2DDataWithZDimensionIncluded := output2DDataWithZDimensionIncluded }

/-- The base class members of a device with one channel, which is its input and its output. -/
def samplePlusDevice : vtkPlusDevice :=
  { InputChannels := [{ ChannelId := "VideoStream", OwnerDeviceAcquisitionRate := 30 }]
    OutputChannels := [{ ChannelId := "VideoStream", OwnerDeviceAcquisitionRate := 30 }]
    AcquisitionRate := 30
    MissingInputGracePeriodSec := 0
    StartThreadForInternalUpdates := false
    RecordingStartTime := 0 }

/-- A capture device that was constructed and connected (which opens a file), with capturing
switched on or off and the 2D flag of its writer as given. -/
def sampleCapture (enableCapturing output2DDataWithZDimensionIncluded : Bool) :
    vtkVirtualDiscCapture :=
  SetEnableCapturing (sampleCaptureEnvironment [])
    (InternalConnect (sampleCaptureEnvironment [])
      (vtkVirtualDiscCapture.New samplePlusDevice
        (sampleWriter output2DDataWithZDimensionIncluded))).2
    enableCapturing

/-- Two capture updates that add 3 and then 5 frames. -/
def sampleTwoBatches : List CaptureStep :=
  [CaptureStep.update (sampleCaptureEnvironment (sampleFrames 0 3)),
    CaptureStep.update (sampleCaptureEnvironment (sampleFrames 3 5))]

/-- One capture update that adds 8 frames. -/
def sampleOneBatch : List CaptureStep :=
  [CaptureStep.update (sampleCaptureEnvironment (sampleFrames 0 8))]

/-! ## Further notions and samples of the reconstructor -/

/-- Sample collaborators whose `ResetOutput` empties the raw volume and the accumulation
buffer; the rest is `sampleCollaborators`. -/
def clearingCollaborators : Collaborators SampleRepository :=
  { sampleCollaborators with
      ResetOutput := fun _ =>
        (ResetOutputResult.returned PLUS_SUCCESS, vtkImageData.New, vtkImageData.New) }

/-- A reconstructor as constructed whose slice paster holds a 2 x 2 raw volume with four
voxels of value 7. -/
def sampleFilledReconstructor : vtkVolumeReconstructor :=
  { sampleReconstructor with
      Reconstructor :=
        { samplePaster with
            ReconstructedVolume := { sampleImage 1 1 3 with Scalars := [7, 7, 7, 7] } } }

/-- The attributes of the `VolumeReconstruction` element that select a reconstructor mode by
name. -/
def reconstructorModeAttributes : List String :=
  ["Interpolation", "Calculation", "Optimization"]

/-- Two attribute lists agree except for the values of the attributes of the given names: the
same attribute names in the same order, with the same values for all other attributes. -/
def attributesAgreeExcept (names : List String) (a b : List (String × String)) : Prop :=
  List.Forall₂ (fun x y => x.1 = y.1 ∧ (x.1 ∈ names ∨ x.2 = y.2)) a b

/-- Two `VolumeReconstruction` elements agree except for the values of `Interpolation`,
`Calculation` and `Optimization`. -/
def volumeReconstructionAgreeExceptModes (c d : vtkXMLDataElement) : Prop :=
  c.GetName = d.GetName ∧
  attributesAgreeExcept reconstructorModeAttributes c.Attributes d.Attributes ∧
  c.NestedElements = d.NestedElements

/-- Two configuration roots agree except for the values of the `Interpolation`, `Calculation`
and `Optimization` attributes of their `VolumeReconstruction` elements. -/
def configurationsAgreeExceptModes (c d : vtkXMLDataElement) : Prop :=
  List.Forall₂
    (fun x y =>
      if x.GetName = "VolumeReconstruction" then volumeReconstructionAgreeExceptModes x y
      else x = y)
    c.NestedElements d.NestedElements

/-- A configuration without hole filling, with the three mode strings given. -/
def sampleThreeModeConfiguration (interpolation calculation optimization : String) :
    vtkXMLDataElement :=
  vtkXMLDataElement.mk "PlusConfiguration" []
    [vtkXMLDataElement.mk "VolumeReconstruction"
      [("OutputSpacing", "1 1 1"), ("Interpolation", interpolation),
        ("Calculation", calculation), ("Optimization", optimization)] []]

/-! ## Frame rate, calls and write path of the capture device -/

/-- Method `vtkVirtualDiscCapture::GetAcquisitionRate` (lines 482-489): the acquisition rate of
the device that owns the first input channel, and the constant `VIRTUAL_DEVICE_FRAME_RATE`
when there is no input channel. The constant belongs to the header of the base class, which
is not among the sources, and is a parameter. -/
def GetAcquisitionRate (VIRTUAL_DEVICE_FRAME_RATE : ℚ) (self : vtkVirtualDiscCapture) : ℚ :=
  match self.InputChannels with
  | [] => VIRTUAL_DEVICE_FRAME_RATE
  | channel :: _ => channel.OwnerDeviceAcquisitionRate

/-- Method `vtkVirtualDiscCapture::GetMaximumFrameRate` (lines 427-432). -/
def GetMaximumFrameRate (VIRTUAL_DEVICE_FRAME_RATE : ℚ) (self : vtkVirtualDiscCapture) : ℚ :=
  GetAcquisitionRate VIRTUAL_DEVICE_FRAME_RATE self

/-- Method `vtkVirtualDiscCapture::SetRequestedFrameRate` (lines 466-479). -/
def SetRequestedFrameRate (VIRTUAL_DEVICE_FRAME_RATE : ℚ) (self : vtkVirtualDiscCapture)
    (aValue : ℚ) : vtkVirtualDiscCapture :=
  let maxFrameRate := GetMaximumFrameRate VIRTUAL_DEVICE_FRAME_RATE self
  let aValue1 := if aValue > maxFrameRate then maxFrameRate else aValue
  { self with RequestedFrameRate := aValue1 }

/-- The sample device with file compression enabled, as a configuration with
`EnableFileCompression="TRUE"` leaves it, after one capture update that recorded 8 frames. -/
def sampleCompressingCapture : vtkVirtualDiscCapture :=
  runSteps sampleOneBatch
    { sampleCapture true false with EnableFileCompression := true }

/-- The sample device with a frame buffer size of -2 and no recorded frames. -/
def sampleNegativeBufferCapture : vtkVirtualDiscCapture :=
  { sampleCapture true false with FrameBufferSize := -2 }

/-- The request is an append call of the writer (`AppendImagesToHeader` or `AppendImages`)
made while `m_HeaderPrepared` was false. -/
def CaptureEvent.appendsUnprepared : CaptureEvent → Bool
  | CaptureEvent.AppendImagesToHeader headerPrepared _ => !headerPrepared
  | CaptureEvent.AppendImages headerPrepared _ _ _ => !headerPrepared
  | _ => false

/-- The request is an `AppendImages` call made while the compression of the writer was on. -/
def CaptureEvent.appendsCompressed : CaptureEvent → Bool
  | CaptureEvent.AppendImages _ useCompression _ _ => useCompression
  | _ => false

/-- The way from one state of the device to a later one keeps the order of the write path:
requests were only added to the trace; none of them is an append call made without a prepared
header; if the compression of the writer was off at the start, it is off at the end and none
of them is an `AppendImages` call with compression; and if the header flag is on at the end,
it was on at the start or a `PrepareHeader` call that succeeded is among them. -/
def WriteProtocol (before after : vtkVirtualDiscCapture) : Prop :=
  ∃ requests, after.Trace = before.Trace ++ requests ∧
    (∀ e ∈ requests, CaptureEvent.appendsUnprepared e = false) ∧
    (before.m_Writer.UseCompression = false →
      after.m_Writer.UseCompression = false ∧
      ∀ e ∈ requests, CaptureEvent.appendsCompressed e = false) ∧
    (after.m_HeaderPrepared = true →
      before.m_HeaderPrepared = true ∨ CaptureEvent.PrepareHeader PLUS_SUCCESS ∈ requests)

/-- What is assumed of `vtkPlusDevice::Disconnect`, which is not among the sources: whatever
the base class does to the device (it calls `InternalDisconnect`, or nothing at all) keeps the
order of the write path. -/
def DisconnectKeepsProtocol (E : CaptureEnvironment) : Prop :=
  ∀ self : vtkVirtualDiscCapture, WriteProtocol self (E.Disconnect self)

/-- Method `vtkVirtualDiscCapture::NotifyConfigured` (lines 383-404): the output channels are
dropped and the first input channel takes their place. -/
def NotifyConfigured (self : vtkVirtualDiscCapture) : PlusStatus × vtkVirtualDiscCapture :=
  let self1 : vtkVirtualDiscCapture :=
    if !self.OutputChannels.isEmpty then { self with OutputChannels := [] } else self
  match self1.InputChannels with
  | [] => (PLUS_FAIL, self1)
  | inputChannel :: _ =>
    (PLUS_SUCCESS, { self1 with OutputChannels := self1.OutputChannels ++ [inputChannel] })

/-- The members that `ReadConfiguration` (lines 79-93) and the setters generated in the class
header store a value into, set all at once. The XML macros and the header are not among the
sources: the values are arbitrary, which covers whatever they read or are given. -/
def Configure (self : vtkVirtualDiscCapture) (baseFilename : String)
    (enableFileCompression enableCapturing : Bool) (requestedFrameRate : ℚ)
    (frameBufferSize : Int) : vtkVirtualDiscCapture :=
  { self with
      BaseFilename := baseFilename
      EnableFileCompression := enableFileCompression
      EnableCapturing := enableCapturing
      RequestedFrameRate := requestedFrameRate
      FrameBufferSize := frameBufferSize }

/-- The device as lines 264-318 of `InternalUpdate` leave it. -/
def InternalUpdateSampling.device : InternalUpdateSampling → vtkVirtualDiscCapture
  | InternalUpdateSampling.returned _ self => self
  | InternalUpdateSampling.sampled self _ _ _ => self

/-- A call of a method of the capture device, with the environment it meets. -/
inductive CaptureOperation where
  | configure (baseFilename : String) (enableFileCompression enableCapturing : Bool)
      (requestedFrameRate : ℚ) (frameBufferSize : Int)
  | notifyConfigured
  | internalConnect (E : CaptureEnvironment)
  | internalDisconnect (E : CaptureEnvironment)
  | openFile (E : CaptureEnvironment) (aFilename : Option String)
  | closeFile (E : CaptureEnvironment) (aFilename : Option String)
  | internalUpdate (E : CaptureEnvironment)
  | compressFile (E : CaptureEnvironment)
  | clearRecordedFrames
  | setEnableCapturing (E : CaptureEnvironment) (aValue : Bool)
  | setRequestedFrameRate (VIRTUAL_DEVICE_FRAME_RATE aValue : ℚ)
  | reset (E : CaptureEnvironment)
  | takeSnapshot (E : CaptureEnvironment) (trackedFrame : TrackedFrame)
  | writeFrames (E : CaptureEnvironment) (force : Bool)

/-- The device after the call. -/
def CaptureOperation.run : CaptureOperation → vtkVirtualDiscCapture → vtkVirtualDiscCapture
  | CaptureOperation.configure baseFilename enableFileCompression enableCapturing
      requestedFrameRate frameBufferSize, self =>
    Configure self baseFilename enableFileCompression enableCapturing requestedFrameRate
      frameBufferSize
  | CaptureOperation.notifyConfigured, self => (NotifyConfigured self).2
  | CaptureOperation.internalConnect E, self => (InternalConnect E self).2
  | CaptureOperation.internalDisconnect E, self => (InternalDisconnect E self).2
  | CaptureOperation.openFile E aFilename, self => (OpenFile E self aFilename).2
  | CaptureOperation.closeFile E aFilename, self => (CloseFile E self aFilename).2
  | CaptureOperation.internalUpdate E, self => (InternalUpdate E self).2
  | CaptureOperation.compressFile E, self => (CompressFile E self).2
  | CaptureOperation.clearRecordedFrames, self => ClearRecordedFrames self
  | CaptureOperation.setEnableCapturing E aValue, self => SetEnableCapturing E self aValue
  | CaptureOperation.setRequestedFrameRate VIRTUAL_DEVICE_FRAME_RATE aValue, self =>
    SetRequestedFrameRate VIRTUAL_DEVICE_FRAME_RATE self aValue
  | CaptureOperation.reset E, self => (vtkVirtualDiscCapture.Reset E self).2
  | CaptureOperation.takeSnapshot E trackedFrame, self => (TakeSnapshot E self trackedFrame).2
  | CaptureOperation.writeFrames E force, self => (WriteFrames E self force).2

/-- The base class met by a call that can reach `this->Disconnect()` (`WriteFrames` and its
callers `InternalUpdate`, `TakeSnapshot` and `CloseFile`, and `InternalDisconnect`) keeps the
order of the write path on `Disconnect`; nothing is asked of the other calls. -/
def CaptureOperation.baseClassKeepsProtocol : CaptureOperation → Prop
  | CaptureOperation.internalDisconnect E => DisconnectKeepsProtocol E
  | CaptureOperation.closeFile E _ => DisconnectKeepsProtocol E
  | CaptureOperation.internalUpdate E => DisconnectKeepsProtocol E
  | CaptureOperation.takeSnapshot E _ => DisconnectKeepsProtocol E
  | CaptureOperation.writeFrames E _ => DisconnectKeepsProtocol E
  | _ => True

/-- The device after the calls, one after the other. -/
def runOperations : List CaptureOperation → vtkVirtualDiscCapture → vtkVirtualDiscCapture
  | [], self => self
  | operation :: rest, self => runOperations rest (operation.run self)

/-- A device as constructed, configured with file compression enabled. -/
def sampleConfiguredCapture : vtkVirtualDiscCapture :=
  Configure (vtkVirtualDiscCapture.New samplePlusDevice (sampleWriter false))
    "TrackedImageSequence.mha" true false 15 (-1)

/-- A recording on the sample device: capturing is switched on, a capture update records 3
frames, the file is closed, and a further capture update of 2 frames meets a writer that
cannot prepare the header, so that the base class is asked to disconnect and calls
`InternalDisconnect`. -/
def sampleRecording : List CaptureOperation :=
  [CaptureOperation.setEnableCapturing (sampleCaptureEnvironment []) true,
    CaptureOperation.internalUpdate (sampleCaptureEnvironment (sampleFrames 0 3)),
    CaptureOperation.closeFile (sampleCaptureEnvironment []) none,
    CaptureOperation.internalUpdate (failingPrepareEnvironment (sampleFrames 3 2))]

/-- The sample environment with a frame list that, as the validation requirement
`REQUIRE_UNIQUE_TIMESTAMP` (line 46) asks when frames are added with `SKIP_INVALID_FRAME`
(line 592), leaves out a frame whose timestamp a frame of the list already has, and reports
success. -/
def skippingCaptureEnvironment (batch : List TrackedFrame) : CaptureEnvironment :=
  { sampleCaptureEnvironment batch with
      AddTrackedFrame := fun list frame =>
        if list.TrackedFrameList.any (fun f => decide (f.Timestamp = frame.Timestamp)) then
          (PLUS_SUCCESS, list)
        else (PLUS_SUCCESS, { list with TrackedFrameList := list.TrackedFrameList ++ [frame] }) }

/-- The sample device with capturing off and a frame buffer of 5 frames. -/
def sampleBufferedCapture : vtkVirtualDiscCapture :=
  { sampleCapture false false with FrameBufferSize := 5 }

/-- A snapshot of the frame that the input channel holds. -/
def sampleSnapshot : CaptureStep :=
  CaptureStep.snapshot (skippingCaptureEnvironment (sampleFrames 0 1))
    (sampleFrame (translation 0 0 0) true)

/-- Two snapshots of the same frame of the input channel. -/
def sampleRepeatedSnapshot : List CaptureStep := [sampleSnapshot, sampleSnapshot]

/-- The sample environment whose second writer object cannot read the file to compress. -/
def failingCompressEnvironment (batch : List TrackedFrame) : CaptureEnvironment :=
  { sampleCaptureEnvironment batch with ReaderRead := fun _ => PLUS_FAIL }


/-- The sample device with file compression enabled after 8 recorded frames, then a
`CloseFile` that cannot compress the file, then a capture update that records 2 frames. -/
def sampleFailedClose : List CaptureOperation :=
  [CaptureOperation.closeFile (failingCompressEnvironment []) none,
    CaptureOperation.internalUpdate (sampleCaptureEnvironment (sampleFrames 8 2))]

/-! ## The ultrasound message -/

/-- Macro `BYTE_SWAP_INT16` of OpenIGTLink (igtl_util.h):
`(((S) & 0xFF) << 8 | (((S) >> 8) & 0xFF))`. -/
def BYTE_SWAP_INT16 (S : Nat) : Nat :=
  ((S &&& 0xFF) <<< 8) ||| ((S >>> 8) &&& 0xFF)

/-- Macro `BYTE_SWAP_INT32` of OpenIGTLink (igtl_util.h):
`((BYTE_SWAP_INT16 ((L) & 0xFFFF) << 16) | BYTE_SWAP_INT16 (((L) >> 16) & 0xFFFF))`. -/
def BYTE_SWAP_INT32 (L : Nat) : Nat :=
  ((BYTE_SWAP_INT16 (L &&& 0xFFFF)) <<< 16) ||| BYTE_SWAP_INT16 ((L >>> 16) &&& 0xFFFF)

/-- The size of `igtl_uint32` in bytes. -/
def sizeof_igtl_uint32 : Nat := 4

/-- Modelled from the spec: the declaration of class `PlusUsMessage::MessageHeader`
(igtlPlusUsMessage.h is not among the sources): 13 header fields of 32 bits, taken in the
order in which igtlPlusUsMessage.cxx lists them (lines 25-37); a field holds the bit pattern
of its value, a number below `2 ^ 32`. -/
structure MessageHeader where
  m_DataType : Nat
  m_TransmitFrequency : Nat
  m_SamplingFrequency : Nat
  m_DataRate : Nat
  m_LineDensity : Nat
  m_SteeringAngle : Nat
  m_ProbeID : Nat
  m_ExtensionAngle : Nat
  m_Elements : Nat
  m_Pitch : Nat
  m_Radius : Nat
  m_ProbeAngle : Nat
  m_TxOffset : Nat
  deriving DecidableEq, Repr

/-- Method `MessageHeader::GetMessageHeaderSize` (lines 12-16). -/
def MessageHeader.GetMessageHeaderSize (_self : MessageHeader) : Nat :=
  13 * sizeof_igtl_uint32

/-- Assignment of the value of an expression to a field of 32 bits. -/
def toUint32 (value : Nat) : Nat := value % 2 ^ 32

/-- Method `MessageHeader::ConvertEndianness` (lines 19-39); `igtl_is_little_endian` is the
answer of the function of that name of OpenIGTLink on the host. -/
def MessageHeader.ConvertEndianness (igtl_is_little_endian : Bool) (self : MessageHeader) :
    MessageHeader :=
  if igtl_is_little_endian then
    { m_DataType := toUint32 (BYTE_SWAP_INT32 self.m_DataType)
      m_TransmitFrequency := toUint32 (BYTE_SWAP_INT32 self.m_TransmitFrequency)
      m_SamplingFrequency := toUint32 (BYTE_SWAP_INT32 self.m_SamplingFrequency)
      m_DataRate := toUint32 (BYTE_SWAP_INT32 self.m_DataRate)
      m_LineDensity := toUint32 (BYTE_SWAP_INT32 self.m_LineDensity)
      m_SteeringAngle := toUint32 (BYTE_SWAP_INT32 self.m_SteeringAngle)
      m_ProbeID := toUint32 (BYTE_SWAP_INT32 self.m_ProbeID)
      m_ExtensionAngle := toUint32 (BYTE_SWAP_INT32 self.m_ExtensionAngle)
      m_Elements := toUint32 (BYTE_SWAP_INT32 self.m_Elements)
      m_Pitch := toUint32 (BYTE_SWAP_INT32 self.m_Pitch)
      m_Radius := toUint32 (BYTE_SWAP_INT32 self.m_Radius)
      m_ProbeAngle := toUint32 (BYTE_SWAP_INT32 self.m_ProbeAngle)
      m_TxOffset := toUint32 (BYTE_SWAP_INT32 self.m_TxOffset) }
  else self

/-- The 13 fields of a header in the order of their declaration. -/
def MessageHeader.fields (self : MessageHeader) : List Nat :=
  [self.m_DataType, self.m_TransmitFrequency, self.m_SamplingFrequency, self.m_DataRate,
    self.m_LineDensity, self.m_SteeringAngle, self.m_ProbeID, self.m_ExtensionAngle,
    self.m_Elements, self.m_Pitch, self.m_Radius, self.m_ProbeAngle, self.m_TxOffset]

/-- The header whose 13 fields are the given values, in the order of their declaration. -/
def MessageHeader.ofFields (values : List Nat) : MessageHeader :=
  { m_DataType := values.getD 0 0
    m_TransmitFrequency := values.getD 1 0
    m_SamplingFrequency := values.getD 2 0
    m_DataRate := values.getD 3 0
    m_LineDensity := values.getD 4 0
    m_SteeringAngle := values.getD 5 0
    m_ProbeID := values.getD 6 0
    m_ExtensionAngle := values.getD 7 0
    m_Elements := values.getD 8 0
    m_Pitch := values.getD 9 0
    m_Radius := values.getD 10 0
    m_ProbeAngle := values.getD 11 0
    m_TxOffset := values.getD 12 0 }

/-- The four bytes that a host keeps in memory for a field of 32 bits, lowest address first:
the least significant byte first on a little-endian host, the most significant byte first on
a big-endian one. -/
def storeWord (igtl_is_little_endian : Bool) (value : Nat) : List Nat :=
  if igtl_is_little_endian then
    [toUint32 value % 256, toUint32 value / 256 % 256, toUint32 value / 65536 % 256,
      toUint32 value / 16777216 % 256]
  else
    [toUint32 value / 16777216 % 256, toUint32 value / 65536 % 256,
      toUint32 value / 256 % 256, toUint32 value % 256]

/-- The value that a host reads from the four bytes of a field of 32 bits. -/
def loadWord (igtl_is_little_endian : Bool) (bytes : List Nat) : Nat :=
  if igtl_is_little_endian then
    bytes.getD 0 0 + 256 * bytes.getD 1 0 + 65536 * bytes.getD 2 0 + 16777216 * bytes.getD 3 0
  else
    bytes.getD 3 0 + 256 * bytes.getD 2 0 + 65536 * bytes.getD 1 0 + 16777216 * bytes.getD 0 0

/-- The values that a host reads from consecutive fields of 32 bits. -/
def loadWords (igtl_is_little_endian : Bool) : Nat → List Nat → List Nat
  | 0, _ => []
  | count + 1, bytes =>
    loadWord igtl_is_little_endian (bytes.take 4)
      :: loadWords igtl_is_little_endian count (bytes.drop 4)

/-- The members of the base class `igtl::ImageMessage` (OpenIGTLink) that
igtlPlusUsMessage.cxx uses: the bytes of the body from `m_Image` on, and the size in bytes of
the image sub-volume (`GetSubVolumeImageSize()`). -/
structure igtlImageMessage where
  m_Image : List Nat
  SubVolumeImageSize : Nat
  deriving DecidableEq, Repr

/-- Modelled from the spec: the declaration of class `igtl::PlusUsMessage`
(igtlPlusUsMessage.h is not among the sources): the image message with the ultrasound
header `m_MessageHeader`. -/
structure PlusUsMessage extends igtlImageMessage where
  m_MessageHeader : MessageHeader
  deriving DecidableEq, Repr

/-- Method `igtl::ImageMessage::GetSubVolumeImageSize`. -/
def PlusUsMessage.GetSubVolumeImageSize (self : PlusUsMessage) : Nat :=
  self.SubVolumeImageSize

/-- The image bytes after `*header = value` for the pointer
`header = (MessageHeader*)(m_Image + GetSubVolumeImageSize())` of lines 197 and 232: the 13
fields are stored one after the other from that offset on, each in the byte order of the
host. -/
def storeHeader (igtl_is_little_endian : Bool) (image : List Nat) (offset : Nat)
    (value : MessageHeader) : List Nat :=
  image.take offset ++ value.fields.flatMap (storeWord igtl_is_little_endian)
    ++ image.drop (offset + value.GetMessageHeaderSize)

/-- The value `*header` for the pointer
`header = (MessageHeader*)(m_Image + GetSubVolumeImageSize())`. -/
def loadHeader (igtl_is_little_endian : Bool) (image : List Nat) (offset : Nat) :
    MessageHeader :=
  MessageHeader.ofFields (loadWords igtl_is_little_endian 13 (image.drop offset))

/-- Method `PlusUsMessage::GetBodyPackSize` (lines 186-189); the constant
`IGTL_IMAGE_HEADER_SIZE` of OpenIGTLink is a parameter. -/
def PlusUsMessage.GetBodyPackSize (IGTL_IMAGE_HEADER_SIZE : Nat) (self : PlusUsMessage) :
    Nat :=
  self.GetSubVolumeImageSize + IGTL_IMAGE_HEADER_SIZE
    + self.m_MessageHeader.GetMessageHeaderSize

/-- Method `PlusUsMessage::PackBody` (lines 192-218). `ImageMessagePackBody` is
`igtl::ImageMessage::PackBody` of the base class. The 13 fields are stored behind the image
sub-volume and converted there. -/
def PlusUsMessage.PackBody (igtl_is_little_endian : Bool)
    (ImageMessagePackBody : igtlImageMessage → igtlImageMessage) (self : PlusUsMessage) :
    Int × PlusUsMessage :=
  let self1 : PlusUsMessage :=
    { self with toigtlImageMessage := ImageMessagePackBody self.toigtlImageMessage }
  let offset := self1.GetSubVolumeImageSize
  let image1 := storeHeader igtl_is_little_endian self1.m_Image offset self1.m_MessageHeader
  let image2 :=
    storeHeader igtl_is_little_endian image1 offset
      ((loadHeader igtl_is_little_endian image1 offset).ConvertEndianness
        igtl_is_little_endian)
  (1, { self1 with m_Image := image2 })

/-- Method `PlusUsMessage::UnpackBody` (lines 221-252). `ImageMessageUnpackBody` is
`igtl::ImageMessage::UnpackBody` of the base class. The header behind the image sub-volume
is converted in place and its 13 fields are copied to `m_MessageHeader`. -/
def PlusUsMessage.UnpackBody (igtl_is_little_endian : Bool)
    (ImageMessageUnpackBody : igtlImageMessage → igtlImageMessage) (self : PlusUsMessage) :
    Int × PlusUsMessage :=
  let self1 : PlusUsMessage :=
    { self with toigtlImageMessage := ImageMessageUnpackBody self.toigtlImageMessage }
  let offset := self1.GetSubVolumeImageSize
  let image1 :=
    storeHeader igtl_is_little_endian self1.m_Image offset
      ((loadHeader igtl_is_little_endian self1.m_Image offset).ConvertEndianness
        igtl_is_little_endian)
  (1, { self1 with
          m_Image := image1
          m_MessageHeader := loadHeader igtl_is_little_endian image1 offset })

/-- Every field of the header holds a value of 32 bits. -/
def MessageHeader.wellFormed (self : MessageHeader) : Prop :=
  ∀ value ∈ self.fields, value < 2 ^ 32

/-- A message with a sub-volume of 4 bytes, room for the header behind it, and 13 header
fields with distinct bytes. -/
def sampleUsMessage : PlusUsMessage :=
  { m_Image := [1, 2, 3, 4] ++ List.replicate 52 0
    SubVolumeImageSize := 4
    m_MessageHeader :=
      { m_DataType := 0x01020304, m_TransmitFrequency := 5000000
        m_SamplingFrequency := 40000000, m_DataRate := 30, m_LineDensity := 128
        m_SteeringAngle := 0xFFFFFFFF, m_ProbeID := 7, m_ExtensionAngle := 0
        m_Elements := 128, m_Pitch := 300, m_Radius := 60000, m_ProbeAngle := 0x80000000
        m_TxOffset := 13 } }

/-! ## The sequence container -/

/-- Modelled from the spec: the content of a file of a sequence (section 6 of the
specification; the implementation of `vtkMetaImageSequenceIO` is not among the sources): the
text header, newline-delimited lines `FieldName = value`, and the binary region that follows
the header in the file. -/
structure SequenceFile where
  Header : String
  PixelData : List Nat
  deriving DecidableEq, Repr

/-- Modelled from the spec: a per-frame field of the text header, which the line
`Seq_Frame<NNNN>_<FieldName> = value` holds (the implementation of `vtkMetaImageSequenceIO`
is not among the sources): the frame index, the field name and the value. -/
structure FrameFieldLine where
  FrameNumber : Nat
  FieldName : String
  FieldValue : String
  deriving DecidableEq, Repr

/-- The bytes of the pixel buffer of an image: the scalars in their order, each as the bytes
that hold it in memory. `ScalarBytes` gives these bytes for a scalar of a scalar type of VTK;
it belongs to the platform and is a parameter, as is `ScalarSize` below, the number of bytes
of a scalar of a scalar type (`vtkImageData::GetScalarSize`). -/
def imageBytes (ScalarBytes : Int → ℚ → List Nat) (image : vtkImageData) : List Nat :=
  image.Scalars.flatMap (ScalarBytes image.ScalarType)

/-- The decimal digits of a number, the last digit first; `fuel` bounds their number. -/
def decimalDigits : Nat → Nat → List Nat
  | 0, _ => []
  | fuel + 1, n => if n < 10 then [n] else n % 10 :: decimalDigits fuel (n / 10)

/-- The decimal numeral of a number (format `%u`). -/
def formatDecimal (n : Nat) : List Char :=
  (decimalDigits (n + 1) n).reverse.map Nat.digitChar

/-- The decimal numeral of a frame index, padded with zeros to four digits (format
`%04u`). -/
def formatFrameIndex (n : Nat) : List Char :=
  List.replicate (4 - (formatDecimal n).length) '0' ++ formatDecimal n

/-- Space-separated decimal numerals, one per number (the value of `DimSize`). -/
def formatDecimals : List Nat → List Char
  | [] => []
  | [n] => formatDecimal n
  | n :: m :: rest => formatDecimal n ++ ' ' :: formatDecimals (m :: rest)

/-- The lines of a text: the parts that line breaks end; a part after the last line break is
a line too. -/
def splitLines : List Char → List (List Char)
  | [] => []
  | c :: rest =>
    if c = '\n' then [] :: splitLines rest
    else
      match splitLines rest with
      | [] => [[c]]
      | line :: lines => (c :: line) :: lines

/-- The field that a line `FieldName = value` holds: the name is what stands before the
first ` = ` of the line, the value what stands after it; `none` for a line without ` = `. -/
def splitField : List Char → Option (List Char × List Char)
  | [] => none
  | c :: rest =>
    if c = ' ' ∧ rest.take 2 = ['=', ' '] then some ([], rest.drop 2)
    else
      match splitField rest with
      | some field => some (c :: field.1, field.2)
      | none => none

/-- Modelled from the spec: the line of a field in the text header (section 6):
`FieldName = value` and a line break. -/
def headerLine (field : String × String) : List Char :=
  field.1.toList ++ ' ' :: '=' :: ' ' :: field.2.toList ++ ['\n']

/-- Modelled from the spec: the text header of a sequence file for the given fields (section
6): a line `FieldName = value` for each field, in their order, each ended by a line break. -/
def headerText (fields : List (String × String)) : String :=
  String.mk (fields.flatMap headerLine)

/-- Modelled from the spec: the fields that `ReadImageHeader` (declared at line 133 of
vtkMetaImageSequenceIO.h; the implementation is not among the sources) parses from the text
header, in file order; a line that holds no field is passed over. -/
def parseHeader (header : String) : List (String × String) :=
  (splitLines header.toList).filterMap
    (fun line =>
      match splitField line with
      | some field => some (String.mk field.1, String.mk field.2)
      | none => none)

/-- The value of the first field of that name; `none` when there is none. -/
def headerValue (fields : List (String × String)) (fieldName : String) : Option String :=
  match fields.find? (fun field => decide (field.1 = fieldName)) with
  | some field => some field.2
  | none => none

/-- Modelled from the spec: the name of a per-frame field in the text header (section 6):
`Seq_Frame<NNNN>_<FieldName>`, the frame index zero-padded to four digits. -/
def frameFieldName (frameNumber : Nat) (fieldName : String) : String :=
  String.mk ("Seq_Frame".toList ++ formatFrameIndex frameNumber ++ '_' :: fieldName.toList)

/-- Modelled from the spec: `GetMaximumImageDimensions` (declared at line 151 of
vtkMetaImageSequenceIO.h; the implementation is not among the sources): the maximum frame
extent across the frame list, which `PrepareHeader` computes: the largest width, height and
depth. -/
def GetMaximumImageDimensions (frames : List TrackedFrame) : Nat × Nat × Nat :=
  frames.foldl
    (fun maxFrameSize frame =>
      (max maxFrameSize.1 frame.ImageData.GetDimensions.i0.toNat,
        max maxFrameSize.2.1 frame.ImageData.GetDimensions.i1.toNat,
        max maxFrameSize.2.2 frame.ImageData.GetDimensions.i2.toNat))
    (0, 0, 0)

/-- Modelled from the spec: the scalar types of VTK that a sequence file can hold, each with
the name that `ElementType` has for it in the header (the conversions are declared at lines
156 and 158 of vtkMetaImageSequenceIO.h; their implementation is not among the sources):
`char`, `unsigned char`, `short`, `unsigned short`, `int`, `unsigned int`, `long`,
`unsigned long`, `float` and `double`, under their codes of vtkType.h. -/
def metaElementTypes : List (Int × String) :=
  [(2, "MET_CHAR"), (3, "MET_UCHAR"), (4, "MET_SHORT"), (5, "MET_USHORT"), (6, "MET_INT"),
    (7, "MET_UINT"), (8, "MET_LONG"), (9, "MET_ULONG"), (10, "MET_FLOAT"), (11, "MET_DOUBLE")]

/-- Modelled from the spec: `ConvertVtkPixelTypeToMetaElementType`: the name of the element
type; `none` (failure) for a type that a sequence file cannot hold. -/
def ConvertVtkPixelTypeToMetaElementType (vtkPixelType : Int) : Option String :=
  match metaElementTypes.find? (fun entry => decide (entry.1 = vtkPixelType)) with
  | some entry => some entry.2
  | none => none

/-- Modelled from the spec: `ConvertMetaElementTypeToVtkPixelType`: the scalar type of VTK;
`none` (failure) for a name that is not known. -/
def ConvertMetaElementTypeToVtkPixelType (elementTypeStr : String) : Option Int :=
  match metaElementTypes.find? (fun entry => decide (entry.2 = elementTypeStr)) with
  | some entry => some entry.1
  | none => none

/-- Modelled from the spec: the dimension sizes that the header reports once the number of
frames is known (section 6 and the member comments of lines 197-204 of
vtkMetaImageSequenceIO.h): frame size and number of frames. For 2D frames, whose depth is 1,
they are `X Y Nframes` when `Output2DDataWithZDimensionIncluded` is false and
`X Y 1 Nframes` when it is true; for volumes they are `X Y Z Nframes`. -/
def headerDimensions (output2DDataWithZDimensionIncluded : Bool) (frameSize : Nat × Nat × Nat)
    (numberOfFrames : Nat) : List Nat :=
  if output2DDataWithZDimensionIncluded || decide (frameSize.2.2 ≠ 1) then
    [frameSize.1, frameSize.2.1, frameSize.2.2, numberOfFrames]
  else [frameSize.1, frameSize.2.1, numberOfFrames]

/-- Modelled from the spec: `GetPixelDataFilePath` (declared at line 154 of
vtkMetaImageSequenceIO.h; the implementation is not among the sources): the file for the
pixel data of a header file, by the extension of its name (`*.MHA or *.MHD`, line 183): a
header file with the extension `mhd`, in small or capital letters, has the pixel data in the
file of the same name with the extension `raw`; any other file (`*.mha`) holds the pixel data
itself, after the header (`none`). -/
def GetPixelDataFilePath (fileName : String) : Option String :=
  if (fileName.toList.reverse.take 4).map Char.toLower = ['d', 'h', 'm', '.'] then
    some (String.mk ((fileName.toList.reverse.drop 3).reverse ++ ['r', 'a', 'w']))
  else none

/-- Modelled from the spec: the per-frame metadata lines that `AppendImagesToHeader` of
`vtkMetaImageSequenceIO` (not among the sources) emits for one frame: a field per entry of
the metadata map of the frame, under the frame index. The timestamp, the transforms and the
validity flags of a frame reach the file as entries of this map. -/
def frameFieldLines (frameNumber : Nat) (frame : TrackedFrame) : List FrameFieldLine :=
  frame.CustomFrameFields.map
    (fun field =>
      { FrameNumber := frameNumber, FieldName := field.1, FieldValue := field.2 })

/-- Modelled from the spec: the per-frame metadata lines of the frames of a list, the first
of which has the given index; insertion order is acquisition order. -/
def headerFrameLines : Nat → List TrackedFrame → List FrameFieldLine
  | _, [] => []
  | frameNumber, frame :: rest =>
    frameFieldLines frameNumber frame ++ headerFrameLines (frameNumber + 1) rest

/-- The header field of a per-frame field. -/
def FrameFieldLine.toField (line : FrameFieldLine) : String × String :=
  (frameFieldName line.FrameNumber line.FieldName, line.FieldValue)

/-- Modelled from the spec: the scalar type that the header declares for the frames of a
list, the one of the first frame (`unsigned char` for no frame). -/
def sequencePixelType : List TrackedFrame → Int
  | [] => VTK_UNSIGNED_CHAR
  | frame :: _ => frame.ImageData.ScalarType

/-- Modelled from the spec: the number of components that the header declares for the frames
of a list, the one of the first frame (1 for no frame). -/
def sequenceNumberOfScalarComponents : List TrackedFrame → Nat
  | [] => 1
  | frame :: _ => frame.ImageData.NumberOfScalarComponents

/-- Modelled from the spec: the fields that `OpenImageHeader` (declared at line 139 of
vtkMetaImageSequenceIO.h; the implementation is not among the sources) and the functions that
complete the header write to it, in their order (section 6): the number of dimensions, the
dimension sizes, the element type, the number of components and the compression flag, which
are custom strings of the list and are written with its other custom strings; the per-frame
fields in frame order; `ElementDataFile`, which ends the header. -/
def vtkMetaImageSequenceIO.OpenImageHeader (self : vtkMetaImageSequenceIO)
    (list : vtkTrackedFrameList) (elementType elementDataFile : String) :
    List (String × String) :=
  let frames := list.TrackedFrameList
  let dimensions :=
    headerDimensions self.Output2DDataWithZDimensionIncluded (GetMaximumImageDimensions frames)
      frames.length
  (((((list.SetCustomString "NDims" (String.mk (formatDecimal dimensions.length))
    ).SetCustomString "DimSize" (String.mk (formatDecimals dimensions))
    ).SetCustomString "ElementType" elementType
    ).SetCustomString "ElementNumberOfChannels"
      (String.mk (formatDecimal (sequenceNumberOfScalarComponents frames)))
    ).SetCustomString "CompressedData" (if self.UseCompression then "True" else "False")
    ).CustomFields ++ (headerFrameLines 0 frames).map FrameFieldLine.toField ++
    [("ElementDataFile", elementDataFile)]

/-- Modelled from the spec: the binary region that `WriteImagePixels` (declared at line 142
of vtkMetaImageSequenceIO.h; the implementation is not among the sources) writes: the bytes
of the pixel buffers, frame after frame; with compression the region is passed through the
block compressor `Compress`. -/
def vtkMetaImageSequenceIO.WriteImagePixels (Compress : List Nat → List Nat)
    (ScalarBytes : Int → ℚ → List Nat) (self : vtkMetaImageSequenceIO)
    (frames : List TrackedFrame) : List Nat :=
  let region := frames.flatMap (fun frame => imageBytes ScalarBytes frame.ImageData)
  if self.UseCompression then Compress region else region

/-- Modelled from the spec: `vtkMetaImageSequenceIO::Write` (declared at line 62 of
vtkMetaImageSequenceIO.h; the implementation is not among the sources), as sections 3, 4.1
and 6 of the specification describe the file: the status and the files written, by name.

The header is written first, the binary region after it (`ElementDataFile = LOCAL`) or to
the file for the pixel data, which the header then names. The write fails for a scalar type
that the file cannot hold and for a frame whose scalar type, number of components or byte
size is not the one that the header declares for every frame. The image orientation in the
file is taken to be the one in memory, and the file system to accept every file. -/
def vtkMetaImageSequenceIO.Write (Compress : List Nat → List Nat) (ScalarSize : Int → Nat)
    (ScalarBytes : Int → ℚ → List Nat) (self : vtkMetaImageSequenceIO)
    (list : vtkTrackedFrameList) : PlusStatus × List (String × SequenceFile) :=
  let frames := list.TrackedFrameList
  let frameSize := GetMaximumImageDimensions frames
  match ConvertVtkPixelTypeToMetaElementType (sequencePixelType frames) with
  | none => (PLUS_FAIL, [])
  | some elementType =>
    if frames.any
        (fun frame =>
          decide (frame.ImageData.ScalarType ≠ sequencePixelType frames ∨
            frame.ImageData.NumberOfScalarComponents ≠ sequenceNumberOfScalarComponents frames ∨
            (imageBytes ScalarBytes frame.ImageData).length ≠
              frameSize.1 * frameSize.2.1 * frameSize.2.2 *
                ScalarSize (sequencePixelType frames) *
                sequenceNumberOfScalarComponents frames)) then
      (PLUS_FAIL, [])
    else
      match GetPixelDataFilePath self.FileName with
      | none =>
        (PLUS_SUCCESS,
          [(self.FileName,
            { Header := headerText (self.OpenImageHeader list elementType "LOCAL")
              PixelData := self.WriteImagePixels Compress ScalarBytes frames })])
      | some pixelDataFileName =>
        (PLUS_SUCCESS,
          [(self.FileName,
            { Header := headerText (self.OpenImageHeader list elementType pixelDataFileName)
              PixelData := [] }),
            (pixelDataFileName,
              { Header := ""
                PixelData := self.WriteImagePixels Compress ScalarBytes frames })])

/-- The value that the header of the file of the given name has for a field; `none` when
there is no such file or no such field. -/
def writtenHeaderValue (files : List (String × SequenceFile)) (fileName fieldName : String) :
    Option String :=
  match files.lookup fileName with
  | some file => headerValue (parseHeader file.Header) fieldName
  | none => none

/-- The bytes of a scalar of type `unsigned char`: one byte, the value. -/
def sampleScalarBytes (_scalarType : Int) (value : ℚ) : List Nat :=
  [value.floor.toNat % 256]

/-- The number of bytes of a scalar of type `unsigned char`: one. -/
def sampleScalarSize (_scalarType : Int) : Nat := 1

/-- Three frames of 2 x 2 pixels of one component of type `unsigned char` with their pixel
values, a timestamp, a custom field and a validity flag each. -/
def sampleSequenceFrames : List TrackedFrame :=
  [{ sampleFrame (translation 0 0 0) true with
      ImageData := { sampleImage 1 1 3 with Scalars := [1, 2, 3, 4] }
      CustomFrameFields := [("Timestamp", "0.1"), ("ProbeToTrackerTransformStatus", "OK")] },
    { sampleFrame (translation 0 0 0) false with
      ImageData := { sampleImage 1 1 3 with Scalars := [5, 6, 7, 8] }
      CustomFrameFields :=
        [("Timestamp", "0.2"), ("ProbeToTrackerTransformStatus", "INVALID"),
          ("Comment", "depth = 40 mm")] },
    { sampleFrame (translation 0 0 0) true with
      ImageData := { sampleImage 1 1 3 with Scalars := [9, 10, 11, 12] }
      CustomFrameFields := [("Timestamp", "0.3")] }]

/-- A writer with the given file name and 2D flag, compression off. -/
def sampleSequenceWriter (fileName : String) (output2DDataWithZDimensionIncluded : Bool) :
    vtkMetaImageSequenceIO :=
  { sampleWriter output2DDataWithZDimensionIncluded with
      FileName := fileName
      UseCompression := false }

/-- A field whose line holds its name and value apart: the name holds neither `=` nor a line
break, and the value holds no line break. -/
def IsHeaderField (field : String × String) : Prop :=
  (∀ c ∈ field.1.toList, c ≠ '=' ∧ c ≠ '\n') ∧ ∀ c ∈ field.2.toList, c ≠ '\n'

instance (field : String × String) : Decidable (IsHeaderField field) := by
  unfold IsHeaderField
  infer_instance

/-! ## Properties of the extent computation -/

/-- The frame loop either returns early, or runs to its end with the counter grown by the
number of frames flagged valid. -/
theorem frameLoop_count {Repo : Type} (C : Collaborators Repo)
    (self : vtkVolumeReconstructor) (name : PlusTransformName) (frames : List TrackedFrame)
    (repository : Repo) (n : Nat) (ext : Double6) :
    (∃ r, frameLoop C self name frames repository n ext = FrameLoopResult.failed r) ∨
    (∃ r e, frameLoop C self name frames repository n ext =
      FrameLoopResult.done r (n + (validFrames C name frames repository).length) e) := by
  induction frames generalizing repository n ext with
  | nil => exact Or.inr ⟨repository, ext, rfl⟩
  | cons f rest ih =>
    unfold frameLoop
    by_cases h1 : (C.SetTransforms repository f).1 = PLUS_SUCCESS
    · by_cases h2 : (C.GetTransform (C.SetTransforms repository f).2 name).1 = PLUS_SUCCESS
      · by_cases hv : (C.GetTransform (C.SetTransforms repository f).2 name).2.2 = true
        · simp only [h1, h2, hv, ne_eq, not_true_eq_false, if_false, if_true, validFrames,
            List.length_cons]
          rcases ih (C.SetTransforms repository f).2 (n + 1)
              (AddImageToExtent self f.ImageData
                (C.GetTransform (C.SetTransforms repository f).2 name).2.1 ext) with
            ⟨r, hr⟩ | ⟨r, e, hr⟩
          · exact Or.inl ⟨r, hr⟩
          · refine Or.inr ⟨r, e, ?_⟩
            rw [hr]
            congr 1
            omega
        · simp only [h1, h2, hv, ne_eq, not_true_eq_false, if_false, validFrames,
            Bool.false_eq_true]
          exact ih (C.SetTransforms repository f).2 n ext
      · simp only [h1, h2, ne_eq, not_true_eq_false, not_false_eq_true, if_false, if_true]
        exact Or.inl ⟨_, rfl⟩
    · simp only [h1, ne_eq, not_false_eq_true, if_true]
      exact Or.inl ⟨_, rfl⟩

/-- C1: when no frame of the list has a pose flagged valid, `SetOutputExtentFromFrameList`
returns failure and leaves the reconstructor as it was: output extent, origin and scalar mode
keep their values and the slice paster receives no `ResetOutput` call, so no output grid is
allocated. -/
theorem SetOutputExtentFromFrameList_no_valid_pose {Repo : Type} (C : Collaborators Repo)
    (self : vtkVolumeReconstructor) (frames : List TrackedFrame) (repository : Repo)
    (hinvalid : validFrames C
      (GetImageToReferenceTransformName C self PlusTransformName.empty).2 frames repository
        = []) :
    (SetOutputExtentFromFrameList C self (some frames) (some repository)).1 = PLUS_FAIL ∧
    (SetOutputExtentFromFrameList C self (some frames) (some repository)).2.1 = self ∧
    (SetOutputExtentFromFrameList C self (some frames)
      (some repository)).2.1.Reconstructor.OutputExtent = self.Reconstructor.OutputExtent ∧
    (SetOutputExtentFromFrameList C self (some frames)
      (some repository)).2.1.Reconstructor.OutputOrigin = self.Reconstructor.OutputOrigin ∧
    (SetOutputExtentFromFrameList C self (some frames)
      (some repository)).2.1.Reconstructor.OutputScalarMode
        = self.Reconstructor.OutputScalarMode ∧
    (SetOutputExtentFromFrameList C self (some frames)
      (some repository)).2.1.Reconstructor.Calls = self.Reconstructor.Calls := by
  have hmain :
      (SetOutputExtentFromFrameList C self (some frames) (some repository)).1 = PLUS_FAIL ∧
      (SetOutputExtentFromFrameList C self (some frames) (some repository)).2.1 = self := by
    unfold SetOutputExtentFromFrameList
    by_cases hn : (GetImageToReferenceTransformName C self PlusTransformName.empty).1
        = PLUS_SUCCESS
    · cases frames with
      | nil => simp [hn]
      | cons f0 rest =>
        rcases frameLoop_count C self
            (GetImageToReferenceTransformName C self PlusTransformName.empty).2 (f0 :: rest)
            repository 0 initialExtent_Ref with ⟨r, hr⟩ | ⟨r, e, hr⟩
        · simp [hn, hr]
        · rw [hinvalid] at hr
          simp [hn, hr]
    · simp [hn]
  refine ⟨hmain.1, hmain.2, ?_, ?_, ?_, ?_⟩ <;> rw [hmain.2]

/-- Witness for C1: two frames, both with a pose flagged invalid; every lookup succeeds. -/
theorem SetOutputExtentFromFrameList_no_valid_pose_witness :
    lookupsSucceed sampleCollaborators { From := "Image", To := "Reference" }
      [sampleFrame (translation 0 0 0) false, sampleFrame (translation 0 0 5) false]
      sampleRepository ∧
    (SetOutputExtentFromFrameList sampleCollaborators sampleReconstructor
      (some [sampleFrame (translation 0 0 0) false, sampleFrame (translation 0 0 5) false])
      (some sampleRepository)).1 = PLUS_FAIL ∧
    (SetOutputExtentFromFrameList sampleCollaborators sampleReconstructor
      (some [sampleFrame (translation 0 0 0) false, sampleFrame (translation 0 0 5) false])
      (some sampleRepository)).2.1 = sampleReconstructor :=
  have h := SetOutputExtentFromFrameList_no_valid_pose sampleCollaborators sampleReconstructor
    [sampleFrame (translation 0 0 0) false, sampleFrame (translation 0 0 5) false]
    sampleRepository (by decide)
  ⟨⟨by decide, by decide, by decide, by decide, trivial⟩, h.1, h.2.1⟩

/-- A frame that cannot be processed when the loop reaches it makes the frame loop return
early, whatever frames precede and follow it. -/
theorem frameLoop_failing_frame {Repo : Type} (C : Collaborators Repo)
    (self : vtkVolumeReconstructor) (name : PlusTransformName)
    (pre : List TrackedFrame) (f : TrackedFrame) (post : List TrackedFrame)
    (repository : Repo) (n : Nat) (ext : Double6)
    (hfail : frameFails C name (repositoryAfter C pre repository) f) :
    ∃ r, frameLoop C self name (pre ++ f :: post) repository n ext
      = FrameLoopResult.failed r := by
  induction pre generalizing repository n ext with
  | nil =>
    simp only [List.nil_append]
    unfold frameLoop
    rcases hfail with h | h
    · simp only [repositoryAfter] at h
      simp only [h, ne_eq, not_false_eq_true, if_true]
      exact ⟨_, rfl⟩
    · simp only [repositoryAfter] at h
      by_cases h1 : (C.SetTransforms repository f).1 = PLUS_SUCCESS
      · simp only [h1, h, ne_eq, not_true_eq_false, not_false_eq_true, if_false, if_true]
        exact ⟨_, rfl⟩
      · simp only [h1, ne_eq, not_false_eq_true, if_true]
        exact ⟨_, rfl⟩
  | cons g rest ih =>
    simp only [List.cons_append]
    unfold frameLoop
    simp only [repositoryAfter] at hfail
    by_cases h1 : (C.SetTransforms repository g).1 = PLUS_SUCCESS
    · by_cases h2 : (C.GetTransform (C.SetTransforms repository g).2 name).1 = PLUS_SUCCESS
      · simp only [h1, h2, ne_eq, not_true_eq_false, if_false]
        split
        · exact ih _ _ _ hfail
        · exact ih _ _ _ hfail
      · simp only [h1, h2, ne_eq, not_true_eq_false, not_false_eq_true, if_false, if_true]
        exact ⟨_, rfl⟩
    · simp only [h1, ne_eq, not_false_eq_true, if_true]
      exact ⟨_, rfl⟩

/-- C4: if, for some frame of the list, the transform repository cannot be updated from the
frame or the image-to-reference transform cannot be resolved when the loop reaches it, then
`SetOutputExtentFromFrameList` returns failure and leaves the reconstructor (output extent,
origin and scalar mode included) as it was, whatever the other frames of the list are. -/
theorem SetOutputExtentFromFrameList_failing_frame {Repo : Type} (C : Collaborators Repo)
    (self : vtkVolumeReconstructor) (pre : List TrackedFrame) (f : TrackedFrame)
    (post : List TrackedFrame) (repository : Repo)
    (hfail : frameFails C (GetImageToReferenceTransformName C self PlusTransformName.empty).2
      (repositoryAfter C pre repository) f) :
    (SetOutputExtentFromFrameList C self (some (pre ++ f :: post)) (some repository)).1
      = PLUS_FAIL ∧
    (SetOutputExtentFromFrameList C self (some (pre ++ f :: post)) (some repository)).2.1
      = self := by
  obtain ⟨f0, rest, hlist⟩ : ∃ f0 rest, pre ++ f :: post = f0 :: rest := by
    cases pre with
    | nil => exact ⟨f, post, rfl⟩
    | cons g pre1 => exact ⟨g, pre1 ++ f :: post, rfl⟩
  obtain ⟨r, hr⟩ := frameLoop_failing_frame C self _ pre f post repository 0
    initialExtent_Ref hfail
  rw [hlist] at hr
  rw [hlist]
  unfold SetOutputExtentFromFrameList
  by_cases hn : (GetImageToReferenceTransformName C self PlusTransformName.empty).1 = PLUS_SUCCESS
  · simp [hn, hr]
  · simp [hn]

/-- Witness for C4: a frame with a valid pose, then a frame from which the repository cannot
be updated, then another frame with a valid pose. -/
theorem SetOutputExtentFromFrameList_failing_frame_witness :
    (SetOutputExtentFromFrameList sampleCollaborators sampleReconstructor
      (some ([sampleFrame (translation 0 0 0) true] ++
        brokenFrame :: [sampleFrame (translation 0 0 5) true]))
      (some sampleRepository)).1 = PLUS_FAIL ∧
    (SetOutputExtentFromFrameList sampleCollaborators sampleReconstructor
      (some ([sampleFrame (translation 0 0 0) true] ++
        brokenFrame :: [sampleFrame (translation 0 0 5) true]))
      (some sampleRepository)).2.1 = sampleReconstructor :=
  SetOutputExtentFromFrameList_failing_frame sampleCollaborators sampleReconstructor
    [sampleFrame (translation 0 0 0) true] brokenFrame [sampleFrame (translation 0 0 5) true]
    sampleRepository (Or.inl (by decide))

/-- C10: `GetImageToReferenceTransformName` succeeds exactly when both coordinate frame names
are defined and form a valid transform name; when it fails, `SetOutputExtentFromFrameList` and
`AddTrackedFrame` return failure and leave the reconstructor, the repository argument and the
out-parameter as they were. -/
theorem GetImageToReferenceTransformName_fatal {Repo : Type} (C : Collaborators Repo)
    (self : vtkVolumeReconstructor) :
    ((GetImageToReferenceTransformName C self PlusTransformName.empty).1 = PLUS_SUCCESS ↔
      ∃ imageFrame referenceFrame,
        self.ImageCoordinateFrame = some imageFrame ∧
        self.ReferenceCoordinateFrame = some referenceFrame ∧
        C.IsValid { From := imageFrame, To := referenceFrame } = true) ∧
    ((GetImageToReferenceTransformName C self PlusTransformName.empty).1 = PLUS_FAIL →
      ∀ (trackedFrameList : Option (List TrackedFrame)) (frame : Option TrackedFrame)
        (transformRepository : Option Repo) (insertedIntoVolume : Option Bool),
        SetOutputExtentFromFrameList C self trackedFrameList transformRepository
          = (PLUS_FAIL, self, transformRepository) ∧
        AddTrackedFrame C self frame transformRepository insertedIntoVolume
          = (PLUS_FAIL, self, insertedIntoVolume)) := by
  constructor
  · unfold GetImageToReferenceTransformName
    cases hr : self.ReferenceCoordinateFrame with
    | none => simp
    | some referenceFrame =>
      cases hi : self.ImageCoordinateFrame with
      | none => simp
      | some imageFrame =>
        by_cases hv : C.IsValid { From := imageFrame, To := referenceFrame } = true
        · simp [hv]
        · simp [hv]
  · intro hfail trackedFrameList frame transformRepository insertedIntoVolume
    unfold SetOutputExtentFromFrameList AddTrackedFrame
    simp [hfail]

/-- Witness for C10: a reconstructor as constructed, with no coordinate frame name defined. -/
theorem GetImageToReferenceTransformName_fatal_witness :
    SetOutputExtentFromFrameList sampleCollaborators
        (vtkVolumeReconstructor.New samplePaster sampleFiller)
        (some [sampleFrame (translation 0 0 0) true]) (some sampleRepository)
      = (PLUS_FAIL, vtkVolumeReconstructor.New samplePaster sampleFiller,
          some sampleRepository) ∧
    AddTrackedFrame sampleCollaborators (vtkVolumeReconstructor.New samplePaster sampleFiller)
        (some (sampleFrame (translation 0 0 0) true)) (some sampleRepository) (some false)
      = (PLUS_FAIL, vtkVolumeReconstructor.New samplePaster sampleFiller, some false) :=
  (GetImageToReferenceTransformName_fatal sampleCollaborators
    (vtkVolumeReconstructor.New samplePaster sampleFiller)).2 (by decide)
    (some [sampleFrame (translation 0 0 0) true]) (some (sampleFrame (translation 0 0 0) true))
    (some sampleRepository) (some false)

/-- A sum of two `int` that lies in the range of `int` is kept. -/
theorem wrapInt32_of_range (x : Int) (h : INT_MIN ≤ x ∧ x ≤ INT_MAX) : wrapInt32 x = x := by
  unfold INT_MIN INT_MAX at h
  unfold wrapInt32
  omega

/-- C3 as stated fails: with the clip rectangle origin `(2147483647, 0)` and size `(1, 5)` on
a frame of extent `[0, 10] x [0, 20]` the sum of line 487 wraps around, the corners passed
through the pose have the x-coordinates `2147483647` and `-2147483648`, whereas
`min(frameMaxX, originX + sizeX)` is 10, and the extent is not the one that the four corners
of the claim give. -/
theorem AddImageToExtent_clip_corners_counterexample :
    0 < sampleOverflowingClip.Reconstructor.ClipRectangleSize.i0 ∧
    0 < sampleOverflowingClip.Reconstructor.ClipRectangleSize.i1 ∧
    corners_ImagePix sampleOverflowingClip (sampleImage 10 20 3)
      = [ { d0 := 2147483647, d1 := 0, d2 := 0, d3 := 1 },
          { d0 := 2147483647, d1 := 5, d2 := 0, d3 := 1 },
          { d0 := -2147483648, d1 := 0, d2 := 0, d3 := 1 },
          { d0 := -2147483648, d1 := 5, d2 := 0, d3 := 1 } ] ∧
    min (((sampleImage 10 20 3).Extent.i1 : Int) : ℚ)
        ((sampleOverflowingClip.Reconstructor.ClipRectangleOrigin.i0 : ℚ) +
          (sampleOverflowingClip.Reconstructor.ClipRectangleSize.i0 : ℚ)) = 10 ∧
    AddImageToExtent sampleOverflowingClip (sampleImage 10 20 3) (translation 0 0 0)
        initialExtent_Ref ≠
      ([ ({ d0 := 2147483647, d1 := 0, d2 := 0, d3 := 1 } : Double4),
          { d0 := 2147483647, d1 := 5, d2 := 0, d3 := 1 },
          { d0 := 10, d1 := 0, d2 := 0, d3 := 1 },
          { d0 := 10, d1 := 5, d2 := 0, d3 := 1 } ].map
        (translation 0 0 0).MultiplyPoint).foldl expandCorner initialExtent_Ref := by
  refine ⟨by decide, by decide, by decide!, by decide!, by decide!⟩

/-- C3 (amended): the corners that `AddImageToExtent` passes through the pose. With a clip
rectangle whose two size components are positive and whose sums `originX + sizeX` and
`originY + sizeY` lie in the range of `int`, they are the points `(x, y, 0, 1)` with `x` one
of `max(frameMinX, originX)`, `min(frameMaxX, originX + sizeX)` and `y` one of
`max(frameMinY, originY)`, `min(frameMaxY, originY + sizeY)`; when a size component is not
positive they are the corners of the full frame extent. The running extent is expanded by
exactly these four points, each multiplied by the pose matrix. -/
theorem AddImageToExtent_clip_corners (self : vtkVolumeReconstructor) (image : vtkImageData)
    (imageToReference : vtkMatrix4x4) (extent_Ref : Double6)
    (hsums : 0 < self.Reconstructor.ClipRectangleSize.i0 ∧
        0 < self.Reconstructor.ClipRectangleSize.i1 →
      (INT_MIN ≤ self.Reconstructor.ClipRectangleOrigin.i0 +
          self.Reconstructor.ClipRectangleSize.i0 ∧
        self.Reconstructor.ClipRectangleOrigin.i0 +
          self.Reconstructor.ClipRectangleSize.i0 ≤ INT_MAX) ∧
      (INT_MIN ≤ self.Reconstructor.ClipRectangleOrigin.i1 +
          self.Reconstructor.ClipRectangleSize.i1 ∧
        self.Reconstructor.ClipRectangleOrigin.i1 +
          self.Reconstructor.ClipRectangleSize.i1 ≤ INT_MAX)) :
    AddImageToExtent self image imageToReference extent_Ref =
      ((if 0 < self.Reconstructor.ClipRectangleSize.i0 ∧
            0 < self.Reconstructor.ClipRectangleSize.i1 then
          [ ({ d0 := max (image.Extent.i0 : ℚ) (self.Reconstructor.ClipRectangleOrigin.i0 : ℚ)
               d1 := max (image.Extent.i2 : ℚ) (self.Reconstructor.ClipRectangleOrigin.i1 : ℚ)
               d2 := 0, d3 := 1 } : Double4),
            { d0 := max (image.Extent.i0 : ℚ) (self.Reconstructor.ClipRectangleOrigin.i0 : ℚ)
              d1 := min (image.Extent.i3 : ℚ)
                ((self.Reconstructor.ClipRectangleOrigin.i1 : ℚ) +
                  (self.Reconstructor.ClipRectangleSize.i1 : ℚ))
              d2 := 0, d3 := 1 },
            { d0 := min (image.Extent.i1 : ℚ)
                ((self.Reconstructor.ClipRectangleOrigin.i0 : ℚ) +
                  (self.Reconstructor.ClipRectangleSize.i0 : ℚ))
              d1 := max (image.Extent.i2 : ℚ) (self.Reconstructor.ClipRectangleOrigin.i1 : ℚ)
              d2 := 0, d3 := 1 },
            { d0 := min (image.Extent.i1 : ℚ)
                ((self.Reconstructor.ClipRectangleOrigin.i0 : ℚ) +
                  (self.Reconstructor.ClipRectangleSize.i0 : ℚ))
              d1 := min (image.Extent.i3 : ℚ)
                ((self.Reconstructor.ClipRectangleOrigin.i1 : ℚ) +
                  (self.Reconstructor.ClipRectangleSize.i1 : ℚ))
              d2 := 0, d3 := 1 } ]
        else
          [ ({ d0 := (image.Extent.i0 : ℚ), d1 := (image.Extent.i2 : ℚ), d2 := 0, d3 := 1 }
              : Double4),
            { d0 := (image.Extent.i0 : ℚ), d1 := (image.Extent.i3 : ℚ), d2 := 0, d3 := 1 },
            { d0 := (image.Extent.i1 : ℚ), d1 := (image.Extent.i2 : ℚ), d2 := 0, d3 := 1 },
            { d0 := (image.Extent.i1 : ℚ), d1 := (image.Extent.i3 : ℚ), d2 := 0, d3 := 1 } ]).map
        imageToReference.MultiplyPoint).foldl expandCorner extent_Ref := by
  unfold AddImageToExtent corners_ImagePix
  by_cases hclip : 0 < self.Reconstructor.ClipRectangleSize.i0 ∧
      0 < self.Reconstructor.ClipRectangleSize.i1
  · obtain ⟨hx, hy⟩ := hsums hclip
    simp [hclip, List.foldl, wrapInt32_of_range _ hx, wrapInt32_of_range _ hy]
  · simp [hclip, List.foldl]

/-- Witness for C3: the clip rectangle with origin `(2, 3)` and size `(5, 4)` on a frame of
extent `[0, 10] x [0, 20]` under the identity pose: the extent is expanded by the corners
`(2, 3)`, `(2, 7)`, `(7, 3)`, `(7, 7)`. -/
theorem AddImageToExtent_clip_corners_witness :
    AddImageToExtent sampleClip (sampleImage 10 20 3) (translation 0 0 0) initialExtent_Ref
      = { d0 := 2, d1 := 7, d2 := 3, d3 := 7, d4 := 0, d5 := 0 } :=
  (AddImageToExtent_clip_corners sampleClip (sampleImage 10 20 3) (translation 0 0 0)
    initialExtent_Ref (fun _ => by decide)).trans (by decide!)


theorem expandAxis_zero (c : Double4) (e : Double6) :
    expandAxis c e 0 =
      { e with
          d0 := if c.d0 < e.d0 then c.d0 else e.d0
          d1 := if e.d1 < c.d0 then c.d0 else e.d1 } := by
  simp only [expandAxis, Double4.get, Double6.get, Double6.set, gt_iff_lt]
  split_ifs <;> rfl

theorem expandAxis_one (c : Double4) (e : Double6) :
    expandAxis c e 1 =
      { e with
          d2 := if c.d1 < e.d2 then c.d1 else e.d2
          d3 := if e.d3 < c.d1 then c.d1 else e.d3 } := by
  simp only [expandAxis, Double4.get, Double6.get, Double6.set, gt_iff_lt]
  split_ifs <;> rfl

theorem expandAxis_two (c : Double4) (e : Double6) :
    expandAxis c e 2 =
      { e with
          d4 := if c.d2 < e.d4 then c.d2 else e.d4
          d5 := if e.d5 < c.d2 then c.d2 else e.d5 } := by
  simp only [expandAxis, Double4.get, Double6.get, Double6.set, gt_iff_lt]
  split_ifs <;> rfl

theorem expandCorner_eq (e : Double6) (c : Double4) :
    expandCorner e c =
      { d0 := if c.d0 < e.d0 then c.d0 else e.d0
        d1 := if e.d1 < c.d0 then c.d0 else e.d1
        d2 := if c.d1 < e.d2 then c.d1 else e.d2
        d3 := if e.d3 < c.d1 then c.d1 else e.d3
        d4 := if c.d2 < e.d4 then c.d2 else e.d4
        d5 := if e.d5 < c.d2 then c.d2 else e.d5 } := by
  simp only [expandCorner, List.foldl, expandAxis_zero, expandAxis_one, expandAxis_two]


/-- The running minimum kept by the extent loop along one axis. -/
theorem foldl_lower_spec (xs : List ℚ) (m0 : ℚ) :
    xs.foldl (fun m x => if x < m then x else m) m0 ≤ m0 ∧
    (∀ x ∈ xs, xs.foldl (fun m x => if x < m then x else m) m0 ≤ x) ∧
    (xs.foldl (fun m x => if x < m then x else m) m0 = m0 ∨
      xs.foldl (fun m x => if x < m then x else m) m0 ∈ xs) := by
  induction xs generalizing m0 with
  | nil => simp
  | cons a rest ih =>
    simp only [List.foldl_cons, List.mem_cons, forall_eq_or_imp]
    obtain ⟨h1, h2, h3⟩ := ih (if a < m0 then a else m0)
    have hle : (if a < m0 then a else m0) ≤ m0 := by
      split_ifs with h
      · exact le_of_lt h
      · exact le_refl _
    have hle2 : (if a < m0 then a else m0) ≤ a := by
      split_ifs with h
      · exact le_refl _
      · exact not_lt.mp h
    refine ⟨le_trans h1 hle, ⟨le_trans h1 hle2, h2⟩, ?_⟩
    rcases h3 with h3 | h3
    · by_cases h : a < m0
      · rw [if_pos h] at h3
        exact Or.inr (Or.inl (by rw [if_pos h]; exact h3))
      · rw [if_neg h] at h3
        exact Or.inl (by rw [if_neg h]; exact h3)
    · exact Or.inr (Or.inr h3)

/-- The running maximum kept by the extent loop along one axis. -/
theorem foldl_upper_spec (xs : List ℚ) (m0 : ℚ) :
    m0 ≤ xs.foldl (fun m x => if m < x then x else m) m0 ∧
    (∀ x ∈ xs, x ≤ xs.foldl (fun m x => if m < x then x else m) m0) ∧
    (xs.foldl (fun m x => if m < x then x else m) m0 = m0 ∨
      xs.foldl (fun m x => if m < x then x else m) m0 ∈ xs) := by
  induction xs generalizing m0 with
  | nil => simp
  | cons a rest ih =>
    simp only [List.foldl_cons, List.mem_cons, forall_eq_or_imp]
    obtain ⟨h1, h2, h3⟩ := ih (if m0 < a then a else m0)
    have hle : m0 ≤ (if m0 < a then a else m0) := by
      split_ifs with h
      · exact le_of_lt h
      · exact le_refl _
    have hle2 : a ≤ (if m0 < a then a else m0) := by
      split_ifs with h
      · exact le_refl _
      · exact not_lt.mp h
    refine ⟨le_trans hle h1, ⟨le_trans hle2 h1, h2⟩, ?_⟩
    rcases h3 with h3 | h3
    · by_cases h : m0 < a
      · rw [if_pos h] at h3
        exact Or.inr (Or.inl (by rw [if_pos h]; exact h3))
      · rw [if_neg h] at h3
        exact Or.inl (by rw [if_neg h]; exact h3)
    · exact Or.inr (Or.inr h3)

/-- The extent after a list of corners, component by component: each minimum and maximum is
the running minimum or maximum of the corner coordinates along its axis. -/
theorem foldl_expandCorner_eq (corners : List Double4) (e : Double6) :
    corners.foldl expandCorner e =
      { d0 := (corners.map Double4.d0).foldl (fun m x => if x < m then x else m) e.d0
        d1 := (corners.map Double4.d0).foldl (fun m x => if m < x then x else m) e.d1
        d2 := (corners.map Double4.d1).foldl (fun m x => if x < m then x else m) e.d2
        d3 := (corners.map Double4.d1).foldl (fun m x => if m < x then x else m) e.d3
        d4 := (corners.map Double4.d2).foldl (fun m x => if x < m then x else m) e.d4
        d5 := (corners.map Double4.d2).foldl (fun m x => if m < x then x else m) e.d5 } := by
  induction corners generalizing e with
  | nil => rfl
  | cons c rest ih =>
    simp only [List.foldl_cons, List.map_cons]
    rw [ih, expandCorner_eq]

theorem sample_name :
    GetImageToReferenceTransformName sampleCollaborators sampleReconstructor
      PlusTransformName.empty = (PLUS_SUCCESS, { From := "Image", To := "Reference" }) := by
  decide

/-- C5: on a frame whose image-to-reference transform resolves but is flagged invalid,
`AddTrackedFrame` returns success, writes `false` to `*insertedIntoVolume` when the pointer is
given, and leaves the reconstructor as it was: the slice paster receives no `InsertSlice` call
and the modification time does not advance. -/
theorem AddTrackedFrame_invalid_pose {Repo : Type} (C : Collaborators Repo)
    (self : vtkVolumeReconstructor) (frame : TrackedFrame) (repository : Repo)
    (insertedIntoVolume : Option Bool) (name : PlusTransformName) (matrix : vtkMatrix4x4)
    (hname : GetImageToReferenceTransformName C self PlusTransformName.empty
      = (PLUS_SUCCESS, name))
    (hinvalid : C.GetTransform repository name = (PLUS_SUCCESS, matrix, false)) :
    (AddTrackedFrame C self (some frame) (some repository) insertedIntoVolume).1
      = PLUS_SUCCESS ∧
    (AddTrackedFrame C self (some frame) (some repository) insertedIntoVolume).2.2
      = insertedIntoVolume.map (fun _ => false) ∧
    (AddTrackedFrame C self (some frame) (some repository) insertedIntoVolume).2.1 = self ∧
    (AddTrackedFrame C self (some frame) (some repository)
      insertedIntoVolume).2.1.Reconstructor.Calls = self.Reconstructor.Calls ∧
    (AddTrackedFrame C self (some frame) (some repository) insertedIntoVolume).2.1.MTime
      = self.MTime := by
  unfold AddTrackedFrame
  simp [hname, hinvalid]

/-- Witness for C5: the repository holds a pose flagged invalid. -/
theorem AddTrackedFrame_invalid_pose_witness :
    (AddTrackedFrame sampleCollaborators sampleReconstructor
      (some (sampleFrame (translation 0 0 0) false))
      (some { ImageToReference := some (translation 0 0 0, false) }) (some true)).1
      = PLUS_SUCCESS ∧
    (AddTrackedFrame sampleCollaborators sampleReconstructor
      (some (sampleFrame (translation 0 0 0) false))
      (some { ImageToReference := some (translation 0 0 0, false) }) (some true)).2.2
      = (some true).map (fun _ => false) ∧
    (AddTrackedFrame sampleCollaborators sampleReconstructor
      (some (sampleFrame (translation 0 0 0) false))
      (some { ImageToReference := some (translation 0 0 0, false) }) (some true)).2.1
      = sampleReconstructor ∧
    (AddTrackedFrame sampleCollaborators sampleReconstructor
      (some (sampleFrame (translation 0 0 0) false))
      (some { ImageToReference := some (translation 0 0 0, false) })
      (some true)).2.1.Reconstructor.Calls = sampleReconstructor.Reconstructor.Calls ∧
    (AddTrackedFrame sampleCollaborators sampleReconstructor
      (some (sampleFrame (translation 0 0 0) false))
      (some { ImageToReference := some (translation 0 0 0, false) }) (some true)).2.1.MTime
      = sampleReconstructor.MTime :=
  AddTrackedFrame_invalid_pose sampleCollaborators sampleReconstructor
    (sampleFrame (translation 0 0 0) false)
    { ImageToReference := some (translation 0 0 0, false) } (some true)
    { From := "Image", To := "Reference" } (translation 0 0 0) sample_name rfl

/-- C6 (amended): whenever `AddTrackedFrame` turns `*insertedIntoVolume` from false to true,
the frame and the repository were given, the pose resolved and was flagged valid, the slice
was delegated to `InsertSlice` with the image of the frame and the resolved pose matrix (the
last call the slice paster received), the modification time advanced, and `AddTrackedFrame`
returns the status that `InsertSlice` returned. -/
theorem AddTrackedFrame_inserted_flag {Repo : Type} (C : Collaborators Repo)
    (self : vtkVolumeReconstructor) (frame : Option TrackedFrame)
    (transformRepository : Option Repo)
    (hset : (AddTrackedFrame C self frame transformRepository (some false)).2.2 = some true) :
    ∃ frame1 repository,
      frame = some frame1 ∧ transformRepository = some repository ∧
      (C.GetTransform repository
        (GetImageToReferenceTransformName C self PlusTransformName.empty).2).1
          = PLUS_SUCCESS ∧
      (C.GetTransform repository
        (GetImageToReferenceTransformName C self PlusTransformName.empty).2).2.2 = true ∧
      (AddTrackedFrame C self frame transformRepository (some false)).2.1.Reconstructor.Calls
        = self.Reconstructor.Calls ++
          [PasteCall.InsertSlice frame1.ImageData
            (C.GetTransform repository
              (GetImageToReferenceTransformName C self PlusTransformName.empty).2).2.1] ∧
      (AddTrackedFrame C self frame transformRepository (some false)).2.1.MTime
        = self.MTime + 1 ∧
      (AddTrackedFrame C self frame transformRepository (some false)).1
        = (C.InsertSlice self.Reconstructor frame1.ImageData
            (C.GetTransform repository
              (GetImageToReferenceTransformName C self PlusTransformName.empty).2).2.1).1 := by
  unfold AddTrackedFrame at hset ⊢
  by_cases hn : (GetImageToReferenceTransformName C self PlusTransformName.empty).1
      = PLUS_SUCCESS
  · cases frame with
    | none => simp [hn] at hset
    | some frame1 =>
      cases transformRepository with
      | none => simp [hn] at hset
      | some repository =>
        by_cases hg : (C.GetTransform repository
            (GetImageToReferenceTransformName C self PlusTransformName.empty).2).1
            = PLUS_SUCCESS
        · by_cases hv : (C.GetTransform repository
              (GetImageToReferenceTransformName C self PlusTransformName.empty).2).2.2 = true
          · refine ⟨frame1, repository, rfl, rfl, hg, hv, ?_, ?_, ?_⟩
            · simp [hn, hg, hv, vtkPasteSliceIntoVolume.InsertSlice,
                vtkVolumeReconstructor.Modified]
            · simp [hn, hg, hv, vtkPasteSliceIntoVolume.InsertSlice,
                vtkVolumeReconstructor.Modified]
            · simp [hn, hg, hv, vtkPasteSliceIntoVolume.InsertSlice,
                vtkVolumeReconstructor.Modified]
          · simp [hn, hg, hv] at hset
        · simp [hn, hg] at hset
  · simp [hn] at hset

/-- Witness for C6: a valid pose and a slice of the output scalar type; the flag becomes
true, the slice is delegated and the call succeeds. -/
theorem AddTrackedFrame_inserted_flag_witness :
    ∃ frame1 repository,
      some (sampleFrame (translation 0 0 5) true) = some frame1 ∧
      some ({ ImageToReference := some (translation 0 0 5, true) } : SampleRepository)
        = some repository ∧
      (sampleCollaborators.GetTransform repository
        (GetImageToReferenceTransformName sampleCollaborators sampleReconstructor
          PlusTransformName.empty).2).1 = PLUS_SUCCESS ∧
      (sampleCollaborators.GetTransform repository
        (GetImageToReferenceTransformName sampleCollaborators sampleReconstructor
          PlusTransformName.empty).2).2.2 = true ∧
      (AddTrackedFrame sampleCollaborators sampleReconstructor
        (some (sampleFrame (translation 0 0 5) true))
        (some { ImageToReference := some (translation 0 0 5, true) })
        (some false)).2.1.Reconstructor.Calls
        = sampleReconstructor.Reconstructor.Calls ++
          [PasteCall.InsertSlice frame1.ImageData
            (sampleCollaborators.GetTransform repository
              (GetImageToReferenceTransformName sampleCollaborators sampleReconstructor
                PlusTransformName.empty).2).2.1] ∧
      (AddTrackedFrame sampleCollaborators sampleReconstructor
        (some (sampleFrame (translation 0 0 5) true))
        (some { ImageToReference := some (translation 0 0 5, true) })
        (some false)).2.1.MTime = sampleReconstructor.MTime + 1 ∧
      (AddTrackedFrame sampleCollaborators sampleReconstructor
        (some (sampleFrame (translation 0 0 5) true))
        (some { ImageToReference := some (translation 0 0 5, true) })
        (some false)).1
        = (sampleCollaborators.InsertSlice sampleReconstructor.Reconstructor frame1.ImageData
            (sampleCollaborators.GetTransform repository
              (GetImageToReferenceTransformName sampleCollaborators sampleReconstructor
                PlusTransformName.empty).2).2.1).1 :=
  AddTrackedFrame_inserted_flag sampleCollaborators sampleReconstructor
    (some (sampleFrame (translation 0 0 5) true))
    (some { ImageToReference := some (translation 0 0 5, true) }) (by decide)

/-- A tracked frame with a valid pose whose image is of scalar type float (10), while the
output scalar mode of the sample paster is unsigned char (3). -/
theorem floatFrame_scalarType :
    ({ sampleFrame (translation 0 0 5) true with ImageData := sampleImage 10 20 10 }
      : TrackedFrame).ImageData.ScalarType ≠ samplePaster.OutputScalarMode := by
  decide

/-- C6 (counterexample): the pose is valid but `InsertSlice` fails (the slice is of another
scalar type than the output); `AddTrackedFrame` has set `*insertedIntoVolume` to true and
returns failure, so a true flag does not tell that the insertion succeeded. -/
theorem AddTrackedFrame_inserted_flag_counterexample :
    (AddTrackedFrame sampleCollaborators sampleReconstructor
      (some { sampleFrame (translation 0 0 5) true with ImageData := sampleImage 10 20 10 })
      (some { ImageToReference := some (translation 0 0 5, true) }) (some false)).2.2
      = some true ∧
    (AddTrackedFrame sampleCollaborators sampleReconstructor
      (some { sampleFrame (translation 0 0 5) true with ImageData := sampleImage 10 20 10 })
      (some { ImageToReference := some (translation 0 0 5, true) }) (some false)).1
      = PLUS_FAIL := by
  constructor
  · decide
  · decide

/-! ## Properties of the visible output -/

/-- A reconstructor whose visible output carries a stamp not older than the modification time
is left alone by `UpdateReconstructedVolume`. -/
theorem UpdateReconstructedVolume_up_to_date {Repo : Type} (C : Collaborators Repo)
    (s : vtkVolumeReconstructor) (h : s.ReconstructedVolumeUpdatedTime ≥ s.GetMTime) :
    UpdateReconstructedVolume C s = (PLUS_SUCCESS, s) := by
  unfold UpdateReconstructedVolume
  simp only [h, if_true]

/-- C7: `UpdateReconstructedVolume` is lazy. A call made right after a call of
`UpdateReconstructedVolume` (which always returns success in this source, as
`GenerateHoleFilledVolume` does) returns success and changes nothing: the whole state is the
same, so the hole filler is not run again (same run counter and output) and
`ReconstructedVolume` is the same. For every call, the stamp `ReconstructedVolumeUpdatedTime`
either keeps its value, or the call succeeded and the stamp is the modification time; hence a
call that does not succeed does not advance the stamp. -/
theorem UpdateReconstructedVolume_lazy {Repo : Type} (C : Collaborators Repo)
    (self : vtkVolumeReconstructor) :
    (UpdateReconstructedVolume C self).1 = PLUS_SUCCESS ∧
    UpdateReconstructedVolume C (UpdateReconstructedVolume C self).2
      = (PLUS_SUCCESS, (UpdateReconstructedVolume C self).2) ∧
    (UpdateReconstructedVolume C
      (UpdateReconstructedVolume C self).2).2.HoleFiller.Updates
      = (UpdateReconstructedVolume C self).2.HoleFiller.Updates ∧
    (UpdateReconstructedVolume C
      (UpdateReconstructedVolume C self).2).2.ReconstructedVolume
      = (UpdateReconstructedVolume C self).2.ReconstructedVolume ∧
    ((UpdateReconstructedVolume C self).2.ReconstructedVolumeUpdatedTime
        = self.ReconstructedVolumeUpdatedTime ∨
      ((UpdateReconstructedVolume C self).1 = PLUS_SUCCESS ∧
        (UpdateReconstructedVolume C self).2.ReconstructedVolumeUpdatedTime = self.MTime)) := by
  have hup : (UpdateReconstructedVolume C self).2.ReconstructedVolumeUpdatedTime
      ≥ (UpdateReconstructedVolume C self).2.GetMTime := by
    simp only [UpdateReconstructedVolume, vtkVolumeReconstructor.GetMTime, ge_iff_le]
    by_cases h : self.MTime ≤ self.ReconstructedVolumeUpdatedTime
    · simp [h]
    · by_cases hf : self.FillHoles = true
      · simp [h, hf, GenerateHoleFilledVolume]
      · simp [h, hf]
  have hsecond := UpdateReconstructedVolume_up_to_date C _ hup
  refine ⟨?_, hsecond, by rw [hsecond], by rw [hsecond], ?_⟩
  · simp only [UpdateReconstructedVolume, vtkVolumeReconstructor.GetMTime, ge_iff_le]
    by_cases h : self.MTime ≤ self.ReconstructedVolumeUpdatedTime
    · simp [h]
    · by_cases hf : self.FillHoles = true
      · simp [h, hf, GenerateHoleFilledVolume]
      · simp [h, hf]
  · simp only [UpdateReconstructedVolume, vtkVolumeReconstructor.GetMTime, ge_iff_le]
    by_cases h : self.MTime ≤ self.ReconstructedVolumeUpdatedTime
    · simp [h]
    · by_cases hf : self.FillHoles = true
      · simp [h, hf, GenerateHoleFilledVolume]
      · simp [h, hf]

/-- C8: when the visible output is out of date, `UpdateReconstructedVolume` succeeds, stamps
the output with the modification time and sets `ReconstructedVolume` to the output the hole
filler computes from the raw volume and the accumulation buffer of the slice paster if
`FillHoles` is on, and to a copy of the raw volume of the slice paster otherwise. -/
theorem UpdateReconstructedVolume_regenerates {Repo : Type} (C : Collaborators Repo)
    (self : vtkVolumeReconstructor)
    (hstale : self.ReconstructedVolumeUpdatedTime < self.GetMTime) :
    (UpdateReconstructedVolume C self).1 = PLUS_SUCCESS ∧
    (UpdateReconstructedVolume C self).2.ReconstructedVolumeUpdatedTime = self.GetMTime ∧
    (UpdateReconstructedVolume C self).2.ReconstructedVolume =
      (if self.FillHoles then
        C.FillHolesExecute
          { self.HoleFiller with
              ReconstructedVolume := self.Reconstructor.ReconstructedVolume
              AccumulationBuffer := self.Reconstructor.AccumulationBuffer }
      else self.Reconstructor.ReconstructedVolume) ∧
    (self.FillHoles = true →
      (UpdateReconstructedVolume C self).2.HoleFiller.Updates = self.HoleFiller.Updates + 1) ∧
    (self.FillHoles = false →
      (UpdateReconstructedVolume C self).2.HoleFiller = self.HoleFiller) := by
  have h : ¬ self.MTime ≤ self.ReconstructedVolumeUpdatedTime := by
    simp only [vtkVolumeReconstructor.GetMTime] at hstale
    omega
  simp only [UpdateReconstructedVolume, vtkVolumeReconstructor.GetMTime, ge_iff_le]
  by_cases hf : self.FillHoles = true
  · simp [h, hf, GenerateHoleFilledVolume, vtkFillHolesInVolume.Update,
      vtkImageData.DeepCopy]
  · simp [h, hf, vtkImageData.DeepCopy]

/-- The sample reconstructor with hole filling on is out of date: stamp 0, modification time
1. -/
theorem sampleReconstructor_stale :
    ({ sampleReconstructor with FillHoles := true } : vtkVolumeReconstructor).ReconstructedVolumeUpdatedTime
      < ({ sampleReconstructor with FillHoles := true } : vtkVolumeReconstructor).GetMTime := by
  decide

/-- Witness for C8: a reconstructor as constructed (stamp 0, modification time 1) with hole
filling switched on. -/
theorem UpdateReconstructedVolume_regenerates_witness :
    (UpdateReconstructedVolume sampleCollaborators
      { sampleReconstructor with FillHoles := true }).1 = PLUS_SUCCESS ∧
    (UpdateReconstructedVolume sampleCollaborators
      { sampleReconstructor with FillHoles := true }).2.ReconstructedVolumeUpdatedTime = 1 ∧
    (UpdateReconstructedVolume sampleCollaborators
      { sampleReconstructor with FillHoles := true }).2.HoleFiller.Updates = 1 :=
  have h := UpdateReconstructedVolume_regenerates sampleCollaborators
    { sampleReconstructor with FillHoles := true } sampleReconstructor_stale
  ⟨h.1, h.2.1, h.2.2.2.1 rfl⟩

/-! ## Properties of the configuration reader -/

/-- C9 (amended): `ReadConfiguration` returns failure when the configuration root is absent,
when it has no `VolumeReconstruction` element, and when no value at all can be read from the
`OutputSpacing` attribute of that element (the attribute is absent, or stream extraction
reads nothing from its text). -/
theorem ReadConfiguration_missing_spacing {Repo : Type} (C : Collaborators Repo)
    (self : vtkVolumeReconstructor) (config : Option vtkXMLDataElement)
    (hmissing : config = none ∨
      ∃ root, config = some root ∧
        (root.FindNestedElementWithName "VolumeReconstruction" = none ∨
          ∃ reconConfig,
            root.FindNestedElementWithName "VolumeReconstruction" = some reconConfig ∧
            (reconConfig.GetAttribute "OutputSpacing" = none ∨
              ∃ text, reconConfig.GetAttribute "OutputSpacing" = some text ∧
                C.ParseDoubles text = []))) :
    (ReadConfiguration C self config).1 = PLUS_FAIL := by
  unfold ReadConfiguration
  rcases hmissing with h | ⟨root, h, hroot⟩
  · simp [h]
  · rcases hroot with h1 | ⟨reconConfig, h1, hspacing⟩
    · simp [h, h1]
    · have hlen : (reconConfig.GetVectorAttributeDouble C "OutputSpacing" 3).length = 0 := by
        unfold vtkXMLDataElement.GetVectorAttributeDouble
        rcases hspacing with h2 | ⟨text, h2, h3⟩
        · simp [h2]
        · simp [h2, h3]
      simp [h, h1, hlen]

/-- Witness for C9: a `VolumeReconstruction` element without an `OutputSpacing` attribute. -/
theorem ReadConfiguration_missing_spacing_witness :
    (ReadConfiguration sampleCollaborators sampleReconstructor
      (some (vtkXMLDataElement.mk "PlusConfiguration" []
        [vtkXMLDataElement.mk "VolumeReconstruction" [("FillHoles", "Off")] []]))).1
      = PLUS_FAIL :=
  ReadConfiguration_missing_spacing sampleCollaborators sampleReconstructor
    (some (vtkXMLDataElement.mk "PlusConfiguration" []
      [vtkXMLDataElement.mk "VolumeReconstruction" [("FillHoles", "Off")] []]))
    (Or.inr ⟨_, rfl, Or.inr ⟨vtkXMLDataElement.mk "VolumeReconstruction" [("FillHoles", "Off")] [],
      rfl, Or.inl (by decide)⟩⟩)

/-- C9 (counterexample): the `OutputSpacing` attribute has the text `0.5`, from which one
component can be read and not three; `ReadConfiguration` returns success and the output
spacing is `(0.5, 0, 0)`. -/
theorem ReadConfiguration_missing_spacing_counterexample :
    ((vtkXMLDataElement.mk "VolumeReconstruction" [("OutputSpacing", "0.5")]
      []).GetVectorAttributeDouble sampleCollaborators "OutputSpacing" 3).length = 1 ∧
    (ReadConfiguration sampleCollaborators sampleReconstructor
      (some (vtkXMLDataElement.mk "PlusConfiguration" []
        [vtkXMLDataElement.mk "VolumeReconstruction" [("OutputSpacing", "0.5")] []]))).1
      = PLUS_SUCCESS ∧
    (ReadConfiguration sampleCollaborators sampleReconstructor
      (some (vtkXMLDataElement.mk "PlusConfiguration" []
        [vtkXMLDataElement.mk "VolumeReconstruction" [("OutputSpacing", "0.5")]
          []]))).2.Reconstructor.OutputSpacing = { d0 := 1 / 2, d1 := 0, d2 := 0 } := by
  refine ⟨by decide, by decide, ?_⟩
  simp [ReadConfiguration, vtkXMLDataElement.FindNestedElementWithName,
    vtkXMLDataElement.NestedElements, vtkXMLDataElement.GetName,
    vtkXMLDataElement.GetAttribute, vtkXMLDataElement.Attributes,
    vtkXMLDataElement.GetVectorAttributeDouble, vtkXMLDataElement.GetVectorAttributeInt,
    vtkXMLDataElement.GetScalarAttributeInt, vtkXMLDataElement.GetScalarAttributeDouble,
    sampleCollaborators, sampleReconstructor, vtkVolumeReconstructor.New, samplePaster,
    readModes, readOutputClipFan, readSkipInterval, Double3.store,
    vtkVolumeReconstructor.Modified]

/-! ## Properties of the kernel configuration -/

/-- The error counter of the kernel loop never decreases. -/
theorem readHFElements_errors_mono {Repo : Type} (C : Collaborators Repo)
    (nested : List vtkXMLDataElement) (filler : vtkFillHolesInVolume) (errs idx n : Nat)
    (h : (readHFElements C nested filler errs idx).2 = some n) : errs ≤ n := by
  induction nested generalizing filler errs idx with
  | nil =>
    simp only [readHFElements, Option.some.injEq] at h
    omega
  | cons e rest ih =>
    unfold readHFElements at h
    by_cases hname : STRCASECMP e.GetName "HoleFillingElement" = 0
    · simp only [hname, ne_eq, not_true_eq_false, if_false] at h
      cases hr : readHFElement C e with
      | fatal => simp [hr] at h
      | skipped =>
        simp only [hr] at h
        have := ih _ _ _ h
        omega
      | stored t =>
        simp only [hr] at h
        exact ih _ _ _ h
    · simp only [hname, ne_eq, not_false_eq_true, if_true] at h
      exact ih _ _ _ h

/-- A kernel element that is not read into a kernel keeps the kernel loop from ending
without errors. -/
theorem readHFElements_malformed {Repo : Type} (C : Collaborators Repo)
    (nested : List vtkXMLDataElement) (filler : vtkFillHolesInVolume) (errs idx : Nat)
    (child : vtkXMLDataElement) (hmem : child ∈ nested)
    (hname : isHoleFillingElement child = true)
    (hbad : readHFElement C child = HFElementRead.fatal ∨
      readHFElement C child = HFElementRead.skipped) :
    (readHFElements C nested filler errs idx).2 ≠ some 0 := by
  induction nested generalizing filler errs idx with
  | nil => simp at hmem
  | cons e rest ih =>
    unfold readHFElements
    by_cases hn : STRCASECMP e.GetName "HoleFillingElement" = 0
    · simp only [hn, ne_eq, not_true_eq_false, if_false]
      rcases List.mem_cons.mp hmem with rfl | hrest
      · rcases hbad with hb | hb
        · simp [hb]
        · simp only [hb]
          intro h
          have := readHFElements_errors_mono C rest filler (errs + 1) idx 0 h
          omega
      · cases hr : readHFElement C e with
        | fatal => simp
        | skipped => exact ih _ _ _ hrest
        | stored t => exact ih _ _ _ hrest
    · simp only [hn, ne_eq, not_false_eq_true, if_true]
      rcases List.mem_cons.mp hmem with rfl | hrest
      · simp only [isHoleFillingElement, decide_eq_true_eq] at hname
        exact absurd hname hn
      · exact ih _ _ _ hrest

/-- An absent attribute cannot be read as a number. -/
theorem GetScalarAttributeDouble_absent {Repo : Type} (C : Collaborators Repo)
    (e : vtkXMLDataElement) (name : String) (h : e.GetAttribute name = none) :
    e.GetScalarAttributeDouble C name = none := by
  simp [vtkXMLDataElement.GetScalarAttributeDouble, vtkXMLDataElement.GetVectorAttributeDouble,
    h]

/-- An absent attribute cannot be read as an integer. -/
theorem GetScalarAttributeInt_absent {Repo : Type} (C : Collaborators Repo)
    (e : vtkXMLDataElement) (name : String) (h : e.GetAttribute name = none) :
    e.GetScalarAttributeInt C name = none := by
  simp [vtkXMLDataElement.GetScalarAttributeInt, vtkXMLDataElement.GetVectorAttributeInt, h]

/-- The type that `readHFElement` assigns to `tempElement` when the `Type` value names a
kernel type. -/
theorem readHFElement_known_type {Repo : Type} (C : Collaborators Repo)
    (child : vtkXMLDataElement) (t : String) (ty : HFTYPE)
    (htype : child.GetAttribute "Type" = some t) (hty : HFTypeOfName t = some ty) :
    readHFElement C child =
      match ty with
      | HFTYPE.HFTYPE_GAUSSIAN | HFTYPE.HFTYPE_GAUSSIAN_ACCUMULATION =>
        match child.GetScalarAttributeDouble C "Stdev" with
        | none => HFElementRead.skipped
        | some stdev =>
          readSizeAndMinRatio C child { C.NewHFElement with type := some ty, stdev := stdev }
      | HFTYPE.HFTYPE_DISTANCE_WEIGHT_INVERSE | HFTYPE.HFTYPE_NEAREST_NEIGHBOR =>
        readSizeAndMinRatio C child { C.NewHFElement with type := some ty }
      | HFTYPE.HFTYPE_STICK =>
        match child.GetScalarAttributeInt C "StickLengthLimit" with
        | none => HFElementRead.skipped
        | some stickLengthLimit =>
          match child.GetScalarAttributeInt C "NumberOfSticksToUse" with
          | none => HFElementRead.skipped
          | some numberOfSticksToUse =>
            HFElementRead.stored
              { C.NewHFElement with
                  type := some ty
                  stickLengthLimit := stickLengthLimit
                  numSticksToUse := numberOfSticksToUse } := by
  unfold HFTypeOfName at hty
  unfold readHFElement
  simp only [htype]
  by_cases h1 : STRCASECMP t "GAUSSIAN" = 0
  · simp only [h1, if_true, Option.some.injEq] at hty
    subst hty
    simp only [h1, if_true]
  · by_cases h2 : STRCASECMP t "GAUSSIAN_ACCUMULATION" = 0
    · simp only [h1, h2, if_true, if_false, Option.some.injEq] at hty
      subst hty
      simp only [h1, h2, if_true, if_false]
    · by_cases h3 : STRCASECMP t "STICK" = 0
      · simp only [h1, h2, h3, if_true, if_false, Option.some.injEq] at hty
        subst hty
        simp only [h1, h2, h3, if_true, if_false]
      · by_cases h4 : STRCASECMP t "NEAREST_NEIGHBOR" = 0
        · simp only [h1, h2, h3, h4, if_true, if_false, Option.some.injEq] at hty
          subst hty
          simp only [h1, h2, h3, h4, if_true, if_false]
        · by_cases h5 : STRCASECMP t "DISTANCE_WEIGHT_INVERSE" = 0
          · simp only [h1, h2, h3, h4, h5, if_true, if_false, Option.some.injEq] at hty
            subst hty
            simp only [h1, h2, h3, h4, h5, if_true, if_false]
          · simp [h1, h2, h3, h4, h5] at hty

/-- A kernel element of a known type that lacks an attribute its type requires is counted as
an error and not stored. -/
theorem readHFElement_lacking {Repo : Type} (C : Collaborators Repo)
    (child : vtkXMLDataElement) (t : String) (ty : HFTYPE)
    (htype : child.GetAttribute "Type" = some t) (hty : HFTypeOfName t = some ty)
    (hlack : lacksRequiredAttribute child ty) :
    readHFElement C child = HFElementRead.skipped := by
  rw [readHFElement_known_type C child t ty htype hty]
  cases ty <;> simp only [lacksRequiredAttribute] at hlack <;> simp only [readSizeAndMinRatio]
  · rcases hlack with h | h | h
    · simp only [GetScalarAttributeDouble_absent C child _ h]
    · simp only [GetScalarAttributeInt_absent C child _ h]
      split <;> rfl
    · simp only [GetScalarAttributeDouble_absent C child _ h]
      split
      · rfl
      · split <;> rfl
  · rcases hlack with h | h | h
    · simp only [GetScalarAttributeDouble_absent C child _ h]
    · simp only [GetScalarAttributeInt_absent C child _ h]
      split <;> rfl
    · simp only [GetScalarAttributeDouble_absent C child _ h]
      split
      · rfl
      · split <;> rfl
  · rcases hlack with h | h
    · simp only [GetScalarAttributeInt_absent C child _ h]
    · simp only [GetScalarAttributeDouble_absent C child _ h]
      split <;> rfl
  · rcases hlack with h | h
    · simp only [GetScalarAttributeInt_absent C child _ h]
    · simp only [GetScalarAttributeDouble_absent C child _ h]
      split <;> rfl
  · rcases hlack with h | h
    · simp only [GetScalarAttributeInt_absent C child _ h]
    · simp only [GetScalarAttributeInt_absent C child _ h]
      split <;> rfl

/-- A kernel that `readHFElement` hands to `SetHFElement` carries the type and the parameters
read from its element. -/
theorem readHFElement_stored {Repo : Type} (C : Collaborators Repo)
    (child : vtkXMLDataElement) (kernel : FillHolesInVolumeElement)
    (h : readHFElement C child = HFElementRead.stored kernel) :
    KernelReadFrom C child kernel := by
  cases htype : child.GetAttribute "Type" with
  | none =>
    unfold readHFElement at h
    simp [htype] at h
  | some t =>
    refine ⟨t, htype, ?_⟩
    intro ty hty
    rw [readHFElement_known_type C child t ty htype hty] at h
    cases ty with
    | HFTYPE_GAUSSIAN =>
      simp only [carriesParameters]
      cases hs : child.GetScalarAttributeDouble C "Stdev" with
      | none => simp [hs] at h
      | some stdev =>
        simp only [hs, readSizeAndMinRatio] at h
        cases hz : child.GetScalarAttributeInt C "Size" with
        | none => simp [hz] at h
        | some size =>
          cases hm : child.GetScalarAttributeDouble C "MinimumKnownVoxelsRatio" with
          | none => simp [hz, hm] at h
          | some minRatio =>
            simp only [hz, hm, HFElementRead.stored.injEq] at h
            subst h
            simp
    | HFTYPE_GAUSSIAN_ACCUMULATION =>
      simp only [carriesParameters]
      cases hs : child.GetScalarAttributeDouble C "Stdev" with
      | none => simp [hs] at h
      | some stdev =>
        simp only [hs, readSizeAndMinRatio] at h
        cases hz : child.GetScalarAttributeInt C "Size" with
        | none => simp [hz] at h
        | some size =>
          cases hm : child.GetScalarAttributeDouble C "MinimumKnownVoxelsRatio" with
          | none => simp [hz, hm] at h
          | some minRatio =>
            simp only [hz, hm, HFElementRead.stored.injEq] at h
            subst h
            simp
    | HFTYPE_DISTANCE_WEIGHT_INVERSE =>
      simp only [carriesParameters]
      simp only [readSizeAndMinRatio] at h
      cases hz : child.GetScalarAttributeInt C "Size" with
      | none => simp [hz] at h
      | some size =>
        cases hm : child.GetScalarAttributeDouble C "MinimumKnownVoxelsRatio" with
        | none => simp [hz, hm] at h
        | some minRatio =>
          simp only [hz, hm, HFElementRead.stored.injEq] at h
          subst h
          simp
    | HFTYPE_NEAREST_NEIGHBOR =>
      simp only [carriesParameters]
      simp only [readSizeAndMinRatio] at h
      cases hz : child.GetScalarAttributeInt C "Size" with
      | none => simp [hz] at h
      | some size =>
        cases hm : child.GetScalarAttributeDouble C "MinimumKnownVoxelsRatio" with
        | none => simp [hz, hm] at h
        | some minRatio =>
          simp only [hz, hm, HFElementRead.stored.injEq] at h
          subst h
          simp
    | HFTYPE_STICK =>
      simp only [carriesParameters]
      cases hz : child.GetScalarAttributeInt C "StickLengthLimit" with
      | none => simp [hz] at h
      | some limit =>
        cases hm : child.GetScalarAttributeInt C "NumberOfSticksToUse" with
        | none => simp [hz, hm] at h
        | some sticks =>
          simp only [hz, hm, HFElementRead.stored.injEq] at h
          subst h
          simp

/-- The part of C11 that holds on the code: with `FillHoles` set to `On`, `ReadConfiguration`
returns failure when the `HoleFilling` element is missing, when a kernel element lacks the
`Type` attribute, and when a kernel element whose `Type` names a kernel type lacks an
attribute required by that type. -/
theorem ReadConfiguration_malformed_kernel {Repo : Type} (C : Collaborators Repo)
    (self : vtkVolumeReconstructor) (root reconConfig : vtkXMLDataElement) (fillHoles : String)
    (hrecon : root.FindNestedElementWithName "VolumeReconstruction" = some reconConfig)
    (hfill : reconConfig.GetAttribute "FillHoles" = some fillHoles)
    (hon : STRCASECMP fillHoles "On" = 0)
    (hbad : reconConfig.FindNestedElementWithName "HoleFilling" = none ∨
      ∃ holeFilling child,
        reconConfig.FindNestedElementWithName "HoleFilling" = some holeFilling ∧
        child ∈ holeFilling.NestedElements ∧ isHoleFillingElement child = true ∧
        (child.GetAttribute "Type" = none ∨
          ∃ t ty, child.GetAttribute "Type" = some t ∧ HFTypeOfName t = some ty ∧
            lacksRequiredAttribute child ty)) :
    (ReadConfiguration C self (some root)).1 = PLUS_FAIL := by
  unfold ReadConfiguration
  simp only [hrecon, hfill, hon, decide_True]
  split
  · rfl
  · rcases hbad with hnone | ⟨holeFilling, child, hhf, hmem, hname, hchild⟩
    · simp only [hnone, if_true]
    · simp only [hhf, if_true]
      have hread : readHFElement C child = HFElementRead.fatal ∨
          readHFElement C child = HFElementRead.skipped := by
        rcases hchild with hno | ⟨t, ty, ht, hty, hlack⟩
        · left
          unfold readHFElement
          simp [hno]
        · right
          exact readHFElement_lacking C child t ty ht hty hlack
      split
      · rfl
      · rename_i n heq
        by_cases hn : n = 0
        · subst hn
          exact absurd heq (readHFElements_malformed C _ _ _ _ child hmem hname hread)
        · simp [hn]

/-- C11 (the code at the failing input): hole filling is on and the only kernel element has
the `Type` value `FOO`, which names no kernel type, and every parameter attribute. Whatever
the default-constructed kernel holds, `ReadConfiguration` returns success and hands one kernel
to the hole filler, with the type the default-constructed kernel happened to have. -/
theorem ReadConfiguration_unknown_kernel_type (e0 : FillHolesInVolumeElement) :
    HFTypeOfName "FOO" = none ∧
    (ReadConfiguration { sampleCollaborators with NewHFElement := e0 } sampleReconstructor
      (some (sampleKernelConfiguration "FOO"))).1 = PLUS_SUCCESS ∧
    (ReadConfiguration { sampleCollaborators with NewHFElement := e0 } sampleReconstructor
      (some (sampleKernelConfiguration "FOO"))).2.FillHoles = true ∧
    ((ReadConfiguration { sampleCollaborators with NewHFElement := e0 } sampleReconstructor
      (some (sampleKernelConfiguration "FOO"))).2.HoleFiller.HFElements.map
        FillHolesInVolumeElement.type) = [e0.type] := by
  obtain ⟨t, a, b, c, d, e⟩ := e0
  refine ⟨by decide, ?_, ?_, ?_⟩
  · rcases t with _ | t
    · rfl
    · cases t <;> rfl
  · rcases t with _ | t
    · rfl
    · cases t <;> rfl
  · rcases t with _ | t
    · rfl
    · cases t <;> rfl

/-- When the kernel loop ends without errors, every kernel element was read into a kernel and
the kernels lie in the kernel list in document order, from the start index on. -/
theorem readHFElements_stored {Repo : Type} (C : Collaborators Repo)
    (nested : List vtkXMLDataElement) (filler : vtkFillHolesInVolume) (errs idx : Nat)
    (filler1 : vtkFillHolesInVolume)
    (h : readHFElements C nested filler errs idx = (filler1, some 0))
    (hroom : idx + (nested.filter isHoleFillingElement).length ≤ filler.HFElements.length) :
    errs = 0 ∧ filler1.NumHFElements = filler.NumHFElements ∧
    ∃ kernels : List FillHolesInVolumeElement,
      List.Forall₂ (fun kernel child => readHFElement C child = HFElementRead.stored kernel)
        kernels (nested.filter isHoleFillingElement) ∧
      ∀ j, filler1.HFElements[j]? =
        if idx ≤ j ∧ j < idx + kernels.length then kernels[j - idx]?
        else filler.HFElements[j]? := by
  induction nested generalizing filler errs idx with
  | nil =>
    simp only [readHFElements, Prod.mk.injEq, Option.some.injEq] at h
    obtain ⟨h1, h2⟩ := h
    subst h1
    refine ⟨h2, rfl, [], List.Forall₂.nil, ?_⟩
    intro j
    have c : ¬ (idx ≤ j ∧ j < idx + ([] : List FillHolesInVolumeElement).length) :=
      fun c => by simp at c; omega
    rw [if_neg c]
  | cons e rest ih =>
    unfold readHFElements at h
    by_cases hname : STRCASECMP e.GetName "HoleFillingElement" = 0
    · have hHF : isHoleFillingElement e = true := by
        simp [isHoleFillingElement, hname]
      simp only [hname, ne_eq, not_true_eq_false, if_false] at h
      simp only [List.filter_cons, hHF, if_true, List.length_cons] at hroom ⊢
      cases hr : readHFElement C e with
      | fatal => simp [hr] at h
      | skipped =>
        simp only [hr] at h
        have := readHFElements_errors_mono C rest filler (errs + 1) idx 0 (by rw [h])
        omega
      | stored t =>
        simp only [hr] at h
        have hlen : (filler.SetHFElement idx t).HFElements.length = filler.HFElements.length := by
          simp [vtkFillHolesInVolume.SetHFElement]
        obtain ⟨h1, h2, kernels, h3, h4⟩ := ih (filler.SetHFElement idx t) errs (idx + 1) h
          (by rw [hlen]; omega)
        refine ⟨h1, by rw [h2]; rfl, t :: kernels, List.Forall₂.cons hr h3, ?_⟩
        intro j
        rw [h4 j]
        simp only [vtkFillHolesInVolume.SetHFElement, List.length_cons]
        by_cases hj : j = idx
        · subst hj
          have hlt : j < filler.HFElements.length := by omega
          simp [List.getElem?_set, hlt]
        · by_cases hgt : idx < j
          · have hsub : j - idx = (j - (idx + 1)) + 1 := by omega
            have hne : idx ≠ j := by omega
            rw [hsub, List.getElem?_cons_succ, List.getElem?_set_ne hne]
            by_cases hin : j < idx + 1 + kernels.length
            · have c1 : idx + 1 ≤ j ∧ j < idx + 1 + kernels.length := ⟨by omega, hin⟩
              have c2 : idx ≤ j ∧ j < idx + (kernels.length + 1) := ⟨by omega, by omega⟩
              rw [if_pos c1, if_pos c2]
            · have c1 : ¬ (idx + 1 ≤ j ∧ j < idx + 1 + kernels.length) := fun c => hin c.2
              have c2 : ¬ (idx ≤ j ∧ j < idx + (kernels.length + 1)) := fun c => hin (by omega)
              rw [if_neg c1, if_neg c2]
          · have hne : idx ≠ j := by omega
            have c1 : ¬ (idx + 1 ≤ j ∧ j < idx + 1 + kernels.length) := fun c => by omega
            have c2 : ¬ (idx ≤ j ∧ j < idx + (kernels.length + 1)) := fun c => by omega
            rw [if_neg c1, if_neg c2, List.getElem?_set_ne hne]
    · have hHF : isHoleFillingElement e = false := by
        simp [isHoleFillingElement, hname]
      simp only [hname, ne_eq, not_false_eq_true, if_true] at h
      simp only [List.filter_cons, hHF, Bool.false_eq_true, if_false] at hroom ⊢
      exact ih filler errs idx h hroom

/-- The structure of `ReadConfiguration` in terms of the state reached before the kernels are
read. -/
theorem ReadConfiguration_eq {Repo : Type} (C : Collaborators Repo)
    (self : vtkVolumeReconstructor) (root : vtkXMLDataElement) :
    ReadConfiguration C self (some root) =
      match root.FindNestedElementWithName "VolumeReconstruction" with
      | none => (PLUS_FAIL, self)
      | some reconConfig =>
        if (reconConfig.GetVectorAttributeDouble C "OutputSpacing" 3).length = 0 then
          (PLUS_FAIL, configuredFrames self reconConfig)
        else if (configuredBeforeKernels C self reconConfig).FillHoles then
          match reconConfig.FindNestedElementWithName "HoleFilling" with
          | none => (PLUS_FAIL, configuredBeforeKernels C self reconConfig)
          | some holeFilling =>
            match (readHFElements C holeFilling.NestedElements
                ((configuredBeforeKernels C self reconConfig).HoleFiller.AllocateHFElements C
                  (countHFElements holeFilling.NestedElements)) 0 0).2 with
            | none =>
              (PLUS_FAIL,
                { configuredBeforeKernels C self reconConfig with
                    HoleFiller :=
                      (readHFElements C holeFilling.NestedElements
                        ((configuredBeforeKernels C self
                          reconConfig).HoleFiller.AllocateHFElements C
                          (countHFElements holeFilling.NestedElements)) 0 0).1 })
            | some numberOfErrors =>
              if numberOfErrors ≠ 0 then
                (PLUS_FAIL,
                  { configuredBeforeKernels C self reconConfig with
                      HoleFiller :=
                        (readHFElements C holeFilling.NestedElements
                          ((configuredBeforeKernels C self
                            reconConfig).HoleFiller.AllocateHFElements C
                            (countHFElements holeFilling.NestedElements)) 0 0).1 })
              else
                (PLUS_SUCCESS,
                  ({ configuredBeforeKernels C self reconConfig with
                      HoleFiller :=
                        (readHFElements C holeFilling.NestedElements
                          ((configuredBeforeKernels C self
                            reconConfig).HoleFiller.AllocateHFElements C
                            (countHFElements holeFilling.NestedElements)) 0 0).1 }
                    : vtkVolumeReconstructor).Modified)
        else (PLUS_SUCCESS, (configuredBeforeKernels C self reconConfig).Modified) := by
  rfl

/-- C12: whenever `ReadConfiguration` succeeds with hole filling on, the hole filler holds
exactly one kernel per nested element of the `HoleFilling` element that is named
`HoleFillingElement`, in document order (the other nested elements are skipped), and each
kernel carries the type and the parameters read from its element. -/
theorem ReadConfiguration_kernel_order {Repo : Type} (C : Collaborators Repo)
    (self : vtkVolumeReconstructor) (config : Option vtkXMLDataElement)
    (hok : (ReadConfiguration C self config).1 = PLUS_SUCCESS)
    (hfill : (ReadConfiguration C self config).2.FillHoles = true) :
    ∃ root reconConfig holeFilling,
      config = some root ∧
      root.FindNestedElementWithName "VolumeReconstruction" = some reconConfig ∧
      reconConfig.FindNestedElementWithName "HoleFilling" = some holeFilling ∧
      (ReadConfiguration C self config).2.HoleFiller.NumHFElements
        = ((holeFilling.NestedElements.filter isHoleFillingElement).length : Int) ∧
      List.Forall₂ (fun kernel child => KernelReadFrom C child kernel)
        (ReadConfiguration C self config).2.HoleFiller.HFElements
        (holeFilling.NestedElements.filter isHoleFillingElement) := by
  cases config with
  | none => simp [ReadConfiguration] at hok
  | some root =>
    rw [ReadConfiguration_eq] at hok hfill ⊢
    cases hrecon : root.FindNestedElementWithName "VolumeReconstruction" with
    | none => simp [hrecon] at hok
    | some reconConfig =>
      simp only [hrecon] at hok hfill ⊢
      by_cases hspacing : (reconConfig.GetVectorAttributeDouble C "OutputSpacing" 3).length = 0
      · simp [hspacing] at hok
      · simp only [hspacing, if_false] at hok hfill ⊢
        by_cases hfh : (configuredBeforeKernels C self reconConfig).FillHoles = true
        · simp only [hfh, if_true] at hok hfill ⊢
          cases hhf : reconConfig.FindNestedElementWithName "HoleFilling" with
          | none => simp [hhf] at hok
          | some holeFilling =>
            simp only [hhf] at hok hfill ⊢
            cases hread : readHFElements C holeFilling.NestedElements
                ((configuredBeforeKernels C self reconConfig).HoleFiller.AllocateHFElements C
                  (countHFElements holeFilling.NestedElements)) 0 0 with
            | mk filler1 errors =>
              simp only [hread] at hok ⊢
              cases errors with
              | none => simp at hok
              | some n =>
                by_cases hn : n = 0
                · subst hn
                  have hcount : countHFElements holeFilling.NestedElements
                      = (holeFilling.NestedElements.filter isHoleFillingElement).length := rfl
                  obtain ⟨_, hnum, kernels, hall, hget⟩ := readHFElements_stored C
                    holeFilling.NestedElements _ 0 0 filler1 hread
                    (by simp [vtkFillHolesInVolume.AllocateHFElements, hcount])
                  have hlen : kernels.length
                      = (holeFilling.NestedElements.filter isHoleFillingElement).length :=
                    hall.length_eq
                  have heq : filler1.HFElements = kernels := by
                    apply List.ext_getElem?
                    intro j
                    rw [hget j]
                    by_cases hj : j < kernels.length
                    · simp [hj]
                    · have c : ¬ (0 ≤ j ∧ j < 0 + kernels.length) := fun c => hj (by omega)
                      rw [if_neg c]
                      simp only [vtkFillHolesInVolume.AllocateHFElements, hcount, ← hlen]
                      rw [List.getElem?_replicate, if_neg hj]
                      exact (List.getElem?_eq_none (by omega)).symm
                  refine ⟨root, reconConfig, holeFilling, rfl, hrecon, hhf, ?_, ?_⟩
                  · simp only [ne_eq, not_true_eq_false, if_false,
                      vtkVolumeReconstructor.Modified]
                    rw [hnum]
                    rfl
                  · simp only [ne_eq, not_true_eq_false, if_false,
                      vtkVolumeReconstructor.Modified]
                    rw [heq]
                    exact hall.imp (fun kernel child h => readHFElement_stored C child kernel h)
                · simp [hn] at hok
        · simp only [hfh] at hfill
          simp only [Bool.false_eq_true, if_false, vtkVolumeReconstructor.Modified] at hfill
          exact absurd hfill hfh

/-- Witness for C12: a Gaussian kernel element, an element of another name and a stick kernel
element; the hole filler holds the Gaussian kernel and then the stick kernel. -/
theorem ReadConfiguration_kernel_order_witness :
    ((ReadConfiguration sampleCollaborators sampleReconstructor
      (some sampleTwoKernelConfiguration)).2.HoleFiller.HFElements.map
        FillHolesInVolumeElement.type)
      = [some HFTYPE.HFTYPE_GAUSSIAN, some HFTYPE.HFTYPE_STICK] ∧
    ∃ root reconConfig holeFilling,
      some sampleTwoKernelConfiguration = some root ∧
      root.FindNestedElementWithName "VolumeReconstruction" = some reconConfig ∧
      reconConfig.FindNestedElementWithName "HoleFilling" = some holeFilling ∧
      (ReadConfiguration sampleCollaborators sampleReconstructor
        (some sampleTwoKernelConfiguration)).2.HoleFiller.NumHFElements
        = ((holeFilling.NestedElements.filter isHoleFillingElement).length : Int) ∧
      List.Forall₂ (fun kernel child => KernelReadFrom sampleCollaborators child kernel)
        (ReadConfiguration sampleCollaborators sampleReconstructor
          (some sampleTwoKernelConfiguration)).2.HoleFiller.HFElements
        (holeFilling.NestedElements.filter isHoleFillingElement) :=
  ⟨by decide,
    ReadConfiguration_kernel_order sampleCollaborators sampleReconstructor
      (some sampleTwoKernelConfiguration) (by decide) (by decide)⟩

/-! ## Properties of the skip interval and the mode strings -/

/-- The skip interval read from the configuration is at least 1 when the previous one was,
unless the attribute holds a text from which no number is read. -/
theorem readSkipInterval_ge_one {Repo : Type} (C : Collaborators Repo)
    (reconConfig : vtkXMLDataElement) (skipInterval : Int) (h : 1 ≤ skipInterval)
    (hread : reconConfig.GetAttribute "SkipInterval" = none ∨
      ∃ value, reconConfig.GetScalarAttributeInt C "SkipInterval" = some value) :
    1 ≤ readSkipInterval C reconConfig skipInterval := by
  unfold readSkipInterval
  rcases hread with hnone | ⟨value, hvalue⟩
  · rw [hnone]
    split
    · split <;> omega
    · exact h
  · rw [hvalue]
    simp only []
    split <;> omega

/-- When the attribute is there, no number is read from it and the failed extraction stores
a value, the skip interval is that value, whatever it is. -/
theorem readSkipInterval_unreadable {Repo : Type} (C : Collaborators Repo)
    (reconConfig : vtkXMLDataElement) (skipInterval stored : Int) (text : String)
    (htext : reconConfig.GetAttribute "SkipInterval" = some text)
    (hfail : C.ParseInts text = [])
    (hstored : C.StoredByFailedExtraction text = some stored) :
    readSkipInterval C reconConfig skipInterval = stored := by
  unfold readSkipInterval vtkXMLDataElement.GetScalarAttributeInt
    vtkXMLDataElement.GetVectorAttributeInt
  rw [htext]
  simp only [hfail, hstored, List.take_nil, List.head?_nil]

/-- Setting the reference frame name does not touch the skip interval. -/
theorem SetReferenceCoordinateFrame_SkipInterval (self : vtkVolumeReconstructor)
    (arg : Option String) :
    (SetReferenceCoordinateFrame self arg).SkipInterval = self.SkipInterval := by
  unfold SetReferenceCoordinateFrame
  split <;> rfl

/-- Setting the image frame name does not touch the skip interval. -/
theorem SetImageCoordinateFrame_SkipInterval (self : vtkVolumeReconstructor)
    (arg : Option String) :
    (SetImageCoordinateFrame self arg).SkipInterval = self.SkipInterval := by
  unfold SetImageCoordinateFrame
  split <;> rfl

/-- Setting the coordinate frame names does not touch the skip interval. -/
theorem configuredFrames_SkipInterval (self : vtkVolumeReconstructor)
    (reconConfig : vtkXMLDataElement) :
    (configuredFrames self reconConfig).SkipInterval = self.SkipInterval := by
  unfold configuredFrames
  split <;> split <;>
    simp only [SetImageCoordinateFrame_SkipInterval, SetReferenceCoordinateFrame_SkipInterval]

/-- The skip interval before the kernels are read is the one `readSkipInterval` yields. -/
theorem configuredBeforeKernels_SkipInterval {Repo : Type} (C : Collaborators Repo)
    (self : vtkVolumeReconstructor) (reconConfig : vtkXMLDataElement) :
    (configuredBeforeKernels C self reconConfig).SkipInterval
      = readSkipInterval C reconConfig self.SkipInterval := by
  unfold configuredBeforeKernels
  simp only [configuredFrames_SkipInterval]
  split <;> split <;> rfl

/-- The skip interval after `ReadConfiguration`: the previous one, or the one read from the
configuration. -/
theorem ReadConfiguration_SkipInterval {Repo : Type} (C : Collaborators Repo)
    (self : vtkVolumeReconstructor) (config : Option vtkXMLDataElement) :
    (ReadConfiguration C self config).2.SkipInterval = self.SkipInterval ∨
    ∃ reconConfig, (ReadConfiguration C self config).2.SkipInterval
      = readSkipInterval C reconConfig self.SkipInterval := by
  cases config with
  | none => exact Or.inl rfl
  | some root =>
    rw [ReadConfiguration_eq]
    split
    · exact Or.inl rfl
    · rename_i reconConfig _
      split
      · exact Or.inl (configuredFrames_SkipInterval self reconConfig)
      · refine Or.inr ⟨reconConfig, ?_⟩
        rw [← configuredBeforeKernels_SkipInterval]
        split
        · split
          · rfl
          · split
            · rfl
            · split <;> rfl
        · rfl

/-- The extent computation does not touch the skip interval. -/
theorem SetOutputExtentFromFrameList_SkipInterval {Repo : Type} (C : Collaborators Repo)
    (self : vtkVolumeReconstructor) (trackedFrameList : Option (List TrackedFrame))
    (transformRepository : Option Repo) :
    (SetOutputExtentFromFrameList C self trackedFrameList transformRepository).2.1.SkipInterval
      = self.SkipInterval := by
  unfold SetOutputExtentFromFrameList
  simp only []
  split
  · rfl
  · split
    · rfl
    · rfl
    · split
      · rfl
      · split
        · rfl
        · split
          · rfl
          · split <;> rfl

/-- Frame insertion does not touch the skip interval. -/
theorem AddTrackedFrame_SkipInterval {Repo : Type} (C : Collaborators Repo)
    (self : vtkVolumeReconstructor) (frame : Option TrackedFrame)
    (transformRepository : Option Repo) (insertedIntoVolume : Option Bool) :
    (AddTrackedFrame C self frame transformRepository insertedIntoVolume).2.1.SkipInterval
      = self.SkipInterval := by
  unfold AddTrackedFrame
  simp only []
  split
  · rfl
  · split
    · rfl
    · split
      · rfl
      · split
        · rfl
        · split <;> rfl

/-- Regenerating the visible output does not touch the skip interval. -/
theorem UpdateReconstructedVolume_SkipInterval {Repo : Type} (C : Collaborators Repo)
    (self : vtkVolumeReconstructor) :
    (UpdateReconstructedVolume C self).2.SkipInterval = self.SkipInterval := by
  unfold UpdateReconstructedVolume
  split
  · rfl
  · split
    · simp only []
      split <;> rfl
    · rfl

/-- When `ReadConfiguration` reads a number as the skip interval, it stores 1 in place of
a value below 1. -/
theorem configuredBeforeKernels_SkipInterval_read {Repo : Type} (C : Collaborators Repo)
    (self : vtkVolumeReconstructor) (reconConfig : vtkXMLDataElement) (value : Int)
    (hvalue : reconConfig.GetScalarAttributeInt C "SkipInterval" = some value) :
    (configuredBeforeKernels C self reconConfig).SkipInterval
      = if value < 1 then 1 else value := by
  rw [configuredBeforeKernels_SkipInterval]
  unfold readSkipInterval
  rw [hvalue]

/-- C13: evaluation of the code. The skip interval is 1 after construction, and a configured
number below 1 is replaced by 1: `SkipInterval="0"` leaves the skip interval 1. But line 151
extracts into the member itself and lines 153-157 run only when a number was read: when the
attribute is there, no number is read from it and the failed extraction stores a value, the
skip interval is that value. `ReadConfiguration` of a constructed reconstructor with
`SkipInterval="abc"` returns success and leaves the skip interval 0. -/
theorem ReadConfiguration_unreadable_SkipInterval :
    (vtkVolumeReconstructor.New samplePaster sampleFiller).SkipInterval = 1 ∧
    (ReadConfiguration sampleSkipCollaborators
        (vtkVolumeReconstructor.New samplePaster sampleFiller)
        (some (sampleSkipConfiguration "0"))).1 = PLUS_SUCCESS ∧
    (ReadConfiguration sampleSkipCollaborators
        (vtkVolumeReconstructor.New samplePaster sampleFiller)
        (some (sampleSkipConfiguration "0"))).2.SkipInterval = 1 ∧
    (ReadConfiguration sampleSkipCollaborators
        (vtkVolumeReconstructor.New samplePaster sampleFiller)
        (some (sampleSkipConfiguration "abc"))).1 = PLUS_SUCCESS ∧
    (ReadConfiguration sampleSkipCollaborators
        (vtkVolumeReconstructor.New samplePaster sampleFiller)
        (some (sampleSkipConfiguration "abc"))).2.SkipInterval = 0 ∧
    (∀ (C : Collaborators SampleRepository) (self : vtkVolumeReconstructor)
      (reconConfig : vtkXMLDataElement) (text : String) (stored : Int),
      reconConfig.GetAttribute "SkipInterval" = some text →
      C.ParseInts text = [] →
      C.StoredByFailedExtraction text = some stored →
        (configuredBeforeKernels C self reconConfig).SkipInterval = stored) :=
  ⟨rfl, by decide, by decide, by decide, by decide,
    fun C self reconConfig text stored htext hfail hstored => by
      rw [configuredBeforeKernels_SkipInterval]
      exact readSkipInterval_unreadable C reconConfig _ stored text htext hfail hstored⟩

/-! ## Properties of the mode strings -/

/-- The comparison behind `STRCASECMP` sees its first argument only through the lower-case
forms of its characters. -/
theorem strcasecmpChars_lower (a b x : List Char)
    (h : a.map Char.toLower = b.map Char.toLower) :
    strcasecmpChars a x = strcasecmpChars b x := by
  induction a generalizing b x with
  | nil =>
    cases b with
    | nil => rfl
    | cons b0 bs => simp at h
  | cons a0 as ih =>
    cases b with
    | nil => simp at h
    | cons b0 bs =>
      simp only [List.map_cons, List.cons.injEq] at h
      cases x with
      | nil => simp only [strcasecmpChars, h.1]
      | cons x0 xs =>
        simp only [strcasecmpChars, h.1]
        rw [ih bs xs h.2]

/-- Strings that are equal up to letter case compare alike under `STRCASECMP`. -/
theorem STRCASECMP_sameUpToCase {a b : String} (h : sameUpToCase a b) (x : String) :
    STRCASECMP a x = STRCASECMP b x :=
  strcasecmpChars_lower a.toList b.toList x.toList h

/-- The attribute lookup in two attribute lists that agree finds nothing in both, or finds
values that agree. -/
theorem find_attribute_agree (names : List String) (name : String)
    {a b : List (String × String)} (h : attributesAgree names a b) :
    (a.find? (fun x => decide (x.1 = name)) = none ∧
      b.find? (fun x => decide (x.1 = name)) = none) ∨
    ∃ x y, a.find? (fun x => decide (x.1 = name)) = some x ∧
      b.find? (fun x => decide (x.1 = name)) = some y ∧
      (if name ∈ names then sameUpToCase x.2 y.2 else x.2 = y.2) := by
  unfold attributesAgree at h
  induction h with
  | nil => exact Or.inl ⟨rfl, rfl⟩
  | @cons x y xs ys hxy _ ih =>
    by_cases hx : x.1 = name
    · right
      refine ⟨x, y, ?_, ?_, ?_⟩
      · simp [List.find?, hx]
      · have hy : y.1 = name := hxy.1 ▸ hx
        simp [List.find?, hy]
      · rw [← hx]; exact hxy.2
    · have hy : ¬ y.1 = name := hxy.1 ▸ hx
      simp only [List.find?, hx, hy, decide_False]
      exact ih

/-- The lookup of an attribute in two elements whose attributes agree. -/
theorem GetAttribute_agree (names : List String) (name : String) (c d : vtkXMLDataElement)
    (h : attributesAgree names c.Attributes d.Attributes) :
    (c.GetAttribute name = none ∧ d.GetAttribute name = none) ∨
    ∃ v w, c.GetAttribute name = some v ∧ d.GetAttribute name = some w ∧
      (if name ∈ names then sameUpToCase v w else v = w) := by
  unfold vtkXMLDataElement.GetAttribute
  rcases find_attribute_agree names name h with ⟨h1, h2⟩ | ⟨x, y, h1, h2, h3⟩
  · left; rw [h1, h2]; exact ⟨rfl, rfl⟩
  · right; rw [h1, h2]; exact ⟨x.2, y.2, rfl, rfl, h3⟩

/-- An attribute outside the given names has the same value in two elements whose attributes
agree. -/
theorem GetAttribute_agree_other (names : List String) (name : String)
    (c d : vtkXMLDataElement) (h : attributesAgree names c.Attributes d.Attributes)
    (hname : name ∉ names) : c.GetAttribute name = d.GetAttribute name := by
  rcases GetAttribute_agree names name c d h with ⟨h1, h2⟩ | ⟨v, w, h1, h2, h3⟩
  · rw [h1, h2]
  · rw [if_neg hname] at h3
    rw [h1, h2, h3]

/-- An attribute among the given names has values that compare alike under `STRCASECMP` in
two elements whose attributes agree, or is absent in both. -/
theorem GetAttribute_agree_mem (names : List String) (name : String)
    (c d : vtkXMLDataElement) (h : attributesAgree names c.Attributes d.Attributes)
    (hname : name ∈ names) :
    (c.GetAttribute name = none ∧ d.GetAttribute name = none) ∨
    ∃ v w, c.GetAttribute name = some v ∧ d.GetAttribute name = some w ∧
      ∀ x, STRCASECMP v x = STRCASECMP w x := by
  rcases GetAttribute_agree names name c d h with h1 | ⟨v, w, h1, h2, h3⟩
  · exact Or.inl h1
  · rw [if_pos hname] at h3
    exact Or.inr ⟨v, w, h1, h2, STRCASECMP_sameUpToCase h3⟩

/-- The lookup of the nested element of a name in two lists of nested elements that agree on
the elements of that name finds nothing in both, or finds elements that agree. -/
theorem find_nested_agree (R : vtkXMLDataElement → vtkXMLDataElement → Prop) (name : String)
    (hR : ∀ x y, R x y → x.GetName = y.GetName) {a b : List vtkXMLDataElement}
    (h : List.Forall₂ (fun x y => if x.GetName = name then R x y else x = y) a b) :
    (a.find? (fun c => decide (c.GetName = name)) = none ∧
      b.find? (fun c => decide (c.GetName = name)) = none) ∨
    ∃ x y, a.find? (fun c => decide (c.GetName = name)) = some x ∧
      b.find? (fun c => decide (c.GetName = name)) = some y ∧ R x y := by
  induction h with
  | nil => exact Or.inl ⟨rfl, rfl⟩
  | @cons x y xs ys hxy _ ih =>
    by_cases hx : x.GetName = name
    · rw [if_pos hx] at hxy
      right
      refine ⟨x, y, ?_, ?_, hxy⟩
      · simp [List.find?, hx]
      · have hy : y.GetName = name := (hR x y hxy) ▸ hx
        simp [List.find?, hy]
    · rw [if_neg hx] at hxy
      subst hxy
      simp only [List.find?, hx, decide_False]
      exact ih

/-- A vector of doubles read from an attribute outside the given names is the same in two
elements whose attributes agree. -/
theorem GetVectorAttributeDouble_agree {Repo : Type} (C : Collaborators Repo)
    (names : List String) (name : String) (length : Nat) (c d : vtkXMLDataElement)
    (h : attributesAgree names c.Attributes d.Attributes) (hname : name ∉ names) :
    c.GetVectorAttributeDouble C name length = d.GetVectorAttributeDouble C name length := by
  unfold vtkXMLDataElement.GetVectorAttributeDouble
  rw [GetAttribute_agree_other names name c d h hname]

/-- A vector of integers read from an attribute outside the given names is the same in two
elements whose attributes agree. -/
theorem GetVectorAttributeInt_agree {Repo : Type} (C : Collaborators Repo)
    (names : List String) (name : String) (length : Nat) (c d : vtkXMLDataElement)
    (h : attributesAgree names c.Attributes d.Attributes) (hname : name ∉ names) :
    c.GetVectorAttributeInt C name length = d.GetVectorAttributeInt C name length := by
  unfold vtkXMLDataElement.GetVectorAttributeInt
  rw [GetAttribute_agree_other names name c d h hname]

/-- A double read from an attribute outside the given names is the same in two elements whose
attributes agree. -/
theorem GetScalarAttributeDouble_agree {Repo : Type} (C : Collaborators Repo)
    (names : List String) (name : String) (c d : vtkXMLDataElement)
    (h : attributesAgree names c.Attributes d.Attributes) (hname : name ∉ names) :
    c.GetScalarAttributeDouble C name = d.GetScalarAttributeDouble C name := by
  unfold vtkXMLDataElement.GetScalarAttributeDouble
  rw [GetVectorAttributeDouble_agree C names name 1 c d h hname]

/-- An integer read from an attribute outside the given names is the same in two elements
whose attributes agree. -/
theorem GetScalarAttributeInt_agree {Repo : Type} (C : Collaborators Repo)
    (names : List String) (name : String) (c d : vtkXMLDataElement)
    (h : attributesAgree names c.Attributes d.Attributes) (hname : name ∉ names) :
    c.GetScalarAttributeInt C name = d.GetScalarAttributeInt C name := by
  unfold vtkXMLDataElement.GetScalarAttributeInt
  rw [GetVectorAttributeInt_agree C names name 1 c d h hname]

/-- The modes selected from two elements that agree up to the letter case of the mode
strings are the same. -/
theorem readModes_agree (c d : vtkXMLDataElement) (paster : vtkPasteSliceIntoVolume)
    (h : attributesAgree modeAttributes c.Attributes d.Attributes) :
    readModes c paster = readModes d paster := by
  unfold readModes
  rcases GetAttribute_agree_mem modeAttributes "Interpolation" c d h (by decide) with
    ⟨i1, i2⟩ | ⟨iv, iw, i1, i2, i3⟩ <;>
  rcases GetAttribute_agree_mem modeAttributes "Calculation" c d h (by decide) with
    ⟨c1, c2⟩ | ⟨cv, cw, c1, c2, c3⟩ <;>
  rcases GetAttribute_agree_mem modeAttributes "Optimization" c d h (by decide) with
    ⟨o1, o2⟩ | ⟨ov, ow, o1, o2, o3⟩ <;>
  rcases GetAttribute_agree_mem modeAttributes "Compounding" c d h (by decide) with
    ⟨p1, p2⟩ | ⟨pv, pw, p1, p2, p3⟩ <;>
  simp only [i1, i2, c1, c2, o1, o2, p1, p2] <;>
  first
  | simp only [i3, c3, o3, p3]
  | simp only [i3, c3, o3]
  | simp only [i3, c3, p3]
  | simp only [i3, o3, p3]
  | simp only [c3, o3, p3]
  | simp only [i3, c3]
  | simp only [i3, o3]
  | simp only [i3, p3]
  | simp only [c3, o3]
  | simp only [c3, p3]
  | simp only [o3, p3]
  | simp only [i3]
  | simp only [c3]
  | simp only [o3]
  | simp only [p3]

/-- Everything that `ReadConfiguration` sets before the kernels is the same for two
`VolumeReconstruction` elements that agree up to the letter case of the mode strings. -/
theorem configuredBeforeKernels_agree {Repo : Type} (C : Collaborators Repo)
    (self : vtkVolumeReconstructor) (c d : vtkXMLDataElement)
    (h : attributesAgree modeAttributes c.Attributes d.Attributes) :
    configuredFrames self c = configuredFrames self d ∧
    configuredBeforeKernels C self c = configuredBeforeKernels C self d := by
  have hframes : configuredFrames self c = configuredFrames self d := by
    unfold configuredFrames
    rw [GetAttribute_agree_other modeAttributes "ReferenceCoordinateFrame" c d h (by decide),
      GetAttribute_agree_other modeAttributes "ImageCoordinateFrame" c d h (by decide)]
  refine ⟨hframes, ?_⟩
  have hclip : ∀ p, readOutputClipFan C c p = readOutputClipFan C d p := by
    intro p
    unfold readOutputClipFan
    rw [GetVectorAttributeDouble_agree C modeAttributes "OutputOrigin" 3 c d h (by decide),
      GetVectorAttributeInt_agree C modeAttributes "OutputExtent" 6 c d h (by decide),
      GetVectorAttributeInt_agree C modeAttributes "ClipRectangleOrigin" 2 c d h (by decide),
      GetVectorAttributeInt_agree C modeAttributes "ClipRectangleSize" 2 c d h (by decide),
      GetVectorAttributeDouble_agree C modeAttributes "FanAngles" 2 c d h (by decide),
      GetVectorAttributeDouble_agree C modeAttributes "FanOrigin" 2 c d h (by decide),
      GetScalarAttributeDouble_agree C modeAttributes "FanDepth" c d h (by decide)]
  have hskip : ∀ n, readSkipInterval C c n = readSkipInterval C d n := by
    intro n
    unfold readSkipInterval
    rw [GetScalarAttributeInt_agree C modeAttributes "SkipInterval" c d h (by decide),
      GetAttribute_agree_other modeAttributes "SkipInterval" c d h (by decide)]
  unfold configuredBeforeKernels
  rw [hframes, GetVectorAttributeDouble_agree C modeAttributes "OutputSpacing" 3 c d h
      (by decide),
    GetScalarAttributeInt_agree C modeAttributes "NumberOfThreads" c d h (by decide)]
  simp only [hclip, hskip, readModes_agree c d _ h]
  rcases GetAttribute_agree_mem modeAttributes "FillHoles" c d h (by decide) with
    ⟨f1, f2⟩ | ⟨fv, fw, f1, f2, f3⟩
  · rw [f1, f2]
  · rw [f1, f2]
    simp only [f3]

/-- A kernel element is read alike from two elements that agree up to the letter case of
the value of `Type`. -/
theorem readHFElement_agree {Repo : Type} (C : Collaborators Repo) (c d : vtkXMLDataElement)
    (h : kernelElementsAgree c d) : readHFElement C c = readHFElement C d := by
  have ha := h.2
  unfold readHFElement readSizeAndMinRatio
  rw [GetScalarAttributeDouble_agree C ["Type"] "Stdev" c d ha (by decide),
    GetScalarAttributeInt_agree C ["Type"] "Size" c d ha (by decide),
    GetScalarAttributeDouble_agree C ["Type"] "MinimumKnownVoxelsRatio" c d ha (by decide),
    GetScalarAttributeInt_agree C ["Type"] "StickLengthLimit" c d ha (by decide),
    GetScalarAttributeInt_agree C ["Type"] "NumberOfSticksToUse" c d ha (by decide)]
  rcases GetAttribute_agree_mem ["Type"] "Type" c d ha (by decide) with
    ⟨t1, t2⟩ | ⟨tv, tw, t1, t2, t3⟩
  · rw [t1, t2]
  · rw [t1, t2]
    simp only [t3]

/-- The kernel loop runs alike over two lists of nested elements that agree up to the letter
case of the kernel types. -/
theorem readHFElements_agree {Repo : Type} (C : Collaborators Repo)
    {a b : List vtkXMLDataElement} (h : List.Forall₂ kernelElementsAgree a b)
    (filler : vtkFillHolesInVolume) (numberOfErrors currentElementIndex : Nat) :
    readHFElements C a filler numberOfErrors currentElementIndex
      = readHFElements C b filler numberOfErrors currentElementIndex := by
  induction h generalizing filler numberOfErrors currentElementIndex with
  | nil => rfl
  | @cons x y xs ys hxy _ ih =>
    simp only [readHFElements, hxy.1, readHFElement_agree C x y hxy, ih]

/-- Two lists of nested elements that agree up to the letter case of the kernel types hold
the same number of kernel elements. -/
theorem countHFElements_agree {a b : List vtkXMLDataElement}
    (h : List.Forall₂ kernelElementsAgree a b) : countHFElements a = countHFElements b := by
  unfold countHFElements
  induction h with
  | nil => rfl
  | @cons x y xs ys hxy _ ih =>
    simp only [List.filter_cons, hxy.1]
    split
    · simp only [List.length_cons, ih]
    · exact ih

/-- The lookup of the nested element of a name in two elements whose nested elements agree
on the elements of that name finds nothing in both, or finds elements that agree. -/
theorem FindNestedElementWithName_agree
    (R : vtkXMLDataElement → vtkXMLDataElement → Prop) (name : String)
    (hR : ∀ x y, R x y → x.GetName = y.GetName) (c d : vtkXMLDataElement)
    (h : List.Forall₂ (fun x y => if x.GetName = name then R x y else x = y)
      c.NestedElements d.NestedElements) :
    (c.FindNestedElementWithName name = none ∧ d.FindNestedElementWithName name = none) ∨
    ∃ x y, c.FindNestedElementWithName name = some x ∧
      d.FindNestedElementWithName name = some y ∧ R x y :=
  find_nested_agree R name hR h

/-- C14: `ReadConfiguration` returns the same status and leaves the same reconstructor (the
same interpolation mode, calculation mode, optimization level, compounding switch, hole
filling switch and kernels) for two configurations that agree except for the letter case of
the values of `Interpolation`, `Calculation`, `Optimization`, `Compounding`, `FillHoles` and
of the `Type` of the hole filling elements. -/
theorem ReadConfiguration_case_insensitive {Repo : Type} (C : Collaborators Repo)
    (self : vtkVolumeReconstructor) (root1 root2 : vtkXMLDataElement)
    (h : configurationsAgree root1 root2) :
    ReadConfiguration C self (some root1) = ReadConfiguration C self (some root2) := by
  rw [ReadConfiguration_eq, ReadConfiguration_eq]
  simp only []
  rcases FindNestedElementWithName_agree volumeReconstructionAgree "VolumeReconstruction"
    (fun _ _ hxy => hxy.1) root1 root2 h with ⟨h1, h2⟩ | ⟨x, y, h1, h2, hxy⟩
  · rw [h1, h2]
  · rw [h1, h2]
    simp only []
    have hconf := configuredBeforeKernels_agree C self x y hxy.2.1
    rw [hconf.1, hconf.2,
      GetVectorAttributeDouble_agree C modeAttributes "OutputSpacing" 3 x y hxy.2.1
        (by decide)]
    rcases FindNestedElementWithName_agree holeFillingAgree "HoleFilling"
      (fun _ _ hk => hk.1) x y hxy.2.2 with ⟨k1, k2⟩ | ⟨hf1, hf2, k1, k2, hk⟩
    · rw [k1, k2]
    · rw [k1, k2]
      simp only [readHFElements_agree C hk.2, countHFElements_agree hk.2]

/-- The sample configuration written in lower and mixed case agrees with the one written in
the canonical case. -/
theorem sampleModeConfiguration_agree :
    configurationsAgree
      (sampleModeConfiguration "linear" "Maximum" "partial" "ON" "on" "stick")
      (sampleModeConfiguration "LINEAR" "MAXIMUM" "PARTIAL" "On" "On" "STICK") := by
  have hk : kernelElementsAgree
      (vtkXMLDataElement.mk "HoleFillingElement"
        [("Type", "stick"), ("StickLengthLimit", "2"), ("NumberOfSticksToUse", "2")] [])
      (vtkXMLDataElement.mk "HoleFillingElement"
        [("Type", "STICK"), ("StickLengthLimit", "2"), ("NumberOfSticksToUse", "2")] []) :=
    ⟨rfl, List.Forall₂.cons ⟨rfl, by decide⟩
      (List.Forall₂.cons ⟨rfl, by decide⟩
        (List.Forall₂.cons ⟨rfl, by decide⟩ List.Forall₂.nil))⟩
  have hf : holeFillingAgree
      (vtkXMLDataElement.mk "HoleFilling" []
        [vtkXMLDataElement.mk "HoleFillingElement"
          [("Type", "stick"), ("StickLengthLimit", "2"), ("NumberOfSticksToUse", "2")] []])
      (vtkXMLDataElement.mk "HoleFilling" []
        [vtkXMLDataElement.mk "HoleFillingElement"
          [("Type", "STICK"), ("StickLengthLimit", "2"), ("NumberOfSticksToUse", "2")] []]) :=
    ⟨rfl, List.Forall₂.cons hk List.Forall₂.nil⟩
  refine List.Forall₂.cons (Eq.mpr (if_pos (by rfl)) ?_) List.Forall₂.nil
  refine ⟨rfl, ?_, List.Forall₂.cons (Eq.mpr (if_pos (by rfl)) hf) List.Forall₂.nil⟩
  exact List.Forall₂.cons ⟨rfl, by decide⟩
    (List.Forall₂.cons ⟨rfl, by decide⟩
      (List.Forall₂.cons ⟨rfl, by decide⟩
        (List.Forall₂.cons ⟨rfl, by decide⟩
          (List.Forall₂.cons ⟨rfl, by decide⟩
            (List.Forall₂.cons ⟨rfl, by decide⟩ List.Forall₂.nil)))))

/-- The configuration written in lower and mixed case is read like the one written in the
canonical case, and both select linear interpolation, the maximum calculation, partial
optimization, compounding, hole filling and a stick kernel. -/
theorem ReadConfiguration_case_insensitive_witness :
    configurationsAgree
      (sampleModeConfiguration "linear" "Maximum" "partial" "ON" "on" "stick")
      (sampleModeConfiguration "LINEAR" "MAXIMUM" "PARTIAL" "On" "On" "STICK") ∧
    ReadConfiguration sampleCollaborators sampleReconstructor
        (some (sampleModeConfiguration "linear" "Maximum" "partial" "ON" "on" "stick"))
      = ReadConfiguration sampleCollaborators sampleReconstructor
        (some (sampleModeConfiguration "LINEAR" "MAXIMUM" "PARTIAL" "On" "On" "STICK")) ∧
    (ReadConfiguration sampleCollaborators sampleReconstructor
        (some (sampleModeConfiguration "LINEAR" "MAXIMUM" "PARTIAL" "On" "On" "STICK"))).1
      = PLUS_SUCCESS ∧
    (ReadConfiguration sampleCollaborators sampleReconstructor
        (some (sampleModeConfiguration "LINEAR" "MAXIMUM" "PARTIAL" "On" "On"
          "STICK"))).2.Reconstructor.InterpolationMode
      = InterpolationType.LINEAR_INTERPOLATION ∧
    (ReadConfiguration sampleCollaborators sampleReconstructor
        (some (sampleModeConfiguration "LINEAR" "MAXIMUM" "PARTIAL" "On" "On"
          "STICK"))).2.Reconstructor.CalculationMode
      = CalculationType.MAXIMUM ∧
    (ReadConfiguration sampleCollaborators sampleReconstructor
        (some (sampleModeConfiguration "LINEAR" "MAXIMUM" "PARTIAL" "On" "On"
          "STICK"))).2.Reconstructor.Optimization
      = OptimizationType.PARTIAL_OPTIMIZATION ∧
    (ReadConfiguration sampleCollaborators sampleReconstructor
        (some (sampleModeConfiguration "LINEAR" "MAXIMUM" "PARTIAL" "On" "On"
          "STICK"))).2.Reconstructor.Compounding = 1 ∧
    (ReadConfiguration sampleCollaborators sampleReconstructor
        (some (sampleModeConfiguration "LINEAR" "MAXIMUM" "PARTIAL" "On" "On"
          "STICK"))).2.FillHoles = true ∧
    (ReadConfiguration sampleCollaborators sampleReconstructor
        (some (sampleModeConfiguration "LINEAR" "MAXIMUM" "PARTIAL" "On" "On"
          "STICK"))).2.HoleFiller.HFElements.map (fun e => e.type)
      = [some HFTYPE.HFTYPE_STICK] :=
  ⟨sampleModeConfiguration_agree,
    ReadConfiguration_case_insensitive sampleCollaborators sampleReconstructor _ _
      sampleModeConfiguration_agree,
    by decide, by decide, by decide, by decide, by decide, by decide, by decide⟩

/-! ## Properties of channel extraction and saving -/

/-- The component filter on a two-component image: one value per voxel, the selected
component of that voxel. -/
theorem vtkImageExtractComponents_two (component : Nat) (hc : component < 2)
    (input : vtkImageData) (htwo : input.NumberOfScalarComponents = 2) :
    (vtkImageExtractComponents component input).NumberOfScalarComponents = 1 ∧
    (vtkImageExtractComponents component input).Extent = input.Extent ∧
    (vtkImageExtractComponents component input).Scalars.length = input.Scalars.length / 2 ∧
    ∀ voxel, voxel < input.Scalars.length / 2 →
      (vtkImageExtractComponents component input).Scalars[voxel]?
        = input.Scalars[2 * voxel + component]? := by
  refine ⟨rfl, rfl, ?_, ?_⟩
  · simp [vtkImageExtractComponents, htwo]
  · intro voxel hvoxel
    have hlt : 2 * voxel + component < input.Scalars.length := by omega
    simp only [vtkImageExtractComponents, htwo, List.getElem?_map,
      List.getElem?_range hvoxel, Option.map_some', if_pos hc]
    rw [List.getElem?_eq_getElem hlt, List.getD_eq_getElem?_getD,
      show voxel * 2 + component = 2 * voxel + component by omega,
      List.getElem?_eq_getElem hlt]
    rfl

/-- The status of `ExtractGrayLevels` and of `ExtractAlpha` is that of
`UpdateReconstructedVolume`, and on success the image returned is the component filter
applied to the volume that `UpdateReconstructedVolume` leaves. -/
theorem Extract_eq {Repo : Type} (C : Collaborators Repo) (self : vtkVolumeReconstructor)
    (reconstructedVolume : vtkImageData) :
    (ExtractGrayLevels C self reconstructedVolume).1 = (UpdateReconstructedVolume C self).1 ∧
    (ExtractAlpha C self reconstructedVolume).1 = (UpdateReconstructedVolume C self).1 ∧
    ((UpdateReconstructedVolume C self).1 = PLUS_SUCCESS →
      (ExtractGrayLevels C self reconstructedVolume).2.2
        = vtkImageExtractComponents 0 (UpdateReconstructedVolume C self).2.ReconstructedVolume ∧
      (ExtractAlpha C self reconstructedVolume).2.2
        = vtkImageExtractComponents 1
            (UpdateReconstructedVolume C self).2.ReconstructedVolume) := by
  unfold ExtractGrayLevels ExtractAlpha
  simp only []
  cases h : (UpdateReconstructedVolume C self).1
  · simp
  · simp [vtkImageData.DeepCopy]

/-- C16: when the up-to-date reconstructed volume has two components, `ExtractGrayLevels`
returns an image of one component over the same extent that holds for every voxel the first
component of that voxel, and `ExtractAlpha` one that holds the second component; each of the
two fails exactly when `UpdateReconstructedVolume` fails. -/
theorem Extract_components {Repo : Type} (C : Collaborators Repo)
    (self : vtkVolumeReconstructor) (reconstructedVolume : vtkImageData)
    (htwo : (UpdateReconstructedVolume C self).2.ReconstructedVolume.NumberOfScalarComponents
      = 2) :
    ((ExtractGrayLevels C self reconstructedVolume).1 = PLUS_FAIL ↔
      (UpdateReconstructedVolume C self).1 = PLUS_FAIL) ∧
    ((ExtractAlpha C self reconstructedVolume).1 = PLUS_FAIL ↔
      (UpdateReconstructedVolume C self).1 = PLUS_FAIL) ∧
    ((UpdateReconstructedVolume C self).1 = PLUS_SUCCESS →
      (ExtractGrayLevels C self reconstructedVolume).2.2.NumberOfScalarComponents = 1 ∧
      (ExtractAlpha C self reconstructedVolume).2.2.NumberOfScalarComponents = 1 ∧
      (ExtractGrayLevels C self reconstructedVolume).2.2.Extent
        = (UpdateReconstructedVolume C self).2.ReconstructedVolume.Extent ∧
      (ExtractAlpha C self reconstructedVolume).2.2.Extent
        = (UpdateReconstructedVolume C self).2.ReconstructedVolume.Extent ∧
      (ExtractGrayLevels C self reconstructedVolume).2.2.Scalars.length
        = (UpdateReconstructedVolume C self).2.ReconstructedVolume.Scalars.length / 2 ∧
      (ExtractAlpha C self reconstructedVolume).2.2.Scalars.length
        = (UpdateReconstructedVolume C self).2.ReconstructedVolume.Scalars.length / 2 ∧
      ∀ voxel,
        voxel < (UpdateReconstructedVolume C self).2.ReconstructedVolume.Scalars.length / 2 →
        (ExtractGrayLevels C self reconstructedVolume).2.2.Scalars[voxel]?
          = (UpdateReconstructedVolume C self).2.ReconstructedVolume.Scalars[2 * voxel]? ∧
        (ExtractAlpha C self reconstructedVolume).2.2.Scalars[voxel]?
          = (UpdateReconstructedVolume C self).2.ReconstructedVolume.Scalars[2 * voxel + 1]?)
    := by
  have he := Extract_eq C self reconstructedVolume
  refine ⟨by rw [he.1], by rw [he.2.1], ?_⟩
  intro hok
  have hgray := vtkImageExtractComponents_two 0 (by decide) _ htwo
  have halpha := vtkImageExtractComponents_two 1 (by decide) _ htwo
  rw [(he.2.2 hok).1, (he.2.2 hok).2]
  exact ⟨hgray.1, halpha.1, hgray.2.1, halpha.2.1, hgray.2.2.1, halpha.2.2.1,
    fun voxel hvoxel => ⟨hgray.2.2.2 voxel hvoxel, halpha.2.2.2 voxel hvoxel⟩⟩

/-- The reconstructor holding the two-component sample volume (voxels `(10, 255)` and
`(20, 0)`): the volume made visible has two components, the gray levels extracted are 10 and
20, the alpha values 255 and 0, and the statement of C16 holds for it. -/
theorem Extract_components_witness :
    (UpdateReconstructedVolume sampleCollaborators
      sampleTwoComponentReconstructor).2.ReconstructedVolume.NumberOfScalarComponents = 2 ∧
    (ExtractGrayLevels sampleCollaborators sampleTwoComponentReconstructor
      vtkImageData.New).1 = PLUS_SUCCESS ∧
    (ExtractGrayLevels sampleCollaborators sampleTwoComponentReconstructor
      vtkImageData.New).2.2.Scalars = [10, 20] ∧
    (ExtractAlpha sampleCollaborators sampleTwoComponentReconstructor
      vtkImageData.New).2.2.Scalars = [255, 0] ∧
    ((ExtractGrayLevels sampleCollaborators sampleTwoComponentReconstructor
        vtkImageData.New).1 = PLUS_FAIL ↔
      (UpdateReconstructedVolume sampleCollaborators sampleTwoComponentReconstructor).1
        = PLUS_FAIL) :=
  ⟨by decide, by decide, by decide, by decide,
    (Extract_components sampleCollaborators sampleTwoComponentReconstructor vtkImageData.New
      (by decide)).1⟩

/-- The writes that saving a volume requests: none when the scalar type is neither unsigned
char nor float, otherwise one write of a single-channel image with the scalars of the
volume. -/
theorem SaveReconstructedVolumeToMetafile_volume_writes
    (MetaImageWrite : MetaImage → String → Bool) (volume : vtkImageData) (filename : String)
    (useCompression : Bool) :
    (∀ w ∈ (SaveReconstructedVolumeToMetafile_volume MetaImageWrite (some volume) filename
        useCompression).2,
      w.1 = filename ∧ w.2.ElementNumberOfChannels = 1 ∧ w.2.AnatomicalOrientation = "RAI" ∧
      w.2.BinaryData = true ∧ w.2.ElementDataFileName = "LOCAL" ∧
      w.2.CompressedData = useCompression ∧ w.2.ElementData = volume.Scalars) ∧
    (volume.ScalarType ≠ VTK_UNSIGNED_CHAR ∧ volume.ScalarType ≠ VTK_FLOAT →
      SaveReconstructedVolumeToMetafile_volume MetaImageWrite (some volume) filename
        useCompression = (PLUS_FAIL, [])) ∧
    (volume.ScalarType = VTK_UNSIGNED_CHAR ∨ volume.ScalarType = VTK_FLOAT →
      (SaveReconstructedVolumeToMetafile_volume MetaImageWrite (some volume) filename
        useCompression).2.length = 1) := by
  unfold SaveReconstructedVolumeToMetafile_volume
  simp only []
  by_cases h1 : volume.ScalarType = VTK_UNSIGNED_CHAR
  · simp only [h1, if_true]
    refine ⟨?_, fun h => absurd rfl h.1, fun _ => ?_⟩
    · intro w hw
      split at hw <;>
        · simp only [List.mem_singleton] at hw
          subst hw
          simp [MetaImage.New]
    · split <;> rfl
  · by_cases h2 : volume.ScalarType = VTK_FLOAT
    · have hne : ¬ VTK_FLOAT = VTK_UNSIGNED_CHAR := by decide
      simp only [h2, hne, if_true, if_false]
      refine ⟨?_, fun h => absurd rfl h.2, fun _ => ?_⟩
      · intro w hw
        split at hw <;>
          · simp only [List.mem_singleton] at hw
            subst hw
            simp [MetaImage.New]
      · split <;> rfl
    · simp only [h1, h2, if_false]
      exact ⟨fun w hw => by simp at hw, by simp, fun h => by tauto⟩

/-- C15: `SaveReconstructedVolumeToMetafile(filename, alpha, useCompression)` hands to the
writer only images of a single channel with orientation `RAI`, binary data, the data file
name `LOCAL` and the compression flag `useCompression`, whose data are the alpha channel (the
second component) of the up-to-date reconstructed volume when `alpha` is true and its gray
levels (the first component) otherwise; when the scalar type of the volume is neither
unsigned char nor float it returns failure and hands nothing to the writer; when the scalar
type is one of the two and the volume could be brought up to date there is exactly one
write. -/
theorem SaveReconstructedVolumeToMetafile_channel {Repo : Type} (C : Collaborators Repo)
    (MetaImageWrite : MetaImage → String → Bool) (self : vtkVolumeReconstructor)
    (filename : String) (alpha useCompression : Bool) :
    (∀ w ∈ (SaveReconstructedVolumeToMetafile C MetaImageWrite self filename alpha
        useCompression).2.2,
      w.1 = filename ∧ w.2.ElementNumberOfChannels = 1 ∧ w.2.AnatomicalOrientation = "RAI" ∧
      w.2.BinaryData = true ∧ w.2.ElementDataFileName = "LOCAL" ∧
      w.2.CompressedData = useCompression ∧
      w.2.ElementData
        = (vtkImageExtractComponents (if alpha then 1 else 0)
            (UpdateReconstructedVolume C self).2.ReconstructedVolume).Scalars) ∧
    ((UpdateReconstructedVolume C self).2.ReconstructedVolume.ScalarType ≠ VTK_UNSIGNED_CHAR ∧
      (UpdateReconstructedVolume C self).2.ReconstructedVolume.ScalarType ≠ VTK_FLOAT →
      (SaveReconstructedVolumeToMetafile C MetaImageWrite self filename alpha
        useCompression).1 = PLUS_FAIL ∧
      (SaveReconstructedVolumeToMetafile C MetaImageWrite self filename alpha
        useCompression).2.2 = []) ∧
    ((UpdateReconstructedVolume C self).1 = PLUS_SUCCESS ∧
      ((UpdateReconstructedVolume C self).2.ReconstructedVolume.ScalarType = VTK_UNSIGNED_CHAR ∨
        (UpdateReconstructedVolume C self).2.ReconstructedVolume.ScalarType = VTK_FLOAT) →
      (SaveReconstructedVolumeToMetafile C MetaImageWrite self filename alpha
        useCompression).2.2.length = 1) := by
  have he := Extract_eq C self vtkImageData.New
  cases hu : (UpdateReconstructedVolume C self).1
  · have hfail : (SaveReconstructedVolumeToMetafile C MetaImageWrite self filename alpha
        useCompression).1 = PLUS_FAIL ∧
        (SaveReconstructedVolumeToMetafile C MetaImageWrite self filename alpha
          useCompression).2.2 = [] := by
      unfold SaveReconstructedVolumeToMetafile
      cases alpha <;> simp [he.1, he.2.1, hu]
    refine ⟨fun w hw => ?_, fun _ => hfail, fun h => ?_⟩
    · rw [hfail.2] at hw
      simp at hw
    · exact absurd h.1 (by decide)
  · have hsave : SaveReconstructedVolumeToMetafile C MetaImageWrite self filename alpha
        useCompression =
        ((SaveReconstructedVolumeToMetafile_volume MetaImageWrite
            (some (vtkImageExtractComponents (if alpha then 1 else 0)
              (UpdateReconstructedVolume C self).2.ReconstructedVolume)) filename
            useCompression).1,
          (UpdateReconstructedVolume C self).2,
          (SaveReconstructedVolumeToMetafile_volume MetaImageWrite
            (some (vtkImageExtractComponents (if alpha then 1 else 0)
              (UpdateReconstructedVolume C self).2.ReconstructedVolume)) filename
            useCompression).2) := by
      have h2 := he.2.2 hu
      unfold SaveReconstructedVolumeToMetafile
      cases alpha
      · simp only [he.1, hu, h2.1]
        simp [ExtractGrayLevels, hu]
      · simp only [he.2.1, hu, h2.2]
        simp [ExtractAlpha, hu]
    have hw := SaveReconstructedVolumeToMetafile_volume_writes MetaImageWrite
      (vtkImageExtractComponents (if alpha then 1 else 0)
        (UpdateReconstructedVolume C self).2.ReconstructedVolume) filename useCompression
    rw [hsave]
    refine ⟨hw.1, fun h => ?_, fun h => hw.2.2 h.2⟩
    have := hw.2.1 h
    rw [this]
    exact ⟨rfl, rfl⟩

/-- Saving the alpha channel of the two-component sample volume without compression, with a
writer that succeeds: the save succeeds, the one image written holds the alpha values 255 and
0 in a single channel, and saving the gray levels instead writes 10 and 20. -/
theorem SaveReconstructedVolumeToMetafile_channel_witness :
    (SaveReconstructedVolumeToMetafile sampleCollaborators (fun _ _ => true)
      sampleTwoComponentReconstructor "volume.mha" true false).1 = PLUS_SUCCESS ∧
    (SaveReconstructedVolumeToMetafile sampleCollaborators (fun _ _ => true)
      sampleTwoComponentReconstructor "volume.mha" true false).2.2.map
        (fun w => (w.1, w.2.ElementData, w.2.ElementNumberOfChannels, w.2.CompressedData))
      = [("volume.mha", [255, 0], 1, false)] ∧
    (SaveReconstructedVolumeToMetafile sampleCollaborators (fun _ _ => true)
      sampleTwoComponentReconstructor "volume.mha" false true).2.2.map
        (fun w => (w.1, w.2.ElementData, w.2.ElementNumberOfChannels, w.2.CompressedData))
      = [("volume.mha", [10, 20], 1, true)] ∧
    (SaveReconstructedVolumeToMetafile sampleCollaborators (fun _ _ => true)
      sampleTwoComponentReconstructor "volume.mha" true false).2.2.length = 1 :=
  ⟨by decide, by decide, by decide,
    (SaveReconstructedVolumeToMetafile_channel sampleCollaborators (fun _ _ => true)
      sampleTwoComponentReconstructor "volume.mha" true false).2.2
      ⟨by decide, Or.inl (by decide)⟩⟩

/-! ## Properties of the capture device -/

/-- The two status codes differ. -/
theorem fail_ne_success : PLUS_FAIL ≠ PLUS_SUCCESS := by decide

/-- Lines 623-647 of `WriteFrames` change nothing but the actual frame rate. -/
theorem WriteFrames_frameRate_eq (self : vtkVirtualDiscCapture) :
    ∃ rate, WriteFrames_frameRate self = { self with ActualFrameRate := rate } := by
  unfold WriteFrames_frameRate
  simp only []
  repeat' split
  all_goals first | exact ⟨self.ActualFrameRate, rfl⟩ | exact ⟨_, rfl⟩

/-- What lines 612-621 of `WriteFrames` do: the frames and the frame count are untouched; on
success the header flag is on when it was on or when there are frames, and what was recorded
are calls that succeeded; on failure the failed call is the last request recorded. -/
theorem WriteFrames_header_spec (E : CaptureEnvironment) (self : vtkVirtualDiscCapture) :
    (WriteFrames_header E self).2.m_RecordedFrames = self.m_RecordedFrames ∧
    (WriteFrames_header E self).2.TotalFramesRecorded = self.TotalFramesRecorded ∧
    ((WriteFrames_header E self).1 = PLUS_SUCCESS →
      (self.m_HeaderPrepared = true → (WriteFrames_header E self).2.m_HeaderPrepared = true) ∧
      (self.m_RecordedFrames.TrackedFrameList ≠ [] →
        (WriteFrames_header E self).2.m_HeaderPrepared = true) ∧
      ∃ calls, (WriteFrames_header E self).2.Trace = self.Trace ++ calls ∧
        ∀ e ∈ calls, e.failed = false) ∧
    ((WriteFrames_header E self).1 ≠ PLUS_SUCCESS →
      ∃ failedCall, (WriteFrames_header E self).2.Trace = self.Trace ++ [failedCall] ∧
        failedCall.failed = true) := by
  unfold WriteFrames_header
  by_cases hcond : (!self.m_HeaderPrepared &&
      decide (self.m_RecordedFrames.GetNumberOfTrackedFrames ≠ 0)) = true
  · rw [if_pos hcond]
    by_cases hp : (E.PrepareHeader self.m_Writer self.GetWriterTrackedFrameList).1
        = PLUS_SUCCESS
    · have hp1 : ¬ (E.PrepareHeader self.m_Writer self.GetWriterTrackedFrameList).1
          ≠ PLUS_SUCCESS := not_not.mpr hp
      simp only []
      rw [if_neg hp1]
      refine ⟨rfl, rfl, fun _ => ⟨fun _ => rfl, fun _ => rfl, [_], rfl, ?_⟩,
        fun h => absurd rfl h⟩
      intro e he
      simp only [List.mem_singleton] at he
      subst he
      simp [CaptureEvent.failed, hp]
    · simp only []
      rw [if_pos hp]
      refine ⟨rfl, rfl, fun h => absurd h fail_ne_success, fun _ => ⟨_, rfl, ?_⟩⟩
      simp [CaptureEvent.failed, hp]
  · rw [if_neg hcond]
    refine ⟨rfl, rfl, fun _ => ⟨fun h => h, fun hne => ?_, [], by simp, by simp⟩,
      fun h => absurd rfl h⟩
    show self.m_HeaderPrepared = true
    by_contra hnp
    apply hcond
    have hlen : self.m_RecordedFrames.GetNumberOfTrackedFrames ≠ 0 := by
      unfold vtkTrackedFrameList.GetNumberOfTrackedFrames
      intro h0
      apply hne
      exact List.length_eq_zero.mp (by exact_mod_cast h0)
    have hfalse : self.m_HeaderPrepared = false := by simpa using hnp
    simp [hfalse, hlen]

/-- What lines 657-670 of `WriteFrames` do: the frame count and the header flag are
untouched; on success what was recorded are calls that succeeded; on failure the frames are
untouched and the failed call is the last request recorded. -/
theorem AppendRecordedFrames_spec (E : CaptureEnvironment) (self : vtkVirtualDiscCapture) :
    (AppendRecordedFrames E self).2.TotalFramesRecorded = self.TotalFramesRecorded ∧
    (AppendRecordedFrames E self).2.m_HeaderPrepared = self.m_HeaderPrepared ∧
    ((AppendRecordedFrames E self).1 = PLUS_SUCCESS →
      (AppendRecordedFrames E self).2.m_RecordedFrames.TrackedFrameList = [] ∧
      ∃ calls, (AppendRecordedFrames E self).2.Trace = self.Trace ++ calls ∧
        ∀ e ∈ calls, e.failed = false) ∧
    ((AppendRecordedFrames E self).1 ≠ PLUS_SUCCESS →
      (AppendRecordedFrames E self).2.m_RecordedFrames = self.m_RecordedFrames ∧
      ∃ calls failedCall,
        (AppendRecordedFrames E self).2.Trace = self.Trace ++ (calls ++ [failedCall]) ∧
        (∀ e ∈ calls, e.failed = false) ∧ failedCall.failed = true) := by
  unfold AppendRecordedFrames
  by_cases ha : (E.AppendImagesToHeader self.m_Writer self.GetWriterTrackedFrameList).1
      = PLUS_SUCCESS
  · have ha1 : ¬ (E.AppendImagesToHeader self.m_Writer self.GetWriterTrackedFrameList).1
        ≠ PLUS_SUCCESS := not_not.mpr ha
    simp only []
    rw [if_neg ha1]
    split
    · rename_i hb
      refine ⟨rfl, rfl, fun h => absurd h fail_ne_success,
        fun _ => ⟨rfl, [_], _, List.append_assoc _ _ _, ?_, ?_⟩⟩
      · intro e he
        simp only [List.mem_singleton] at he
        subst he
        simp [CaptureEvent.failed, ha]
      · simpa [CaptureEvent.failed] using hb
    · rename_i hb
      refine ⟨rfl, rfl, fun _ => ⟨rfl, [_, _], List.append_assoc _ _ _, ?_⟩,
        fun h => absurd rfl h⟩
      intro e he
      simp only [List.mem_cons, List.mem_singleton, List.not_mem_nil, or_false] at he
      rcases he with he | he
      · subst he
        simp [CaptureEvent.failed, ha]
      · subst he
        simpa [CaptureEvent.failed] using hb
  · simp only []
    rw [if_pos ha]
    refine ⟨rfl, rfl, fun h => absurd h fail_ne_success,
      fun _ => ⟨rfl, [], _, rfl, by simp, ?_⟩⟩
    simp [CaptureEvent.failed, ha]

/-- What `WriteFrames` does. When it returns success the frame count is the same, the header
flag is on if it was on or if there were frames, and the requests it recorded are calls that
succeeded. When it does not, it returns `PLUS_FAIL` and its last two requests are a call of
the write path that failed and `Disconnect`: the device it returns is what the base class made
of a device in which the recorded frames and the frame count were as at the start. -/
theorem WriteFrames_spec (E : CaptureEnvironment) (self : vtkVirtualDiscCapture)
    (force : Bool) :
    ((WriteFrames E self force).1 = PLUS_SUCCESS →
      (WriteFrames E self force).2.TotalFramesRecorded = self.TotalFramesRecorded ∧
      (self.m_HeaderPrepared = true → (WriteFrames E self force).2.m_HeaderPrepared = true) ∧
      (self.m_RecordedFrames.TrackedFrameList ≠ [] →
        (WriteFrames E self force).2.m_HeaderPrepared = true) ∧
      ∃ calls, (WriteFrames E self force).2.Trace = self.Trace ++ calls ∧
        ∀ e ∈ calls, e.failed = false) ∧
    ((WriteFrames E self force).1 ≠ PLUS_SUCCESS →
      (WriteFrames E self force).1 = PLUS_FAIL ∧
      ∃ before calls failedCall,
        (WriteFrames E self force).2 = E.Disconnect before ∧
        before.Trace = self.Trace ++ (calls ++ [failedCall, CaptureEvent.Disconnect]) ∧
        (∀ e ∈ calls, e.failed = false) ∧ failedCall.failed = true ∧
        before.m_RecordedFrames = self.m_RecordedFrames ∧
        before.TotalFramesRecorded = self.TotalFramesRecorded) := by
  obtain ⟨hframes, htotal, hok, hfail⟩ := WriteFrames_header_spec E self
  unfold WriteFrames
  by_cases hh : (WriteFrames_header E self).1 = PLUS_SUCCESS
  · have hh1 : ¬ (WriteFrames_header E self).1 ≠ PLUS_SUCCESS := not_not.mpr hh
    obtain ⟨hkeep, hnonempty, calls, hcalls, hcallsok⟩ := hok hh
    obtain ⟨rate, hrate⟩ := WriteFrames_frameRate_eq (WriteFrames_header E self).2
    simp only []
    rw [if_neg hh1, hrate]
    split
    · exact ⟨fun _ => ⟨htotal, hkeep, hnonempty, calls, hcalls, hcallsok⟩,
        fun h => absurd rfl h⟩
    · split
      · obtain ⟨atotal, aprep, aok, afail⟩ := AppendRecordedFrames_spec E
          ({ (WriteFrames_header E self).2 with ActualFrameRate := rate }
            : vtkVirtualDiscCapture)
        split
        · rename_i hw
          obtain ⟨aframes, acalls, afailed, atrace, acallsok, afailedok⟩ := afail hw
          refine ⟨fun h => absurd h fail_ne_success, fun _ => ⟨rfl, _, calls ++ acalls,
            afailed, rfl, ?_, ?_, afailedok, ?_, ?_⟩⟩
          · show (AppendRecordedFrames E _).2.Trace ++ [CaptureEvent.Disconnect] = _
            rw [atrace]
            show ((WriteFrames_header E self).2.Trace ++ _) ++ _ = _
            rw [hcalls]
            simp
          · intro e he
            rcases List.mem_append.mp he with he | he
            · exact hcallsok e he
            · exact acallsok e he
          · show (AppendRecordedFrames E _).2.m_RecordedFrames = _
            rw [aframes]
            exact hframes
          · show (AppendRecordedFrames E _).2.TotalFramesRecorded = _
            rw [atotal]
            exact htotal
        · rename_i hw
          obtain ⟨_, acalls, atrace, acallsok⟩ := aok (not_not.mp hw)
          refine ⟨fun _ => ⟨?_, fun hp => ?_, fun hne => ?_, calls ++ acalls, ?_, ?_⟩,
            fun h => absurd rfl h⟩
          · show (AppendRecordedFrames E _).2.TotalFramesRecorded = _
            rw [atotal]
            exact htotal
          · show (AppendRecordedFrames E _).2.m_HeaderPrepared = _
            rw [aprep]
            exact hkeep hp
          · show (AppendRecordedFrames E _).2.m_HeaderPrepared = _
            rw [aprep]
            exact hnonempty hne
          · show (AppendRecordedFrames E _).2.Trace = _
            rw [atrace]
            show (WriteFrames_header E self).2.Trace ++ _ = _
            rw [hcalls]
            simp
          · intro e he
            rcases List.mem_append.mp he with he | he
            · exact hcallsok e he
            · exact acallsok e he
      · exact ⟨fun _ => ⟨htotal, hkeep, hnonempty, calls, hcalls, hcallsok⟩,
          fun h => absurd rfl h⟩
  · obtain ⟨failedCall, htrace, hfailed⟩ := hfail hh
    simp only []
    rw [if_pos hh]
    refine ⟨fun h => absurd h fail_ne_success, fun _ => ⟨rfl, _, [], failedCall, rfl, ?_,
      by simp, hfailed, hframes, htotal⟩⟩
    show (WriteFrames_header E self).2.Trace ++ [CaptureEvent.Disconnect] = _
    rw [htrace]
    simp

/-- The channel call of line 314 leaves the frame count, the header flag and the trace. -/
theorem GetInputTrackedFrameListSampled_fields (E : CaptureEnvironment)
    (self : vtkVirtualDiscCapture) (requestedFramePeriodSec maxProcessingTimeSec : ℚ) :
    (GetInputTrackedFrameListSampled E self requestedFramePeriodSec
      maxProcessingTimeSec).2.TotalFramesRecorded = self.TotalFramesRecorded ∧
    (GetInputTrackedFrameListSampled E self requestedFramePeriodSec
      maxProcessingTimeSec).2.m_HeaderPrepared = self.m_HeaderPrepared ∧
    (GetInputTrackedFrameListSampled E self requestedFramePeriodSec
      maxProcessingTimeSec).2.Trace = self.Trace := by
  unfold GetInputTrackedFrameListSampled
  split <;> exact ⟨rfl, rfl, rfl⟩

/-- A return of `InternalUpdate` before the sampling is a return of `PLUS_SUCCESS` that
leaves the frame count, the header flag and the trace. -/
theorem InternalUpdate_sample_returned (E : CaptureEnvironment)
    (self self1 : vtkVirtualDiscCapture) (status : PlusStatus)
    (h : InternalUpdate_sample E self = InternalUpdateSampling.returned status self1) :
    status = PLUS_SUCCESS ∧ self1.TotalFramesRecorded = self.TotalFramesRecorded ∧
    self1.m_HeaderPrepared = self.m_HeaderPrepared ∧ self1.Trace = self.Trace := by
  unfold InternalUpdate_sample at h
  simp only [] at h
  split_ifs at h <;> cases h <;> exact ⟨rfl, rfl, rfl, rfl⟩

/-- The sampling of `InternalUpdate` leaves the frame count, the header flag and the trace;
the two numbers of frames are those of the list before and after the sampling. -/
theorem InternalUpdate_sample_sampled (E : CaptureEnvironment)
    (self self6 : vtkVirtualDiscCapture) (startTimeSec : ℚ) (nbFramesBefore nbFramesAfter : Int)
    (h : InternalUpdate_sample E self
      = InternalUpdateSampling.sampled self6 startTimeSec nbFramesBefore nbFramesAfter) :
    self6.TotalFramesRecorded = self.TotalFramesRecorded ∧
    self6.m_HeaderPrepared = self.m_HeaderPrepared ∧ self6.Trace = self.Trace ∧
    0 ≤ nbFramesBefore ∧ nbFramesAfter = self6.m_RecordedFrames.GetNumberOfTrackedFrames := by
  unfold InternalUpdate_sample at h
  simp only [] at h
  split_ifs at h <;> cases h <;>
    · refine ⟨?_, ?_, ?_, ?_, rfl⟩
      · rw [(GetInputTrackedFrameListSampled_fields E _ _ _).1]
      · rw [(GetInputTrackedFrameListSampled_fields E _ _ _).2.1]
      · rw [(GetInputTrackedFrameListSampled_fields E _ _ _).2.2]
      · unfold vtkTrackedFrameList.GetNumberOfTrackedFrames
        exact Int.natCast_nonneg _

/-- Lines 548-596 of `TakeSnapshot` leave the frame count, the header flag and the trace. -/
theorem TakeSnapshot_add_fields (E : CaptureEnvironment) (self self1 : vtkVirtualDiscCapture)
    (trackedFrame : TrackedFrame) (status : PlusStatus)
    (h : TakeSnapshot_add E self trackedFrame = some (status, self1)) :
    self1.TotalFramesRecorded = self.TotalFramesRecorded ∧
    self1.m_HeaderPrepared = self.m_HeaderPrepared ∧ self1.Trace = self.Trace := by
  unfold TakeSnapshot_add at h
  simp only [] at h
  split_ifs at h <;> cases h <;> exact ⟨rfl, rfl, rfl⟩

/-- A list with a positive number of frames is not empty. -/
theorem frames_ne_nil (list : vtkTrackedFrameList)
    (h : 0 < list.GetNumberOfTrackedFrames) : list.TrackedFrameList ≠ [] := by
  unfold vtkTrackedFrameList.GetNumberOfTrackedFrames at h
  intro hnil
  rw [hnil] at h
  exact absurd h (by decide)

/-- A step that succeeds raises the frame count by the number of frames it added (a snapshot,
by one), keeps the header flag on, and switches it on when it added frames. -/
theorem CaptureStep_run_success (step : CaptureStep) (self : vtkVirtualDiscCapture)
    (h : (step.run self).1 = PLUS_SUCCESS)
    (hsnapshot : ∀ E trackedFrame, step = CaptureStep.snapshot E trackedFrame →
      step.framesAdded self = 1) :
    (step.run self).2.TotalFramesRecorded
      = self.TotalFramesRecorded + step.framesAdded self ∧
    (self.m_HeaderPrepared = true → (step.run self).2.m_HeaderPrepared = true) ∧
    (0 < step.framesAdded self → (step.run self).2.m_HeaderPrepared = true) := by
  cases step with
  | update E =>
    simp only [CaptureStep.run, CaptureStep.framesAdded, InternalUpdate] at h ⊢
    cases hs : InternalUpdate_sample E self with
    | returned status self1 =>
      obtain ⟨_, h1, h2, _⟩ := InternalUpdate_sample_returned E self self1 status hs
      simp only [hs] at h ⊢
      exact ⟨by rw [h1]; simp, fun hp => by rw [h2]; exact hp,
        fun hpos => absurd hpos (by decide)⟩
    | sampled self6 startTimeSec nbFramesBefore nbFramesAfter =>
      obtain ⟨h1, h2, _, h4, h5⟩ :=
        InternalUpdate_sample_sampled E self self6 startTimeSec nbFramesBefore nbFramesAfter hs
      simp only [hs] at h ⊢
      by_cases hw : (WriteFrames E self6 false).1 = PLUS_SUCCESS
      · have hw1 : ¬ (WriteFrames E self6 false).1 ≠ PLUS_SUCCESS := not_not.mpr hw
        obtain ⟨wtotal, wkeep, wnonempty, _⟩ := (WriteFrames_spec E self6 false).1 hw
        rw [if_neg hw1]
        refine ⟨?_, fun hp => ?_, fun hpos => ?_⟩
        · show (if _ then _ else _ : vtkVirtualDiscCapture).TotalFramesRecorded = _
          split <;>
            · show (WriteFrames E self6 false).2.TotalFramesRecorded + _ = _
              rw [wtotal, h1]
        · show (if _ then _ else _ : vtkVirtualDiscCapture).m_HeaderPrepared = _
          split <;>
            · show (WriteFrames E self6 false).2.m_HeaderPrepared = _
              exact wkeep (by rw [h2]; exact hp)
        · show (if _ then _ else _ : vtkVirtualDiscCapture).m_HeaderPrepared = _
          split <;>
            · show (WriteFrames E self6 false).2.m_HeaderPrepared = _
              exact wnonempty (frames_ne_nil _ (by rw [← h5]; omega))
      · rw [if_pos hw] at h
        exact absurd h fail_ne_success
  | snapshot E trackedFrame =>
    have hone := hsnapshot E trackedFrame rfl
    simp only [CaptureStep.run, CaptureStep.framesAdded, TakeSnapshot] at h hone ⊢
    cases hs : TakeSnapshot_add E self trackedFrame with
    | none =>
      simp only [hs] at h
      exact absurd h fail_ne_success
    | some added =>
      obtain ⟨status, self1⟩ := added
      obtain ⟨h1, h2, _⟩ := TakeSnapshot_add_fields E self self1 trackedFrame status hs
      simp only [hs] at h hone ⊢
      by_cases hst : status = PLUS_SUCCESS
      · have hst1 : ¬ status ≠ PLUS_SUCCESS := not_not.mpr hst
        rw [if_neg hst1] at h ⊢
        by_cases hw : (WriteFrames E self1 false).1 = PLUS_SUCCESS
        · have hw1 : ¬ (WriteFrames E self1 false).1 ≠ PLUS_SUCCESS := not_not.mpr hw
          obtain ⟨wtotal, wkeep, wnonempty, _⟩ := (WriteFrames_spec E self1 false).1 hw
          rw [if_neg hw1]
          have hnonneg : 0 ≤ self.m_RecordedFrames.GetNumberOfTrackedFrames := by
            unfold vtkTrackedFrameList.GetNumberOfTrackedFrames
            exact Int.natCast_nonneg _
          refine ⟨?_, fun hp => ?_, fun _ => ?_⟩
          · show (WriteFrames E self1 false).2.TotalFramesRecorded + 1 = _
            rw [wtotal, h1, hone]
          · show (WriteFrames E self1 false).2.m_HeaderPrepared = _
            exact wkeep (by rw [h2]; exact hp)
          · show (WriteFrames E self1 false).2.m_HeaderPrepared = _
            exact wnonempty (frames_ne_nil _ (by omega))
        · rw [if_pos hw] at h
          exact absurd h fail_ne_success
      · rw [if_pos hst] at h
        exact absurd h fail_ne_success

/-- Steps that all succeed raise the frame count by the total number of frames they added,
and leave the header flag on when it was on or when they added frames. -/
theorem runSteps_total (steps : List CaptureStep) (self : vtkVirtualDiscCapture)
    (hsucceed : stepsSucceed steps self = true)
    (hsnapshot : snapshotsAddOne steps self = true) :
    (runSteps steps self).TotalFramesRecorded
      = self.TotalFramesRecorded + totalFramesAdded steps self ∧
    (self.m_HeaderPrepared = true ∨ 0 < totalFramesAdded steps self →
      (runSteps steps self).m_HeaderPrepared = true) := by
  induction steps generalizing self with
  | nil =>
    refine ⟨by simp [runSteps, totalFramesAdded], fun h => ?_⟩
    rcases h with h | h
    · exact h
    · exact absurd h (by simp [totalFramesAdded])
  | cons step rest ih =>
    simp only [stepsSucceed, Bool.and_eq_true, decide_eq_true_eq] at hsucceed
    simp only [snapshotsAddOne, Bool.and_eq_true] at hsnapshot
    have hone : ∀ E trackedFrame, step = CaptureStep.snapshot E trackedFrame →
        step.framesAdded self = 1 := by
      intro E trackedFrame hstep
      subst hstep
      simpa using hsnapshot.1
    obtain ⟨htotal, hkeep, hpos⟩ := CaptureStep_run_success step self hsucceed.1 hone
    obtain ⟨ihtotal, ihprep⟩ := ih (step.run self).2 hsucceed.2 hsnapshot.2
    simp only [runSteps, totalFramesAdded]
    refine ⟨by rw [ihtotal, htotal]; ring, fun h => ihprep ?_⟩
    rcases h with h | h
    · exact Or.inl (hkeep h)
    · by_cases hstep : 0 < step.framesAdded self
      · exact Or.inl (hpos hstep)
      · exact Or.inr (by omega)

/-- The custom string of a name is the value it was set to. -/
theorem GetCustomString_SetCustomString (list : vtkTrackedFrameList)
    (fieldName fieldValue : String) :
    (list.SetCustomString fieldName fieldValue).GetCustomString fieldName
      = some fieldValue := by
  unfold vtkTrackedFrameList.SetCustomString vtkTrackedFrameList.GetCustomString
  simp only [List.find?_append]
  have hnone : (list.CustomFields.filter (fun f => decide (f.1 ≠ fieldName))).find?
      (fun f => decide (f.1 = fieldName)) = none := by
    rw [List.find?_eq_none]
    intro f hf
    have := (List.mem_filter.mp hf).2
    simpa using this
  rw [hnone]
  simp

/-- The writer sees the list that was stored for it; storing it leaves the trace, the frame
count and the dimensions of the writer. -/
theorem SetWriterTrackedFrameList_spec (self : vtkVirtualDiscCapture)
    (list : vtkTrackedFrameList) :
    (self.SetWriterTrackedFrameList list).GetWriterTrackedFrameList = list ∧
    (self.SetWriterTrackedFrameList list).Trace = self.Trace ∧
    (self.SetWriterTrackedFrameList list).EnableFileCompression
      = self.EnableFileCompression := by
  unfold vtkVirtualDiscCapture.SetWriterTrackedFrameList
    vtkVirtualDiscCapture.GetWriterTrackedFrameList
  cases h : self.m_Writer.TrackedFrameList <;> simp [h]

/-- `CompressFile` only adds requests to the trace. -/
theorem CompressFile_trace (E : CaptureEnvironment) (self : vtkVirtualDiscCapture) :
    ∃ more, (CompressFile E self).2.Trace = self.Trace ++ more := by
  unfold CompressFile
  simp only []
  split
  · exact ⟨[_], rfl⟩
  · split
    · exact ⟨[_, _], List.append_assoc _ _ _⟩
    · exact ⟨[_, _], List.append_assoc _ _ _⟩

/-- `OpenFile` succeeds; it records the file name handed to the writer, switches the
compression of the writer off, and leaves the header flag, the frame count and the recorded
frames. -/
theorem OpenFile_spec (E : CaptureEnvironment) (self : vtkVirtualDiscCapture)
    (aFilename : Option String) :
    (OpenFile E self aFilename).1 = PLUS_SUCCESS ∧
    (∃ name, (OpenFile E self aFilename).2.Trace
      = self.Trace ++ [CaptureEvent.SetFileName name]) ∧
    (OpenFile E self aFilename).2.m_Writer.UseCompression = false ∧
    (OpenFile E self aFilename).2.m_HeaderPrepared = self.m_HeaderPrepared ∧
    (OpenFile E self aFilename).2.TotalFramesRecorded = self.TotalFramesRecorded ∧
    (OpenFile E self aFilename).2.m_RecordedFrames = self.m_RecordedFrames := by
  unfold OpenFile
  cases aFilename with
  | none => exact ⟨rfl, ⟨_, rfl⟩, rfl, rfl, rfl, rfl⟩
  | some name =>
    by_cases hname : name.length = 0
    · simp only []
      rw [if_pos hname]
      exact ⟨trivial, ⟨_, rfl⟩, rfl, rfl, rfl, rfl⟩
    · simp only []
      rw [if_neg hname]
      exact ⟨trivial, ⟨_, rfl⟩, rfl, rfl, rfl, rfl⟩

/-- Lines 221-237 of `CloseFile` record four requests, the first of which writes to the
header the `DimSize` text built from the device. -/
theorem CloseFile_finalize_trace (E : CaptureEnvironment) (self : vtkVirtualDiscCapture) :
    ∃ configFileName,
      (CloseFile_finalize E self).Trace
        = self.Trace ++
          [CaptureEvent.UpdateFieldInImageHeader "DimSize" (some (CloseFile_dimSizeStr self)),
            CaptureEvent.FinalizeHeader, CaptureEvent.Close,
            CaptureEvent.PrintXML configFileName] := by
  obtain ⟨hget, htrace, _⟩ := SetWriterTrackedFrameList_spec self
    (self.GetWriterTrackedFrameList.SetCustomString "DimSize" (CloseFile_dimSizeStr self))
  unfold CloseFile_finalize
  simp only [vtkVirtualDiscCapture.Record, hget, htrace, GetCustomString_SetCustomString,
    List.append_assoc, List.cons_append, List.nil_append]
  exact ⟨_, rfl⟩

/-- What `CloseFile` does when a header is prepared: after the frames still pending were
written, its first request writes `DimSize` to the header; when it returns success, no header
is prepared, the frame count is 0 and the list of recorded frames is empty. -/
theorem CloseFile_prepared (E : CaptureEnvironment) (self : vtkVirtualDiscCapture)
    (aFilename : Option String) (hprepared : self.m_HeaderPrepared = true) :
    (∃ rest,
      (CloseFile E self aFilename).2.Trace
        = (CloseFile_flush E self aFilename).2.Trace ++
          CaptureEvent.UpdateFieldInImageHeader "DimSize"
            (some (CloseFile_dimSizeStr (CloseFile_flush E self aFilename).2)) :: rest) ∧
    ((CloseFile E self aFilename).1 = PLUS_SUCCESS →
      (CloseFile E self aFilename).2.m_HeaderPrepared = false ∧
      (CloseFile E self aFilename).2.TotalFramesRecorded = 0 ∧
      (CloseFile E self aFilename).2.m_RecordedFrames.TrackedFrameList = []) := by
  obtain ⟨configFileName, hfin⟩ :=
    CloseFile_finalize_trace E (CloseFile_flush E self aFilename).2
  have hcompress : ∃ more,
      (CloseFile_compress E (CloseFile_finalize E (CloseFile_flush E self aFilename).2)).2.Trace
        = (CloseFile_finalize E (CloseFile_flush E self aFilename).2).Trace ++ more := by
    unfold CloseFile_compress
    split
    · exact CompressFile_trace E _
    · exact ⟨[], by simp⟩
  obtain ⟨more, hmore⟩ := hcompress
  unfold CloseFile
  have hnot : ¬ (!self.m_HeaderPrepared) = true := by simp [hprepared]
  rw [if_neg hnot]
  simp only []
  by_cases hc : (CloseFile_compress E
      (CloseFile_finalize E (CloseFile_flush E self aFilename).2)).1 = PLUS_SUCCESS
  · have hc1 : ¬ (CloseFile_compress E
        (CloseFile_finalize E (CloseFile_flush E self aFilename).2)).1 ≠ PLUS_SUCCESS :=
      not_not.mpr hc
    rw [if_neg hc1]
    obtain ⟨hopen, ⟨name, htrace⟩, _, hprep, htotal, hframes⟩ := OpenFile_spec E
      (CloseFile_reset (CloseFile_compress E
        (CloseFile_finalize E (CloseFile_flush E self aFilename).2)).2) none
    have hopen1 : ¬ (OpenFile E (CloseFile_reset (CloseFile_compress E
        (CloseFile_finalize E (CloseFile_flush E self aFilename).2)).2) none).1
        ≠ PLUS_SUCCESS := not_not.mpr hopen
    rw [if_neg hopen1]
    refine ⟨⟨[CaptureEvent.FinalizeHeader, CaptureEvent.Close,
      CaptureEvent.PrintXML configFileName] ++ (more ++ [CaptureEvent.SetFileName name]), ?_⟩,
      fun _ => ⟨hprep, htotal, ?_⟩⟩
    · show (OpenFile E _ none).2.Trace = _
      rw [htrace]
      show (CloseFile_compress E _).2.Trace ++ _ = _
      rw [hmore, hfin]
      simp
    · show (OpenFile E _ none).2.m_RecordedFrames.TrackedFrameList = _
      rw [hframes]
      rfl
  · rw [if_pos hc]
    refine ⟨⟨[CaptureEvent.FinalizeHeader, CaptureEvent.Close,
      CaptureEvent.PrintXML configFileName] ++ more, ?_⟩, fun h => absurd h fail_ne_success⟩
    show (CloseFile_compress E _).2.Trace = _
    rw [hmore, hfin]
    simp

/-- Writing the pending frames at the start of `CloseFile`, when it succeeds, leaves the
frame count. -/
theorem CloseFile_flush_total (E : CaptureEnvironment) (self : vtkVirtualDiscCapture)
    (aFilename : Option String)
    (hflush : (CloseFile_flush E self aFilename).1 = PLUS_SUCCESS) :
    (CloseFile_flush E self aFilename).2.TotalFramesRecorded = self.TotalFramesRecorded := by
  have hany : ∀ self1 : vtkVirtualDiscCapture,
      self1.TotalFramesRecorded = self.TotalFramesRecorded →
      (if self1.m_RecordedFrames.GetNumberOfTrackedFrames ≠ 0 then WriteFrames E self1 true
        else (PLUS_SUCCESS, self1)).1 = PLUS_SUCCESS →
      (if self1.m_RecordedFrames.GetNumberOfTrackedFrames ≠ 0 then WriteFrames E self1 true
        else (PLUS_SUCCESS, self1)).2.TotalFramesRecorded = self.TotalFramesRecorded := by
    intro self1 h1 hok
    split at hok
    · rename_i hn
      rw [if_pos hn, ((WriteFrames_spec E self1 true).1 hok).1, h1]
    · rename_i hn
      rw [if_neg hn]
      exact h1
  unfold CloseFile_flush at hflush ⊢
  cases aFilename with
  | none => exact hany self rfl hflush
  | some name =>
    by_cases hname : name.length ≠ 0
    · simp only [] at hflush ⊢
      rw [if_pos hname] at hflush ⊢
      exact hany _ rfl hflush
    · simp only [] at hflush ⊢
      rw [if_neg hname] at hflush ⊢
      exact hany self rfl hflush

/-- The frame count of the header when every snapshot adds its frame: after a file was opened
(frame count 0), for any sequence of capture updates and snapshots that all succeed and add
`k_1, ..., k_n` frames (each snapshot one frame), more than none in total, `CloseFile` (its own
writing of the frames still pending having succeeded) writes to the header, as its first
request, the `DimSize` text whose first two components are the first two dimensions of the
writer and whose last component is `k_1 + ... + k_n`; the text depends on the steps only
through this sum, so it is the same as for one batch. -/
theorem CloseFile_DimSize_total (E : CaptureEnvironment) (steps : List CaptureStep)
    (opened : vtkVirtualDiscCapture) (aFilename : Option String)
    (hopened : opened.TotalFramesRecorded = 0)
    (hsucceed : stepsSucceed steps opened = true)
    (hsnapshot : snapshotsAddOne steps opened = true)
    (hframes : 0 < totalFramesAdded steps opened)
    (hflush : (CloseFile_flush E (runSteps steps opened) aFilename).1 = PLUS_SUCCESS) :
    ∃ rest,
      (CloseFile E (runSteps steps opened) aFilename).2.Trace
        = (CloseFile_flush E (runSteps steps opened) aFilename).2.Trace ++
          CaptureEvent.UpdateFieldInImageHeader "DimSize"
            (some
              (toString
                  (CloseFile_flush E (runSteps steps opened) aFilename).2.m_Writer.Dimensions.i0
                ++ " " ++
                toString
                  (CloseFile_flush E (runSteps steps opened) aFilename).2.m_Writer.Dimensions.i1
                ++ " " ++ toString (totalFramesAdded steps opened))) :: rest := by
  obtain ⟨htotal, hprepared⟩ := runSteps_total steps opened hsucceed hsnapshot
  obtain ⟨rest, hrest⟩ :=
    (CloseFile_prepared E (runSteps steps opened) aFilename (hprepared (Or.inr hframes))).1
  refine ⟨rest, ?_⟩
  rw [hrest]
  unfold CloseFile_dimSizeStr
  rw [CloseFile_flush_total E _ aFilename hflush, htotal, hopened, zero_add]

/-- Two updates that add 3 and then 5 frames to the sample device succeed and add 8 frames;
the `DimSize` that `CloseFile` then writes is `640 480 8`, as it is after one update that adds
8 frames. -/
theorem CloseFile_DimSize_total_witness :
    (sampleCapture true false).TotalFramesRecorded = 0 ∧
    stepsSucceed sampleTwoBatches (sampleCapture true false) = true ∧
    totalFramesAdded sampleTwoBatches (sampleCapture true false) = 8 ∧
    (CloseFile (sampleCaptureEnvironment [])
        (runSteps sampleTwoBatches (sampleCapture true false)) none).2.Trace.drop 6
      = [CaptureEvent.UpdateFieldInImageHeader "DimSize" (some "640 480 8"),
          CaptureEvent.FinalizeHeader, CaptureEvent.Close,
          CaptureEvent.PrintXML "./TrackedImageSequence_config.xml",
          CaptureEvent.SetFileName "TrackedImageSequence_20140101_120000.mha"] ∧
    (CloseFile (sampleCaptureEnvironment [])
        (runSteps sampleOneBatch (sampleCapture true false)) none).2.Trace.drop 4
      = [CaptureEvent.UpdateFieldInImageHeader "DimSize" (some "640 480 8"),
          CaptureEvent.FinalizeHeader, CaptureEvent.Close,
          CaptureEvent.PrintXML "./TrackedImageSequence_config.xml",
          CaptureEvent.SetFileName "TrackedImageSequence_20140101_120000.mha"] ∧
    ∃ rest,
      (CloseFile (sampleCaptureEnvironment [])
          (runSteps sampleTwoBatches (sampleCapture true false)) none).2.Trace
        = (CloseFile_flush (sampleCaptureEnvironment [])
            (runSteps sampleTwoBatches (sampleCapture true false)) none).2.Trace ++
          CaptureEvent.UpdateFieldInImageHeader "DimSize"
            (some
              (toString
                  (CloseFile_flush (sampleCaptureEnvironment [])
                    (runSteps sampleTwoBatches (sampleCapture true false))
                    none).2.m_Writer.Dimensions.i0
                ++ " " ++
                toString
                  (CloseFile_flush (sampleCaptureEnvironment [])
                    (runSteps sampleTwoBatches (sampleCapture true false))
                    none).2.m_Writer.Dimensions.i1
                ++ " " ++
                toString (totalFramesAdded sampleTwoBatches (sampleCapture true false)))) ::
            rest :=
  ⟨by decide!, by decide!, by decide!, by decide!, by decide!,
    CloseFile_DimSize_total (sampleCaptureEnvironment []) sampleTwoBatches
      (sampleCapture true false) none (by decide!) (by decide!) (by decide!) (by decide!)
      (by decide!)⟩

/-- A snapshot that returns success raises the frame count by one, whatever the frame list
did with the frame. -/
theorem TakeSnapshot_total (E : CaptureEnvironment) (self : vtkVirtualDiscCapture)
    (trackedFrame : TrackedFrame) (h : (TakeSnapshot E self trackedFrame).1 = PLUS_SUCCESS) :
    (TakeSnapshot E self trackedFrame).2.TotalFramesRecorded
      = self.TotalFramesRecorded + 1 := by
  simp only [TakeSnapshot] at h ⊢
  cases hs : TakeSnapshot_add E self trackedFrame with
  | none =>
    simp only [hs] at h
    exact absurd h fail_ne_success
  | some added =>
    obtain ⟨status, self1⟩ := added
    obtain ⟨h1, _, _⟩ := TakeSnapshot_add_fields E self self1 trackedFrame status hs
    simp only [hs] at h ⊢
    by_cases hst : status = PLUS_SUCCESS
    · have hst1 : ¬ status ≠ PLUS_SUCCESS := not_not.mpr hst
      rw [if_neg hst1] at h ⊢
      by_cases hw : (WriteFrames E self1 false).1 = PLUS_SUCCESS
      · have hw1 : ¬ (WriteFrames E self1 false).1 ≠ PLUS_SUCCESS := not_not.mpr hw
        obtain ⟨wtotal, _⟩ := (WriteFrames_spec E self1 false).1 hw
        rw [if_neg hw1]
        show (WriteFrames E self1 false).2.TotalFramesRecorded + 1 = _
        rw [wtotal, h1]
      · rw [if_pos hw] at h
        exact absurd h fail_ne_success
    · rw [if_pos hst] at h
      exact absurd h fail_ne_success

/-- C17: evaluation of the code. A `TakeSnapshot` that returns success raises the frame count
by one (line 604) whatever `AddTrackedFrame` did with the frame, whereas `InternalUpdate`
raises it by the number of frames added (line 326). Two snapshots of the same frame on the
sample device with a frame buffer both return success; the first adds one frame and the second
none, the list leaving the frame out for its timestamp, so `k_1 + k_2 = 1` and one frame is
appended to the file; the `DimSize` that `CloseFile` writes to the header is `640 480 2`. -/
theorem TakeSnapshot_counts_skipped_frame :
    (∀ (E : CaptureEnvironment) (self : vtkVirtualDiscCapture) (trackedFrame : TrackedFrame),
      (TakeSnapshot E self trackedFrame).1 = PLUS_SUCCESS →
      (TakeSnapshot E self trackedFrame).2.TotalFramesRecorded
        = self.TotalFramesRecorded + 1) ∧
    sampleBufferedCapture.TotalFramesRecorded = 0 ∧
    stepsSucceed sampleRepeatedSnapshot sampleBufferedCapture = true ∧
    sampleSnapshot.framesAdded sampleBufferedCapture = 1 ∧
    sampleSnapshot.framesAdded (sampleSnapshot.run sampleBufferedCapture).2 = 0 ∧
    totalFramesAdded sampleRepeatedSnapshot sampleBufferedCapture = 1 ∧
    (runSteps sampleRepeatedSnapshot
      sampleBufferedCapture).m_RecordedFrames.GetNumberOfTrackedFrames = 1 ∧
    (runSteps sampleRepeatedSnapshot sampleBufferedCapture).TotalFramesRecorded = 2 ∧
    (CloseFile (sampleCaptureEnvironment [])
      (runSteps sampleRepeatedSnapshot sampleBufferedCapture) none).1 = PLUS_SUCCESS ∧
    (CloseFile (sampleCaptureEnvironment [])
      (runSteps sampleRepeatedSnapshot sampleBufferedCapture) none).2.Trace
      = [CaptureEvent.SetFileName "TrackedImageSequence_20140101_120000.mha",
          CaptureEvent.PrepareHeader PLUS_SUCCESS,
          CaptureEvent.AppendImagesToHeader true PLUS_SUCCESS,
          CaptureEvent.AppendImages true false 1 PLUS_SUCCESS,
          CaptureEvent.UpdateFieldInImageHeader "DimSize" (some "640 480 2"),
          CaptureEvent.FinalizeHeader, CaptureEvent.Close,
          CaptureEvent.PrintXML "./TrackedImageSequence_config.xml",
          CaptureEvent.SetFileName "TrackedImageSequence_20140101_120000.mha"] :=
  ⟨TakeSnapshot_total, by decide!, by decide!, by decide!, by decide!, by decide!, by decide!,
    by decide!, by decide!, by decide!⟩

/-- C19 as stated fails: a snapshot on the sample device whose writer cannot prepare the header
returns `PLUS_FAIL` and leaves its frame in the list with no header prepared; `CloseFile` on
that device returns success and the list of recorded frames is not empty afterwards. -/
theorem CloseFile_repeat_counterexample :
    (TakeSnapshot (failingPrepareEnvironment []) (sampleCapture false false)
      (sampleFrame (translation 0 0 0) true)).1 = PLUS_FAIL ∧
    (TakeSnapshot (failingPrepareEnvironment []) (sampleCapture false false)
      (sampleFrame (translation 0 0 0) true)).2.m_HeaderPrepared = false ∧
    (CloseFile (sampleCaptureEnvironment [])
      (TakeSnapshot (failingPrepareEnvironment []) (sampleCapture false false)
        (sampleFrame (translation 0 0 0) true)).2 none).1 = PLUS_SUCCESS ∧
    (CloseFile (sampleCaptureEnvironment [])
      (TakeSnapshot (failingPrepareEnvironment []) (sampleCapture false false)
        (sampleFrame (translation 0 0 0) true)).2
      none).2.m_RecordedFrames.TrackedFrameList.length = 1 ∧
    ¬ ((CloseFile (sampleCaptureEnvironment [])
        (TakeSnapshot (failingPrepareEnvironment []) (sampleCapture false false)
          (sampleFrame (translation 0 0 0) true)).2 none).1 = PLUS_SUCCESS →
      (CloseFile (sampleCaptureEnvironment [])
        (TakeSnapshot (failingPrepareEnvironment []) (sampleCapture false false)
          (sampleFrame (translation 0 0 0) true)).2
        none).2.m_RecordedFrames.TrackedFrameList = []) := by
  refine ⟨by decide!, by decide!, by decide!, by decide!, fun h => ?_⟩
  exact absurd (h (by decide!)) (by decide!)

/-- C19, amended: `CloseFile` called while no header is prepared returns success and leaves
the device as it is; a `CloseFile` that finds a header prepared and returns success leaves no
header prepared, the frame count 0 and the list of recorded frames empty; and after any
`CloseFile` that returned success a second `CloseFile` returns success and leaves the device
as it is. -/
theorem CloseFile_repeat (E E2 : CaptureEnvironment) (self : vtkVirtualDiscCapture)
    (aFilename aFilename2 : Option String) :
    (self.m_HeaderPrepared = false → CloseFile E self aFilename = (PLUS_SUCCESS, self)) ∧
    (self.m_HeaderPrepared = true → (CloseFile E self aFilename).1 = PLUS_SUCCESS →
      (CloseFile E self aFilename).2.m_HeaderPrepared = false ∧
      (CloseFile E self aFilename).2.TotalFramesRecorded = 0 ∧
      (CloseFile E self aFilename).2.m_RecordedFrames.TrackedFrameList = []) ∧
    ((CloseFile E self aFilename).1 = PLUS_SUCCESS →
      CloseFile E2 (CloseFile E self aFilename).2 aFilename2
        = (PLUS_SUCCESS, (CloseFile E self aFilename).2)) := by
  have hnoop : ∀ (E1 : CaptureEnvironment) (s : vtkVirtualDiscCapture) (name : Option String),
      s.m_HeaderPrepared = false → CloseFile E1 s name = (PLUS_SUCCESS, s) := by
    intro E1 s name hs
    unfold CloseFile
    rw [if_pos (by simp [hs])]
  refine ⟨hnoop E self aFilename, fun hp hok => (CloseFile_prepared E self aFilename hp).2 hok,
    fun hok => hnoop E2 _ aFilename2 ?_⟩
  cases hp : self.m_HeaderPrepared
  · rw [hnoop E self aFilename hp]
    exact hp
  · exact ((CloseFile_prepared E self aFilename hp).2 hok).1

/-- The sample device after 8 recorded frames has a header prepared; `CloseFile` succeeds
and leaves no header prepared, the frame count 0 and no recorded frames, and a second
`CloseFile` returns success and leaves the device as it is. -/
theorem CloseFile_repeat_witness :
    (runSteps sampleTwoBatches (sampleCapture true false)).m_HeaderPrepared = true ∧
    (runSteps sampleTwoBatches (sampleCapture true false)).TotalFramesRecorded = 8 ∧
    (CloseFile (sampleCaptureEnvironment [])
      (runSteps sampleTwoBatches (sampleCapture true false)) none).1 = PLUS_SUCCESS ∧
    (CloseFile (sampleCaptureEnvironment [])
      (runSteps sampleTwoBatches (sampleCapture true false)) none).2.TotalFramesRecorded = 0 ∧
    CloseFile (sampleCaptureEnvironment [])
        (CloseFile (sampleCaptureEnvironment [])
          (runSteps sampleTwoBatches (sampleCapture true false)) none).2 none
      = (PLUS_SUCCESS,
          (CloseFile (sampleCaptureEnvironment [])
            (runSteps sampleTwoBatches (sampleCapture true false)) none).2) :=
  ⟨by decide!, by decide!, by decide!, by decide!,
    (CloseFile_repeat (sampleCaptureEnvironment []) (sampleCaptureEnvironment [])
      (runSteps sampleTwoBatches (sampleCapture true false)) none none).2.2 (by decide!)⟩

/-- C20: `WriteFrames` returns success only when every call of the write path it made
(`PrepareHeader`, `AppendImagesToHeader`, `AppendImages`) succeeded. When it does not return
success it returns `PLUS_FAIL`, and the last two requests it made are the call that failed and
`Disconnect`, issued while the recorded frames and the frame count were as at the start of
`WriteFrames`: the device it returns is what the base class made of that device. An
`InternalUpdate` or a `TakeSnapshot` whose `WriteFrames` call does not succeed returns
`PLUS_FAIL` with the device as `WriteFrames` returned it, the frame count not having been
raised. -/
theorem WriteFrames_failure_disconnects (E : CaptureEnvironment)
    (self : vtkVirtualDiscCapture) (force : Bool) (trackedFrame : TrackedFrame) :
    ((WriteFrames E self force).1 = PLUS_SUCCESS →
      ∃ calls, (WriteFrames E self force).2.Trace = self.Trace ++ calls ∧
        ∀ e ∈ calls, e.failed = false) ∧
    ((WriteFrames E self force).1 ≠ PLUS_SUCCESS →
      (WriteFrames E self force).1 = PLUS_FAIL ∧
      ∃ before calls failedCall,
        (WriteFrames E self force).2 = E.Disconnect before ∧
        before.Trace = self.Trace ++ (calls ++ [failedCall, CaptureEvent.Disconnect]) ∧
        (∀ e ∈ calls, e.failed = false) ∧ failedCall.failed = true ∧
        before.m_RecordedFrames = self.m_RecordedFrames ∧
        before.TotalFramesRecorded = self.TotalFramesRecorded) ∧
    (∀ self6 startTimeSec nbFramesBefore nbFramesAfter,
      InternalUpdate_sample E self
        = InternalUpdateSampling.sampled self6 startTimeSec nbFramesBefore nbFramesAfter →
      (WriteFrames E self6 false).1 ≠ PLUS_SUCCESS →
      ∃ before,
        InternalUpdate E self = (PLUS_FAIL, E.Disconnect before) ∧
        before.m_RecordedFrames = self6.m_RecordedFrames ∧
        before.TotalFramesRecorded = self.TotalFramesRecorded) ∧
    (∀ self1,
      TakeSnapshot_add E self trackedFrame = some (PLUS_SUCCESS, self1) →
      (WriteFrames E self1 false).1 ≠ PLUS_SUCCESS →
      ∃ before,
        TakeSnapshot E self trackedFrame = (PLUS_FAIL, E.Disconnect before) ∧
        before.m_RecordedFrames = self1.m_RecordedFrames ∧
        before.TotalFramesRecorded = self.TotalFramesRecorded) := by
  refine ⟨fun h => ((WriteFrames_spec E self force).1 h).2.2.2,
    (WriteFrames_spec E self force).2, ?_, ?_⟩
  · intro self6 startTimeSec nbFramesBefore nbFramesAfter hs hw
    obtain ⟨h1, _⟩ :=
      InternalUpdate_sample_sampled E self self6 startTimeSec nbFramesBefore nbFramesAfter hs
    obtain ⟨_, before, _, _, hbefore, _, _, _, hframes, htotal⟩ :=
      (WriteFrames_spec E self6 false).2 hw
    refine ⟨before, ?_, hframes, by rw [htotal, h1]⟩
    unfold InternalUpdate
    simp only [hs]
    rw [if_pos hw, hbefore]
  · intro self1 hs hw
    obtain ⟨h1, _⟩ := TakeSnapshot_add_fields E self self1 trackedFrame PLUS_SUCCESS hs
    obtain ⟨_, before, _, _, hbefore, _, _, _, hframes, htotal⟩ :=
      (WriteFrames_spec E self1 false).2 hw
    refine ⟨before, ?_, hframes, by rw [htotal, h1]⟩
    unfold TakeSnapshot
    simp only [hs]
    rw [if_neg (by simp), if_pos hw, hbefore]

/-- The sample device with a writer whose `AppendImages` fails: an update that samples 3
frames returns `PLUS_FAIL`; its last two requests are the failed call and `Disconnect`, the 3
frames are still in the list and the frame count is still 0; a snapshot fails likewise. -/
theorem WriteFrames_failure_disconnects_witness :
    (InternalUpdate (failingCaptureEnvironment (sampleFrames 0 3))
      (sampleCapture true false)).1 = PLUS_FAIL ∧
    (InternalUpdate (failingCaptureEnvironment (sampleFrames 0 3))
      (sampleCapture true false)).2.Trace.drop 2
      = [CaptureEvent.AppendImagesToHeader true PLUS_SUCCESS,
          CaptureEvent.AppendImages true false 3 PLUS_FAIL, CaptureEvent.Disconnect] ∧
    (InternalUpdate (failingCaptureEnvironment (sampleFrames 0 3))
      (sampleCapture true false)).2.m_RecordedFrames.TrackedFrameList.length = 3 ∧
    (InternalUpdate (failingCaptureEnvironment (sampleFrames 0 3))
      (sampleCapture true false)).2.TotalFramesRecorded = 0 ∧
    (TakeSnapshot (failingCaptureEnvironment (sampleFrames 0 3)) (sampleCapture false false)
      (sampleFrame (translation 0 0 0) true)).1 = PLUS_FAIL ∧
    (TakeSnapshot (failingCaptureEnvironment (sampleFrames 0 3)) (sampleCapture false false)
      (sampleFrame (translation 0 0 0) true)).2.TotalFramesRecorded = 0 ∧
    ((WriteFrames (failingCaptureEnvironment (sampleFrames 0 3))
        ({ sampleCapture true false with
            m_RecordedFrames := { TrackedFrameList := sampleFrames 0 3, CustomFields := [] } })
        false).1 = PLUS_FAIL ∧
      ∃ before calls failedCall,
        (WriteFrames (failingCaptureEnvironment (sampleFrames 0 3))
          ({ sampleCapture true false with
              m_RecordedFrames :=
                { TrackedFrameList := sampleFrames 0 3, CustomFields := [] } })
          false).2 = (failingCaptureEnvironment (sampleFrames 0 3)).Disconnect before ∧
        before.Trace
          = ({ sampleCapture true false with
              m_RecordedFrames :=
                { TrackedFrameList := sampleFrames 0 3, CustomFields := [] } }
            : vtkVirtualDiscCapture).Trace
            ++ (calls ++ [failedCall, CaptureEvent.Disconnect]) ∧
        (∀ e ∈ calls, e.failed = false) ∧ failedCall.failed = true ∧
        before.m_RecordedFrames
          = ({ sampleCapture true false with
              m_RecordedFrames :=
                { TrackedFrameList := sampleFrames 0 3, CustomFields := [] } }
            : vtkVirtualDiscCapture).m_RecordedFrames ∧
        before.TotalFramesRecorded
          = ({ sampleCapture true false with
              m_RecordedFrames :=
                { TrackedFrameList := sampleFrames 0 3, CustomFields := [] } }
            : vtkVirtualDiscCapture).TotalFramesRecorded) :=
  ⟨by decide!, by decide!, by decide!, by decide!, by decide!, by decide!,
    (WriteFrames_failure_disconnects (failingCaptureEnvironment (sampleFrames 0 3))
      ({ sampleCapture true false with
          m_RecordedFrames := { TrackedFrameList := sampleFrames 0 3, CustomFields := [] } })
      false (sampleFrame (translation 0 0 0) true)).2.1 (by decide!)⟩

/-! ## Properties of the running bounding box -/

/-- The method `AddImageToExtent` folds `expandCorner` over the projected corners. -/
theorem AddImageToExtent_eq_foldl (self : vtkVolumeReconstructor) (image : vtkImageData)
    (imageToReference : vtkMatrix4x4) (extent_Ref : Double6) :
    AddImageToExtent self image imageToReference extent_Ref =
      (projectedCorners self image imageToReference).foldl expandCorner extent_Ref := by
  simp only [AddImageToExtent, projectedCorners, List.foldl_map]

/-- The slice has four projected corners. -/
theorem projectedCorners_length (self : vtkVolumeReconstructor) (image : vtkImageData)
    (imageToReference : vtkMatrix4x4) :
    (projectedCorners self image imageToReference).length = 4 := by
  simp [projectedCorners, corners_ImagePix]

/-- C25: `AddImageToExtent` only grows the running bounding box. For every image, pose matrix
and prior `extent_Ref`, the slice has four projected corners and, on each of the three axes,
the minimum after the call is at most the prior minimum and the maximum is at least the prior
maximum; every projected corner lies between the minimum and the maximum after the call; and
each bound after the call is its prior value or the coordinate of one of the projected
corners. -/
theorem AddImageToExtent_grows (self : vtkVolumeReconstructor) (image : vtkImageData)
    (imageToReference : vtkMatrix4x4) (extent_Ref : Double6) :
    (projectedCorners self image imageToReference).length = 4 ∧
    (∀ axis : Nat, axis < 3 →
      (AddImageToExtent self image imageToReference extent_Ref).get (axis * 2)
          ≤ extent_Ref.get (axis * 2) ∧
        extent_Ref.get (axis * 2 + 1)
          ≤ (AddImageToExtent self image imageToReference extent_Ref).get (axis * 2 + 1)) ∧
    (∀ corner_Ref ∈ projectedCorners self image imageToReference, ∀ axis : Nat, axis < 3 →
      (AddImageToExtent self image imageToReference extent_Ref).get (axis * 2)
          ≤ corner_Ref.get axis ∧
        corner_Ref.get axis
          ≤ (AddImageToExtent self image imageToReference extent_Ref).get (axis * 2 + 1)) ∧
    (∀ axis : Nat, axis < 3 →
      ((AddImageToExtent self image imageToReference extent_Ref).get (axis * 2)
            = extent_Ref.get (axis * 2) ∨
          ∃ corner_Ref ∈ projectedCorners self image imageToReference,
            (AddImageToExtent self image imageToReference extent_Ref).get (axis * 2)
              = corner_Ref.get axis) ∧
        ((AddImageToExtent self image imageToReference extent_Ref).get (axis * 2 + 1)
            = extent_Ref.get (axis * 2 + 1) ∨
          ∃ corner_Ref ∈ projectedCorners self image imageToReference,
            (AddImageToExtent self image imageToReference extent_Ref).get (axis * 2 + 1)
              = corner_Ref.get axis)) := by
  rw [AddImageToExtent_eq_foldl, foldl_expandCorner_eq]
  have hlen := projectedCorners_length self image imageToReference
  generalize projectedCorners self image imageToReference = corners at hlen ⊢
  obtain ⟨a0, b0, c0⟩ := foldl_lower_spec (corners.map Double4.d0) extent_Ref.d0
  obtain ⟨a1, b1, c1⟩ := foldl_upper_spec (corners.map Double4.d0) extent_Ref.d1
  obtain ⟨a2, b2, c2⟩ := foldl_lower_spec (corners.map Double4.d1) extent_Ref.d2
  obtain ⟨a3, b3, c3⟩ := foldl_upper_spec (corners.map Double4.d1) extent_Ref.d3
  obtain ⟨a4, b4, c4⟩ := foldl_lower_spec (corners.map Double4.d2) extent_Ref.d4
  obtain ⟨a5, b5, c5⟩ := foldl_upper_spec (corners.map Double4.d2) extent_Ref.d5
  have pick : ∀ (f : Double4 → ℚ) (m m0 : ℚ), (m = m0 ∨ m ∈ corners.map f) →
      (m = m0 ∨ ∃ corner_Ref ∈ corners, m = f corner_Ref) := by
    intro f m m0 h
    rcases h with h | h
    · exact Or.inl h
    · obtain ⟨c, hc, hfc⟩ := List.mem_map.mp h
      exact Or.inr ⟨c, hc, hfc.symm⟩
  refine ⟨hlen, ?_, ?_, ?_⟩
  · intro axis haxis
    interval_cases axis
    · exact ⟨a0, a1⟩
    · exact ⟨a2, a3⟩
    · exact ⟨a4, a5⟩
  · intro corner_Ref hc axis haxis
    interval_cases axis
    · exact ⟨b0 _ (List.mem_map_of_mem _ hc), b1 _ (List.mem_map_of_mem _ hc)⟩
    · exact ⟨b2 _ (List.mem_map_of_mem _ hc), b3 _ (List.mem_map_of_mem _ hc)⟩
    · exact ⟨b4 _ (List.mem_map_of_mem _ hc), b5 _ (List.mem_map_of_mem _ hc)⟩
  · intro axis haxis
    interval_cases axis
    · exact ⟨pick _ _ _ c0, pick _ _ _ c1⟩
    · exact ⟨pick _ _ _ c2, pick _ _ _ c3⟩
    · exact ⟨pick _ _ _ c4, pick _ _ _ c5⟩

/-! ## Properties of the modification time -/

/-- The operations of lines 913-934 (`Reset`, `SetOutputOrigin`, `SetOutputSpacing`,
`SetOutputExtent`) forward to the slice paster and leave the modification time; a call of
`UpdateReconstructedVolume` on an up-to-date reconstructor after any of them regenerates
nothing. -/
theorem geometry_setters_keep_MTime {Repo : Type} (C : Collaborators Repo)
    (self : vtkVolumeReconstructor) (origin spacing : Double3) (extent : Int6) :
    (Reset C self).GetMTime = self.GetMTime ∧
    (SetOutputOrigin self origin).GetMTime = self.GetMTime ∧
    (SetOutputSpacing self spacing).GetMTime = self.GetMTime ∧
    (SetOutputExtent self extent).GetMTime = self.GetMTime ∧
    (self.ReconstructedVolumeUpdatedTime ≥ self.GetMTime →
      UpdateReconstructedVolume C (Reset C self) = (PLUS_SUCCESS, Reset C self) ∧
      UpdateReconstructedVolume C (SetOutputOrigin self origin)
        = (PLUS_SUCCESS, SetOutputOrigin self origin) ∧
      UpdateReconstructedVolume C (SetOutputSpacing self spacing)
        = (PLUS_SUCCESS, SetOutputSpacing self spacing) ∧
      UpdateReconstructedVolume C (SetOutputExtent self extent)
        = (PLUS_SUCCESS, SetOutputExtent self extent)) := by
  refine ⟨rfl, rfl, rfl, rfl, fun h => ⟨?_, ?_, ?_, ?_⟩⟩ <;>
  exact UpdateReconstructedVolume_up_to_date C _ h

/-- The operations that call `Modified`: `AddTrackedFrame` with a valid pose,
`SetOutputExtentFromFrameList` and `ReadConfiguration` when they succeed advance the
modification time. -/
theorem AddTrackedFrame_advances_MTime {Repo : Type} (C : Collaborators Repo)
    (self : vtkVolumeReconstructor) (frame : TrackedFrame) (repository : Repo)
    (insertedIntoVolume : Option Bool)
    (hname : (GetImageToReferenceTransformName C self PlusTransformName.empty).1 = PLUS_SUCCESS)
    (hget : (C.GetTransform repository
      (GetImageToReferenceTransformName C self PlusTransformName.empty).2).1 = PLUS_SUCCESS)
    (hvalid : (C.GetTransform repository
      (GetImageToReferenceTransformName C self PlusTransformName.empty).2).2.2 = true) :
    self.GetMTime
      < (AddTrackedFrame C self (some frame) (some repository) insertedIntoVolume).2.1.GetMTime := by
  unfold AddTrackedFrame
  simp only [hname, hget, hvalid, ne_eq, not_true_eq_false, if_false, Bool.not_true,
    Bool.false_eq_true]
  exact Nat.lt_succ_self _

/-- A successful `SetOutputExtentFromFrameList` advances the modification time. -/
theorem SetOutputExtentFromFrameList_advances_MTime {Repo : Type} (C : Collaborators Repo)
    (self : vtkVolumeReconstructor) (trackedFrameList : Option (List TrackedFrame))
    (transformRepository : Option Repo)
    (h : (SetOutputExtentFromFrameList C self trackedFrameList transformRepository).1
      = PLUS_SUCCESS) :
    self.GetMTime
      < (SetOutputExtentFromFrameList C self trackedFrameList transformRepository).2.1.GetMTime := by
  unfold SetOutputExtentFromFrameList at h ⊢
  simp only [] at h ⊢
  by_cases hn : (GetImageToReferenceTransformName C self PlusTransformName.empty).1
      ≠ PLUS_SUCCESS
  · rw [if_pos hn] at h; exact absurd h fail_ne_success
  · rw [if_neg hn] at h ⊢
    cases trackedFrameList with
    | none => exact absurd h fail_ne_success
    | some frames =>
      cases frames with
      | nil => exact absurd h fail_ne_success
      | cons frame0 rest =>
        cases transformRepository with
        | none => exact absurd h fail_ne_success
        | some repository =>
          simp only [] at h ⊢
          cases hloop : frameLoop C self
              (GetImageToReferenceTransformName C self PlusTransformName.empty).2
              (frame0 :: rest) repository 0 initialExtent_Ref with
          | failed repository1 =>
            rw [hloop] at h; exact absurd h fail_ne_success
          | done repository1 numberOfValidFrames extent_Ref =>
            rw [hloop] at h
            simp only [] at h ⊢
            by_cases hz : numberOfValidFrames = 0
            · rw [if_pos hz] at h; exact absurd h fail_ne_success
            · rw [if_neg hz] at h ⊢
              revert h
              split
              · intro _; exact Nat.lt_succ_self _
              · intro h; exact absurd h fail_ne_success
              · intro h; exact absurd h fail_ne_success

/-- A successful `ReadConfiguration` advances the modification time. -/
theorem ReadConfiguration_advances_MTime {Repo : Type} (C : Collaborators Repo)
    (self : vtkVolumeReconstructor) (root : vtkXMLDataElement)
    (h : (ReadConfiguration C self (some root)).1 = PLUS_SUCCESS) :
    self.GetMTime < (ReadConfiguration C self (some root)).2.GetMTime := by
  have hframes : ∀ reconConfig, self.MTime ≤ (configuredFrames self reconConfig).MTime := by
    intro reconConfig
    unfold configuredFrames SetReferenceCoordinateFrame SetImageCoordinateFrame
      vtkVolumeReconstructor.Modified
    cases reconConfig.GetAttribute "ReferenceCoordinateFrame" <;>
    cases reconConfig.GetAttribute "ImageCoordinateFrame" <;>
    simp only [apply_ite vtkVolumeReconstructor.MTime] <;>
    (try split_ifs) <;> omega
  have hconf : ∀ reconConfig,
      (configuredBeforeKernels C self reconConfig).MTime
        = (configuredFrames self reconConfig).MTime := by
    intro reconConfig
    unfold configuredBeforeKernels
    cases reconConfig.GetScalarAttributeInt C "NumberOfThreads" <;>
    cases reconConfig.GetAttribute "FillHoles" <;> rfl
  rw [ReadConfiguration_eq] at h ⊢
  cases hfind : root.FindNestedElementWithName "VolumeReconstruction" with
  | none => rw [hfind] at h; exact absurd h fail_ne_success
  | some reconConfig =>
    rw [hfind] at h
    simp only [] at h ⊢
    have h1 := hframes reconConfig
    have h2 := hconf reconConfig
    by_cases hs : (reconConfig.GetVectorAttributeDouble C "OutputSpacing" 3).length = 0
    · rw [if_pos hs] at h; exact absurd h fail_ne_success
    · rw [if_neg hs] at h ⊢
      by_cases hf : (configuredBeforeKernels C self reconConfig).FillHoles = true
      · rw [if_pos hf] at h ⊢
        cases hk : reconConfig.FindNestedElementWithName "HoleFilling" with
        | none => rw [hk] at h; exact absurd h fail_ne_success
        | some holeFilling =>
          rw [hk] at h
          simp only [] at h ⊢
          cases hr : (readHFElements C holeFilling.NestedElements
              ((configuredBeforeKernels C self reconConfig).HoleFiller.AllocateHFElements C
                (countHFElements holeFilling.NestedElements)) 0 0).2 with
          | none => rw [hr] at h; exact absurd h fail_ne_success
          | some numberOfErrors =>
            rw [hr] at h
            simp only [] at h ⊢
            by_cases hn : numberOfErrors ≠ 0
            · rw [if_pos hn] at h; exact absurd h fail_ne_success
            · rw [if_neg hn]
              show self.MTime < (configuredBeforeKernels C self reconConfig).MTime + 1
              omega
      · rw [if_neg hf]
        show self.MTime < (configuredBeforeKernels C self reconConfig).MTime + 1
        omega

/-- C24: the code at the failing input. The reconstructor holds a raw volume of four voxels
and clears it on `ResetOutput`. After a first `UpdateReconstructedVolume` the visible output
is that volume; `Reset` then empties the raw volume of the slice paster and leaves the
modification time, so the next `UpdateReconstructedVolume` succeeds without regenerating:
the visible output is still the volume cached before the reset, not the raw volume the slice
paster holds now. -/
theorem Reset_leaves_output_stale :
    (UpdateReconstructedVolume clearingCollaborators sampleFilledReconstructor).2.ReconstructedVolume
      = { sampleImage 1 1 3 with Scalars := [7, 7, 7, 7] } ∧
    (Reset clearingCollaborators
      (UpdateReconstructedVolume clearingCollaborators
        sampleFilledReconstructor).2).Reconstructor.ReconstructedVolume = vtkImageData.New ∧
    (Reset clearingCollaborators
      (UpdateReconstructedVolume clearingCollaborators sampleFilledReconstructor).2).GetMTime
      = (UpdateReconstructedVolume clearingCollaborators sampleFilledReconstructor).2.GetMTime ∧
    (UpdateReconstructedVolume clearingCollaborators
      (Reset clearingCollaborators
        (UpdateReconstructedVolume clearingCollaborators sampleFilledReconstructor).2)).1
      = PLUS_SUCCESS ∧
    (UpdateReconstructedVolume clearingCollaborators
      (Reset clearingCollaborators
        (UpdateReconstructedVolume clearingCollaborators
          sampleFilledReconstructor).2)).2.ReconstructedVolume
      = { sampleImage 1 1 3 with Scalars := [7, 7, 7, 7] } ∧
    (UpdateReconstructedVolume clearingCollaborators
      (Reset clearingCollaborators
        (UpdateReconstructedVolume clearingCollaborators
          sampleFilledReconstructor).2)).2.ReconstructedVolume
      ≠ (Reset clearingCollaborators
          (UpdateReconstructedVolume clearingCollaborators
            sampleFilledReconstructor).2).Reconstructor.ReconstructedVolume := by
  refine ⟨by decide, by decide, by decide, by decide, by decide, by decide⟩

/-! ## Properties of unknown mode names -/

/-- An attribute outside the given names has the same value in two elements whose attributes
agree except for those names. -/
theorem GetAttribute_agreeExcept (names : List String) (name : String)
    (c d : vtkXMLDataElement) (h : attributesAgreeExcept names c.Attributes d.Attributes)
    (hname : name ∉ names) : c.GetAttribute name = d.GetAttribute name := by
  unfold vtkXMLDataElement.GetAttribute
  unfold attributesAgreeExcept at h
  generalize c.Attributes = a at h
  generalize d.Attributes = b at h
  induction h with
  | nil => rfl
  | @cons x y xs ys hxy _ ih =>
    by_cases hx : x.1 = name
    · have hy : y.1 = name := hxy.1 ▸ hx
      have hval : x.2 = y.2 := by
        rcases hxy.2 with hmem | hval
        · exact absurd (hx ▸ hmem) hname
        · exact hval
      simp [List.find?, hx, hy, hval]
    · have hy : ¬ y.1 = name := hxy.1 ▸ hx
      simp only [List.find?, hx, hy, decide_False]
      exact ih

/-- The output geometry, clip rectangle and fan parameters leave the three modes. -/
theorem readOutputClipFan_modes {Repo : Type} (C : Collaborators Repo)
    (reconConfig : vtkXMLDataElement) (paster : vtkPasteSliceIntoVolume) :
    (readOutputClipFan C reconConfig paster).InterpolationMode = paster.InterpolationMode ∧
    (readOutputClipFan C reconConfig paster).CalculationMode = paster.CalculationMode ∧
    (readOutputClipFan C reconConfig paster).Optimization = paster.Optimization := by
  unfold readOutputClipFan
  cases reconConfig.GetScalarAttributeDouble C "FanDepth" <;>
  simp only [apply_ite vtkPasteSliceIntoVolume.InterpolationMode,
    apply_ite vtkPasteSliceIntoVolume.CalculationMode,
    apply_ite vtkPasteSliceIntoVolume.Optimization, ite_self, and_self]

/-- The interpolation mode after the mode strings were read: unchanged when the attribute is
absent or its value matches no mode name. -/
theorem readModes_InterpolationMode (reconConfig : vtkXMLDataElement)
    (paster : vtkPasteSliceIntoVolume)
    (h : ∀ v, reconConfig.GetAttribute "Interpolation" = some v →
      ∀ mode, STRCASECMP v (GetInterpolationModeAsString mode) ≠ 0) :
    (readModes reconConfig paster).InterpolationMode = paster.InterpolationMode := by
  unfold readModes
  cases hi : reconConfig.GetAttribute "Interpolation" with
  | none =>
    cases reconConfig.GetAttribute "Calculation" <;>
    cases reconConfig.GetAttribute "Optimization" <;>
    cases reconConfig.GetAttribute "Compounding" <;>
    simp only [apply_ite vtkPasteSliceIntoVolume.InterpolationMode, ite_self]
  | some v =>
    have h1 := h v hi InterpolationType.LINEAR_INTERPOLATION
    have h2 := h v hi InterpolationType.NEAREST_NEIGHBOR_INTERPOLATION
    cases reconConfig.GetAttribute "Calculation" <;>
    cases reconConfig.GetAttribute "Optimization" <;>
    cases reconConfig.GetAttribute "Compounding" <;>
    simp only [h1, h2, if_false, apply_ite vtkPasteSliceIntoVolume.InterpolationMode, ite_self]

/-- The calculation mode after the mode strings were read: unchanged when the attribute is
absent or its value matches no mode name. -/
theorem readModes_CalculationMode (reconConfig : vtkXMLDataElement)
    (paster : vtkPasteSliceIntoVolume)
    (h : ∀ v, reconConfig.GetAttribute "Calculation" = some v →
      ∀ mode, STRCASECMP v (GetCalculationModeAsString mode) ≠ 0) :
    (readModes reconConfig paster).CalculationMode = paster.CalculationMode := by
  unfold readModes
  cases hi : reconConfig.GetAttribute "Calculation" with
  | none =>
    cases reconConfig.GetAttribute "Interpolation" <;>
    cases reconConfig.GetAttribute "Optimization" <;>
    cases reconConfig.GetAttribute "Compounding" <;>
    simp only [apply_ite vtkPasteSliceIntoVolume.CalculationMode, ite_self]
  | some v =>
    have h1 := h v hi CalculationType.WEIGHTED_AVERAGE
    have h2 := h v hi CalculationType.MAXIMUM
    cases reconConfig.GetAttribute "Interpolation" <;>
    cases reconConfig.GetAttribute "Optimization" <;>
    cases reconConfig.GetAttribute "Compounding" <;>
    simp only [h1, h2, if_false, apply_ite vtkPasteSliceIntoVolume.CalculationMode, ite_self]

/-- The optimization level after the mode strings were read: unchanged when the attribute is
absent or its value matches no level name. -/
theorem readModes_Optimization (reconConfig : vtkXMLDataElement)
    (paster : vtkPasteSliceIntoVolume)
    (h : ∀ v, reconConfig.GetAttribute "Optimization" = some v →
      ∀ mode, STRCASECMP v (GetOptimizationModeAsString mode) ≠ 0) :
    (readModes reconConfig paster).Optimization = paster.Optimization := by
  unfold readModes
  cases hi : reconConfig.GetAttribute "Optimization" with
  | none =>
    cases reconConfig.GetAttribute "Interpolation" <;>
    cases reconConfig.GetAttribute "Calculation" <;>
    cases reconConfig.GetAttribute "Compounding" <;>
    simp only [apply_ite vtkPasteSliceIntoVolume.Optimization, ite_self]
  | some v =>
    have h1 := h v hi OptimizationType.FULL_OPTIMIZATION
    have h2 := h v hi OptimizationType.PARTIAL_OPTIMIZATION
    have h3 := h v hi OptimizationType.NO_OPTIMIZATION
    cases reconConfig.GetAttribute "Interpolation" <;>
    cases reconConfig.GetAttribute "Calculation" <;>
    cases reconConfig.GetAttribute "Compounding" <;>
    simp only [h1, h2, h3, if_false, apply_ite vtkPasteSliceIntoVolume.Optimization, ite_self]

/-- The coordinate frame setters leave the slice paster. -/
theorem configuredFrames_Reconstructor (self : vtkVolumeReconstructor)
    (reconConfig : vtkXMLDataElement) :
    (configuredFrames self reconConfig).Reconstructor = self.Reconstructor := by
  unfold configuredFrames SetReferenceCoordinateFrame SetImageCoordinateFrame
    vtkVolumeReconstructor.Modified
  cases reconConfig.GetAttribute "ReferenceCoordinateFrame" <;>
  cases reconConfig.GetAttribute "ImageCoordinateFrame" <;>
  simp only [apply_ite vtkVolumeReconstructor.Reconstructor, ite_self]

/-- The three modes that `ReadConfiguration` leaves when the output spacing could be read
are those that `readModes` selects from the modes before the call. -/
theorem configuredBeforeKernels_modes {Repo : Type} (C : Collaborators Repo)
    (self : vtkVolumeReconstructor) (reconConfig : vtkXMLDataElement) :
    ∃ paster : vtkPasteSliceIntoVolume,
      (paster.InterpolationMode = self.Reconstructor.InterpolationMode ∧
        paster.CalculationMode = self.Reconstructor.CalculationMode ∧
        paster.Optimization = self.Reconstructor.Optimization) ∧
      (configuredBeforeKernels C self reconConfig).Reconstructor.InterpolationMode
        = (readModes reconConfig paster).InterpolationMode ∧
      (configuredBeforeKernels C self reconConfig).Reconstructor.CalculationMode
        = (readModes reconConfig paster).CalculationMode ∧
      (configuredBeforeKernels C self reconConfig).Reconstructor.Optimization
        = (readModes reconConfig paster).Optimization := by
  have hclip := readOutputClipFan_modes C reconConfig
    { (configuredFrames self reconConfig).Reconstructor with
        OutputSpacing := Double3.store { d0 := 0, d1 := 0, d2 := 0 }
          (reconConfig.GetVectorAttributeDouble C "OutputSpacing" 3) }
  refine ⟨readOutputClipFan C reconConfig
    { (configuredFrames self reconConfig).Reconstructor with
        OutputSpacing := Double3.store { d0 := 0, d1 := 0, d2 := 0 }
          (reconConfig.GetVectorAttributeDouble C "OutputSpacing" 3) }, ?_, ?_⟩
  · rw [hclip.1, hclip.2.1, hclip.2.2]
    show (configuredFrames self reconConfig).Reconstructor.InterpolationMode = _ ∧
      (configuredFrames self reconConfig).Reconstructor.CalculationMode = _ ∧
      (configuredFrames self reconConfig).Reconstructor.Optimization = _
    rw [configuredFrames_Reconstructor]
    exact ⟨rfl, rfl, rfl⟩
  · unfold configuredBeforeKernels
    cases reconConfig.GetScalarAttributeInt C "NumberOfThreads" <;>
    cases reconConfig.GetAttribute "FillHoles" <;> exact ⟨rfl, rfl, rfl⟩

/-- The state that `ReadConfiguration` returns is the state before the call, the state after
the coordinate frame setters, or the state configured before the kernels with another hole
filler and modification time. -/
theorem ReadConfiguration_Reconstructor {Repo : Type} (C : Collaborators Repo)
    (self : vtkVolumeReconstructor) (root reconConfig : vtkXMLDataElement)
    (hfind : root.FindNestedElementWithName "VolumeReconstruction" = some reconConfig) :
    (ReadConfiguration C self (some root)).2.Reconstructor = self.Reconstructor ∨
    (ReadConfiguration C self (some root)).2.Reconstructor
      = (configuredBeforeKernels C self reconConfig).Reconstructor := by
  rw [ReadConfiguration_eq, hfind]
  simp only []
  by_cases hs : (reconConfig.GetVectorAttributeDouble C "OutputSpacing" 3).length = 0
  · rw [if_pos hs]
    exact Or.inl (configuredFrames_Reconstructor self reconConfig)
  · rw [if_neg hs]
    right
    by_cases hf : (configuredBeforeKernels C self reconConfig).FillHoles = true
    · rw [if_pos hf]
      cases reconConfig.FindNestedElementWithName "HoleFilling" with
      | none => rfl
      | some holeFilling =>
        simp only []
        split
        · rfl
        · split_ifs <;> rfl
    · rw [if_neg hf]
      rfl

/-- The hole filling switch, the hole filler and the coordinate frames that `ReadConfiguration`
sets before the kernels do not depend on the values of the three mode attributes. -/
theorem configuredBeforeKernels_agreeExcept {Repo : Type} (C : Collaborators Repo)
    (self : vtkVolumeReconstructor) (c d : vtkXMLDataElement)
    (h : attributesAgreeExcept reconstructorModeAttributes c.Attributes d.Attributes) :
    (configuredBeforeKernels C self c).FillHoles = (configuredBeforeKernels C self d).FillHoles ∧
    (configuredBeforeKernels C self c).HoleFiller
      = (configuredBeforeKernels C self d).HoleFiller := by
  have hframes : configuredFrames self c = configuredFrames self d := by
    unfold configuredFrames
    rw [GetAttribute_agreeExcept reconstructorModeAttributes "ReferenceCoordinateFrame" c d h
        (by decide),
      GetAttribute_agreeExcept reconstructorModeAttributes "ImageCoordinateFrame" c d h
        (by decide)]
  have hthreads : c.GetScalarAttributeInt C "NumberOfThreads"
      = d.GetScalarAttributeInt C "NumberOfThreads" := by
    unfold vtkXMLDataElement.GetScalarAttributeInt vtkXMLDataElement.GetVectorAttributeInt
    rw [GetAttribute_agreeExcept reconstructorModeAttributes "NumberOfThreads" c d h
      (by decide)]
  unfold configuredBeforeKernels
  rw [hframes, hthreads,
    GetAttribute_agreeExcept reconstructorModeAttributes "FillHoles" c d h (by decide)]
  cases d.GetScalarAttributeInt C "NumberOfThreads" <;>
  cases d.GetAttribute "FillHoles" <;> exact ⟨rfl, rfl⟩

/-- C28: an `Interpolation`, `Calculation` or `Optimization` attribute whose value matches no
known mode name leaves the corresponding mode of the slice paster as it was before
`ReadConfiguration`, and does not by itself make `ReadConfiguration` fail: the status is the
one returned for any configuration that differs only in the values of these three attributes
(for instance one that names known modes). -/
theorem ReadConfiguration_unknown_mode {Repo : Type} (C : Collaborators Repo)
    (self : vtkVolumeReconstructor) (root other reconConfig : vtkXMLDataElement)
    (hfind : root.FindNestedElementWithName "VolumeReconstruction" = some reconConfig)
    (hother : configurationsAgreeExceptModes root other) :
    (ReadConfiguration C self (some root)).1 = (ReadConfiguration C self (some other)).1 ∧
    ((∀ v, reconConfig.GetAttribute "Interpolation" = some v →
        ∀ mode, STRCASECMP v (GetInterpolationModeAsString mode) ≠ 0) →
      (ReadConfiguration C self (some root)).2.Reconstructor.InterpolationMode
        = self.Reconstructor.InterpolationMode) ∧
    ((∀ v, reconConfig.GetAttribute "Calculation" = some v →
        ∀ mode, STRCASECMP v (GetCalculationModeAsString mode) ≠ 0) →
      (ReadConfiguration C self (some root)).2.Reconstructor.CalculationMode
        = self.Reconstructor.CalculationMode) ∧
    ((∀ v, reconConfig.GetAttribute "Optimization" = some v →
        ∀ mode, STRCASECMP v (GetOptimizationModeAsString mode) ≠ 0) →
      (ReadConfiguration C self (some root)).2.Reconstructor.Optimization
        = self.Reconstructor.Optimization) := by
  obtain ⟨paster, ⟨hp1, hp2, hp3⟩, hm1, hm2, hm3⟩ := configuredBeforeKernels_modes C self reconConfig
  refine ⟨?_, ?_, ?_, ?_⟩
  · rw [ReadConfiguration_eq, ReadConfiguration_eq]
    rcases FindNestedElementWithName_agree volumeReconstructionAgreeExceptModes
      "VolumeReconstruction" (fun _ _ hxy => hxy.1) root other hother with
      ⟨h1, h2⟩ | ⟨x, y, h1, h2, hxy⟩
    · rw [h1, h2]
    · rw [h1, h2]
      simp only []
      have hconf := configuredBeforeKernels_agreeExcept C self x y hxy.2.1
      have hspacing : x.GetVectorAttributeDouble C "OutputSpacing" 3
          = y.GetVectorAttributeDouble C "OutputSpacing" 3 := by
        unfold vtkXMLDataElement.GetVectorAttributeDouble
        rw [GetAttribute_agreeExcept reconstructorModeAttributes "OutputSpacing" x y hxy.2.1
          (by decide)]
      have hnested : x.FindNestedElementWithName "HoleFilling"
          = y.FindNestedElementWithName "HoleFilling" := by
        unfold vtkXMLDataElement.FindNestedElementWithName
        rw [hxy.2.2]
      rw [hspacing, hconf.1, hconf.2, hnested]
      by_cases hs : (y.GetVectorAttributeDouble C "OutputSpacing" 3).length = 0
      · rw [if_pos hs, if_pos hs]
      · rw [if_neg hs, if_neg hs]
        by_cases hf : (configuredBeforeKernels C self y).FillHoles = true
        · rw [if_pos hf, if_pos hf]
          cases y.FindNestedElementWithName "HoleFilling" with
          | none => rfl
          | some holeFilling =>
            simp only []
            cases (readHFElements C holeFilling.NestedElements
              ((configuredBeforeKernels C self y).HoleFiller.AllocateHFElements C
                (countHFElements holeFilling.NestedElements)) 0 0).2 with
            | none => rfl
            | some numberOfErrors =>
              simp only []
              by_cases hn : numberOfErrors ≠ 0
              · rw [if_pos hn, if_pos hn]
              · rw [if_neg hn, if_neg hn]
        · rw [if_neg hf, if_neg hf]
  · intro h
    rcases ReadConfiguration_Reconstructor C self root reconConfig hfind with hr | hr
    · rw [hr]
    · rw [hr, hm1, readModes_InterpolationMode reconConfig paster h, hp1]
  · intro h
    rcases ReadConfiguration_Reconstructor C self root reconConfig hfind with hr | hr
    · rw [hr]
    · rw [hr, hm2, readModes_CalculationMode reconConfig paster h, hp2]
  · intro h
    rcases ReadConfiguration_Reconstructor C self root reconConfig hfind with hr | hr
    · rw [hr]
    · rw [hr, hm3, readModes_Optimization reconConfig paster h, hp3]

/-- The sample configuration with three unknown mode names agrees, except for the values of
the three mode attributes, with the one that names known modes. -/
theorem sampleThreeModeConfiguration_agree :
    configurationsAgreeExceptModes
      (sampleThreeModeConfiguration "CUBIC" "MEDIAN" "TURBO")
      (sampleThreeModeConfiguration "LINEAR" "MAXIMUM" "FULL") := by
  refine List.Forall₂.cons (Eq.mpr (if_pos (by rfl)) ?_) List.Forall₂.nil
  refine ⟨rfl, ?_, rfl⟩
  exact List.Forall₂.cons ⟨rfl, Or.inr rfl⟩
    (List.Forall₂.cons ⟨rfl, Or.inl (by decide)⟩
      (List.Forall₂.cons ⟨rfl, Or.inl (by decide)⟩
        (List.Forall₂.cons ⟨rfl, Or.inl (by decide)⟩ List.Forall₂.nil)))

/-- Witness for C28: a configuration whose three mode attributes name no known mode is read
with success, as the configuration naming known modes is, and the sample reconstructor keeps
nearest-neighbour interpolation, weighted averaging and full optimization. -/
theorem ReadConfiguration_unknown_mode_witness :
    configurationsAgreeExceptModes
      (sampleThreeModeConfiguration "CUBIC" "MEDIAN" "TURBO")
      (sampleThreeModeConfiguration "LINEAR" "MAXIMUM" "FULL") ∧
    (ReadConfiguration sampleCollaborators sampleReconstructor
        (some (sampleThreeModeConfiguration "CUBIC" "MEDIAN" "TURBO"))).1 = PLUS_SUCCESS ∧
    (ReadConfiguration sampleCollaborators sampleReconstructor
        (some (sampleThreeModeConfiguration "LINEAR" "MAXIMUM" "FULL"))).1 = PLUS_SUCCESS ∧
    (ReadConfiguration sampleCollaborators sampleReconstructor
        (some (sampleThreeModeConfiguration "CUBIC" "MEDIAN"
          "TURBO"))).2.Reconstructor.InterpolationMode
      = InterpolationType.NEAREST_NEIGHBOR_INTERPOLATION ∧
    (ReadConfiguration sampleCollaborators sampleReconstructor
        (some (sampleThreeModeConfiguration "CUBIC" "MEDIAN"
          "TURBO"))).2.Reconstructor.CalculationMode
      = CalculationType.WEIGHTED_AVERAGE ∧
    (ReadConfiguration sampleCollaborators sampleReconstructor
        (some (sampleThreeModeConfiguration "CUBIC" "MEDIAN"
          "TURBO"))).2.Reconstructor.Optimization
      = OptimizationType.FULL_OPTIMIZATION :=
  have h := ReadConfiguration_unknown_mode sampleCollaborators sampleReconstructor
    (sampleThreeModeConfiguration "CUBIC" "MEDIAN" "TURBO")
    (sampleThreeModeConfiguration "LINEAR" "MAXIMUM" "FULL")
    (vtkXMLDataElement.mk "VolumeReconstruction"
      [("OutputSpacing", "1 1 1"), ("Interpolation", "CUBIC"),
        ("Calculation", "MEDIAN"), ("Optimization", "TURBO")] [])
    rfl sampleThreeModeConfiguration_agree
  ⟨sampleThreeModeConfiguration_agree, h.1.trans (by decide), by decide,
    h.2.1 (by intro v hv mode; cases hv; cases mode <;> decide),
    h.2.2.1 (by intro v hv mode; cases hv; cases mode <;> decide),
    h.2.2.2 (by intro v hv mode; cases hv; cases mode <;> decide)⟩

/-! ## Properties of the frame rate, the frame buffer and the write path -/

/-- C29: the requested frame rate is clamped to the maximum. After `SetRequestedFrameRate(v)`
the member `RequestedFrameRate` is `min(v, GetMaximumFrameRate())`; a value at or below the
maximum is stored unchanged; the maximum is the acquisition rate of the device that owns the
first input channel, and the default of the virtual devices when there is no input channel.
Nothing else of the device changes. -/
theorem SetRequestedFrameRate_clamped (VIRTUAL_DEVICE_FRAME_RATE : ℚ)
    (self : vtkVirtualDiscCapture) (v : ℚ) :
    (SetRequestedFrameRate VIRTUAL_DEVICE_FRAME_RATE self v).RequestedFrameRate
      = min v (GetMaximumFrameRate VIRTUAL_DEVICE_FRAME_RATE self) ∧
    (v ≤ GetMaximumFrameRate VIRTUAL_DEVICE_FRAME_RATE self →
      (SetRequestedFrameRate VIRTUAL_DEVICE_FRAME_RATE self v).RequestedFrameRate = v) ∧
    (self.InputChannels = [] →
      GetMaximumFrameRate VIRTUAL_DEVICE_FRAME_RATE self = VIRTUAL_DEVICE_FRAME_RATE) ∧
    (∀ channel rest, self.InputChannels = channel :: rest →
      GetMaximumFrameRate VIRTUAL_DEVICE_FRAME_RATE self
        = channel.OwnerDeviceAcquisitionRate) ∧
    SetRequestedFrameRate VIRTUAL_DEVICE_FRAME_RATE self v
      = { self with
          RequestedFrameRate :=
            (SetRequestedFrameRate VIRTUAL_DEVICE_FRAME_RATE self v).RequestedFrameRate } := by
  refine ⟨?_, ?_, ?_, ?_, rfl⟩
  · show (if v > GetMaximumFrameRate VIRTUAL_DEVICE_FRAME_RATE self then
        GetMaximumFrameRate VIRTUAL_DEVICE_FRAME_RATE self else v) = _
    split_ifs with h
    · exact (min_eq_right (le_of_lt h)).symm
    · exact (min_eq_left (not_lt.mp h)).symm
  · intro h
    show (if v > GetMaximumFrameRate VIRTUAL_DEVICE_FRAME_RATE self then
        GetMaximumFrameRate VIRTUAL_DEVICE_FRAME_RATE self else v) = _
    rw [if_neg (not_lt.mpr h)]
  · intro h
    unfold GetMaximumFrameRate GetAcquisitionRate
    rw [h]
  · intro channel rest h
    unfold GetMaximumFrameRate GetAcquisitionRate
    rw [h]

/-- The number of frames of a list is 0 exactly when the list is empty. -/
theorem GetNumberOfTrackedFrames_eq_zero (list : vtkTrackedFrameList) :
    list.GetNumberOfTrackedFrames = 0 ↔ list.TrackedFrameList = [] := by
  unfold vtkTrackedFrameList.GetNumberOfTrackedFrames
  constructor
  · intro h
    exact List.length_eq_zero.mp (by exact_mod_cast h)
  · intro h
    rw [h]
    rfl

/-- Lines 612-621 of `WriteFrames` leave the frame buffer size. -/
theorem WriteFrames_header_FrameBufferSize (E : CaptureEnvironment)
    (self : vtkVirtualDiscCapture) :
    (WriteFrames_header E self).2.FrameBufferSize = self.FrameBufferSize := by
  unfold WriteFrames_header
  simp only []
  split_ifs <;> rfl

/-- When the two append calls succeed, they are the two requests recorded, each with the
header flag and the compression flag of the writer at the call, and the list of recorded
frames is empty afterwards. -/
theorem AppendRecordedFrames_success (E : CaptureEnvironment) (self : vtkVirtualDiscCapture)
    (h : (AppendRecordedFrames E self).1 = PLUS_SUCCESS) :
    (AppendRecordedFrames E self).2.m_RecordedFrames.TrackedFrameList = [] ∧
    (AppendRecordedFrames E self).2.Trace
      = self.Trace ++
        [CaptureEvent.AppendImagesToHeader self.m_HeaderPrepared PLUS_SUCCESS,
          CaptureEvent.AppendImages self.m_HeaderPrepared self.m_Writer.UseCompression
            self.GetWriterTrackedFrameList.TrackedFrameList.length PLUS_SUCCESS] := by
  unfold AppendRecordedFrames at h ⊢
  simp only [] at h ⊢
  by_cases ha : (E.AppendImagesToHeader self.m_Writer self.GetWriterTrackedFrameList).1
      ≠ PLUS_SUCCESS
  · rw [if_pos ha] at h
    exact absurd h fail_ne_success
  · rw [if_neg ha] at h ⊢
    split at h
    · exact absurd h fail_ne_success
    · rename_i hb
      rw [if_neg hb]
      refine ⟨rfl, ?_⟩
      show (self.Trace ++ [_]) ++ [_] = _
      rw [not_not.mp hb, not_not.mp ha, List.append_assoc]
      rfl

/-- What a successful `WriteFrames` has done, by the device `self2` it works on after the
header step and the frame rate computation: it returned `self2` when there was no frame or
nothing was to be written yet, and the outcome of the two append calls on `self2`
otherwise. -/
theorem WriteFrames_success_cases (E : CaptureEnvironment) (self : vtkVirtualDiscCapture)
    (force : Bool) (h : (WriteFrames E self force).1 = PLUS_SUCCESS) :
    (WriteFrames_header E self).1 = PLUS_SUCCESS ∧
    ∃ self2 : vtkVirtualDiscCapture,
      self2.m_RecordedFrames = self.m_RecordedFrames ∧
      self2.FrameBufferSize = self.FrameBufferSize ∧
      self2.Trace = (WriteFrames_header E self).2.Trace ∧
      self2.m_HeaderPrepared = (WriteFrames_header E self).2.m_HeaderPrepared ∧
      self2.m_Writer = (WriteFrames_header E self).2.m_Writer ∧
      (((self.m_RecordedFrames.GetNumberOfTrackedFrames = 0 ∨
            WriteFrames_flushes self2 force = false) ∧
          (WriteFrames E self force).2 = self2) ∨
        (self.m_RecordedFrames.GetNumberOfTrackedFrames ≠ 0 ∧
          WriteFrames_flushes self2 force = true ∧
          (AppendRecordedFrames E self2).1 = PLUS_SUCCESS ∧
          (WriteFrames E self force).2 = (AppendRecordedFrames E self2).2)) := by
  have hframes := (WriteFrames_header_spec E self).1
  have hsize := WriteFrames_header_FrameBufferSize E self
  obtain ⟨rate, hrate⟩ := WriteFrames_frameRate_eq (WriteFrames_header E self).2
  unfold WriteFrames at h ⊢
  simp only [] at h ⊢
  by_cases hh : (WriteFrames_header E self).1 ≠ PLUS_SUCCESS
  · rw [if_pos hh] at h
    exact absurd h fail_ne_success
  · rw [if_neg hh] at h ⊢
    refine ⟨not_not.mp hh, WriteFrames_frameRate (WriteFrames_header E self).2, ?_, ?_, ?_, ?_,
      ?_, ?_⟩
    · rw [hrate]; exact hframes
    · rw [hrate]; exact hsize
    · rw [hrate]
    · rw [hrate]
    · rw [hrate]
    · have hN : (WriteFrames_frameRate (WriteFrames_header E self).2).m_RecordedFrames
          = self.m_RecordedFrames := by rw [hrate]; exact hframes
      rw [hN] at h ⊢
      by_cases hz : self.m_RecordedFrames.GetNumberOfTrackedFrames = 0
      · rw [if_pos hz]
        exact Or.inl ⟨Or.inl hz, rfl⟩
      · rw [if_neg hz] at h ⊢
        by_cases hf : WriteFrames_flushes (WriteFrames_frameRate (WriteFrames_header E self).2)
            force = true
        · rw [if_pos hf] at h ⊢
          by_cases hw : (AppendRecordedFrames E
              (WriteFrames_frameRate (WriteFrames_header E self).2)).1 ≠ PLUS_SUCCESS
          · rw [if_pos hw] at h
            exact absurd h fail_ne_success
          · rw [if_neg hw]
            exact Or.inr ⟨hz, hf, not_not.mp hw, rfl⟩
        · rw [if_neg hf]
          exact Or.inl ⟨Or.inr (by simpa using hf), rfl⟩

/-- C26 as stated fails: with a frame buffer size of -2 (frame buffering is on, since the
size is not -1) and no recorded frames, `WriteFrames(false)` returns success and the list
holds 0 frames, which is more than the frame buffer size. -/
theorem WriteFrames_buffer_bound_counterexample :
    IsFrameBuffered sampleNegativeBufferCapture = true ∧
    (WriteFrames (sampleCaptureEnvironment []) sampleNegativeBufferCapture false).1
      = PLUS_SUCCESS ∧
    ¬ (WriteFrames (sampleCaptureEnvironment [])
        sampleNegativeBufferCapture false).2.m_RecordedFrames.GetNumberOfTrackedFrames
      ≤ sampleNegativeBufferCapture.FrameBufferSize := by
  refine ⟨by decide, by decide!, by decide!⟩

/-- What a successful `WriteFrames` leaves in the list of recorded frames, with the comparison
of line 655 taken on signed numbers: no frame if `force` is set or frame buffering is
disabled; otherwise at most `FrameBufferSize` frames, and none when that size is negative.
In that other case the frames are written and the list is emptied exactly when the list is
not empty and holds more than `FrameBufferSize` frames: then the two append calls are the
last requests recorded, and otherwise the list is left as it was and nothing is requested
after the header step. -/
theorem WriteFrames_buffer_cases (E : CaptureEnvironment) (self : vtkVirtualDiscCapture)
    (force : Bool) (h : (WriteFrames E self force).1 = PLUS_SUCCESS) :
    ((force = true ∨ self.FrameBufferSize = -1) →
      (WriteFrames E self force).2.m_RecordedFrames.GetNumberOfTrackedFrames = 0) ∧
    ((force = false ∧ self.FrameBufferSize ≠ -1) →
      (WriteFrames E self force).2.m_RecordedFrames.GetNumberOfTrackedFrames
        ≤ max self.FrameBufferSize 0 ∧
      ((self.m_RecordedFrames.GetNumberOfTrackedFrames ≠ 0 ∧
          self.m_RecordedFrames.GetNumberOfTrackedFrames > self.FrameBufferSize) →
        (WriteFrames E self force).2.m_RecordedFrames.GetNumberOfTrackedFrames = 0 ∧
        ∃ prepared useCompression frames,
          (WriteFrames E self force).2.Trace
            = (WriteFrames_header E self).2.Trace ++
              [CaptureEvent.AppendImagesToHeader prepared PLUS_SUCCESS,
                CaptureEvent.AppendImages prepared useCompression frames PLUS_SUCCESS]) ∧
      (¬ (self.m_RecordedFrames.GetNumberOfTrackedFrames ≠ 0 ∧
          self.m_RecordedFrames.GetNumberOfTrackedFrames > self.FrameBufferSize) →
        (WriteFrames E self force).2.m_RecordedFrames = self.m_RecordedFrames ∧
        (WriteFrames E self force).2.Trace = (WriteFrames_header E self).2.Trace)) := by
  obtain ⟨_, self2, hframes, hsize, htrace, hprep, _, hcases⟩ :=
    WriteFrames_success_cases E self force h
  have hflush : WriteFrames_flushes self2 force
      = (force || !decide (self.FrameBufferSize ≠ -1) ||
        (decide (self.FrameBufferSize ≠ -1) &&
          decide (self.m_RecordedFrames.GetNumberOfTrackedFrames > self.FrameBufferSize))) := by
    unfold WriteFrames_flushes IsFrameBuffered DISABLE_FRAME_BUFFER
    rw [hframes, hsize]
  have hnonneg : 0 ≤ self.m_RecordedFrames.GetNumberOfTrackedFrames := by
    unfold vtkTrackedFrameList.GetNumberOfTrackedFrames
    exact Int.natCast_nonneg _
  rcases hcases with ⟨hnone, hres⟩ | ⟨hne, hyes, hw, hres⟩
  · rw [hres, hframes, htrace]
    refine ⟨?_, ?_⟩
    · intro hforce
      rcases hnone with hz | hno
      · exact hz
      · rw [hflush] at hno
        rcases hforce with hf | hs
        · rw [hf] at hno
          simp at hno
        · rw [hs] at hno
          simp at hno
    · rintro ⟨hf, hs⟩
      have hnot : ¬ (self.m_RecordedFrames.GetNumberOfTrackedFrames ≠ 0 ∧
          self.m_RecordedFrames.GetNumberOfTrackedFrames > self.FrameBufferSize) := by
        rcases hnone with hz | hno
        · exact fun hc => hc.1 hz
        · rw [hflush, hf] at hno
          simp [hs] at hno
          exact fun hc => absurd hc.2 (not_lt.mpr hno)
      refine ⟨?_, fun hc => absurd hc hnot, fun _ => ⟨rfl, rfl⟩⟩
      rcases hnone with hz | hno
      · rw [hz]
        exact le_max_right _ _
      · rw [hflush, hf] at hno
        simp [hs] at hno
        exact le_trans hno (le_max_left _ _)
  · obtain ⟨hempty, hatrace⟩ := AppendRecordedFrames_success E self2 hw
    have hzero : (AppendRecordedFrames E self2).2.m_RecordedFrames.GetNumberOfTrackedFrames
        = 0 := (GetNumberOfTrackedFrames_eq_zero _).mpr hempty
    rw [hres, hzero, hatrace, htrace]
    refine ⟨fun _ => rfl, ?_⟩
    rintro ⟨hf, hs⟩
    have hgt : self.m_RecordedFrames.GetNumberOfTrackedFrames > self.FrameBufferSize := by
      rw [hflush, hf] at hyes
      simpa [hs] using hyes
    refine ⟨le_max_right _ _, fun _ => ⟨rfl, _, _, _, rfl⟩, fun hc => absurd ⟨hne, hgt⟩ hc⟩

/-- C26 (amended): the in-memory frame buffer is bounded. After `WriteFrames` returns success
the list of recorded frames is empty if `force` is set or frame buffering is disabled
(`FrameBufferSize = -1`); otherwise, for a `FrameBufferSize` that is not negative, it holds
at most `FrameBufferSize` frames, and the frames are written and the list is emptied exactly
when the list holds more than `FrameBufferSize` frames: then the two append calls are the
last requests recorded, and otherwise the list is left as it was and nothing is requested
after the header step. -/
theorem WriteFrames_buffer_bound (E : CaptureEnvironment) (self : vtkVirtualDiscCapture)
    (force : Bool) (h : (WriteFrames E self force).1 = PLUS_SUCCESS) :
    ((force = true ∨ self.FrameBufferSize = -1) →
      (WriteFrames E self force).2.m_RecordedFrames.GetNumberOfTrackedFrames = 0) ∧
    ((force = false ∧ self.FrameBufferSize ≠ -1 ∧ 0 ≤ self.FrameBufferSize) →
      (WriteFrames E self force).2.m_RecordedFrames.GetNumberOfTrackedFrames
        ≤ self.FrameBufferSize ∧
      (self.m_RecordedFrames.GetNumberOfTrackedFrames > self.FrameBufferSize →
        (WriteFrames E self force).2.m_RecordedFrames.GetNumberOfTrackedFrames = 0 ∧
        ∃ prepared useCompression frames,
          (WriteFrames E self force).2.Trace
            = (WriteFrames_header E self).2.Trace ++
              [CaptureEvent.AppendImagesToHeader prepared PLUS_SUCCESS,
                CaptureEvent.AppendImages prepared useCompression frames PLUS_SUCCESS]) ∧
      (¬ self.m_RecordedFrames.GetNumberOfTrackedFrames > self.FrameBufferSize →
        (WriteFrames E self force).2.m_RecordedFrames = self.m_RecordedFrames ∧
        (WriteFrames E self force).2.Trace = (WriteFrames_header E self).2.Trace)) := by
  obtain ⟨hempty, hbuffered⟩ := WriteFrames_buffer_cases E self force h
  refine ⟨hempty, ?_⟩
  rintro ⟨hforce, hsize, hnonneg⟩
  obtain ⟨hbound, hflush, hkeep⟩ := hbuffered ⟨hforce, hsize⟩
  refine ⟨?_, fun hgt => hflush ⟨?_, hgt⟩, fun hngt => hkeep (fun hc => hngt hc.2)⟩
  · rw [max_eq_left hnonneg] at hbound
    exact hbound
  · intro hzero
    rw [hzero] at hgt
    exact absurd hgt (not_lt.mpr hnonneg)

/-- Witness for C26: a capture update that adds 3 frames to the sample device whose frame
buffer holds 5 frames returns success and leaves the 3 frames in the list; with a frame
buffer of 2 frames the 3 frames are written and the list is empty. -/
theorem WriteFrames_buffer_bound_witness :
    (WriteFrames (sampleCaptureEnvironment [])
      { sampleCapture true false with
          FrameBufferSize := 5
          m_RecordedFrames := { TrackedFrameList := sampleFrames 0 3, CustomFields := [] } }
      false).1 = PLUS_SUCCESS ∧
    (WriteFrames (sampleCaptureEnvironment [])
      { sampleCapture true false with
          FrameBufferSize := 5
          m_RecordedFrames := { TrackedFrameList := sampleFrames 0 3, CustomFields := [] } }
      false).2.m_RecordedFrames.GetNumberOfTrackedFrames = 3 ∧
    (WriteFrames (sampleCaptureEnvironment [])
      { sampleCapture true false with
          FrameBufferSize := 2
          m_RecordedFrames := { TrackedFrameList := sampleFrames 0 3, CustomFields := [] } }
      false).2.m_RecordedFrames.GetNumberOfTrackedFrames = 0 :=
  have h5 := WriteFrames_buffer_bound (sampleCaptureEnvironment [])
    { sampleCapture true false with
        FrameBufferSize := 5
        m_RecordedFrames := { TrackedFrameList := sampleFrames 0 3, CustomFields := [] } }
    false (by decide!)
  have h2 := WriteFrames_buffer_bound (sampleCaptureEnvironment [])
    { sampleCapture true false with
        FrameBufferSize := 2
        m_RecordedFrames := { TrackedFrameList := sampleFrames 0 3, CustomFields := [] } }
    false (by decide!)
  ⟨by decide!,
    by rw [((h5.2 ⟨rfl, by decide, by decide⟩).2.2 (by decide!)).1]; decide!,
    ((h2.2 ⟨rfl, by decide, by decide⟩).2.1 (by decide!)).1⟩

/-- A device keeps the order of the write path when nothing happens to it. -/
theorem WriteProtocol.refl (self : vtkVirtualDiscCapture) : WriteProtocol self self :=
  ⟨[], by simp, by simp, fun h => ⟨h, by simp⟩, fun h => Or.inl h⟩

/-- Two ways that keep the order of the write path, one after the other, keep it. -/
theorem WriteProtocol.trans {a b c : vtkVirtualDiscCapture} (hab : WriteProtocol a b)
    (hbc : WriteProtocol b c) : WriteProtocol a c := by
  obtain ⟨r1, t1, u1, c1, p1⟩ := hab
  obtain ⟨r2, t2, u2, c2, p2⟩ := hbc
  refine ⟨r1 ++ r2, by rw [t2, t1, List.append_assoc], ?_, ?_, ?_⟩
  · intro e he
    rcases List.mem_append.mp he with h | h
    · exact u1 e h
    · exact u2 e h
  · intro ha
    obtain ⟨hb, hc1⟩ := c1 ha
    obtain ⟨hc, hc2⟩ := c2 hb
    refine ⟨hc, ?_⟩
    intro e he
    rcases List.mem_append.mp he with h | h
    · exact hc1 e h
    · exact hc2 e h
  · intro hc
    rcases p2 hc with hb | hb
    · rcases p1 hb with ha | ha
      · exact Or.inl ha
      · exact Or.inr (List.mem_append.mpr (Or.inl ha))
    · exact Or.inr (List.mem_append.mpr (Or.inr hb))

/-- A way that adds requests other than append calls, leaves the compression of the writer
off when it was off and does not switch the header flag on keeps the order of the write
path. -/
theorem WriteProtocol.of_quiet {before after : vtkVirtualDiscCapture}
    (requests : List CaptureEvent) (htrace : after.Trace = before.Trace ++ requests)
    (hquiet : ∀ e ∈ requests,
      CaptureEvent.appendsUnprepared e = false ∧ CaptureEvent.appendsCompressed e = false)
    (hcompression : before.m_Writer.UseCompression = false →
      after.m_Writer.UseCompression = false)
    (hprepared : after.m_HeaderPrepared = true → before.m_HeaderPrepared = true) :
    WriteProtocol before after :=
  ⟨requests, htrace, fun e he => (hquiet e he).1,
    fun h => ⟨hcompression h, fun e he => (hquiet e he).2⟩, fun h => Or.inl (hprepared h)⟩

/-- A way that leaves the trace, the compression of the writer and the header flag keeps the
order of the write path. -/
theorem WriteProtocol.of_eq {before after : vtkVirtualDiscCapture}
    (htrace : after.Trace = before.Trace)
    (hcompression : after.m_Writer.UseCompression = before.m_Writer.UseCompression)
    (hprepared : after.m_HeaderPrepared = before.m_HeaderPrepared) :
    WriteProtocol before after :=
  WriteProtocol.of_quiet [] (by rw [htrace, List.append_nil]) (by simp)
    (fun h => by rw [hcompression, h]) (fun h => by rw [← hprepared, h])

/-- `SetEnableCapturing` keeps the order of the write path. -/
theorem SetEnableCapturing_protocol (E : CaptureEnvironment) (self : vtkVirtualDiscCapture)
    (aValue : Bool) : WriteProtocol self (SetEnableCapturing E self aValue) := by
  unfold SetEnableCapturing
  cases aValue <;> exact WriteProtocol.of_eq rfl rfl rfl

/-- `OpenFile` keeps the order of the write path. -/
theorem OpenFile_protocol (E : CaptureEnvironment) (self : vtkVirtualDiscCapture)
    (aFilename : Option String) : WriteProtocol self (OpenFile E self aFilename).2 := by
  obtain ⟨_, ⟨name, htrace⟩, hcompression, hprepared, _, _⟩ := OpenFile_spec E self aFilename
  refine WriteProtocol.of_quiet [CaptureEvent.SetFileName name] htrace ?_
    (fun _ => hcompression) (fun h => by rw [← hprepared, h])
  intro e he
  rw [List.mem_singleton.mp he]
  exact ⟨rfl, rfl⟩

/-- `CompressFile` keeps the order of the write path. -/
theorem CompressFile_protocol (E : CaptureEnvironment) (self : vtkVirtualDiscCapture) :
    WriteProtocol self (CompressFile E self).2 := by
  unfold CompressFile
  simp only []
  split
  · refine WriteProtocol.of_quiet [_] rfl ?_ (fun h => h) (fun h => h)
    intro e he
    rw [List.mem_singleton.mp he]
    exact ⟨rfl, rfl⟩
  · split <;>
    · refine WriteProtocol.of_quiet [_, _] (List.append_assoc _ _ _) ?_ (fun h => h)
        (fun h => h)
      intro e he
      simp only [List.mem_cons, List.mem_singleton, List.not_mem_nil, or_false] at he
      rcases he with he | he <;> rw [he] <;> exact ⟨rfl, rfl⟩

/-- Lines 612-621 of `WriteFrames` keep the order of the write path. -/
theorem WriteFrames_header_protocol (E : CaptureEnvironment) (self : vtkVirtualDiscCapture) :
    WriteProtocol self (WriteFrames_header E self).2 := by
  unfold WriteFrames_header
  by_cases hcond : (!self.m_HeaderPrepared &&
      decide (self.m_RecordedFrames.GetNumberOfTrackedFrames ≠ 0)) = true
  · rw [if_pos hcond]
    simp only []
    have hquiet : ∀ e ∈ [CaptureEvent.PrepareHeader
        (E.PrepareHeader self.m_Writer self.GetWriterTrackedFrameList).1],
        CaptureEvent.appendsUnprepared e = false ∧ CaptureEvent.appendsCompressed e = false := by
      intro e he
      rw [List.mem_singleton.mp he]
      exact ⟨rfl, rfl⟩
    by_cases hp : (E.PrepareHeader self.m_Writer self.GetWriterTrackedFrameList).1
        ≠ PLUS_SUCCESS
    · rw [if_pos hp]
      exact WriteProtocol.of_quiet [_] rfl hquiet (fun h => h) (fun h => h)
    · rw [if_neg hp]
      refine ⟨[CaptureEvent.PrepareHeader
        (E.PrepareHeader self.m_Writer self.GetWriterTrackedFrameList).1], rfl,
        fun e he => (hquiet e he).1, fun h => ⟨h, fun e he => (hquiet e he).2⟩, fun _ => ?_⟩
      right
      rw [not_not.mp hp]
      exact List.mem_singleton.mpr rfl
  · rw [if_neg hcond]
    exact WriteProtocol.refl self

/-- Lines 623-647 of `WriteFrames` keep the order of the write path. -/
theorem WriteFrames_frameRate_protocol (self : vtkVirtualDiscCapture) :
    WriteProtocol self (WriteFrames_frameRate self) := by
  obtain ⟨rate, hrate⟩ := WriteFrames_frameRate_eq self
  rw [hrate]
  exact WriteProtocol.of_eq rfl rfl rfl

/-- The two append calls keep the order of the write path when the header is prepared. -/
theorem AppendRecordedFrames_protocol (E : CaptureEnvironment) (self : vtkVirtualDiscCapture)
    (hprepared : self.m_HeaderPrepared = true) :
    WriteProtocol self (AppendRecordedFrames E self).2 := by
  have hfirst : ∀ status,
      CaptureEvent.appendsUnprepared
        (CaptureEvent.AppendImagesToHeader self.m_HeaderPrepared status) = false ∧
      CaptureEvent.appendsCompressed
        (CaptureEvent.AppendImagesToHeader self.m_HeaderPrepared status) = false := by
    intro status
    rw [hprepared]
    exact ⟨rfl, rfl⟩
  have hsecond : ∀ frames status,
      CaptureEvent.appendsUnprepared
        (CaptureEvent.AppendImages self.m_HeaderPrepared self.m_Writer.UseCompression frames
          status) = false ∧
      (self.m_Writer.UseCompression = false →
        CaptureEvent.appendsCompressed
          (CaptureEvent.AppendImages self.m_HeaderPrepared self.m_Writer.UseCompression frames
            status) = false) := by
    intro frames status
    rw [hprepared]
    exact ⟨rfl, fun h => h⟩
  unfold AppendRecordedFrames
  simp only []
  split
  · refine WriteProtocol.of_quiet [_] rfl ?_ (fun h => h) (fun h => h)
    intro e he
    rw [List.mem_singleton.mp he]
    exact hfirst _
  · have hboth : ∀ after : vtkVirtualDiscCapture,
        after.Trace = self.Trace ++
          [CaptureEvent.AppendImagesToHeader self.m_HeaderPrepared
              (E.AppendImagesToHeader self.m_Writer self.GetWriterTrackedFrameList).1,
            CaptureEvent.AppendImages self.m_HeaderPrepared self.m_Writer.UseCompression
              self.GetWriterTrackedFrameList.TrackedFrameList.length
              (E.AppendImages
                { self.m_Writer with
                    Dimensions :=
                      (E.AppendImagesToHeader self.m_Writer self.GetWriterTrackedFrameList).2 }
                self.GetWriterTrackedFrameList).1] →
        after.m_Writer.UseCompression = self.m_Writer.UseCompression →
        after.m_HeaderPrepared = self.m_HeaderPrepared → WriteProtocol self after := by
      intro after htrace hcompression hprep
      refine ⟨_, htrace, ?_, fun h => ⟨by rw [hcompression, h], ?_⟩,
        fun h => Or.inl (by rw [← hprep, h])⟩
      · intro e he
        simp only [List.mem_cons, List.mem_singleton, List.not_mem_nil, or_false] at he
        rcases he with he | he <;> rw [he]
        · exact (hfirst _).1
        · exact (hsecond _ _).1
      · intro e he
        simp only [List.mem_cons, List.mem_singleton, List.not_mem_nil, or_false] at he
        rcases he with he | he <;> rw [he]
        · exact (hfirst _).2
        · exact (hsecond _ _).2 h
    split
    · exact hboth _ (List.append_assoc _ _ _) rfl rfl
    · exact hboth _ (List.append_assoc _ _ _) rfl rfl

/-- The call `this->Disconnect()` keeps the order of the write path when the base class
does. -/
theorem Disconnect_protocol (E : CaptureEnvironment) (hE : DisconnectKeepsProtocol E)
    (self : vtkVirtualDiscCapture) : WriteProtocol self (self.Disconnect E) := by
  unfold vtkVirtualDiscCapture.Disconnect
  refine WriteProtocol.trans (b := self.Record CaptureEvent.Disconnect) ?_ (hE _)
  refine WriteProtocol.of_quiet [_] rfl ?_ (fun h => h) (fun h => h)
  intro e he
  rw [List.mem_singleton.mp he]
  exact ⟨rfl, rfl⟩

/-- `WriteFrames` keeps the order of the write path. -/
theorem WriteFrames_protocol (E : CaptureEnvironment) (hE : DisconnectKeepsProtocol E)
    (self : vtkVirtualDiscCapture) (force : Bool) :
    WriteProtocol self (WriteFrames E self force).2 := by
  have hheader := WriteFrames_header_protocol E self
  have hrate := WriteFrames_frameRate_protocol (WriteFrames_header E self).2
  obtain ⟨hframes, _, hok, _⟩ := WriteFrames_header_spec E self
  unfold WriteFrames
  simp only []
  by_cases hh : (WriteFrames_header E self).1 ≠ PLUS_SUCCESS
  · rw [if_pos hh]
    exact hheader.trans (Disconnect_protocol E hE _)
  · rw [if_neg hh]
    split
    · exact hheader.trans hrate
    · rename_i hn
      split
      · have hprepared : (WriteFrames_frameRate (WriteFrames_header E self).2).m_HeaderPrepared
            = true := by
          obtain ⟨rate, hr⟩ := WriteFrames_frameRate_eq (WriteFrames_header E self).2
          rw [hr] at hn ⊢
          refine (hok (not_not.mp hh)).2.1 ?_
          intro hnil
          apply hn
          show (WriteFrames_header E self).2.m_RecordedFrames.GetNumberOfTrackedFrames = 0
          rw [hframes]
          exact (GetNumberOfTrackedFrames_eq_zero _).mpr hnil
        have happend := AppendRecordedFrames_protocol E _ hprepared
        split
        · exact (hheader.trans hrate).trans (happend.trans (Disconnect_protocol E hE _))
        · exact (hheader.trans hrate).trans happend
      · exact hheader.trans hrate

/-- Handing a file name to the writer keeps the order of the write path. -/
theorem WriterSetFileName_protocol (self : vtkVirtualDiscCapture) (aFilename : String) :
    WriteProtocol self (self.WriterSetFileName aFilename) := by
  refine WriteProtocol.of_quiet [CaptureEvent.SetFileName aFilename] rfl ?_ (fun h => h)
    (fun h => h)
  intro e he
  rw [List.mem_singleton.mp he]
  exact ⟨rfl, rfl⟩

/-- Storing a list for the writer keeps the order of the write path. -/
theorem SetWriterTrackedFrameList_protocol (self : vtkVirtualDiscCapture)
    (list : vtkTrackedFrameList) :
    WriteProtocol self (self.SetWriterTrackedFrameList list) := by
  unfold vtkVirtualDiscCapture.SetWriterTrackedFrameList
  split <;> exact WriteProtocol.of_eq rfl rfl rfl

/-- Recording a request that is not an append call keeps the order of the write path. -/
theorem Record_protocol (self : vtkVirtualDiscCapture) (event : CaptureEvent)
    (hquiet : CaptureEvent.appendsUnprepared event = false ∧
      CaptureEvent.appendsCompressed event = false) :
    WriteProtocol self (self.Record event) := by
  refine WriteProtocol.of_quiet [event] rfl ?_ (fun h => h) (fun h => h)
  intro e he
  rw [List.mem_singleton.mp he]
  exact hquiet

/-- A request that is not an append call, recorded at the end of a way that keeps the order
of the write path, keeps it. -/
theorem WriteProtocol.record {before after : vtkVirtualDiscCapture}
    (h : WriteProtocol before after) (event : CaptureEvent)
    (hquiet : CaptureEvent.appendsUnprepared event = false ∧
      CaptureEvent.appendsCompressed event = false) :
    WriteProtocol before (after.Record event) :=
  h.trans (Record_protocol after event hquiet)

/-- Lines 208-219 of `CloseFile` keep the order of the write path. -/
theorem CloseFile_flush_protocol (E : CaptureEnvironment) (hE : DisconnectKeepsProtocol E)
    (self : vtkVirtualDiscCapture) (aFilename : Option String) :
    WriteProtocol self (CloseFile_flush E self aFilename).2 := by
  have hname : ∀ name, WriteProtocol self
      ({ self.WriterSetFileName name with m_CurrentFilename := name }
        : vtkVirtualDiscCapture) := by
    intro name
    exact (WriterSetFileName_protocol self name).trans (WriteProtocol.of_eq rfl rfl rfl)
  have hrest : ∀ self1 : vtkVirtualDiscCapture, WriteProtocol self self1 →
      WriteProtocol self
        (if self1.m_RecordedFrames.GetNumberOfTrackedFrames ≠ 0 then WriteFrames E self1 true
          else (PLUS_SUCCESS, self1)).2 := by
    intro self1 h1
    split
    · exact h1.trans (WriteFrames_protocol E hE self1 true)
    · exact h1
  unfold CloseFile_flush
  cases aFilename with
  | none => exact hrest self (WriteProtocol.refl self)
  | some name =>
    simp only []
    by_cases hlen : name.length ≠ 0
    · rw [if_pos hlen]
      exact hrest _ (hname name)
    · rw [if_neg hlen]
      exact hrest self (WriteProtocol.refl self)

/-- Lines 221-237 of `CloseFile` keep the order of the write path. -/
theorem CloseFile_finalize_protocol (E : CaptureEnvironment) (self : vtkVirtualDiscCapture) :
    WriteProtocol self (CloseFile_finalize E self) := by
  unfold CloseFile_finalize
  simp only []
  exact WriteProtocol.record (WriteProtocol.record (WriteProtocol.record (WriteProtocol.record
    (SetWriterTrackedFrameList_protocol self _) _ (by exact ⟨rfl, rfl⟩)) _
    (by exact ⟨rfl, rfl⟩)) _ (by exact ⟨rfl, rfl⟩)) _ (by exact ⟨rfl, rfl⟩)

/-- Lines 239-246 of `CloseFile` keep the order of the write path. -/
theorem CloseFile_compress_protocol (E : CaptureEnvironment) (self : vtkVirtualDiscCapture) :
    WriteProtocol self (CloseFile_compress E self).2 := by
  unfold CloseFile_compress
  split
  · exact CompressFile_protocol E self
  · exact WriteProtocol.refl self

/-- Lines 248-250 of `CloseFile` keep the order of the write path. -/
theorem CloseFile_reset_protocol (self : vtkVirtualDiscCapture) :
    WriteProtocol self (CloseFile_reset self) :=
  WriteProtocol.of_quiet [] (by simp [CloseFile_reset]) (by simp) (fun h => h)
    (fun h => absurd h (by simp [CloseFile_reset]))

/-- `CloseFile` keeps the order of the write path. -/
theorem CloseFile_protocol (E : CaptureEnvironment) (hE : DisconnectKeepsProtocol E)
    (self : vtkVirtualDiscCapture) (aFilename : Option String) :
    WriteProtocol self (CloseFile E self aFilename).2 := by
  unfold CloseFile
  split
  · exact WriteProtocol.refl self
  · simp only []
    have h1 := (CloseFile_flush_protocol E hE self aFilename).trans
      (CloseFile_finalize_protocol E (CloseFile_flush E self aFilename).2)
    have h2 := h1.trans (CloseFile_compress_protocol E _)
    split
    · exact h2
    · have h3 := (h2.trans (CloseFile_reset_protocol _)).trans (OpenFile_protocol E _ none)
      split
      · exact h3
      · exact h3

/-- A successful `CloseFile` leaves no header prepared. -/
theorem CloseFile_success_unprepared (E : CaptureEnvironment) (self : vtkVirtualDiscCapture)
    (aFilename : Option String) (h : (CloseFile E self aFilename).1 = PLUS_SUCCESS) :
    (CloseFile E self aFilename).2.m_HeaderPrepared = false := by
  unfold CloseFile at h ⊢
  by_cases hp : (!self.m_HeaderPrepared) = true
  · rw [if_pos hp]
    simpa using hp
  · rw [if_neg hp] at h ⊢
    simp only [] at h ⊢
    split at h
    · exact absurd h fail_ne_success
    · rename_i hc
      rw [if_neg hc]
      have ho := (OpenFile_spec E
        (CloseFile_reset (CloseFile_compress E
          (CloseFile_finalize E (CloseFile_flush E self aFilename).2)).2) none).2.2.2.1
      split <;> exact ho

/-- `Reset` leaves no header prepared. -/
theorem Reset_unprepared (E : CaptureEnvironment) (self : vtkVirtualDiscCapture) :
    (vtkVirtualDiscCapture.Reset E self).2.m_HeaderPrepared = false := by
  have htail : ∀ (X : vtkVirtualDiscCapture) (t : ℚ),
      (if (OpenFile E X none).1 ≠ PLUS_SUCCESS then (PLUS_FAIL, (OpenFile E X none).2)
        else (PLUS_SUCCESS, { (OpenFile E X none).2 with m_LastUpdateTime := t })).2.m_HeaderPrepared
        = X.m_HeaderPrepared := by
    intro X t
    have ho := (OpenFile_spec E X none).2.2.2.1
    split
    · exact ho
    · exact ho
  unfold vtkVirtualDiscCapture.Reset
  simp only []
  exact (htail _ _).trans rfl

/-- `InternalConnect` keeps the order of the write path. -/
theorem InternalConnect_protocol (E : CaptureEnvironment) (self : vtkVirtualDiscCapture) :
    WriteProtocol self (InternalConnect E self).2 := by
  unfold InternalConnect
  simp only []
  have h1 : ∀ self1 : vtkVirtualDiscCapture, WriteProtocol self self1 →
      WriteProtocol self
        (if (OpenFile E self1 none).1 ≠ PLUS_SUCCESS then (PLUS_FAIL, (OpenFile E self1 none).2)
          else (PLUS_SUCCESS,
            { (OpenFile E self1 none).2 with m_LastUpdateTime := E.GetSystemTime 133 })).2 := by
    intro self1 hs
    split
    · exact hs.trans (OpenFile_protocol E self1 none)
    · exact (hs.trans (OpenFile_protocol E self1 none)).trans (WriteProtocol.of_eq rfl rfl rfl)
  apply h1
  split
  · exact WriteProtocol.of_eq rfl rfl rfl
  · exact WriteProtocol.refl self

/-- `InternalDisconnect` keeps the order of the write path. -/
theorem InternalDisconnect_protocol (E : CaptureEnvironment) (hE : DisconnectKeepsProtocol E)
    (self : vtkVirtualDiscCapture) : WriteProtocol self (InternalDisconnect E self).2 := by
  have h1 : WriteProtocol self ({ self with EnableCapturing := false } : vtkVirtualDiscCapture) :=
    WriteProtocol.of_eq rfl rfl rfl
  unfold InternalDisconnect
  simp only []
  split
  · rename_i hcond
    have hprepared : ({ self with EnableCapturing := false }
        : vtkVirtualDiscCapture).m_HeaderPrepared = true := by
      simp only [Bool.and_eq_true] at hcond
      exact hcond.2
    have h2 := h1.trans (AppendRecordedFrames_protocol E _ hprepared)
    split
    · exact h2.trans (Disconnect_protocol E hE _)
    · exact h2.trans (CloseFile_protocol E hE _ none)
  · exact h1.trans (CloseFile_protocol E hE _ none)

/-- The channel call of line 314 leaves the writer. -/
theorem GetInputTrackedFrameListSampled_writer (E : CaptureEnvironment)
    (self : vtkVirtualDiscCapture) (requestedFramePeriodSec maxProcessingTimeSec : ℚ) :
    (GetInputTrackedFrameListSampled E self requestedFramePeriodSec
      maxProcessingTimeSec).2.m_Writer = self.m_Writer := by
  unfold GetInputTrackedFrameListSampled
  split <;> rfl

/-- Lines 264-318 of `InternalUpdate` leave the writer. -/
theorem InternalUpdate_sample_device_writer (E : CaptureEnvironment)
    (self : vtkVirtualDiscCapture) :
    (InternalUpdate_sample E self).device.m_Writer = self.m_Writer := by
  unfold InternalUpdate_sample
  simp only []
  split_ifs <;>
    first
    | rfl
    | (show (GetInputTrackedFrameListSampled E _ _ _).2.m_Writer = _
       rw [GetInputTrackedFrameListSampled_writer])

/-- Lines 264-318 of `InternalUpdate` leave the writer. -/
theorem InternalUpdate_sample_writer (E : CaptureEnvironment) (self : vtkVirtualDiscCapture) :
    (∀ status self1, InternalUpdate_sample E self
        = InternalUpdateSampling.returned status self1 → self1.m_Writer = self.m_Writer) ∧
    (∀ self6 startTimeSec nbFramesBefore nbFramesAfter, InternalUpdate_sample E self
        = InternalUpdateSampling.sampled self6 startTimeSec nbFramesBefore nbFramesAfter →
      self6.m_Writer = self.m_Writer) := by
  have hw := InternalUpdate_sample_device_writer E self
  constructor
  · intro status self1 h
    rw [h] at hw
    exact hw
  · intro self6 startTimeSec nbFramesBefore nbFramesAfter h
    rw [h] at hw
    exact hw

/-- Lines 264-318 of `InternalUpdate` keep the order of the write path. -/
theorem InternalUpdate_sample_protocol (E : CaptureEnvironment)
    (self : vtkVirtualDiscCapture) :
    (∀ status self1, InternalUpdate_sample E self
        = InternalUpdateSampling.returned status self1 → WriteProtocol self self1) ∧
    (∀ self6 startTimeSec nbFramesBefore nbFramesAfter, InternalUpdate_sample E self
        = InternalUpdateSampling.sampled self6 startTimeSec nbFramesBefore nbFramesAfter →
      WriteProtocol self self6) := by
  obtain ⟨hw1, hw2⟩ := InternalUpdate_sample_writer E self
  constructor
  · intro status self1 h
    obtain ⟨_, _, hprepared, htrace⟩ := InternalUpdate_sample_returned E self self1 status h
    exact WriteProtocol.of_eq htrace (by rw [hw1 status self1 h]) hprepared
  · intro self6 startTimeSec nbFramesBefore nbFramesAfter h
    obtain ⟨_, hprepared, htrace, _, _⟩ :=
      InternalUpdate_sample_sampled E self self6 startTimeSec nbFramesBefore nbFramesAfter h
    exact WriteProtocol.of_eq htrace (by rw [hw2 _ _ _ _ h]) hprepared

/-- `InternalUpdate` keeps the order of the write path. -/
theorem InternalUpdate_protocol (E : CaptureEnvironment) (hE : DisconnectKeepsProtocol E)
    (self : vtkVirtualDiscCapture) : WriteProtocol self (InternalUpdate E self).2 := by
  obtain ⟨hreturned, hsampled⟩ := InternalUpdate_sample_protocol E self
  unfold InternalUpdate
  cases hs : InternalUpdate_sample E self with
  | returned status self1 => exact hreturned status self1 hs
  | sampled self6 startTimeSec nbFramesBefore nbFramesAfter =>
    have h1 := (hsampled _ _ _ _ hs).trans (WriteFrames_protocol E hE self6 false)
    simp only []
    split
    · exact h1
    · refine h1.trans ?_
      split <;> exact WriteProtocol.of_eq rfl rfl rfl

/-- `TakeSnapshot` keeps the order of the write path. -/
theorem TakeSnapshot_protocol (E : CaptureEnvironment) (hE : DisconnectKeepsProtocol E)
    (self : vtkVirtualDiscCapture) (trackedFrame : TrackedFrame) :
    WriteProtocol self (TakeSnapshot E self trackedFrame).2 := by
  have hadd : ∀ status self1, TakeSnapshot_add E self trackedFrame = some (status, self1) →
      WriteProtocol self self1 := by
    intro status self1 h
    unfold TakeSnapshot_add at h
    simp only [] at h
    split_ifs at h <;> cases h <;> exact WriteProtocol.of_eq rfl rfl rfl
  unfold TakeSnapshot
  cases hs : TakeSnapshot_add E self trackedFrame with
  | none => exact WriteProtocol.refl self
  | some r =>
    obtain ⟨status, self1⟩ := r
    have h1 := hadd status self1 hs
    simp only []
    split
    · exact h1
    · have h2 := h1.trans (WriteFrames_protocol E hE self1 false)
      split
      · exact h2
      · exact h2.trans (WriteProtocol.of_eq rfl rfl rfl)

/-- `Reset` keeps the order of the write path. -/
theorem Reset_protocol (E : CaptureEnvironment) (self : vtkVirtualDiscCapture) :
    WriteProtocol self (vtkVirtualDiscCapture.Reset E self).2 := by
  have h1 := SetEnableCapturing_protocol E self false
  have h2 : WriteProtocol self
      (if (SetEnableCapturing E self false).m_HeaderPrepared then
        if E.CreateTemporaryFilename.1 ≠ PLUS_SUCCESS then SetEnableCapturing E self false
        else
          ((((SetEnableCapturing E self false).WriterSetFileName
            (E.CreateTemporaryFilename.2.dropRight 3 ++ "mha")).Record
              CaptureEvent.Close).Record
            (CaptureEvent.RemoveFile E.CreateTemporaryFilename.2)).Record
            (CaptureEvent.RemoveFile (E.CreateTemporaryFilename.2.dropRight 3 ++ "mha"))
      else SetEnableCapturing E self false) := by
    split
    · split
      · exact h1
      · exact WriteProtocol.record (WriteProtocol.record (WriteProtocol.record
          (h1.trans (WriterSetFileName_protocol _ _)) _ (by exact ⟨rfl, rfl⟩)) _
          (by exact ⟨rfl, rfl⟩)) _ (by exact ⟨rfl, rfl⟩)
    · exact h1
  have h3 : ∀ self2 : vtkVirtualDiscCapture, WriteProtocol self self2 →
      WriteProtocol self
        ({ (ClearRecordedFrames self2).SetWriterTrackedFrameList
            (ClearRecordedFrames self2).GetWriterTrackedFrameList.Clear with
            m_HeaderPrepared := false, TotalFramesRecorded := 0 } : vtkVirtualDiscCapture) := by
    intro self2 hs
    have hclear : WriteProtocol self2 (ClearRecordedFrames self2) :=
      WriteProtocol.of_eq rfl rfl rfl
    have hset := SetWriterTrackedFrameList_protocol (ClearRecordedFrames self2)
      (ClearRecordedFrames self2).GetWriterTrackedFrameList.Clear
    refine ((hs.trans hclear).trans hset).trans ?_
    exact WriteProtocol.of_quiet [] (by simp) (by simp) (fun h => h)
      (fun h => absurd h (by simp))
  have htail : ∀ (X : vtkVirtualDiscCapture) (t : ℚ), WriteProtocol self X →
      WriteProtocol self
        (if (OpenFile E X none).1 ≠ PLUS_SUCCESS then (PLUS_FAIL, (OpenFile E X none).2)
          else (PLUS_SUCCESS, { (OpenFile E X none).2 with m_LastUpdateTime := t })).2 := by
    intro X t hX
    have h4 := hX.trans (OpenFile_protocol E X none)
    split
    · exact h4
    · exact h4.trans (WriteProtocol.of_eq rfl rfl rfl)
  unfold vtkVirtualDiscCapture.Reset
  simp only []
  exact htail _ _ (h3 _ h2)

/-- Every call of a method of the capture device keeps the order of the write path when the
base class does. -/
theorem CaptureOperation_run_protocol (operation : CaptureOperation)
    (self : vtkVirtualDiscCapture) (hbase : operation.baseClassKeepsProtocol) :
    WriteProtocol self (operation.run self) := by
  cases operation with
  | configure baseFilename enableFileCompression enableCapturing requestedFrameRate
      frameBufferSize => exact WriteProtocol.of_eq rfl rfl rfl
  | notifyConfigured =>
    show WriteProtocol self (NotifyConfigured self).2
    unfold NotifyConfigured
    simp only []
    split <;> split <;> exact WriteProtocol.of_eq rfl rfl rfl
  | internalConnect E => exact InternalConnect_protocol E self
  | internalDisconnect E => exact InternalDisconnect_protocol E hbase self
  | openFile E aFilename => exact OpenFile_protocol E self aFilename
  | closeFile E aFilename => exact CloseFile_protocol E hbase self aFilename
  | internalUpdate E => exact InternalUpdate_protocol E hbase self
  | compressFile E => exact CompressFile_protocol E self
  | clearRecordedFrames => exact WriteProtocol.of_eq rfl rfl rfl
  | setEnableCapturing E aValue => exact SetEnableCapturing_protocol E self aValue
  | setRequestedFrameRate VIRTUAL_DEVICE_FRAME_RATE aValue =>
    exact WriteProtocol.of_eq rfl rfl rfl
  | reset E => exact Reset_protocol E self
  | takeSnapshot E trackedFrame => exact TakeSnapshot_protocol E hbase self trackedFrame
  | writeFrames E force => exact WriteFrames_protocol E hbase self force

/-- Every sequence of calls of methods of the capture device keeps the order of the write
path when the base class does. -/
theorem runOperations_protocol (operations : List CaptureOperation)
    (self : vtkVirtualDiscCapture)
    (hbase : ∀ operation ∈ operations, operation.baseClassKeepsProtocol) :
    WriteProtocol self (runOperations operations self) := by
  induction operations generalizing self with
  | nil => exact WriteProtocol.refl self
  | cons operation rest ih =>
    have h1 := CaptureOperation_run_protocol operation self
      (hbase operation (List.mem_cons_self _ _))
    exact h1.trans (ih (operation.run self)
      (fun op hop => hbase op (List.mem_cons_of_mem _ hop)))

/-- The base class of the sample environment, which leaves the device as it is on
`Disconnect`, keeps the order of the write path. -/
theorem sampleCaptureEnvironment_keeps (batch : List TrackedFrame) :
    DisconnectKeepsProtocol (sampleCaptureEnvironment batch) :=
  fun self => WriteProtocol.refl self

/-- The base class that answers `Disconnect` by calling `InternalDisconnect` keeps the order
of the write path. -/
theorem failingPrepareEnvironment_keeps (batch : List TrackedFrame) :
    DisconnectKeepsProtocol (failingPrepareEnvironment batch) :=
  fun self =>
    InternalDisconnect_protocol (sampleCaptureEnvironment batch)
      (sampleCaptureEnvironment_keeps batch) self

/-- The base classes met by the sample recording keep the order of the write path. -/
theorem sampleRecording_keeps :
    ∀ operation ∈ sampleRecording, operation.baseClassKeepsProtocol := by
  intro operation hop
  simp only [sampleRecording, List.mem_cons, List.mem_singleton, List.not_mem_nil,
    or_false] at hop
  rcases hop with h | h | h | h <;> rw [h]
  · trivial
  · exact sampleCaptureEnvironment_keeps _
  · exact sampleCaptureEnvironment_keeps _
  · exact failingPrepareEnvironment_keeps _

/-- C21: compression is never used on the incremental append path. `OpenFile` sets the
`UseCompression` flag of the writer to false and leaves `EnableFileCompression` as it is,
whatever its value; after it, through every sequence of calls of methods of the device, the
flag of the writer stays false and every `AppendImages` call that the device requests runs
with compression off. The base class, which is not among the sources, is taken to keep the
order of the write path when it is asked to disconnect. -/
theorem OpenFile_appends_uncompressed (E : CaptureEnvironment) (self : vtkVirtualDiscCapture)
    (aFilename : Option String) (operations : List CaptureOperation)
    (hbase : ∀ operation ∈ operations, operation.baseClassKeepsProtocol) :
    (OpenFile E self aFilename).2.m_Writer.UseCompression = false ∧
    (OpenFile E self aFilename).2.EnableFileCompression = self.EnableFileCompression ∧
    (runOperations operations (OpenFile E self aFilename).2).m_Writer.UseCompression = false ∧
    ∃ requests,
      (runOperations operations (OpenFile E self aFilename).2).Trace
        = (OpenFile E self aFilename).2.Trace ++ requests ∧
      ∀ headerPrepared useCompression frames status,
        CaptureEvent.AppendImages headerPrepared useCompression frames status ∈ requests →
          useCompression = false := by
  have hopen := (OpenFile_spec E self aFilename).2.2.1
  obtain ⟨requests, htrace, _, hcompression, _⟩ :=
    runOperations_protocol operations (OpenFile E self aFilename).2 hbase
  obtain ⟨hoff, hrequests⟩ := hcompression hopen
  refine ⟨hopen, ?_, hoff, requests, htrace, ?_⟩
  · unfold OpenFile
    cases aFilename with
    | none => rfl
    | some name =>
      simp only []
      split <;> rfl
  · intro headerPrepared useCompression frames status hmem
    exact hrequests _ hmem

/-- Witness for C21: the sample device is configured with file compression enabled and its
writer is created with compression on; after `OpenFile` the sample recording requests one
`AppendImages` call, with compression off. -/
theorem OpenFile_appends_uncompressed_witness :
    (∀ operation ∈ sampleRecording, operation.baseClassKeepsProtocol) ∧
    sampleConfiguredCapture.EnableFileCompression = true ∧
    sampleConfiguredCapture.m_Writer.UseCompression = true ∧
    (runOperations sampleRecording
      (OpenFile (sampleCaptureEnvironment []) sampleConfiguredCapture
        none).2).m_Writer.UseCompression = false ∧
    (runOperations sampleRecording
      (OpenFile (sampleCaptureEnvironment []) sampleConfiguredCapture none).2).Trace.take 4
      = [CaptureEvent.SetFileName "TrackedImageSequence_20140101_120000.mha",
          CaptureEvent.PrepareHeader PLUS_SUCCESS,
          CaptureEvent.AppendImagesToHeader true PLUS_SUCCESS,
          CaptureEvent.AppendImages true false 3 PLUS_SUCCESS] :=
  ⟨sampleRecording_keeps, by decide, by decide,
    (OpenFile_appends_uncompressed (sampleCaptureEnvironment []) sampleConfiguredCapture none
      sampleRecording sampleRecording_keeps).2.2.1,
    by decide!⟩

/-- The header flag and the append calls. Through every sequence of calls of
methods of the device, from any state, every `AppendImagesToHeader` and `AppendImages` call
requested is made while `m_HeaderPrepared` is true; and when `m_HeaderPrepared` is false at
the start and true at the end, a `PrepareHeader` call that succeeded is among the requests
made in between. The flag is false in a device as constructed, after every `CloseFile` that
succeeds and after every `Reset`. The base class, which is not among the sources, is taken to
keep the order of the write path when it is asked to disconnect. -/
theorem appends_need_prepared_header (self : vtkVirtualDiscCapture)
    (operations : List CaptureOperation)
    (hbase : ∀ operation ∈ operations, operation.baseClassKeepsProtocol) :
    (∃ requests,
      (runOperations operations self).Trace = self.Trace ++ requests ∧
      (∀ headerPrepared status,
        CaptureEvent.AppendImagesToHeader headerPrepared status ∈ requests →
          headerPrepared = true) ∧
      (∀ headerPrepared useCompression frames status,
        CaptureEvent.AppendImages headerPrepared useCompression frames status ∈ requests →
          headerPrepared = true) ∧
      (self.m_HeaderPrepared = false →
        (runOperations operations self).m_HeaderPrepared = true →
          CaptureEvent.PrepareHeader PLUS_SUCCESS ∈ requests)) ∧
    (∀ device writer, (vtkVirtualDiscCapture.New device writer).m_HeaderPrepared = false) ∧
    (∀ E (before : vtkVirtualDiscCapture) aFilename,
      (CloseFile E before aFilename).1 = PLUS_SUCCESS →
        (CloseFile E before aFilename).2.m_HeaderPrepared = false) ∧
    (∀ E (before : vtkVirtualDiscCapture),
      (vtkVirtualDiscCapture.Reset E before).2.m_HeaderPrepared = false) := by
  obtain ⟨requests, htrace, hunprepared, _, hprepared⟩ :=
    runOperations_protocol operations self hbase
  refine ⟨⟨requests, htrace, ?_, ?_, ?_⟩, fun _ _ => rfl,
    fun E before aFilename h => CloseFile_success_unprepared E before aFilename h,
    fun E before => Reset_unprepared E before⟩
  · intro headerPrepared status hmem
    have h := hunprepared _ hmem
    simpa [CaptureEvent.appendsUnprepared] using h
  · intro headerPrepared useCompression frames status hmem
    have h := hunprepared _ hmem
    simpa [CaptureEvent.appendsUnprepared] using h
  · intro hfalse htrue
    rcases hprepared htrue with h | h
    · rw [hfalse] at h
      exact absurd h (by decide)
    · exact h

/-- In the sample recording on a device that was constructed, configured
and connected, the two append calls follow a `PrepareHeader` call that succeeded, and the
capture update whose `PrepareHeader` fails requests no append call. -/
theorem appends_need_prepared_header_witness :
    (∀ operation ∈ sampleRecording, operation.baseClassKeepsProtocol) ∧
    (∀ headerPrepared status,
      CaptureEvent.AppendImagesToHeader headerPrepared status
          ∈ ((runOperations sampleRecording
              (InternalConnect (sampleCaptureEnvironment [])
                sampleConfiguredCapture).2).Trace.drop 1) →
        headerPrepared = true) ∧
    (runOperations sampleRecording
        (InternalConnect (sampleCaptureEnvironment []) sampleConfiguredCapture).2).Trace
      = [CaptureEvent.SetFileName "TrackedImageSequence_20140101_120000.mha",
          CaptureEvent.PrepareHeader PLUS_SUCCESS,
          CaptureEvent.AppendImagesToHeader true PLUS_SUCCESS,
          CaptureEvent.AppendImages true false 3 PLUS_SUCCESS,
          CaptureEvent.UpdateFieldInImageHeader "DimSize" (some "640 480 3"),
          CaptureEvent.FinalizeHeader, CaptureEvent.Close,
          CaptureEvent.PrintXML "./TrackedImageSequence_config.xml",
          CaptureEvent.ReaderRead "./TrackedImageSequence.mha" PLUS_SUCCESS,
          CaptureEvent.ReaderWrite "./TrackedImageSequence.mha" true PLUS_SUCCESS,
          CaptureEvent.SetFileName "TrackedImageSequence_20140101_120000.mha",
          CaptureEvent.PrepareHeader PLUS_FAIL, CaptureEvent.Disconnect] :=
  have h := appends_need_prepared_header
    (InternalConnect (sampleCaptureEnvironment []) sampleConfiguredCapture).2 sampleRecording
    sampleRecording_keeps
  ⟨sampleRecording_keeps,
    fun headerPrepared status hmem => by
      obtain ⟨requests, htrace, hheader, _, _⟩ := h.1
      rw [htrace] at hmem
      have hstart : (InternalConnect (sampleCaptureEnvironment [])
          sampleConfiguredCapture).2.Trace
          = [CaptureEvent.SetFileName "TrackedImageSequence_20140101_120000.mha"] := by
        decide!
      rw [hstart] at hmem
      exact hheader headerPrepared status hmem,
    by decide!⟩

/-- C23: evaluation of the code. `CloseFile` finalises the header and closes the writer (lines
228-231) and then returns `PLUS_FAIL` at line 244 when the file cannot be compressed, before
`m_HeaderPrepared` is set to false at line 248. On the sample device with file compression
enabled and 8 recorded frames, `CloseFile` returns `PLUS_FAIL` and leaves the flag true; the
next capture update appends its 2 frames with the flag true, and no `PrepareHeader` call is
among the requests made since the writer was closed. With a file that can be compressed the
same `CloseFile` leaves the flag false and the update prepares a header before it appends. -/
theorem CloseFile_failure_keeps_header_flag :
    sampleCompressingCapture.m_HeaderPrepared = true ∧
    (CloseFile (failingCompressEnvironment []) sampleCompressingCapture none).1 = PLUS_FAIL ∧
    (CloseFile (failingCompressEnvironment []) sampleCompressingCapture
      none).2.m_HeaderPrepared = true ∧
    (InternalUpdate (sampleCaptureEnvironment (sampleFrames 8 2))
      (CloseFile (failingCompressEnvironment []) sampleCompressingCapture none).2).1
        = PLUS_SUCCESS ∧
    (runOperations sampleFailedClose sampleCompressingCapture).Trace.drop 4
      = [CaptureEvent.UpdateFieldInImageHeader "DimSize" (some "640 480 8"),
          CaptureEvent.FinalizeHeader, CaptureEvent.Close,
          CaptureEvent.PrintXML "./TrackedImageSequence_config.xml",
          CaptureEvent.ReaderRead "./TrackedImageSequence.mha" PLUS_FAIL,
          CaptureEvent.AppendImagesToHeader true PLUS_SUCCESS,
          CaptureEvent.AppendImages true false 2 PLUS_SUCCESS] ∧
    (CloseFile (sampleCaptureEnvironment []) sampleCompressingCapture
      none).2.m_HeaderPrepared = false ∧
    (InternalUpdate (sampleCaptureEnvironment (sampleFrames 8 2))
      (CloseFile (sampleCaptureEnvironment []) sampleCompressingCapture none).2).2.Trace.drop 4
      = [CaptureEvent.UpdateFieldInImageHeader "DimSize" (some "640 480 8"),
          CaptureEvent.FinalizeHeader, CaptureEvent.Close,
          CaptureEvent.PrintXML "./TrackedImageSequence_config.xml",
          CaptureEvent.ReaderRead "./TrackedImageSequence.mha" PLUS_SUCCESS,
          CaptureEvent.ReaderWrite "./TrackedImageSequence.mha" true PLUS_SUCCESS,
          CaptureEvent.SetFileName "TrackedImageSequence_20140101_120000.mha",
          CaptureEvent.PrepareHeader PLUS_SUCCESS,
          CaptureEvent.AppendImagesToHeader true PLUS_SUCCESS,
          CaptureEvent.AppendImages true false 2 PLUS_SUCCESS] :=
  ⟨by decide!, by decide!, by decide!, by decide!, by decide!, by decide!, by decide!⟩

/-- The file that `CompressFile` reads is the one at the output path of `BaseFilename`,
whatever the current file name is. -/
theorem CompressFile_reads_base_file (E : CaptureEnvironment) (self : vtkVirtualDiscCapture) :
    ∃ more,
      (CompressFile E self).2.Trace
        = self.Trace ++
          CaptureEvent.ReaderRead (E.GetOutputPath self.BaseFilename)
            (E.ReaderRead (E.GetOutputPath self.BaseFilename)) :: more := by
  unfold CompressFile
  simp only []
  split
  · exact ⟨[], rfl⟩
  · split
    · exact ⟨[_], List.append_assoc _ _ _⟩
    · exact ⟨[_], List.append_assoc _ _ _⟩

/-- C27: the code at the failing input. The sample device has file compression enabled and
the default base file name; `OpenFile` chose the current file name
`TrackedImageSequence_20140101_120000.mha` (base name plus timestamp), which is the name
handed to the writer, and 8 frames were recorded to it. `CloseFile` succeeds and the file it
has `CompressFile` read and rewrite with compression is `./TrackedImageSequence.mha`, the
output path of the base file name, not the output path of the current file name; the same
happens when a file name is passed to `CloseFile`. -/
theorem CloseFile_compresses_base_file :
    sampleCompressingCapture.EnableFileCompression = true ∧
    sampleCompressingCapture.BaseFilename = "TrackedImageSequence.mha" ∧
    sampleCompressingCapture.m_CurrentFilename = "TrackedImageSequence_20140101_120000.mha" ∧
    sampleCompressingCapture.m_Writer.FileName = "TrackedImageSequence_20140101_120000.mha" ∧
    (sampleCaptureEnvironment []).GetOutputPath sampleCompressingCapture.m_CurrentFilename
      = "./TrackedImageSequence_20140101_120000.mha" ∧
    (CloseFile (sampleCaptureEnvironment []) sampleCompressingCapture none).1 = PLUS_SUCCESS ∧
    ((CloseFile (sampleCaptureEnvironment []) sampleCompressingCapture none).2.Trace.drop 8).take 2
      = [CaptureEvent.ReaderRead "./TrackedImageSequence.mha" PLUS_SUCCESS,
          CaptureEvent.ReaderWrite "./TrackedImageSequence.mha" true PLUS_SUCCESS] ∧
    ((CloseFile (sampleCaptureEnvironment []) sampleCompressingCapture
        (some "Other.mha")).2.Trace.drop 4).take 1 = [CaptureEvent.SetFileName "Other.mha"] ∧
    ((CloseFile (sampleCaptureEnvironment []) sampleCompressingCapture
        (some "Other.mha")).2.Trace.drop 9).take 2
      = [CaptureEvent.ReaderRead "./TrackedImageSequence.mha" PLUS_SUCCESS,
          CaptureEvent.ReaderWrite "./TrackedImageSequence.mha" true PLUS_SUCCESS] := by
  refine ⟨by decide!, by decide!, by decide!, by decide!, by decide!, by decide!, by decide!,
    by decide!, by decide!⟩

/-! ## Properties of the ultrasound message -/

/-- The swap of the two bytes of a 16-bit value, in arithmetic. -/
theorem BYTE_SWAP_INT16_eq (S : Nat) :
    BYTE_SWAP_INT16 S = S % 256 * 256 + S / 256 % 256 := by
  unfold BYTE_SWAP_INT16
  have h1 : S &&& 0xFF = S % 256 := Nat.and_pow_two_sub_one_eq_mod S 8
  have h2 : (S >>> 8) &&& 0xFF = S / 256 % 256 := by
    rw [Nat.shiftRight_eq_div_pow]
    exact Nat.and_pow_two_sub_one_eq_mod (S / 2 ^ 8) 8
  rw [h1, h2, Nat.shiftLeft_eq]
  have hlt : S / 256 % 256 < 2 ^ 8 := Nat.mod_lt _ (by decide)
  have h3 := Nat.mul_add_lt_is_or hlt (S % 256)
  rw [Nat.mul_comm (S % 256) (2 ^ 8)]
  exact h3.symm

/-- Division by `2 ^ 16` and by `2 ^ 24` as repeated division by 256. -/
theorem div_bytes (x : Nat) :
    x / 65536 = x / 256 / 256 ∧ x / 16777216 = x / 256 / 256 / 256 := by
  constructor
  · rw [Nat.div_div_eq_div_mul]
  · rw [Nat.div_div_eq_div_mul, Nat.div_div_eq_div_mul]

/-- The swap of the four bytes of a 32-bit value, in arithmetic. -/
theorem BYTE_SWAP_INT32_eq (L : Nat) :
    BYTE_SWAP_INT32 L
      = (L % 256) * 16777216 + (L / 256 % 256) * 65536 + (L / 65536 % 256) * 256
        + L / 16777216 % 256 := by
  unfold BYTE_SWAP_INT32
  have h1 : L &&& 0xFFFF = L % 65536 := Nat.and_pow_two_sub_one_eq_mod L 16
  have h2 : (L >>> 16) &&& 0xFFFF = L / 65536 % 65536 := by
    rw [Nat.shiftRight_eq_div_pow]
    exact Nat.and_pow_two_sub_one_eq_mod (L / 2 ^ 16) 16
  rw [h1, h2, BYTE_SWAP_INT16_eq, BYTE_SWAP_INT16_eq, Nat.shiftLeft_eq]
  have hlt : L / 65536 % 65536 % 256 * 256 + L / 65536 % 65536 / 256 % 256 < 2 ^ 16 := by
    have := Nat.mod_lt (L / 65536 % 65536) (show 0 < 256 by decide)
    have := Nat.mod_lt (L / 65536 % 65536 / 256) (show 0 < 256 by decide)
    omega
  have h3 := Nat.mul_add_lt_is_or hlt (L % 65536 % 256 * 256 + L % 65536 / 256 % 256)
  rw [Nat.mul_comm _ (2 ^ 16), ← h3]
  clear h1 h2 h3 hlt
  have e1 : L % 65536 % 256 = L % 256 := Nat.mod_mod_of_dvd L (by decide)
  have e2 : L % 65536 / 256 % 256 = L / 256 % 256 := by
    have := Nat.mod_mul_right_div_self L 256 256
    rw [show (65536 : Nat) = 256 * 256 from rfl, this, Nat.mod_mod]
  have e3 : L / 65536 % 65536 % 256 = L / 65536 % 256 :=
    Nat.mod_mod_of_dvd (L / 65536) (by decide)
  have e4 : L / 65536 % 65536 / 256 % 256 = L / 16777216 % 256 := by
    have := Nat.mod_mul_right_div_self (L / 65536) 256 256
    rw [show (65536 : Nat) = 256 * 256 from rfl, this, Nat.mod_mod, Nat.div_div_eq_div_mul]
  rw [e1, e2, e3, e4]
  omega

/-- The four bytes of a 32-bit value put together give the value. -/
theorem bytes_of_uint32 (L : Nat) (h : L < 2 ^ 32) :
    L % 256 + 256 * (L / 256 % 256) + 65536 * (L / 65536 % 256)
      + 16777216 * (L / 16777216 % 256) = L := by
  rw [(div_bytes L).1, (div_bytes L).2]
  omega

/-- The four bytes of the value built from four bytes. -/
theorem bytes_of_sum (a b c d : Nat) (ha : a < 256) (hb : b < 256) (hc : c < 256)
    (hd : d < 256) :
    (a * 16777216 + b * 65536 + c * 256 + d) % 256 = d ∧
    (a * 16777216 + b * 65536 + c * 256 + d) / 256 % 256 = c ∧
    (a * 16777216 + b * 65536 + c * 256 + d) / 65536 % 256 = b ∧
    (a * 16777216 + b * 65536 + c * 256 + d) / 16777216 % 256 = a ∧
    a * 16777216 + b * 65536 + c * 256 + d < 2 ^ 32 := by
  refine ⟨by omega, by omega, by omega, by omega, by omega⟩

/-- The swap of the bytes of a 32-bit value is a 32-bit value, and swapping twice gives the
value back. -/
theorem BYTE_SWAP_INT32_involutive (L : Nat) (h : L < 2 ^ 32) :
    BYTE_SWAP_INT32 L < 2 ^ 32 ∧ BYTE_SWAP_INT32 (BYTE_SWAP_INT32 L) = L := by
  rw [BYTE_SWAP_INT32_eq (BYTE_SWAP_INT32 L), BYTE_SWAP_INT32_eq L]
  obtain ⟨h0, h1, h2, h3, hlt⟩ := bytes_of_sum (L % 256) (L / 256 % 256) (L / 65536 % 256)
    (L / 16777216 % 256) (Nat.mod_lt _ (by decide)) (Nat.mod_lt _ (by decide))
    (Nat.mod_lt _ (by decide)) (Nat.mod_lt _ (by decide))
  refine ⟨hlt, ?_⟩
  rw [h0, h1, h2, h3]
  have := bytes_of_uint32 L h
  omega

/-- A host reads back the 32-bit value it stored. -/
theorem loadWord_storeWord (igtl_is_little_endian : Bool) (value : Nat) :
    loadWord igtl_is_little_endian (storeWord igtl_is_little_endian value) = toUint32 value := by
  have hlt : toUint32 value < 2 ^ 32 := Nat.mod_lt _ (by decide)
  have h := bytes_of_uint32 (toUint32 value) hlt
  cases igtl_is_little_endian
  · simp only [loadWord, storeWord, Bool.false_eq_true, if_false, List.getD_cons_zero,
      List.getD_cons_succ]
    omega
  · simp only [loadWord, storeWord, if_true, List.getD_cons_zero, List.getD_cons_succ]
    omega

/-- A field of 32 bits takes four bytes. -/
theorem storeWord_length (igtl_is_little_endian : Bool) (value : Nat) :
    (storeWord igtl_is_little_endian value).length = 4 := by
  cases igtl_is_little_endian <;> rfl

/-- A host reads back the consecutive 32-bit values it stored. -/
theorem loadWords_storeWords (igtl_is_little_endian : Bool) (values rest : List Nat) :
    loadWords igtl_is_little_endian values.length
        (values.flatMap (storeWord igtl_is_little_endian) ++ rest)
      = values.map toUint32 := by
  induction values with
  | nil => rfl
  | cons value more ih =>
    simp only [List.flatMap_cons, List.length_cons, loadWords, List.map_cons,
      List.append_assoc]
    rw [List.take_left' (storeWord_length _ _), List.drop_left' (storeWord_length _ _),
      loadWord_storeWord, ih]

/-- The 13 fields of a header take 52 bytes. -/
theorem storeWords_length (igtl_is_little_endian : Bool) (value : MessageHeader) :
    (value.fields.flatMap (storeWord igtl_is_little_endian)).length = 52 := by
  cases igtl_is_little_endian <;> rfl

/-- A header is made of its 13 fields. -/
theorem ofFields_fields (value : MessageHeader) :
    MessageHeader.ofFields value.fields = value := rfl

/-- The fields of a well-formed header are values of 32 bits. -/
theorem fields_map_toUint32 (value : MessageHeader) (h : value.wellFormed) :
    value.fields.map toUint32 = value.fields := by
  have hfix : ∀ l : List Nat, (∀ v ∈ l, v < 2 ^ 32) → l.map toUint32 = l := by
    intro l hl
    induction l with
    | nil => rfl
    | cons v rest ih =>
      rw [List.map_cons, ih (fun w hw => hl w (List.mem_cons_of_mem _ hw))]
      have hv := hl v (List.mem_cons_self _ _)
      unfold toUint32
      rw [Nat.mod_eq_of_lt hv]
  exact hfix _ h

/-- A host reads back the well-formed header it stored behind the image sub-volume. -/
theorem loadHeader_storeHeader (igtl_is_little_endian : Bool) (image : List Nat)
    (offset : Nat) (value : MessageHeader) (hoffset : offset ≤ image.length)
    (h : value.wellFormed) :
    loadHeader igtl_is_little_endian (storeHeader igtl_is_little_endian image offset value)
      offset = value := by
  unfold loadHeader storeHeader
  have hlen : (image.take offset).length = offset := by
    rw [List.length_take]
    exact Nat.min_eq_left hoffset
  rw [List.append_assoc, List.drop_left' hlen]
  have h13 : value.fields.length = 13 := rfl
  rw [← h13, loadWords_storeWords, fields_map_toUint32 value h]
  rfl

/-- Storing a header where one was stored leaves the bytes before and after it. -/
theorem storeHeader_storeHeader (igtl_is_little_endian : Bool) (image : List Nat)
    (offset : Nat) (first second : MessageHeader) (hoffset : offset ≤ image.length) :
    storeHeader igtl_is_little_endian
        (storeHeader igtl_is_little_endian image offset first) offset second
      = storeHeader igtl_is_little_endian image offset second := by
  unfold storeHeader
  have hlen : (image.take offset).length = offset := by
    rw [List.length_take]
    exact Nat.min_eq_left hoffset
  have hlen2 : (image.take offset
      ++ first.fields.flatMap (storeWord igtl_is_little_endian)).length
      = offset + second.GetMessageHeaderSize := by
    rw [List.length_append, hlen, storeWords_length]
    rfl
  have hfirstSize : first.GetMessageHeaderSize = second.GetMessageHeaderSize := rfl
  rw [hfirstSize, List.drop_left' hlen2, List.append_assoc (image.take offset),
    List.take_left' hlen]

/-- The conversion of a well-formed header is well-formed, and converting twice gives the
header back. -/
theorem ConvertEndianness_involutive (igtl_is_little_endian : Bool) (value : MessageHeader)
    (h : value.wellFormed) :
    (value.ConvertEndianness igtl_is_little_endian).wellFormed ∧
    (value.ConvertEndianness igtl_is_little_endian).ConvertEndianness igtl_is_little_endian
      = value := by
  cases igtl_is_little_endian
  · exact ⟨h, rfl⟩
  · have hswap : ∀ v ∈ value.fields,
        toUint32 (BYTE_SWAP_INT32 v) < 2 ^ 32 ∧
        toUint32 (BYTE_SWAP_INT32 (toUint32 (BYTE_SWAP_INT32 v))) = v := by
      intro v hv
      obtain ⟨h1, h2⟩ := BYTE_SWAP_INT32_involutive v (h v hv)
      unfold toUint32
      rw [Nat.mod_eq_of_lt h1, h2, Nat.mod_eq_of_lt (h v hv)]
      exact ⟨h1, rfl⟩
    obtain ⟨f0, f1, f2, f3, f4, f5, f6, f7, f8, f9, f10, f11, f12⟩ := value
    simp only [MessageHeader.fields, List.mem_cons, List.mem_singleton, List.not_mem_nil,
      or_false, forall_eq_or_imp, forall_eq] at hswap
    obtain ⟨s0, s1, s2, s3, s4, s5, s6, s7, s8, s9, s10, s11, s12⟩ := hswap
    constructor
    · intro v hv
      simp only [MessageHeader.ConvertEndianness, if_true, MessageHeader.fields, List.mem_cons,
        List.mem_singleton, List.not_mem_nil, or_false] at hv
      rcases hv with hv | hv | hv | hv | hv | hv | hv | hv | hv | hv | hv | hv | hv <;>
        rw [hv]
      · exact s0.1
      · exact s1.1
      · exact s2.1
      · exact s3.1
      · exact s4.1
      · exact s5.1
      · exact s6.1
      · exact s7.1
      · exact s8.1
      · exact s9.1
      · exact s10.1
      · exact s11.1
      · exact s12.1
    · simp only [MessageHeader.ConvertEndianness, if_true, s0.2, s1.2, s2.2, s3.2, s4.2, s5.2,
        s6.2, s7.2, s8.2, s9.2, s10.2, s11.2, s12.2]

/-- On a little-endian host the bytes stored for the swapped value are those that a
big-endian host stores for the value: the most significant byte first. -/
theorem storeWord_swapped (value : Nat) (h : value < 2 ^ 32) :
    storeWord true (toUint32 (BYTE_SWAP_INT32 value)) = storeWord false value := by
  obtain ⟨h0, h1, h2, h3, hlt⟩ := bytes_of_sum (value % 256) (value / 256 % 256)
    (value / 65536 % 256) (value / 16777216 % 256) (Nat.mod_lt _ (by decide))
    (Nat.mod_lt _ (by decide)) (Nat.mod_lt _ (by decide)) (Nat.mod_lt _ (by decide))
  have hmod : toUint32 value = value := Nat.mod_eq_of_lt h
  have hswap : toUint32 (toUint32 (BYTE_SWAP_INT32 value)) = BYTE_SWAP_INT32 value := by
    unfold toUint32
    rw [Nat.mod_mod, Nat.mod_eq_of_lt (BYTE_SWAP_INT32_involutive value h).1]
  simp only [storeWord, if_true, Bool.false_eq_true, if_false, hmod, hswap]
  rw [BYTE_SWAP_INT32_eq, h0, h1, h2, h3]

/-- The bytes that `PackBody` leaves behind the image sub-volume are the same on both kinds
of host: each field with its most significant byte first. -/
theorem storeHeader_converted (image : List Nat) (offset : Nat) (value : MessageHeader)
    (h : value.wellFormed) :
    storeHeader true image offset (value.ConvertEndianness true)
      = storeHeader false image offset (value.ConvertEndianness false) := by
  obtain ⟨f0, f1, f2, f3, f4, f5, f6, f7, f8, f9, f10, f11, f12⟩ := value
  have hs : ∀ v ∈ [f0, f1, f2, f3, f4, f5, f6, f7, f8, f9, f10, f11, f12],
      storeWord true (toUint32 (BYTE_SWAP_INT32 v)) = storeWord false v :=
    fun v hv => storeWord_swapped v (h v hv)
  simp only [List.mem_cons, List.mem_singleton, List.not_mem_nil, or_false, forall_eq_or_imp,
    forall_eq] at hs
  obtain ⟨s0, s1, s2, s3, s4, s5, s6, s7, s8, s9, s10, s11, s12⟩ := hs
  simp only [storeHeader, MessageHeader.ConvertEndianness, if_true, Bool.false_eq_true,
    if_false, MessageHeader.fields, List.flatMap_cons, List.flatMap_nil, s0, s1, s2, s3, s4,
    s5, s6, s7, s8, s9, s10, s11, s12]
  rfl

/-- What `PackBody` does to the body: the bytes of the base class with the converted header
stored behind the image sub-volume. -/
theorem PackBody_image (igtl_is_little_endian : Bool)
    (ImageMessagePackBody : igtlImageMessage → igtlImageMessage) (self : PlusUsMessage)
    (hfields : self.m_MessageHeader.wellFormed)
    (hroom : (ImageMessagePackBody self.toigtlImageMessage).SubVolumeImageSize
      ≤ (ImageMessagePackBody self.toigtlImageMessage).m_Image.length) :
    (self.PackBody igtl_is_little_endian ImageMessagePackBody).2.m_Image
      = storeHeader igtl_is_little_endian
          (ImageMessagePackBody self.toigtlImageMessage).m_Image
          (ImageMessagePackBody self.toigtlImageMessage).SubVolumeImageSize
          (self.m_MessageHeader.ConvertEndianness igtl_is_little_endian) ∧
    (self.PackBody igtl_is_little_endian ImageMessagePackBody).2.SubVolumeImageSize
      = (ImageMessagePackBody self.toigtlImageMessage).SubVolumeImageSize ∧
    (self.PackBody igtl_is_little_endian ImageMessagePackBody).2.m_MessageHeader
      = self.m_MessageHeader := by
  refine ⟨?_, rfl, rfl⟩
  show storeHeader igtl_is_little_endian
      (storeHeader igtl_is_little_endian (ImageMessagePackBody self.toigtlImageMessage).m_Image
        (ImageMessagePackBody self.toigtlImageMessage).SubVolumeImageSize self.m_MessageHeader)
      (ImageMessagePackBody self.toigtlImageMessage).SubVolumeImageSize
      ((loadHeader igtl_is_little_endian
        (storeHeader igtl_is_little_endian
          (ImageMessagePackBody self.toigtlImageMessage).m_Image
          (ImageMessagePackBody self.toigtlImageMessage).SubVolumeImageSize
          self.m_MessageHeader)
        (ImageMessagePackBody self.toigtlImageMessage).SubVolumeImageSize).ConvertEndianness
        igtl_is_little_endian) = _
  rw [loadHeader_storeHeader _ _ _ _ hroom hfields, storeHeader_storeHeader _ _ _ _ _ hroom]

/-- C30: the ultrasound message header round-trips. For every value of the 13 header fields
of 32 bits, `UnpackBody` applied to a message that holds the body produced by `PackBody`
restores all 13 fields, whether the packing host and the unpacking host are little-endian or
big-endian; `ConvertEndianness` applied twice is the identity; the header takes
`13 * 4 = 52` bytes, and `PackBody` stores it in the 52 bytes that follow the image
sub-volume, leaving the bytes before and after them. The base class is taken to leave room
for the header behind the sub-volume when it packs, and to leave the bytes from `m_Image` on
and the size of the sub-volume when it unpacks. -/
theorem PackBody_UnpackBody_roundtrip (packingHost unpackingHost : Bool)
    (ImageMessagePackBody ImageMessageUnpackBody : igtlImageMessage → igtlImageMessage)
    (self : PlusUsMessage) (receiverHeader : MessageHeader)
    (hfields : self.m_MessageHeader.wellFormed)
    (hroom : (ImageMessagePackBody self.toigtlImageMessage).SubVolumeImageSize
        + self.m_MessageHeader.GetMessageHeaderSize
      ≤ (ImageMessagePackBody self.toigtlImageMessage).m_Image.length)
    (hunpack : ∀ body, ImageMessageUnpackBody body = body) :
    (PlusUsMessage.UnpackBody unpackingHost ImageMessageUnpackBody
      { (self.PackBody packingHost ImageMessagePackBody).2 with
          m_MessageHeader := receiverHeader }).2.m_MessageHeader = self.m_MessageHeader ∧
    (self.m_MessageHeader.ConvertEndianness packingHost).ConvertEndianness packingHost
      = self.m_MessageHeader ∧
    self.m_MessageHeader.GetMessageHeaderSize = 52 ∧
    (self.PackBody packingHost ImageMessagePackBody).2.m_Image.take
        (self.PackBody packingHost ImageMessagePackBody).2.GetSubVolumeImageSize
      = (ImageMessagePackBody self.toigtlImageMessage).m_Image.take
        (self.PackBody packingHost ImageMessagePackBody).2.GetSubVolumeImageSize ∧
    (self.PackBody packingHost ImageMessagePackBody).2.m_Image.drop
        ((self.PackBody packingHost ImageMessagePackBody).2.GetSubVolumeImageSize + 52)
      = (ImageMessagePackBody self.toigtlImageMessage).m_Image.drop
        ((self.PackBody packingHost ImageMessagePackBody).2.GetSubVolumeImageSize + 52) ∧
    (self.PackBody packingHost ImageMessagePackBody).2.m_Image.length
      = (ImageMessagePackBody self.toigtlImageMessage).m_Image.length := by
  have hoffset : (ImageMessagePackBody self.toigtlImageMessage).SubVolumeImageSize
      ≤ (ImageMessagePackBody self.toigtlImageMessage).m_Image.length :=
    le_trans (Nat.le_add_right _ _) hroom
  obtain ⟨himage, hsize, _⟩ := PackBody_image packingHost ImageMessagePackBody self hfields
    hoffset
  have hsame : ∀ host : Bool,
      storeHeader host (ImageMessagePackBody self.toigtlImageMessage).m_Image
          (ImageMessagePackBody self.toigtlImageMessage).SubVolumeImageSize
          (self.m_MessageHeader.ConvertEndianness host)
        = storeHeader false (ImageMessagePackBody self.toigtlImageMessage).m_Image
          (ImageMessagePackBody self.toigtlImageMessage).SubVolumeImageSize
          self.m_MessageHeader := by
    intro host
    cases host
    · rfl
    · exact storeHeader_converted _ _ _ hfields
  have hlen : ((ImageMessagePackBody self.toigtlImageMessage).m_Image.take
      (ImageMessagePackBody self.toigtlImageMessage).SubVolumeImageSize).length
      = (ImageMessagePackBody self.toigtlImageMessage).SubVolumeImageSize := by
    rw [List.length_take]
    exact Nat.min_eq_left hoffset
  refine ⟨?_, (ConvertEndianness_involutive packingHost _ hfields).2, rfl, ?_, ?_, ?_⟩
  · show loadHeader unpackingHost
        (storeHeader unpackingHost
          (ImageMessageUnpackBody
            (self.PackBody packingHost ImageMessagePackBody).2.toigtlImageMessage).m_Image
          (ImageMessageUnpackBody
            (self.PackBody packingHost
              ImageMessagePackBody).2.toigtlImageMessage).SubVolumeImageSize
          ((loadHeader unpackingHost
            (ImageMessageUnpackBody
              (self.PackBody packingHost ImageMessagePackBody).2.toigtlImageMessage).m_Image
            (ImageMessageUnpackBody
              (self.PackBody packingHost
                ImageMessagePackBody).2.toigtlImageMessage).SubVolumeImageSize).ConvertEndianness
            unpackingHost))
        (ImageMessageUnpackBody
          (self.PackBody packingHost
            ImageMessagePackBody).2.toigtlImageMessage).SubVolumeImageSize = _
    rw [hunpack]
    show loadHeader unpackingHost
        (storeHeader unpackingHost
          (self.PackBody packingHost ImageMessagePackBody).2.m_Image
          (self.PackBody packingHost ImageMessagePackBody).2.SubVolumeImageSize
          ((loadHeader unpackingHost
            (self.PackBody packingHost ImageMessagePackBody).2.m_Image
            (self.PackBody packingHost
              ImageMessagePackBody).2.SubVolumeImageSize).ConvertEndianness unpackingHost))
        (self.PackBody packingHost ImageMessagePackBody).2.SubVolumeImageSize = _
    rw [himage, hsize, hsame packingHost, ← hsame unpackingHost]
    obtain ⟨hwf, hinv⟩ := ConvertEndianness_involutive unpackingHost _ hfields
    rw [loadHeader_storeHeader _ _ _ _ hoffset hwf, hinv,
      storeHeader_storeHeader _ _ _ _ _ hoffset,
      loadHeader_storeHeader _ _ _ _ hoffset hfields]
  · show (self.PackBody packingHost ImageMessagePackBody).2.m_Image.take
        (self.PackBody packingHost ImageMessagePackBody).2.SubVolumeImageSize = _
    rw [himage, hsize]
    unfold storeHeader
    rw [List.append_assoc, List.take_left' hlen]
    rfl
  · show (self.PackBody packingHost ImageMessagePackBody).2.m_Image.drop
        ((self.PackBody packingHost ImageMessagePackBody).2.SubVolumeImageSize + 52) = _
    rw [himage, hsize]
    unfold storeHeader
    have hlen2 : ((ImageMessagePackBody self.toigtlImageMessage).m_Image.take
        (ImageMessagePackBody self.toigtlImageMessage).SubVolumeImageSize
        ++ (self.m_MessageHeader.ConvertEndianness packingHost).fields.flatMap
          (storeWord packingHost)).length
        = (ImageMessagePackBody self.toigtlImageMessage).SubVolumeImageSize + 52 := by
      rw [List.length_append, hlen, storeWords_length]
    rw [List.drop_left' hlen2]
    rfl
  · rw [himage]
    unfold storeHeader
    rw [List.length_append, List.length_append, hlen, storeWords_length, List.length_drop]
    have h52 : (self.m_MessageHeader.ConvertEndianness packingHost).GetMessageHeaderSize
        = 52 := rfl
    have h52' : self.m_MessageHeader.GetMessageHeaderSize = 52 := rfl
    rw [h52]
    rw [h52'] at hroom
    omega

/-- Witness for C30: the sample message is packed on a little-endian host; the 52 bytes
behind its 4 image bytes hold each field with its most significant byte first, and unpacking
on a little-endian or on a big-endian host restores the 13 fields. -/
theorem PackBody_UnpackBody_roundtrip_witness :
    sampleUsMessage.m_MessageHeader.wellFormed ∧
    ((sampleUsMessage.PackBody true id).2.m_Image.take 12)
      = [1, 2, 3, 4, 1, 2, 3, 4, 0, 76, 75, 64] ∧
    (PlusUsMessage.UnpackBody true id
      { (sampleUsMessage.PackBody true id).2 with
          m_MessageHeader := MessageHeader.ofFields [] }).2.m_MessageHeader
      = sampleUsMessage.m_MessageHeader ∧
    (PlusUsMessage.UnpackBody false id
      { (sampleUsMessage.PackBody true id).2 with
          m_MessageHeader := MessageHeader.ofFields [] }).2.m_MessageHeader
      = sampleUsMessage.m_MessageHeader :=
  have hwf : sampleUsMessage.m_MessageHeader.wellFormed := by
    intro value hvalue
    simp only [sampleUsMessage, MessageHeader.fields, List.mem_cons, List.mem_singleton,
      List.not_mem_nil, or_false] at hvalue
    rcases hvalue with h | h | h | h | h | h | h | h | h | h | h | h | h <;> rw [h] <;> decide
  ⟨hwf, by decide,
    (PackBody_UnpackBody_roundtrip true true id id sampleUsMessage (MessageHeader.ofFields [])
      hwf (by decide) (fun _ => rfl)).1,
    (PackBody_UnpackBody_roundtrip true false id id sampleUsMessage (MessageHeader.ofFields [])
      hwf (by decide) (fun _ => rfl)).1⟩

/-! ## Properties of the sequence container -/

/-- A digit character is neither a line break, nor a blank, nor `=`, nor `_`. -/
theorem isDigit_ne (c : Char) (h : c.isDigit = true) :
    c ≠ '\n' ∧ c ≠ ' ' ∧ c ≠ '=' ∧ c ≠ '_' := by
  refine ⟨?_, ?_, ?_, ?_⟩ <;> (rintro rfl; revert h; decide)

/-- The character of a digit is a digit character and has the value of the digit. -/
theorem digitChar_digit (d : Nat) (h : d < 10) :
    (Nat.digitChar d).isDigit = true ∧ (Nat.digitChar d).toNat - '0'.toNat = d := by
  interval_cases d <;> exact ⟨by decide, by decide⟩

/-- The digits of a number are digits, there is one at least, and they denote the number. -/
theorem decimalDigits_spec (fuel n : Nat) (h : n < fuel) :
    (∀ d ∈ decimalDigits fuel n, d < 10) ∧ decimalDigits fuel n ≠ [] ∧
      (decimalDigits fuel n).foldr (fun d value => d + 10 * value) 0 = n := by
  induction fuel generalizing n with
  | zero => omega
  | succ fuel ih =>
    unfold decimalDigits
    by_cases hn : n < 10
    · rw [if_pos hn]
      exact ⟨by simpa using hn, by simp, by simp⟩
    · rw [if_neg hn]
      obtain ⟨h1, _, h3⟩ := ih (n / 10) (by omega)
      refine ⟨?_, by simp, ?_⟩
      · intro d hd
        rcases List.mem_cons.1 hd with rfl | hd
        · omega
        · exact h1 d hd
      · rw [List.foldr_cons, h3]
        omega

/-- The numeral of a number holds digit characters only. -/
theorem formatDecimal_isDigit (n : Nat) : ∀ c ∈ formatDecimal n, c.isDigit = true := by
  intro c hc
  simp only [formatDecimal, List.mem_map, List.mem_reverse] at hc
  obtain ⟨d, hd, rfl⟩ := hc
  exact (digitChar_digit d ((decimalDigits_spec (n + 1) n (by omega)).1 d hd)).1

/-- The numerals of numbers, separated by blanks, hold no line break. -/
theorem formatDecimals_no_line_break (numbers : List Nat) :
    ∀ c ∈ formatDecimals numbers, c ≠ '\n' := by
  induction numbers with
  | nil => intro c hc; cases hc
  | cons n rest ih =>
    cases rest with
    | nil => exact fun c hc => (isDigit_ne c (formatDecimal_isDigit n c hc)).1
    | cons m rest =>
      intro c hc
      simp only [formatDecimals, List.mem_append, List.mem_cons] at hc
      rcases hc with hc | rfl | hc
      · exact (isDigit_ne c (formatDecimal_isDigit n c hc)).1
      · decide
      · exact ih c hc

/-- A line before a line break is the first line of the text. -/
theorem splitLines_append (line rest : List Char) (h : ∀ c ∈ line, c ≠ '\n') :
    splitLines (line ++ '\n' :: rest) = line :: splitLines rest := by
  induction line with
  | nil => simp [splitLines]
  | cons c line ih =>
    rw [List.cons_append]
    have hstep : splitLines (c :: (line ++ '\n' :: rest))
        = match splitLines (line ++ '\n' :: rest) with
          | [] => [[c]]
          | first :: lines => (c :: first) :: lines := by
      rw [splitLines, if_neg (h c (List.mem_cons_self _ _))]
    rw [hstep, ih (fun x hx => h x (List.mem_cons_of_mem _ hx))]

/-- A line `FieldName = value` whose name holds no `=` is split into name and value. -/
theorem splitField_line (name value : List Char) (h : ∀ c ∈ name, c ≠ '=') :
    splitField (name ++ ' ' :: '=' :: ' ' :: value) = some (name, value) := by
  induction name with
  | nil => simp [splitField]
  | cons c name ih =>
    rw [List.cons_append]
    unfold splitField
    have hcond : ¬(c = ' ' ∧ (name ++ ' ' :: '=' :: ' ' :: value).take 2 = ['=', ' ']) := by
      rintro ⟨_, h2⟩
      cases name with
      | nil => revert h2; simp
      | cons d name =>
        simp only [List.cons_append, List.take_succ_cons, List.cons.injEq] at h2
        exact h d (List.mem_cons_of_mem _ (List.mem_cons_self _ _)) h2.1
    rw [if_neg hcond, ih (fun x hx => h x (List.mem_cons_of_mem _ hx))]

/-- The line of a field is read back as the field, before the fields of the text after it. -/
theorem parseHeader_cons (field : String × String) (text : List Char)
    (h : IsHeaderField field) :
    parseHeader (String.mk (headerLine field ++ text))
      = field :: parseHeader (String.mk text) := by
  have hline : ∀ c ∈ field.1.toList ++ ' ' :: '=' :: ' ' :: field.2.toList, c ≠ '\n' := by
    intro c hc
    simp only [List.mem_append, List.mem_cons] at hc
    rcases hc with hc | rfl | rfl | rfl | hc
    · exact (h.1 c hc).2
    · decide
    · decide
    · decide
    · exact h.2 c hc
  have htext : headerLine field ++ text
      = (field.1.toList ++ ' ' :: '=' :: ' ' :: field.2.toList) ++ '\n' :: text := by
    simp [headerLine]
  unfold parseHeader
  show List.filterMap _ (splitLines (headerLine field ++ text)) = _
  rw [htext, splitLines_append _ _ hline, List.filterMap_cons,
    splitField_line _ _ (fun c hc => (h.1 c hc).1)]
  rfl

/-- The lines of fields are read back as the fields, before the fields of the text after
them. -/
theorem parseHeader_headerText_append (fields rest : List (String × String))
    (h : ∀ field ∈ fields, IsHeaderField field) :
    parseHeader (headerText (fields ++ rest)) = fields ++ parseHeader (headerText rest) := by
  induction fields with
  | nil => rfl
  | cons field fields ih =>
    have hstep : headerText (field :: fields ++ rest)
        = String.mk (headerLine field ++ (fields ++ rest).flatMap headerLine) := by
      simp [headerText]
    rw [hstep, parseHeader_cons field _ (h field (List.mem_cons_self _ _))]
    have := ih (fun f hf => h f (List.mem_cons_of_mem _ hf))
    unfold headerText at this
    rw [this]
    rfl

/-- The fields of the header of a list without custom strings of its own. -/
theorem OpenImageHeader_fields (self : vtkMetaImageSequenceIO) (frames : List TrackedFrame)
    (elementType elementDataFile : String) :
    self.OpenImageHeader { TrackedFrameList := frames, CustomFields := [] } elementType
        elementDataFile
      = [("NDims", String.mk (formatDecimal (headerDimensions
            self.Output2DDataWithZDimensionIncluded (GetMaximumImageDimensions frames)
            frames.length).length)),
          ("DimSize", String.mk (formatDecimals (headerDimensions
            self.Output2DDataWithZDimensionIncluded (GetMaximumImageDimensions frames)
            frames.length))),
          ("ElementType", elementType),
          ("ElementNumberOfChannels",
            String.mk (formatDecimal (sequenceNumberOfScalarComponents frames))),
          ("CompressedData", if self.UseCompression then "True" else "False")] ++
        ((headerFrameLines 0 frames).map FrameFieldLine.toField ++
          [("ElementDataFile", elementDataFile)]) := by
  simp [ vtkMetaImageSequenceIO.OpenImageHeader, vtkTrackedFrameList.SetCustomString]

/-- The maximum frame extent of frames of one extent is that extent. -/
theorem GetMaximumImageDimensions_uniform (width height depth : Nat)
    (frames : List TrackedFrame) (hne : frames ≠ [])
    (hshape : ∀ frame ∈ frames,
      frame.ImageData.GetDimensions.i0.toNat = width ∧
        frame.ImageData.GetDimensions.i1.toNat = height ∧
        frame.ImageData.GetDimensions.i2.toNat = depth) :
    GetMaximumImageDimensions frames = (width, height, depth) := by
  have hfold : ∀ (rest : List TrackedFrame) (start : Nat × Nat × Nat),
      (∀ frame ∈ rest,
        frame.ImageData.GetDimensions.i0.toNat = width ∧
          frame.ImageData.GetDimensions.i1.toNat = height ∧
          frame.ImageData.GetDimensions.i2.toNat = depth) →
      rest.foldl
        (fun maxFrameSize frame =>
          (max maxFrameSize.1 frame.ImageData.GetDimensions.i0.toNat,
            max maxFrameSize.2.1 frame.ImageData.GetDimensions.i1.toNat,
            max maxFrameSize.2.2 frame.ImageData.GetDimensions.i2.toNat))
        start
        = if rest = [] then start
          else (max start.1 width, max start.2.1 height, max start.2.2 depth) := by
    intro rest
    induction rest with
    | nil => intro start _; rfl
    | cons frame rest ih =>
      intro start h
      obtain ⟨h0, h1, h2⟩ := h frame (List.mem_cons_self _ _)
      rw [List.foldl_cons, ih _ (fun f hf => h f (List.mem_cons_of_mem _ hf)), h0, h1, h2]
      by_cases hrest : rest = []
      · simp [hrest]
      · simp [hrest, max_assoc]
  unfold GetMaximumImageDimensions
  rw [hfold frames (0, 0, 0) hshape, if_neg hne]
  simp

/-- The name of an element type is read back as the scalar type and holds no line break. -/
theorem ConvertMetaElementTypeToVtkPixelType_of (vtkPixelType : Int) (elementType : String)
    (h : ConvertVtkPixelTypeToMetaElementType vtkPixelType = some elementType) :
    ConvertMetaElementTypeToVtkPixelType elementType = some vtkPixelType ∧
      ∀ c ∈ elementType.toList, c ≠ '\n' := by
  unfold ConvertVtkPixelTypeToMetaElementType at h
  cases hfind : metaElementTypes.find? (fun entry => decide (entry.1 = vtkPixelType)) with
  | none => rw [hfind] at h; cases h
  | some entry =>
    rw [hfind] at h
    have hmem := List.mem_of_find?_eq_some hfind
    have hkey := List.find?_some hfind
    simp only [decide_eq_true_eq] at hkey
    subst hkey
    simp only [Option.some.injEq] at h
    have hall : ∀ e ∈ metaElementTypes,
        ConvertMetaElementTypeToVtkPixelType e.2 = some e.1 ∧
          ∀ c ∈ e.2.toList, c ≠ '\n' := by decide
    have := hall entry hmem
    rw [h] at this
    exact this

/-- The header declares, for frames of one extent, scalar type, number of components and
byte size, what every frame has. -/
theorem sequence_uniform (ScalarSize : Int → Nat) (ScalarBytes : Int → ℚ → List Nat)
    (frames : List TrackedFrame) (width height depth components : Nat) (scalarType : Int)
    (hshape : ∀ frame ∈ frames,
      frame.ImageData.GetDimensions.i0.toNat = width ∧
        frame.ImageData.GetDimensions.i1.toNat = height ∧
        frame.ImageData.GetDimensions.i2.toNat = depth ∧
        frame.ImageData.ScalarType = scalarType ∧
        frame.ImageData.NumberOfScalarComponents = components ∧
        (imageBytes ScalarBytes frame.ImageData).length
          = width * height * depth * ScalarSize scalarType * components) :
    ∀ frame ∈ frames,
      frame.ImageData.ScalarType = sequencePixelType frames ∧
        frame.ImageData.NumberOfScalarComponents = sequenceNumberOfScalarComponents frames ∧
        (imageBytes ScalarBytes frame.ImageData).length
          = (GetMaximumImageDimensions frames).1 * (GetMaximumImageDimensions frames).2.1 *
            (GetMaximumImageDimensions frames).2.2 * ScalarSize (sequencePixelType frames) *
            sequenceNumberOfScalarComponents frames := by
  cases frames with
  | nil => intro frame h; cases h
  | cons first rest =>
    have hmax := GetMaximumImageDimensions_uniform width height depth (first :: rest)
      (List.cons_ne_nil _ _) (fun f hf => ⟨(hshape f hf).1, (hshape f hf).2.1, (hshape f hf).2.2.1⟩)
    obtain ⟨_, _, _, htype, hcomponents, _⟩ := hshape first (List.mem_cons_self _ _)
    intro frame hframe
    obtain ⟨_, _, _, h4, h5, h6⟩ := hshape frame hframe
    rw [hmax]
    simp only [sequencePixelType, sequenceNumberOfScalarComponents, htype, hcomponents]
    exact ⟨h4, h5, h6⟩

/-- The header has an element type for frames of a scalar type that has one. -/
theorem sequencePixelType_supported (frames : List TrackedFrame) (scalarType : Int)
    (elementType : String)
    (htype : ConvertVtkPixelTypeToMetaElementType scalarType = some elementType)
    (hshape : ∀ frame ∈ frames, frame.ImageData.ScalarType = scalarType) :
    ∃ declared, ConvertVtkPixelTypeToMetaElementType (sequencePixelType frames)
      = some declared := by
  cases frames with
  | nil => exact ⟨"MET_UCHAR", by decide⟩
  | cons first rest =>
    refine ⟨elementType, ?_⟩
    simp only [sequencePixelType]
    rw [hshape first (List.mem_cons_self _ _)]
    exact htype

/-- A list of frames of one scalar type, number of components and byte size is written with
success, to a file of the given name whose header holds the fields of the list. -/
theorem Write_header (Compress : List Nat → List Nat) (ScalarSize : Int → Nat)
    (ScalarBytes : Int → ℚ → List Nat) (self : vtkMetaImageSequenceIO)
    (frames : List TrackedFrame) (elementType : String)
    (htype : ConvertVtkPixelTypeToMetaElementType (sequencePixelType frames)
      = some elementType)
    (hframes : ∀ frame ∈ frames,
      frame.ImageData.ScalarType = sequencePixelType frames ∧
        frame.ImageData.NumberOfScalarComponents = sequenceNumberOfScalarComponents frames ∧
        (imageBytes ScalarBytes frame.ImageData).length
          = (GetMaximumImageDimensions frames).1 * (GetMaximumImageDimensions frames).2.1 *
            (GetMaximumImageDimensions frames).2.2 * ScalarSize (sequencePixelType frames) *
            sequenceNumberOfScalarComponents frames) :
    ( vtkMetaImageSequenceIO.Write Compress ScalarSize ScalarBytes self
        { TrackedFrameList := frames, CustomFields := [] }).1 = PLUS_SUCCESS ∧
      ∃ elementDataFile, ∀ fieldName,
        writtenHeaderValue
            ( vtkMetaImageSequenceIO.Write Compress ScalarSize ScalarBytes self
              { TrackedFrameList := frames, CustomFields := [] }).2 self.FileName fieldName
          = headerValue
            (parseHeader (headerText (self.OpenImageHeader
              { TrackedFrameList := frames, CustomFields := [] } elementType elementDataFile)))
            fieldName := by
  have hany : frames.any
      (fun frame =>
        decide (frame.ImageData.ScalarType ≠ sequencePixelType frames ∨
          frame.ImageData.NumberOfScalarComponents ≠ sequenceNumberOfScalarComponents frames ∨
          (imageBytes ScalarBytes frame.ImageData).length ≠
            (GetMaximumImageDimensions frames).1 * (GetMaximumImageDimensions frames).2.1 *
              (GetMaximumImageDimensions frames).2.2 * ScalarSize (sequencePixelType frames) *
              sequenceNumberOfScalarComponents frames)) = false := by
    rw [List.any_eq_false]
    intro frame hframe
    obtain ⟨h1, h2, h3⟩ := hframes frame hframe
    simp [h1, h2, h3]
  unfold vtkMetaImageSequenceIO.Write
  simp only [htype, hany, Bool.false_eq_true, if_false]
  cases GetPixelDataFilePath self.FileName with
  | none => exact ⟨rfl, "LOCAL", fun _ => by simp [writtenHeaderValue, List.lookup]⟩
  | some pixelDataFileName =>
    exact ⟨rfl, pixelDataFileName, fun _ => by simp [writtenHeaderValue, List.lookup]⟩

/-- Claim C18: the dimension sizes that the written header reports honour the 2D flag. For
a sequence of N frames, one at least, of X x Y pixels and depth 1, of one scalar type, for
which there is an element type, and one number of components, the write succeeds and the
header of the file written reports `DimSize = X Y N` with `NDims = 3` when
`Output2DDataWithZDimensionIncluded` is false and `DimSize = X Y 1 N` with `NDims = 4`
when it is true. -/
theorem Write_DimSize_honours_flag (Compress : List Nat → List Nat) (ScalarSize : Int → Nat)
    (ScalarBytes : Int → ℚ → List Nat) (self : vtkMetaImageSequenceIO)
    (frames : List TrackedFrame) (width height components : Nat) (scalarType : Int)
    (elementType : String)
    (hne : frames ≠ [])
    (htype : ConvertVtkPixelTypeToMetaElementType scalarType = some elementType)
    (hshape : ∀ frame ∈ frames,
      frame.ImageData.GetDimensions.i0.toNat = width ∧
        frame.ImageData.GetDimensions.i1.toNat = height ∧
        frame.ImageData.GetDimensions.i2.toNat = 1 ∧
        frame.ImageData.ScalarType = scalarType ∧
        frame.ImageData.NumberOfScalarComponents = components ∧
        (imageBytes ScalarBytes frame.ImageData).length
          = width * height * 1 * ScalarSize scalarType * components) :
    ( vtkMetaImageSequenceIO.Write Compress ScalarSize ScalarBytes self
        { TrackedFrameList := frames, CustomFields := [] }).1 = PLUS_SUCCESS ∧
      writtenHeaderValue
          ( vtkMetaImageSequenceIO.Write Compress ScalarSize ScalarBytes self
            { TrackedFrameList := frames, CustomFields := [] }).2 self.FileName "DimSize"
        = some (String.mk
          (if self.Output2DDataWithZDimensionIncluded then
            formatDecimal width ++ ' ' :: formatDecimal height ++ ' ' :: '1' :: ' ' ::
              formatDecimal frames.length
          else
            formatDecimal width ++ ' ' :: formatDecimal height ++ ' ' ::
              formatDecimal frames.length)) ∧
      writtenHeaderValue
          ( vtkMetaImageSequenceIO.Write Compress ScalarSize ScalarBytes self
            { TrackedFrameList := frames, CustomFields := [] }).2 self.FileName "NDims"
        = some (if self.Output2DDataWithZDimensionIncluded then "4" else "3") := by
  obtain ⟨declared, hdeclared⟩ := sequencePixelType_supported frames scalarType elementType
    htype (fun f hf => (hshape f hf).2.2.2.1)
  obtain ⟨hwrite, elementDataFile, hvalue⟩ := Write_header Compress ScalarSize ScalarBytes self
    frames declared hdeclared
    (sequence_uniform ScalarSize ScalarBytes frames width height 1 components scalarType hshape)
  have hmax := GetMaximumImageDimensions_uniform width height 1 frames hne
    (fun f hf => ⟨(hshape f hf).1, (hshape f hf).2.1, (hshape f hf).2.2.1⟩)
  have hchars := (ConvertMetaElementTypeToVtkPixelType_of _ _ hdeclared).2
  have hdocument : ∀ field ∈
      [("NDims", String.mk (formatDecimal (headerDimensions
            self.Output2DDataWithZDimensionIncluded (GetMaximumImageDimensions frames)
            frames.length).length)),
        ("DimSize", String.mk (formatDecimals (headerDimensions
            self.Output2DDataWithZDimensionIncluded (GetMaximumImageDimensions frames)
            frames.length)))], IsHeaderField field := by
    intro field hmem
    simp only [List.mem_cons, List.mem_singleton, List.not_mem_nil, or_false] at hmem
    rcases hmem with rfl | rfl
    · exact ⟨(by decide : ∀ c ∈ "NDims".toList, c ≠ '=' ∧ c ≠ '\n'),
        fun c hc => (isDigit_ne c (formatDecimal_isDigit _ c hc)).1⟩
    · exact ⟨(by decide : ∀ c ∈ "DimSize".toList, c ≠ '=' ∧ c ≠ '\n'),
        fun c hc => formatDecimals_no_line_break _ c hc⟩
  have hparse := parseHeader_headerText_append _
    ([("ElementType", declared),
        ("ElementNumberOfChannels",
          String.mk (formatDecimal (sequenceNumberOfScalarComponents frames))),
        ("CompressedData", if self.UseCompression then "True" else "False")] ++
      ((headerFrameLines 0 frames).map FrameFieldLine.toField ++
        [("ElementDataFile", elementDataFile)])) hdocument
  refine ⟨hwrite, ?_, ?_⟩
  · rw [hvalue, OpenImageHeader_fields]
    simp only [List.cons_append, List.nil_append] at hparse ⊢
    rw [hparse, hmax]
    cases self.Output2DDataWithZDimensionIncluded
    · simp [headerValue, headerDimensions, formatDecimals]
    · simp [headerValue, headerDimensions, formatDecimals]
      rfl
  · rw [hvalue, OpenImageHeader_fields]
    simp only [List.cons_append, List.nil_append] at hparse ⊢
    rw [hparse, hmax]
    cases self.Output2DDataWithZDimensionIncluded <;>
      simp [headerValue, headerDimensions] <;> decide

/-- The headers of three frames of 2 x 2 pixels: `DimSize = 2 2 3` with `NDims = 3` without
the flag and `DimSize = 2 2 1 3` with `NDims = 4` with it. -/
theorem Write_DimSize_honours_flag_witness :
    (writtenHeaderValue
        ( vtkMetaImageSequenceIO.Write id sampleScalarSize sampleScalarBytes
          (sampleSequenceWriter "seq.mha" false)
          { TrackedFrameList := sampleSequenceFrames, CustomFields := [] }).2 "seq.mha"
          "DimSize" = some "2 2 3" ∧
      writtenHeaderValue
        ( vtkMetaImageSequenceIO.Write id sampleScalarSize sampleScalarBytes
          (sampleSequenceWriter "seq.mha" false)
          { TrackedFrameList := sampleSequenceFrames, CustomFields := [] }).2 "seq.mha"
          "NDims" = some "3") ∧
      (writtenHeaderValue
        ( vtkMetaImageSequenceIO.Write id sampleScalarSize sampleScalarBytes
          (sampleSequenceWriter "seq.mha" true)
          { TrackedFrameList := sampleSequenceFrames, CustomFields := [] }).2 "seq.mha"
          "DimSize" = some "2 2 1 3" ∧
      writtenHeaderValue
        ( vtkMetaImageSequenceIO.Write id sampleScalarSize sampleScalarBytes
          (sampleSequenceWriter "seq.mha" true)
          { TrackedFrameList := sampleSequenceFrames, CustomFields := [] }).2 "seq.mha"
          "NDims" = some "4") :=
  have hfalse := Write_DimSize_honours_flag id sampleScalarSize sampleScalarBytes
    (sampleSequenceWriter "seq.mha" false) sampleSequenceFrames 2 2 1 3 "MET_UCHAR"
    (by decide) (by decide) (by decide!)
  have htrue := Write_DimSize_honours_flag id sampleScalarSize sampleScalarBytes
    (sampleSequenceWriter "seq.mha" true) sampleSequenceFrames 2 2 1 3 "MET_UCHAR"
    (by decide) (by decide) (by decide!)
  ⟨⟨hfalse.2.1.trans (by decide!), hfalse.2.2.trans (by decide!)⟩,
    ⟨htrue.2.1.trans (by decide!), htrue.2.2.trans (by decide!)⟩⟩

end Plus
